import Mathlib

/-!
# LIS2DH12 configuration state machine of ruuvi.drivers.c

Shallow embedding of `src/interfaces/acceleration/ruuvi_interface_lis2dh12.c`.

* The C functions become Lean functions with explicit state passing over `World`:
  the driver's `static struct dev`, the register fields of the chip, the bus result
  oracle, the clock and the ordered trace of register writes and delays.
* `uint8_t*` parameters are `Option Nat` (`none` is `NULL`); a function returns the
  status, the new world and the new content of the pointed-to byte.
* The headers `ruuvi_driver_error.h`, `ruuvi_driver_sensor.h` and `lis2dh12_reg.h`
  are not among the sources, so the constants they define are the fields of
  `Consts`, a parameter of every function; `Consts.WF` lists what the theorems
  assume about them.
* `float` values are exact rationals; the conversion functions of the ST driver are
  the fields of `Codec`, a parameter of the functions that convert raw samples.
* `int16_t` values are integers; `int16_t_of` is the conversion that wraps modulo
  2^16, and `>> 6` on a signed value is the division by 64 that rounds down.
* The raw samples that the chip delivers are the oracle `accel`, indexed like `bus`
  by the number of the bus operation. `ruuvi_driver_sensor_data_populate` is not
  among the sources; the FIFO read takes it as the parameter `populate`.
* The function pointers of `ruuvi_driver_sensor_t` are values of the enumeration
  `FnPtr` of the functions in the sources; a call through a pointer is `none` where
  C leaves it undefined (NULL, or a function of another type).
-/

namespace Lis2dh12

/-- Constants of the headers that are not among the sources. Every driver function
takes them as a parameter. -/
structure Consts where
  -- ruuvi_driver_error.h, ruuvi_driver_status_t bits
  RUUVI_DRIVER_ERROR_INTERNAL : Nat
  RUUVI_DRIVER_ERROR_NOT_SUPPORTED : Nat
  RUUVI_DRIVER_ERROR_INVALID_PARAM : Nat
  RUUVI_DRIVER_ERROR_INVALID_STATE : Nat
  RUUVI_DRIVER_ERROR_NULL : Nat
  RUUVI_DRIVER_ERROR_NOT_FOUND : Nat
  RUUVI_DRIVER_ERROR_NOT_IMPLEMENTED : Nat
  RUUVI_DRIVER_ERROR_SELFTEST : Nat
  RUUVI_DRIVER_ERROR_NOT_INITIALIZED : Nat
  -- ruuvi_driver_error.h, invalid values
  RUUVI_DRIVER_FLOAT_INVALID : ℚ
  RUUVI_DRIVER_UINT64_INVALID : Nat
  -- ruuvi_interface_log.h, severities
  RUUVI_INTERFACE_LOG_ERROR : Nat
  RUUVI_INTERFACE_LOG_WARNING : Nat
  -- ruuvi_driver_sensor.h, ruuvi_driver_bus_t
  RUUVI_DRIVER_BUS_SPI : Nat
  RUUVI_DRIVER_BUS_I2C : Nat
  -- ruuvi_interface_lis2dh12.h, self-test limits in 10 bit units at 2 g
  RUUVI_INTERFACE_LIS2DH12_SELFTEST_DIFF_MIN : Nat
  RUUVI_INTERFACE_LIS2DH12_SELFTEST_DIFF_MAX : Nat
  -- the expansion of __FILE__ in ruuvi_interface_lis2dh12.c
  FILE : String
  -- ruuvi_driver_sensor.h, uint8_t configuration codes
  RUUVI_DRIVER_SENSOR_CFG_DEFAULT : Nat
  RUUVI_DRIVER_SENSOR_CFG_CUSTOM_1 : Nat
  RUUVI_DRIVER_SENSOR_CFG_CUSTOM_2 : Nat
  RUUVI_DRIVER_SENSOR_CFG_CUSTOM_3 : Nat
  RUUVI_DRIVER_SENSOR_ERR_INVALID : Nat
  RUUVI_DRIVER_SENSOR_ERR_NOT_SUPPORTED : Nat
  RUUVI_DRIVER_SENSOR_CFG_MIN : Nat
  RUUVI_DRIVER_SENSOR_CFG_MAX : Nat
  RUUVI_DRIVER_SENSOR_CFG_SLEEP : Nat
  RUUVI_DRIVER_SENSOR_CFG_SINGLE : Nat
  RUUVI_DRIVER_SENSOR_CFG_CONTINUOUS : Nat
  RUUVI_DRIVER_SENSOR_CFG_NO_CHANGE : Nat
  RUUVI_DRIVER_SENSOR_DSP_LAST : Nat
  RUUVI_DRIVER_SENSOR_DSP_HIGH_PASS : Nat
  -- lis2dh12_reg.h, lis2dh12_odr_t
  LIS2DH12_POWER_DOWN : Nat
  LIS2DH12_ODR_1Hz : Nat
  LIS2DH12_ODR_10Hz : Nat
  LIS2DH12_ODR_25Hz : Nat
  LIS2DH12_ODR_50Hz : Nat
  LIS2DH12_ODR_100Hz : Nat
  LIS2DH12_ODR_200Hz : Nat
  LIS2DH12_ODR_400Hz : Nat
  LIS2DH12_ODR_1kHz620_LP : Nat
  LIS2DH12_ODR_5kHz376_LP_1kHz344_NM_HP : Nat
  -- lis2dh12_reg.h, lis2dh12_op_md_t
  LIS2DH12_HR_12bit : Nat
  LIS2DH12_NM_10bit : Nat
  LIS2DH12_LP_8bit : Nat
  -- lis2dh12_reg.h, lis2dh12_fs_t
  LIS2DH12_2g : Nat
  LIS2DH12_4g : Nat
  LIS2DH12_8g : Nat
  LIS2DH12_16g : Nat
  -- lis2dh12_reg.h, lis2dh12_hpcf_t
  LIS2DH12_AGGRESSIVE : Nat
  LIS2DH12_STRONG : Nat
  LIS2DH12_MEDIUM : Nat
  LIS2DH12_LIGHT : Nat
  -- lis2dh12_reg.h, lis2dh12_hpm_t and the property flags
  LIS2DH12_NORMAL : Nat
  PROPERTY_DISABLE : Nat
  PROPERTY_ENABLE : Nat
  -- lis2dh12_reg.h, device identifier and register address
  LIS2DH12_ID : Nat
  LIS2DH12_CTRL_REG1 : Nat
  -- lis2dh12_reg.h, lis2dh12_st_t
  LIS2DH12_ST_DISABLE : Nat
  LIS2DH12_ST_POSITIVE : Nat
  LIS2DH12_ST_NEGATIVE : Nat
  -- lis2dh12_reg.h, lis2dh12_temp_en_t, lis2dh12_fm_t, lis2dh12_hp_t
  LIS2DH12_TEMP_ENABLE : Nat
  LIS2DH12_BYPASS_MODE : Nat
  LIS2DH12_DYNAMIC_STREAM_MODE : Nat
  LIS2DH12_ON_INT1_GEN : Nat
  deriving Repr

/-- The success status. The driver accumulates statuses with `|=` and a bus wrapper
maps `RUUVI_DRIVER_SUCCESS == err_code` to the ST driver's `0`: success is the empty
bit mask. -/
def RUUVI_DRIVER_SUCCESS : Nat := 0

/-- What the theorems assume about the header constants.

* `*_labels`: the `case` labels of one C `switch` are pairwise different (a C
  compiler rejects the file otherwise).
* `modes`: the three operating mode codes are pairwise different.
* `sentinels`: the four sentinel codes are pairwise different.
* `*_range`: `DEFAULT` is below and every other special code above the literal
  range `1 .. 200` of the configuration format.
* `dsp_functions`, `high_pass_default`: the function codes HIGH_PASS and LAST and the
  sentinel NO_CHANGE are pairwise different, and HIGH_PASS is not DEFAULT.
* `property_enable`, `property_disable`: the property flags are the truth values 1
  (not zero) and 0 of C.
* `power_down`: the rate code POWER_DOWN is none of the nine codes of a running
  chip (they are the enumerators of one C `enum`).
* an error status is not the empty mask. -/
structure Consts.WF (k : Consts) : Prop where
  odr_labels : [k.LIS2DH12_ODR_1Hz, k.LIS2DH12_ODR_10Hz, k.LIS2DH12_ODR_25Hz,
    k.LIS2DH12_ODR_50Hz, k.LIS2DH12_ODR_100Hz, k.LIS2DH12_ODR_200Hz, k.LIS2DH12_ODR_400Hz,
    k.LIS2DH12_ODR_5kHz376_LP_1kHz344_NM_HP, k.LIS2DH12_ODR_1kHz620_LP].Nodup
  op_md_labels : [k.LIS2DH12_LP_8bit, k.LIS2DH12_NM_10bit, k.LIS2DH12_HR_12bit].Nodup
  fs_labels : [k.LIS2DH12_2g, k.LIS2DH12_4g, k.LIS2DH12_8g, k.LIS2DH12_16g].Nodup
  hpcf_labels : [k.LIS2DH12_LIGHT, k.LIS2DH12_MEDIUM, k.LIS2DH12_STRONG,
    k.LIS2DH12_AGGRESSIVE].Nodup
  modes : [k.RUUVI_DRIVER_SENSOR_CFG_SLEEP, k.RUUVI_DRIVER_SENSOR_CFG_SINGLE,
    k.RUUVI_DRIVER_SENSOR_CFG_CONTINUOUS].Nodup
  sentinels : [k.RUUVI_DRIVER_SENSOR_CFG_NO_CHANGE, k.RUUVI_DRIVER_SENSOR_CFG_MIN,
    k.RUUVI_DRIVER_SENSOR_CFG_MAX, k.RUUVI_DRIVER_SENSOR_CFG_DEFAULT].Nodup
  default_range : k.RUUVI_DRIVER_SENSOR_CFG_DEFAULT < 1
  no_change_range : 200 < k.RUUVI_DRIVER_SENSOR_CFG_NO_CHANGE
  min_range : 200 < k.RUUVI_DRIVER_SENSOR_CFG_MIN
  max_range : 200 < k.RUUVI_DRIVER_SENSOR_CFG_MAX
  not_supported_ne : k.RUUVI_DRIVER_ERROR_NOT_SUPPORTED ≠ RUUVI_DRIVER_SUCCESS
  bus_labels : k.RUUVI_DRIVER_BUS_SPI ≠ k.RUUVI_DRIVER_BUS_I2C
  selftest_ne : k.RUUVI_DRIVER_ERROR_SELFTEST ≠ RUUVI_DRIVER_SUCCESS
  dsp_functions : [k.RUUVI_DRIVER_SENSOR_DSP_HIGH_PASS, k.RUUVI_DRIVER_SENSOR_DSP_LAST,
    k.RUUVI_DRIVER_SENSOR_CFG_NO_CHANGE].Nodup
  high_pass_default : k.RUUVI_DRIVER_SENSOR_DSP_HIGH_PASS ≠ k.RUUVI_DRIVER_SENSOR_CFG_DEFAULT
  property_enable : k.PROPERTY_ENABLE ≠ 0
  property_disable : k.PROPERTY_DISABLE = 0
  power_down : k.LIS2DH12_POWER_DOWN ∉ [k.LIS2DH12_ODR_1Hz, k.LIS2DH12_ODR_10Hz,
    k.LIS2DH12_ODR_25Hz, k.LIS2DH12_ODR_50Hz, k.LIS2DH12_ODR_100Hz, k.LIS2DH12_ODR_200Hz,
    k.LIS2DH12_ODR_400Hz, k.LIS2DH12_ODR_5kHz376_LP_1kHz344_NM_HP, k.LIS2DH12_ODR_1kHz620_LP]

/-- The driver's `static struct dev`. `ctx` tells whether `dev.ctx.write_reg` is set. -/
structure Dev where
  resolution : Nat
  scale : Nat
  samplerate : Nat
  selftest : Nat
  mode : Nat
  handle : Nat
  tsample : Nat
  ctx : Bool
  deriving DecidableEq, Repr

/-- The type `axis3bit16_t` seen through its member `i16bit[3]`: a raw acceleration
sample, one `int16_t` per axis. -/
structure axis3bit16_t where
  x : Int
  y : Int
  z : Int
  deriving DecidableEq, Repr

/-- Element `i16bit[ii]` of a raw sample, for `ii < 3`. -/
def axis3bit16_t.i16bit (a : axis3bit16_t) (ii : Nat) : Int :=
  match ii with
  | 0 => a.x
  | 1 => a.y
  | _ => a.z

/-- The type `lis2dh12_int1_cfg_t` of `lis2dh12_reg.h`, the bits of INT1_CFG. -/
structure lis2dh12_int1_cfg_t where
  xlie : Nat
  xhie : Nat
  ylie : Nat
  yhie : Nat
  zlie : Nat
  zhie : Nat
  _6d : Nat
  aoi : Nat
  deriving DecidableEq, Repr

/-- The type `lis2dh12_ctrl_reg3_t` of `lis2dh12_reg.h`: the bit `i1_wtm`, the only
one the driver sets; every other bit of the value the driver passes is 0. -/
structure lis2dh12_ctrl_reg3_t where
  i1_wtm : Nat
  deriving DecidableEq, Repr

/-- The type `lis2dh12_ctrl_reg6_t` of `lis2dh12_reg.h`: the bit `i2_ia1`, the only
one the driver sets; every other bit of the value the driver passes is 0. -/
structure lis2dh12_ctrl_reg6_t where
  i2_ia1 : Nat
  deriving DecidableEq, Repr

/-- Register fields of the chip that the driver reaches through the ST register
driver: `odr` and the axis enable bits `axes` (CTRL_REG1), `op_md` (LPen/HR), `fs`,
`st` and `bdu` (CTRL_REG4), of CTRL_REG2 `hpcf`, `hpm`, `fds` and `hp`, the
identifier `who_am_i`, the FIFO fields `fifo_en`, `fm`, `fth` and the level `fss`,
`temp_en`, the interrupt registers `int1_ths`, `int1_cfg`, CTRL_REG3 and CTRL_REG6. -/
structure Hw where
  odr : Nat
  op_md : Nat
  fs : Nat
  hpcf : Nat
  hpm : Nat
  fds : Nat
  who_am_i : Nat := 0
  axes : Nat := 0
  st : Nat := 0
  bdu : Nat := 0
  temp_en : Nat := 0
  fifo_en : Nat := 0
  fm : Nat := 0
  fth : Nat := 0
  fss : Nat := 0
  hp : Nat := 0
  int1_ths : Nat := 0
  int1_cfg : lis2dh12_int1_cfg_t := ⟨0, 0, 0, 0, 0, 0, 0, 0⟩
  ctrl_reg3 : lis2dh12_ctrl_reg3_t := ⟨0⟩
  ctrl_reg6 : lis2dh12_ctrl_reg6_t := ⟨0⟩
  deriving DecidableEq, Repr

/-- What the driver asks of its collaborators, in program order: the `*_set` calls of
the ST register driver with the value passed, and the delays. A write is recorded
when the driver issues it, whatever the bus answers. -/
inductive Event where
  | data_rate_set (val : Nat)
  | operating_mode_set (val : Nat)
  | full_scale_set (val : Nat)
  | high_pass_bandwidth_set (val : Nat)
  | high_pass_mode_set (val : Nat)
  | high_pass_on_outputs_set (val : Nat)
  | delay_ms (ms : Nat)
  | fifo_set (val : Nat)
  | fifo_mode_set (val : Nat)
  | fifo_watermark_set (val : Nat)
  | pin_int1_config_set (val : lis2dh12_ctrl_reg3_t)
  | pin_int2_config_set (val : lis2dh12_ctrl_reg6_t)
  | write_reg (reg : Nat) (data : List Nat)
  | block_data_update_set (val : Nat)
  | temperature_meas_set (val : Nat)
  | self_test_set (val : Nat)
  | high_pass_int_conf_set (val : Nat)
  | int1_gen_threshold_set (val : Nat)
  | int1_gen_conf_set (val : lis2dh12_int1_cfg_t)
  deriving DecidableEq, Repr

/-- What the error module can ask of the log, of the application and of the power
interface: a flush of the log, a log line (severity, file name, line, error code:
the arguments the message is built from), a call of the registered callback, and a
call of `ruuvi_interface_power_reset`, which resets the device. -/
inductive ErrEvent where
  | log_flush
  | log (severity : Nat) (filename : String) (line : Nat) (error : Nat)
  | cb (error : Nat) (fatal : Bool) (filename : String) (line : Nat)
  | power_reset
  deriving DecidableEq, Repr

/-- Everything a driver call can read or change. `bus n` is the status the bus
returns for the `n`-th call of the ST register driver (`0` is success), `junk n` the
value a failed read leaves in its output, `tick` counts the calls made so far. `now`
is the millisecond clock and `millis` tells whether a timestamp function is
registered. `accel n` is the raw sample that the output registers deliver when the
`n`-th call is a read of the acceleration. `m_errors` and `m_cb` are the statics of
`ruuvi_driver_error.c` (`m_cb` tells whether a callback is registered) and `log`
records what the error check asks of the log and of the callback. -/
structure World where
  dev : Dev
  hw : Hw
  bus : Nat → Nat
  junk : Nat → Nat
  tick : Nat
  now : Nat
  millis : Bool
  trace : List Event
  accel : Nat → axis3bit16_t := fun _ => ⟨0, 0, 0⟩
  m_errors : Nat := 0
  m_cb : Bool := false
  log : List ErrEvent := []

/-- The bus answers every call of the ST register driver with success. -/
def BusOk (w : World) : Prop := ∀ n, w.bus n = 0

/-! ## Collaborators that are not part of the sources -/

/-- Modelled from the spec: the ST register driver `lis2dh12_reg.c` is not among the
sources. A `*_set` call is one bus operation (section 6: write returns
success/failure); on success the register field holds the value written, on failure
it keeps its content. -/
def lis2dh12_data_rate_set (w : World) (val : Nat) : Nat × World :=
  (w.bus w.tick,
   { w with hw := if w.bus w.tick = 0 then { w.hw with odr := val } else w.hw,
            tick := w.tick + 1, trace := w.trace ++ [Event.data_rate_set val] })

/-- Modelled from the spec: the ST register driver `lis2dh12_reg.c` is not among the
sources. A `*_get` call is one bus operation (section 6: read returns
success/failure); on success it delivers the register field, on failure `junk`. -/
def lis2dh12_data_rate_get (w : World) : Nat × Nat × World :=
  (w.bus w.tick, if w.bus w.tick = 0 then w.hw.odr else w.junk w.tick,
   { w with tick := w.tick + 1 })

/-- Modelled from the spec: ST register driver, see `lis2dh12_data_rate_set`. -/
def lis2dh12_operating_mode_set (w : World) (val : Nat) : Nat × World :=
  (w.bus w.tick,
   { w with hw := if w.bus w.tick = 0 then { w.hw with op_md := val } else w.hw,
            tick := w.tick + 1, trace := w.trace ++ [Event.operating_mode_set val] })

/-- Modelled from the spec: ST register driver, see `lis2dh12_data_rate_get`. -/
def lis2dh12_operating_mode_get (w : World) : Nat × Nat × World :=
  (w.bus w.tick, if w.bus w.tick = 0 then w.hw.op_md else w.junk w.tick,
   { w with tick := w.tick + 1 })

/-- Modelled from the spec: ST register driver, see `lis2dh12_data_rate_set`. -/
def lis2dh12_full_scale_set (w : World) (val : Nat) : Nat × World :=
  (w.bus w.tick,
   { w with hw := if w.bus w.tick = 0 then { w.hw with fs := val } else w.hw,
            tick := w.tick + 1, trace := w.trace ++ [Event.full_scale_set val] })

/-- Modelled from the spec: ST register driver, see `lis2dh12_data_rate_get`. -/
def lis2dh12_full_scale_get (w : World) : Nat × Nat × World :=
  (w.bus w.tick, if w.bus w.tick = 0 then w.hw.fs else w.junk w.tick,
   { w with tick := w.tick + 1 })

/-- Modelled from the spec: ST register driver, see `lis2dh12_data_rate_set`. -/
def lis2dh12_high_pass_bandwidth_set (w : World) (val : Nat) : Nat × World :=
  (w.bus w.tick,
   { w with hw := if w.bus w.tick = 0 then { w.hw with hpcf := val } else w.hw,
            tick := w.tick + 1, trace := w.trace ++ [Event.high_pass_bandwidth_set val] })

/-- Modelled from the spec: ST register driver, see `lis2dh12_data_rate_get`. -/
def lis2dh12_high_pass_bandwidth_get (w : World) : Nat × Nat × World :=
  (w.bus w.tick, if w.bus w.tick = 0 then w.hw.hpcf else w.junk w.tick,
   { w with tick := w.tick + 1 })

/-- Modelled from the spec: ST register driver, see `lis2dh12_data_rate_set`. -/
def lis2dh12_high_pass_mode_set (w : World) (val : Nat) : Nat × World :=
  (w.bus w.tick,
   { w with hw := if w.bus w.tick = 0 then { w.hw with hpm := val } else w.hw,
            tick := w.tick + 1, trace := w.trace ++ [Event.high_pass_mode_set val] })

/-- Modelled from the spec: ST register driver, see `lis2dh12_data_rate_set`. -/
def lis2dh12_high_pass_on_outputs_set (w : World) (val : Nat) : Nat × World :=
  (w.bus w.tick,
   { w with hw := if w.bus w.tick = 0 then { w.hw with fds := val } else w.hw,
            tick := w.tick + 1, trace := w.trace ++ [Event.high_pass_on_outputs_set val] })

/-- Modelled from the spec: ST register driver, see `lis2dh12_data_rate_get`. -/
def lis2dh12_high_pass_on_outputs_get (w : World) : Nat × Nat × World :=
  (w.bus w.tick, if w.bus w.tick = 0 then w.hw.fds else w.junk w.tick,
   { w with tick := w.tick + 1 })

/-- Modelled from the spec: ST register driver, see `lis2dh12_data_rate_get`; reads the
identifier register WHO_AM_I. -/
def lis2dh12_device_id_get (w : World) : Nat × Nat × World :=
  (w.bus w.tick, if w.bus w.tick = 0 then w.hw.who_am_i else w.junk w.tick,
   { w with tick := w.tick + 1 })

/-- Modelled from the spec: ST register driver, see `lis2dh12_data_rate_get`; reads the
number of samples queued in the FIFO (field `fss` of FIFO_SRC_REG). -/
def lis2dh12_fifo_data_level_get (w : World) : Nat × Nat × World :=
  (w.bus w.tick, if w.bus w.tick = 0 then w.hw.fss else w.junk w.tick,
   { w with tick := w.tick + 1 })

/-- Modelled from the spec: ST register driver, one bus operation that reads the six
output registers; the buffer then holds the sample `accel` gives for this
operation. -/
def lis2dh12_acceleration_raw_get (w : World) : Nat × axis3bit16_t × World :=
  (w.bus w.tick, w.accel w.tick, { w with tick := w.tick + 1 })

/-- Modelled from the spec: ST register driver, see `lis2dh12_data_rate_set`. -/
def lis2dh12_fifo_set (w : World) (val : Nat) : Nat × World :=
  (w.bus w.tick,
   { w with hw := if w.bus w.tick = 0 then { w.hw with fifo_en := val } else w.hw,
            tick := w.tick + 1, trace := w.trace ++ [Event.fifo_set val] })

/-- Modelled from the spec: ST register driver, see `lis2dh12_data_rate_set`. -/
def lis2dh12_fifo_mode_set (w : World) (val : Nat) : Nat × World :=
  (w.bus w.tick,
   { w with hw := if w.bus w.tick = 0 then { w.hw with fm := val } else w.hw,
            tick := w.tick + 1, trace := w.trace ++ [Event.fifo_mode_set val] })

/-- Modelled from the spec: ST register driver, see `lis2dh12_data_rate_set`. -/
def lis2dh12_fifo_watermark_set (w : World) (val : Nat) : Nat × World :=
  (w.bus w.tick,
   { w with hw := if w.bus w.tick = 0 then { w.hw with fth := val } else w.hw,
            tick := w.tick + 1, trace := w.trace ++ [Event.fifo_watermark_set val] })

/-- Modelled from the spec: ST register driver, see `lis2dh12_data_rate_set`; writes
CTRL_REG3. -/
def lis2dh12_pin_int1_config_set (w : World) (val : lis2dh12_ctrl_reg3_t) : Nat × World :=
  (w.bus w.tick,
   { w with hw := if w.bus w.tick = 0 then { w.hw with ctrl_reg3 := val } else w.hw,
            tick := w.tick + 1, trace := w.trace ++ [Event.pin_int1_config_set val] })

/-- Modelled from the spec: ST register driver, see `lis2dh12_data_rate_set`; writes
CTRL_REG6. -/
def lis2dh12_pin_int2_config_set (w : World) (val : lis2dh12_ctrl_reg6_t) : Nat × World :=
  (w.bus w.tick,
   { w with hw := if w.bus w.tick = 0 then { w.hw with ctrl_reg6 := val } else w.hw,
            tick := w.tick + 1, trace := w.trace ++ [Event.pin_int2_config_set val] })

/-- Modelled from the spec: ST register driver, a raw write of `data` starting at the
register `reg`. The driver uses it for one byte to CTRL_REG1, whose bits 7..4 are
`odr` and whose bits 2..0 enable the axes (bit 3, LPen, belongs to `op_md`, which the
model keeps as one field and which init sets right afterwards). -/
def lis2dh12_write_reg (k : Consts) (w : World) (reg : Nat) (data : List Nat) : Nat × World :=
  (w.bus w.tick,
   { w with hw := if w.bus w.tick = 0 ∧ reg = k.LIS2DH12_CTRL_REG1 then
                    { w.hw with odr := data.headD 0 / 16 % 16, axes := data.headD 0 % 8 }
                  else w.hw,
            tick := w.tick + 1, trace := w.trace ++ [Event.write_reg reg data] })

/-- Modelled from the spec: ST register driver, see `lis2dh12_data_rate_set`. -/
def lis2dh12_block_data_update_set (w : World) (val : Nat) : Nat × World :=
  (w.bus w.tick,
   { w with hw := if w.bus w.tick = 0 then { w.hw with bdu := val } else w.hw,
            tick := w.tick + 1, trace := w.trace ++ [Event.block_data_update_set val] })

/-- Modelled from the spec: ST register driver, see `lis2dh12_data_rate_set`. -/
def lis2dh12_temperature_meas_set (w : World) (val : Nat) : Nat × World :=
  (w.bus w.tick,
   { w with hw := if w.bus w.tick = 0 then { w.hw with temp_en := val } else w.hw,
            tick := w.tick + 1, trace := w.trace ++ [Event.temperature_meas_set val] })

/-- Modelled from the spec: ST register driver, see `lis2dh12_data_rate_set`. -/
def lis2dh12_self_test_set (w : World) (val : Nat) : Nat × World :=
  (w.bus w.tick,
   { w with hw := if w.bus w.tick = 0 then { w.hw with st := val } else w.hw,
            tick := w.tick + 1, trace := w.trace ++ [Event.self_test_set val] })

/-- Modelled from the spec: ST register driver, see `lis2dh12_data_rate_set`; selects
where the high-pass filter is applied (field `hp` of CTRL_REG2). -/
def lis2dh12_high_pass_int_conf_set (w : World) (val : Nat) : Nat × World :=
  (w.bus w.tick,
   { w with hw := if w.bus w.tick = 0 then { w.hw with hp := val } else w.hw,
            tick := w.tick + 1, trace := w.trace ++ [Event.high_pass_int_conf_set val] })

/-- Modelled from the spec: ST register driver, see `lis2dh12_data_rate_set`; writes
INT1_THS. -/
def lis2dh12_int1_gen_threshold_set (w : World) (val : Nat) : Nat × World :=
  (w.bus w.tick,
   { w with hw := if w.bus w.tick = 0 then { w.hw with int1_ths := val } else w.hw,
            tick := w.tick + 1, trace := w.trace ++ [Event.int1_gen_threshold_set val] })

/-- Modelled from the spec: ST register driver, see `lis2dh12_data_rate_set`; writes
INT1_CFG. -/
def lis2dh12_int1_gen_conf_set (w : World) (val : lis2dh12_int1_cfg_t) : Nat × World :=
  (w.bus w.tick,
   { w with hw := if w.bus w.tick = 0 then { w.hw with int1_cfg := val } else w.hw,
            tick := w.tick + 1, trace := w.trace ++ [Event.int1_gen_conf_set val] })

/-- The conversion functions of the ST register driver `lis2dh12_reg.c`, which is not
among the sources: from a raw `int16_t` to mg for each full scale and operating mode,
and to degrees Celsius for each operating mode. -/
structure Codec where
  lis2dh12_from_fs2_hr_to_mg : Int → ℚ
  lis2dh12_from_fs4_hr_to_mg : Int → ℚ
  lis2dh12_from_fs8_hr_to_mg : Int → ℚ
  lis2dh12_from_fs16_hr_to_mg : Int → ℚ
  lis2dh12_from_fs2_nm_to_mg : Int → ℚ
  lis2dh12_from_fs4_nm_to_mg : Int → ℚ
  lis2dh12_from_fs8_nm_to_mg : Int → ℚ
  lis2dh12_from_fs16_nm_to_mg : Int → ℚ
  lis2dh12_from_fs2_lp_to_mg : Int → ℚ
  lis2dh12_from_fs4_lp_to_mg : Int → ℚ
  lis2dh12_from_fs8_lp_to_mg : Int → ℚ
  lis2dh12_from_fs16_lp_to_mg : Int → ℚ
  lis2dh12_from_lsb_hr_to_celsius : Int → ℚ
  lis2dh12_from_lsb_nm_to_celsius : Int → ℚ
  lis2dh12_from_lsb_lp_to_celsius : Int → ℚ

/-- Conversion of an integer to `int16_t`: the value modulo 2^16 in the range
-32768 .. 32767. -/
def int16_t_of (x : Int) : Int := (x + 32768) % 65536 - 32768

/-- Modelled from the spec: `ruuvi_interface_delay_ms` (yield interface) is not among
the sources; section 5: a blocking wait of the given number of milliseconds. -/
def ruuvi_interface_delay_ms (w : World) (ms : Nat) : World :=
  { w with now := w.now + ms, trace := w.trace ++ [Event.delay_ms ms] }

/-- Source function `ruuvi_driver_sensor_timestamp_get` of `ruuvi_driver_sensor.c`: the registered
`millis()` (a `uint64_t`), or 0 when no timestamp function is registered. -/
def ruuvi_driver_sensor_timestamp_get (w : World) : Nat :=
  if w.millis = false then 0 else w.now % 2 ^ 64

/-! ## The driver functions of `ruuvi_interface_lis2dh12.c` -/

/-- Source function `ruuvi_interface_lis2dh12_mode_get`: the stored mode, which the `switch` admits
only as SLEEP or CONTINUOUS. -/
def ruuvi_interface_lis2dh12_mode_get (k : Consts) (w : World) (mode : Option Nat) :
    Nat × Option Nat :=
  match mode with
  | none => (k.RUUVI_DRIVER_ERROR_NULL, none)
  | some _ =>
    if w.dev.mode = k.RUUVI_DRIVER_SENSOR_CFG_SLEEP then
      (RUUVI_DRIVER_SUCCESS, some k.RUUVI_DRIVER_SENSOR_CFG_SLEEP)
    else if w.dev.mode = k.RUUVI_DRIVER_SENSOR_CFG_CONTINUOUS then
      (RUUVI_DRIVER_SUCCESS, some k.RUUVI_DRIVER_SENSOR_CFG_CONTINUOUS)
    else
      (k.RUUVI_DRIVER_ERROR_INTERNAL, some k.RUUVI_DRIVER_SENSOR_ERR_NOT_SUPPORTED)

/-- The macro `VERIFY_SENSOR_SLEEPS()`: `some INVALID_STATE` when the macro makes the
calling function return, `none` when the function goes on. -/
def VERIFY_SENSOR_SLEEPS (k : Consts) (w : World) : Option Nat :=
  let MACRO_MODE := (ruuvi_interface_lis2dh12_mode_get k w (some 0)).2
  if some k.RUUVI_DRIVER_SENSOR_CFG_SLEEP ≠ MACRO_MODE then
    some k.RUUVI_DRIVER_ERROR_INVALID_STATE
  else none

/-- Source function `ruuvi_interface_lis2dh12_samplerate_get`: reads the data rate from the chip into
`dev.samplerate` and translates the code. -/
def ruuvi_interface_lis2dh12_samplerate_get (k : Consts) (w : World)
    (samplerate : Option Nat) : Nat × World × Option Nat :=
  match samplerate with
  | none => (k.RUUVI_DRIVER_ERROR_NULL, w, none)
  | some _ =>
    let r := lis2dh12_data_rate_get w
    let err_code := RUUVI_DRIVER_SUCCESS ||| r.1
    let w1 : World := { r.2.2 with dev := { r.2.2.dev with samplerate := r.2.1 } }
    let c := w1.dev.samplerate
    if c = k.LIS2DH12_ODR_1Hz then (err_code, w1, some 1)
    else if c = k.LIS2DH12_ODR_10Hz then (err_code, w1, some 10)
    else if c = k.LIS2DH12_ODR_25Hz then (err_code, w1, some 25)
    else if c = k.LIS2DH12_ODR_50Hz then (err_code, w1, some 50)
    else if c = k.LIS2DH12_ODR_100Hz then (err_code, w1, some 100)
    else if c = k.LIS2DH12_ODR_200Hz then (err_code, w1, some 200)
    else if c = k.LIS2DH12_ODR_400Hz then
      (err_code, w1, some k.RUUVI_DRIVER_SENSOR_CFG_CUSTOM_1)
    else if c = k.LIS2DH12_ODR_5kHz376_LP_1kHz344_NM_HP then
      (err_code, w1, some k.RUUVI_DRIVER_SENSOR_CFG_MAX)
    else if c = k.LIS2DH12_ODR_1kHz620_LP then
      (err_code, w1, some k.RUUVI_DRIVER_SENSOR_CFG_CUSTOM_2)
    else
      (err_code ||| k.RUUVI_DRIVER_ERROR_INTERNAL, w1,
       some k.RUUVI_DRIVER_SENSOR_ERR_NOT_SUPPORTED)

/-- Assignment `dev.samplerate = val`. -/
def World.set_samplerate (w : World) (val : Nat) : World :=
  { w with dev := { w.dev with samplerate := val } }

/-- Assignment `dev.resolution = val`. -/
def World.set_resolution (w : World) (val : Nat) : World :=
  { w with dev := { w.dev with resolution := val } }

/-- Assignment `dev.scale = val`. -/
def World.set_scale (w : World) (val : Nat) : World :=
  { w with dev := { w.dev with scale := val } }

/-- The `if` / `else if` chain of `ruuvi_interface_lis2dh12_samplerate_set` (source lines 263 to 277): the
world after the assignment to `dev.samplerate`, the content of `*samplerate` and `err_code`. -/
def samplerate_set_select (k : Consts) (w : World) (s : Nat) : World × Nat × Nat :=
  let err_code := RUUVI_DRIVER_SUCCESS
  if k.RUUVI_DRIVER_SENSOR_CFG_NO_CHANGE = s then (w, s, err_code)
  else if k.RUUVI_DRIVER_SENSOR_CFG_MIN = s then
    (w.set_samplerate k.LIS2DH12_ODR_1Hz, s, err_code)
  else if k.RUUVI_DRIVER_SENSOR_CFG_MAX = s then
    (w.set_samplerate k.LIS2DH12_ODR_5kHz376_LP_1kHz344_NM_HP, s, err_code)
  else if k.RUUVI_DRIVER_SENSOR_CFG_DEFAULT = s then
    (w.set_samplerate k.LIS2DH12_ODR_1Hz, s, err_code)
  else if 1 = s then (w.set_samplerate k.LIS2DH12_ODR_1Hz, s, err_code)
  else if 10 ≥ s then (w.set_samplerate k.LIS2DH12_ODR_10Hz, s, err_code)
  else if 25 ≥ s then (w.set_samplerate k.LIS2DH12_ODR_25Hz, s, err_code)
  else if 50 ≥ s then (w.set_samplerate k.LIS2DH12_ODR_50Hz, s, err_code)
  else if 100 ≥ s then (w.set_samplerate k.LIS2DH12_ODR_100Hz, s, err_code)
  else if 200 ≥ s then (w.set_samplerate k.LIS2DH12_ODR_200Hz, s, err_code)
  else if k.RUUVI_DRIVER_SENSOR_CFG_CUSTOM_1 = s then
    (w.set_samplerate k.LIS2DH12_ODR_400Hz, s, err_code)
  else if k.RUUVI_DRIVER_SENSOR_CFG_CUSTOM_2 = s then
    (w.set_samplerate k.LIS2DH12_ODR_1kHz620_LP, s, err_code)
  else if k.RUUVI_DRIVER_SENSOR_CFG_CUSTOM_3 = s then
    (w.set_samplerate k.LIS2DH12_ODR_5kHz376_LP_1kHz344_NM_HP, s, err_code)
  else
    (w, k.RUUVI_DRIVER_SENSOR_ERR_NOT_SUPPORTED,
     err_code ||| k.RUUVI_DRIVER_ERROR_NOT_SUPPORTED)

/-- Source function `ruuvi_interface_lis2dh12_samplerate_set`: NULL check, sleep check, the chain
`samplerate_set_select`, then on success the register write and the read back. -/
def ruuvi_interface_lis2dh12_samplerate_set (k : Consts) (w : World)
    (samplerate : Option Nat) : Nat × World × Option Nat :=
  match samplerate with
  | none => (k.RUUVI_DRIVER_ERROR_NULL, w, none)
  | some s =>
    match VERIFY_SENSOR_SLEEPS k w with
    | some e => (e, w, some s)
    | none =>
      let c := samplerate_set_select k w s
      if RUUVI_DRIVER_SUCCESS = c.2.2 then
        let r1 := lis2dh12_data_rate_set c.1 c.1.dev.samplerate
        let r2 := ruuvi_interface_lis2dh12_samplerate_get k r1.2 (some c.2.1)
        ((c.2.2 ||| r1.1) ||| r2.1, r2.2.1, r2.2.2)
      else (c.2.2, c.1, some c.2.1)

/-- Source function `ruuvi_interface_lis2dh12_resolution_get`. -/
def ruuvi_interface_lis2dh12_resolution_get (k : Consts) (w : World)
    (resolution : Option Nat) : Nat × World × Option Nat :=
  match resolution with
  | none => (k.RUUVI_DRIVER_ERROR_NULL, w, none)
  | some _ =>
    let r := lis2dh12_operating_mode_get w
    let err_code := RUUVI_DRIVER_SUCCESS ||| r.1
    let w1 : World := { r.2.2 with dev := { r.2.2.dev with resolution := r.2.1 } }
    let c := w1.dev.resolution
    if c = k.LIS2DH12_LP_8bit then (err_code, w1, some 8)
    else if c = k.LIS2DH12_NM_10bit then (err_code, w1, some 10)
    else if c = k.LIS2DH12_HR_12bit then (err_code, w1, some 12)
    else
      (err_code ||| k.RUUVI_DRIVER_ERROR_INTERNAL, w1,
       some k.RUUVI_DRIVER_SENSOR_ERR_INVALID)

/-- The `if` / `else if` chain of `ruuvi_interface_lis2dh12_resolution_set` (source lines 354 to 361): the
world after the assignment to `dev.resolution`, the content of `*resolution` and `err_code`. -/
def resolution_set_select (k : Consts) (w : World) (s : Nat) : World × Nat × Nat :=
  let err_code := RUUVI_DRIVER_SUCCESS
  if k.RUUVI_DRIVER_SENSOR_CFG_NO_CHANGE = s then (w, s, err_code)
  else if k.RUUVI_DRIVER_SENSOR_CFG_MIN = s then
    (w.set_resolution k.LIS2DH12_LP_8bit, s, err_code)
  else if k.RUUVI_DRIVER_SENSOR_CFG_MAX = s then
    (w.set_resolution k.LIS2DH12_HR_12bit, s, err_code)
  else if k.RUUVI_DRIVER_SENSOR_CFG_DEFAULT = s then
    (w.set_resolution k.LIS2DH12_NM_10bit, s, err_code)
  else if 8 ≥ s then (w.set_resolution k.LIS2DH12_LP_8bit, s, err_code)
  else if 10 ≥ s then (w.set_resolution k.LIS2DH12_NM_10bit, s, err_code)
  else if 12 ≥ s then (w.set_resolution k.LIS2DH12_HR_12bit, s, err_code)
  else
    (w, k.RUUVI_DRIVER_SENSOR_ERR_NOT_SUPPORTED,
     err_code ||| k.RUUVI_DRIVER_ERROR_NOT_SUPPORTED)

/-- Source function `ruuvi_interface_lis2dh12_resolution_set`. -/
def ruuvi_interface_lis2dh12_resolution_set (k : Consts) (w : World)
    (resolution : Option Nat) : Nat × World × Option Nat :=
  match resolution with
  | none => (k.RUUVI_DRIVER_ERROR_NULL, w, none)
  | some s =>
    match VERIFY_SENSOR_SLEEPS k w with
    | some e => (e, w, some s)
    | none =>
      let c := resolution_set_select k w s
      if RUUVI_DRIVER_SUCCESS = c.2.2 then
        let r1 := lis2dh12_operating_mode_set c.1 c.1.dev.resolution
        let r2 := ruuvi_interface_lis2dh12_resolution_get k r1.2 (some c.2.1)
        ((c.2.2 ||| r1.1) ||| r2.1, r2.2.1, r2.2.2)
      else (c.2.2, c.1, some c.2.1)

/-- Source function `ruuvi_interface_lis2dh12_scale_get`. -/
def ruuvi_interface_lis2dh12_scale_get (k : Consts) (w : World)
    (scale : Option Nat) : Nat × World × Option Nat :=
  match scale with
  | none => (k.RUUVI_DRIVER_ERROR_NULL, w, none)
  | some _ =>
    let r := lis2dh12_full_scale_get w
    let err_code := RUUVI_DRIVER_SUCCESS ||| r.1
    let w1 : World := { r.2.2 with dev := { r.2.2.dev with scale := r.2.1 } }
    let c := w1.dev.scale
    if c = k.LIS2DH12_2g then (err_code, w1, some 2)
    else if c = k.LIS2DH12_4g then (err_code, w1, some 4)
    else if c = k.LIS2DH12_8g then (err_code, w1, some 8)
    else if c = k.LIS2DH12_16g then (err_code, w1, some 16)
    else
      (err_code ||| k.RUUVI_DRIVER_ERROR_INTERNAL, w1,
       some k.RUUVI_DRIVER_SENSOR_ERR_NOT_SUPPORTED)

/-- The `if` / `else if` chain of `ruuvi_interface_lis2dh12_scale_set` (source lines 412 to 424): the
world after the assignment to `dev.scale`, the content of `*scale` and `err_code`. -/
def scale_set_select (k : Consts) (w : World) (s : Nat) : World × Nat × Nat :=
  let err_code := RUUVI_DRIVER_SUCCESS
  if k.RUUVI_DRIVER_SENSOR_CFG_NO_CHANGE = s then (w, s, err_code)
  else if k.RUUVI_DRIVER_SENSOR_CFG_MIN = s then
    (w.set_scale k.LIS2DH12_2g, s, err_code)
  else if k.RUUVI_DRIVER_SENSOR_CFG_MAX = s then
    (w.set_scale k.LIS2DH12_16g, s, err_code)
  else if k.RUUVI_DRIVER_SENSOR_CFG_DEFAULT = s then
    (w.set_scale k.LIS2DH12_2g, s, err_code)
  else if 2 ≥ s then (w.set_scale k.LIS2DH12_2g, s, err_code)
  else if 4 ≥ s then (w.set_scale k.LIS2DH12_4g, s, err_code)
  else if 8 ≥ s then (w.set_scale k.LIS2DH12_8g, s, err_code)
  else if 16 ≥ s then (w.set_scale k.LIS2DH12_16g, s, err_code)
  else
    (w, k.RUUVI_DRIVER_SENSOR_ERR_NOT_SUPPORTED,
     err_code ||| k.RUUVI_DRIVER_ERROR_NOT_SUPPORTED)

/-- Source function `ruuvi_interface_lis2dh12_scale_set`. -/
def ruuvi_interface_lis2dh12_scale_set (k : Consts) (w : World)
    (scale : Option Nat) : Nat × World × Option Nat :=
  match scale with
  | none => (k.RUUVI_DRIVER_ERROR_NULL, w, none)
  | some s =>
    match VERIFY_SENSOR_SLEEPS k w with
    | some e => (e, w, some s)
    | none =>
      let c := scale_set_select k w s
      if RUUVI_DRIVER_SUCCESS = c.2.2 then
        let r1 := lis2dh12_full_scale_set c.1 c.1.dev.scale
        let r2 := ruuvi_interface_lis2dh12_scale_get k r1.2 (some c.2.1)
        ((c.2.2 ||| r1.1) ||| r2.1, r2.2.1, r2.2.2)
      else (c.2.2, c.1, some c.2.1)

/-- Source function `ruuvi_interface_lis2dh12_dsp_get`. The source writes both pointers without a
NULL check, so they are outputs only: the result is the status, the world, `*dsp`
and `*parameter`. On an unknown cutoff code the function returns INTERNAL alone. -/
def ruuvi_interface_lis2dh12_dsp_get (k : Consts) (w : World) : Nat × World × Nat × Nat :=
  let r1 := lis2dh12_high_pass_bandwidth_get w
  let r2 := lis2dh12_high_pass_on_outputs_get r1.2.2
  let err_code := (RUUVI_DRIVER_SUCCESS ||| r1.1) ||| r2.1
  let hpcf := r1.2.1
  let mode := r2.2.1
  let dsp := if mode ≠ 0 then k.RUUVI_DRIVER_SENSOR_DSP_HIGH_PASS
             else k.RUUVI_DRIVER_SENSOR_DSP_LAST
  if hpcf = k.LIS2DH12_LIGHT then (err_code, r2.2.2, dsp, 0)
  else if hpcf = k.LIS2DH12_MEDIUM then (err_code, r2.2.2, dsp, 1)
  else if hpcf = k.LIS2DH12_STRONG then (err_code, r2.2.2, dsp, 2)
  else if hpcf = k.LIS2DH12_AGGRESSIVE then (err_code, r2.2.2, dsp, 3)
  else (k.RUUVI_DRIVER_ERROR_INTERNAL, r2.2.2, dsp, k.RUUVI_DRIVER_SENSOR_ERR_NOT_SUPPORTED)

/-- Source function `ruuvi_interface_lis2dh12_dsp_set`. The result is the status, the world, `*dsp`
and `*parameter`. In the `default` case of the `switch` the source stores the status
constant `RUUVI_DRIVER_ERROR_NOT_SUPPORTED` into the `uint8_t`, hence `% 256`. -/
def ruuvi_interface_lis2dh12_dsp_set (k : Consts) (w : World) (dsp parameter : Option Nat) :
    Nat × World × Option Nat × Option Nat :=
  match dsp, parameter with
  | none, _ => (k.RUUVI_DRIVER_ERROR_NULL, w, dsp, parameter)
  | _, none => (k.RUUVI_DRIVER_ERROR_NULL, w, dsp, parameter)
  | some d, some p =>
    match VERIFY_SENSOR_SLEEPS k w with
    | some e => (e, w, some d, some p)
    | none =>
      let g := ruuvi_interface_lis2dh12_dsp_get k w
      let err_code := RUUVI_DRIVER_SUCCESS ||| g.1
      let w0 := g.2.1
      let orig_dsp := g.2.2.1
      let orig_param := g.2.2.2
      let d1 := if k.RUUVI_DRIVER_SENSOR_CFG_NO_CHANGE = d then orig_dsp else d
      let p1 := if k.RUUVI_DRIVER_SENSOR_CFG_NO_CHANGE = p then orig_param else p
      if k.RUUVI_DRIVER_SENSOR_DSP_HIGH_PASS = d1 then
        let p2 := if k.RUUVI_DRIVER_SENSOR_CFG_DEFAULT = p1 then 0 else p1
        -- the switch yields hpcf and the new *parameter, or leaves through default
        let sw : Option (Nat × Nat) :=
          if p2 = k.RUUVI_DRIVER_SENSOR_CFG_MIN ∨ p2 = 0 then some (k.LIS2DH12_LIGHT, 0)
          else if p2 = 1 then some (k.LIS2DH12_MEDIUM, p2)
          else if p2 = 2 then some (k.LIS2DH12_STRONG, p2)
          else if p2 = k.RUUVI_DRIVER_SENSOR_CFG_MAX ∨ p2 = 3 then
            some (k.LIS2DH12_AGGRESSIVE, 3)
          else none
        match sw with
        | none =>
          (k.RUUVI_DRIVER_ERROR_NOT_SUPPORTED, w0, some d1,
           some (k.RUUVI_DRIVER_ERROR_NOT_SUPPORTED % 256))
        | some (hpcf, p3) =>
          let r1 := lis2dh12_high_pass_bandwidth_set w0 hpcf
          let r2 := lis2dh12_high_pass_mode_set r1.2 k.LIS2DH12_NORMAL
          let r3 := lis2dh12_high_pass_on_outputs_set r2.2 k.PROPERTY_ENABLE
          (((err_code ||| r1.1) ||| r2.1) ||| r3.1, r3.2, some d1, some p3)
      else if k.RUUVI_DRIVER_SENSOR_DSP_LAST = d1 ∨ k.RUUVI_DRIVER_SENSOR_CFG_DEFAULT = d1 then
        let r := lis2dh12_high_pass_on_outputs_set w0 k.PROPERTY_DISABLE
        (err_code ||| r.1, r.2, some k.RUUVI_DRIVER_SENSOR_DSP_LAST, some p1)
      else (k.RUUVI_DRIVER_ERROR_NOT_SUPPORTED, w0, some d1, some p1)

/-- Source function `ruuvi_interface_lis2dh12_mode_set`. -/
def ruuvi_interface_lis2dh12_mode_set (k : Consts) (w : World) (mode : Option Nat) :
    Nat × World × Option Nat :=
  match mode with
  | none => (k.RUUVI_DRIVER_ERROR_NULL, w, none)
  | some m =>
    let err_code := RUUVI_DRIVER_SUCCESS
    if k.RUUVI_DRIVER_SENSOR_CFG_SINGLE = m then
      let current_mode := (ruuvi_interface_lis2dh12_mode_get k w (some 0)).2
      if some k.RUUVI_DRIVER_SENSOR_CFG_CONTINUOUS = current_mode then
        (k.RUUVI_DRIVER_ERROR_INVALID_STATE, w, some k.RUUVI_DRIVER_SENSOR_CFG_CONTINUOUS)
      else
        let w1 := w.set_samplerate k.LIS2DH12_ODR_400Hz
        let r1 := lis2dh12_data_rate_set w1 w1.dev.samplerate
        let w2 := ruuvi_interface_delay_ms r1.2 ((7000 / 400) + 1)
        let w3 : World :=
          { w2 with dev := { w2.dev with tsample := ruuvi_driver_sensor_timestamp_get w2 } }
        let w4 := w3.set_samplerate k.LIS2DH12_POWER_DOWN
        let r2 := lis2dh12_data_rate_set w4 w4.dev.samplerate
        ((err_code ||| r1.1) ||| r2.1, r2.2, some k.RUUVI_DRIVER_SENSOR_CFG_SLEEP)
    else if k.RUUVI_DRIVER_SENSOR_CFG_SLEEP = m then
      let w1 : World := { w with dev := { w.dev with mode := m } }
      let r := lis2dh12_data_rate_set w1 k.LIS2DH12_POWER_DOWN
      (err_code ||| r.1, r.2, some m)
    else if k.RUUVI_DRIVER_SENSOR_CFG_CONTINUOUS = m then
      let w1 : World := { w with dev := { w.dev with mode := m } }
      let r := lis2dh12_data_rate_set w1 w1.dev.samplerate
      (err_code ||| r.1, r.2, some m)
    else (err_code ||| k.RUUVI_DRIVER_ERROR_INVALID_PARAM, w, some m)

/-! ## The error check of `ruuvi_driver_error.c` -/

/-- The C library function `strrchr`: the rest of the string from the last occurrence
of `c` on, or `none` (NULL) when `c` does not occur. -/
def strrchr : List Char → Char → Option (List Char)
  | [], _ => none
  | x :: xs, c =>
    match strrchr xs c with
    | some r => some r
    | none => if x = c then some (x :: xs) else none

/-- Source function `ruuvi_driver_error_check`. The message that the source formats
from the file name, the line and the error code is recorded as these three values;
`Char.ofNat 92` is the backslash. -/
def ruuvi_driver_error_check (k : Consts) (w : World) (error non_fatal_mask : Nat)
    (file : String) (line : Nat) : World :=
  if RUUVI_DRIVER_SUCCESS = error then w
  else
    let w1 : World := { w with m_errors := w.m_errors ||| error }
    let fatal : Bool := decide (((4294967295 - non_fatal_mask % 4294967296) &&& error) ≠ 0)
    let filename : List Char :=
      match strrchr file.toList '/' with
      | some r => r.tail
      | none =>
        match strrchr file.toList (Char.ofNat 92) with
        | some r => r.tail
        | none => file.toList
    let w2 : World :=
      if fatal = true then
        { w1 with log := w1.log ++ [ErrEvent.log_flush,
            ErrEvent.log k.RUUVI_INTERFACE_LOG_ERROR (String.mk filename) line error,
            ErrEvent.log_flush] }
      else if RUUVI_DRIVER_SUCCESS ≠ error then
        { w1 with log := w1.log ++
            [ErrEvent.log k.RUUVI_INTERFACE_LOG_WARNING (String.mk filename) line error] }
      else w1
    if RUUVI_DRIVER_SUCCESS ≠ error ∧ w2.m_cb = true then
      { w2 with log := w2.log ++ [ErrEvent.cb error fatal (String.mk filename) line] }
    else w2

/-- The macro `RUUVI_DRIVER_ERROR_CHECK(error, mask)` as the driver file uses it:
the error check with the file name of the driver and the line of the call. -/
def RUUVI_DRIVER_ERROR_CHECK (k : Consts) (w : World) (error mask line : Nat) : World :=
  ruuvi_driver_error_check k w error mask k.FILE line

/-- Source function `ruuvi_driver_errors_clear`: the result is the value of `m_errors`
and the world in which `m_errors` is reset. -/
def ruuvi_driver_errors_clear (w : World) : Nat × World :=
  let errors := w.m_errors
  (errors, { w with m_errors := RUUVI_DRIVER_SUCCESS })

/-- Source function `ruuvi_driver_error_cb_set`; `cb` tells whether the pointer passed
is a function (`false` is NULL). -/
def ruuvi_driver_error_cb_set (w : World) (cb : Bool) : World :=
  { w with m_cb := cb }

/-! ## The sensor interface of `ruuvi_driver_sensor.c` -/

/-- The functions a pointer of the sensor interface can point to: NULL, the
not-initialized stubs of `ruuvi_driver_sensor.c`, the functions of the LIS2DH12
driver and the two generic configuration functions. -/
inductive FnPtr where
  | NULL
  | ruuvi_driver_fifo_enable_ni
  | ruuvi_driver_fifo_interrupt_enable_ni
  | ruuvi_driver_fifo_read_ni
  | ruuvi_driver_data_get_ni
  | ruuvi_driver_init_ni
  | ruuvi_driver_setup_ni
  | ruuvi_driver_level_interrupt_use_ni
  | ruuvi_driver_dsp_ni
  | ruuvi_driver_sensor_configuration_ni
  | ruuvi_driver_sensor_configuration_set
  | ruuvi_driver_sensor_configuration_get
  | ruuvi_interface_lis2dh12_init
  | ruuvi_interface_lis2dh12_uninit
  | ruuvi_interface_lis2dh12_samplerate_set
  | ruuvi_interface_lis2dh12_samplerate_get
  | ruuvi_interface_lis2dh12_resolution_set
  | ruuvi_interface_lis2dh12_resolution_get
  | ruuvi_interface_lis2dh12_scale_set
  | ruuvi_interface_lis2dh12_scale_get
  | ruuvi_interface_lis2dh12_dsp_set
  | ruuvi_interface_lis2dh12_dsp_get
  | ruuvi_interface_lis2dh12_mode_set
  | ruuvi_interface_lis2dh12_mode_get
  | ruuvi_interface_lis2dh12_data_get
  | ruuvi_interface_lis2dh12_fifo_use
  | ruuvi_interface_lis2dh12_fifo_interrupt_use
  | ruuvi_interface_lis2dh12_fifo_read
  | ruuvi_interface_lis2dh12_activity_interrupt_use
  deriving DecidableEq, Repr

/-- The type `ruuvi_driver_sensor_data_fields_t`: the four bits of the bit field that
the LIS2DH12 driver sets. The other bits of the header's bit field are not
modelled. -/
structure ruuvi_driver_sensor_data_fields_t where
  acceleration_x_g : Bool
  acceleration_y_g : Bool
  acceleration_z_g : Bool
  temperature_c : Bool
  deriving DecidableEq, Repr

/-- The type `ruuvi_driver_sensor_t`: the function pointers, the name and the
provided fields of a sensor. -/
structure ruuvi_driver_sensor_t where
  init : FnPtr
  uninit : FnPtr
  samplerate_set : FnPtr
  samplerate_get : FnPtr
  resolution_set : FnPtr
  resolution_get : FnPtr
  scale_set : FnPtr
  scale_get : FnPtr
  dsp_set : FnPtr
  dsp_get : FnPtr
  mode_set : FnPtr
  mode_get : FnPtr
  data_get : FnPtr
  configuration_set : FnPtr
  configuration_get : FnPtr
  fifo_enable : FnPtr
  fifo_interrupt_enable : FnPtr
  fifo_read : FnPtr
  level_interrupt_set : FnPtr
  name : String
  provides : ruuvi_driver_sensor_data_fields_t
  deriving DecidableEq, Repr

/-- The static `m_init_name` of `ruuvi_driver_sensor.c`. -/
def m_init_name : String := "NOTINIT"

/-- The static `m_acc_name` of `ruuvi_interface_lis2dh12.c`. -/
def m_acc_name : String := "LIS2DH12"

/-- Source function `ruuvi_driver_sensor_initialize`: the name and every function
pointer are set to the not-initialized values; `provides` is not touched. -/
def ruuvi_driver_sensor_initialize (p_sensor : ruuvi_driver_sensor_t) : ruuvi_driver_sensor_t :=
  { p_sensor with
    name := m_init_name
    configuration_get := FnPtr.ruuvi_driver_sensor_configuration_ni
    configuration_set := FnPtr.ruuvi_driver_sensor_configuration_ni
    data_get := FnPtr.ruuvi_driver_data_get_ni
    dsp_get := FnPtr.ruuvi_driver_dsp_ni
    dsp_set := FnPtr.ruuvi_driver_dsp_ni
    fifo_enable := FnPtr.ruuvi_driver_fifo_enable_ni
    fifo_interrupt_enable := FnPtr.ruuvi_driver_fifo_interrupt_enable_ni
    fifo_read := FnPtr.ruuvi_driver_fifo_read_ni
    init := FnPtr.ruuvi_driver_init_ni
    uninit := FnPtr.ruuvi_driver_init_ni
    level_interrupt_set := FnPtr.ruuvi_driver_level_interrupt_use_ni
    mode_get := FnPtr.ruuvi_driver_setup_ni
    mode_set := FnPtr.ruuvi_driver_setup_ni
    resolution_get := FnPtr.ruuvi_driver_setup_ni
    resolution_set := FnPtr.ruuvi_driver_setup_ni
    samplerate_get := FnPtr.ruuvi_driver_setup_ni
    samplerate_set := FnPtr.ruuvi_driver_setup_ni
    scale_get := FnPtr.ruuvi_driver_setup_ni
    scale_set := FnPtr.ruuvi_driver_setup_ni }

/-- Source function `ruuvi_driver_sensor_uninitialize`. -/
def ruuvi_driver_sensor_uninitialize (p_sensor : ruuvi_driver_sensor_t) :
    ruuvi_driver_sensor_t :=
  ruuvi_driver_sensor_initialize p_sensor

/-- The C library function `strcmp`: zero exactly when the two strings are equal,
negative when the first is the smaller one. -/
def strcmp (a b : String) : Int :=
  if a = b then 0 else if a < b then -1 else 1

/-- Source function `ruuvi_driver_sensor_is_init`: the `int` that `strcmp` returns,
converted to `bool`. -/
def ruuvi_driver_sensor_is_init (sensor : ruuvi_driver_sensor_t) : Bool :=
  decide (strcmp sensor.name m_init_name ≠ 0)

/-- The type `ruuvi_driver_sensor_configuration_t`. -/
structure ruuvi_driver_sensor_configuration_t where
  samplerate : Nat
  resolution : Nat
  scale : Nat
  dsp_function : Nat
  dsp_parameter : Nat
  mode : Nat
  deriving DecidableEq, Repr

/-! ## Self-test, FIFO and interrupt functions of `ruuvi_interface_lis2dh12.c` -/

/-- The `for` loop of `lis2dh12_verify_selftest_difference` over the axes listed:
per axis the `int16_t` difference, its shift right by 6 (division by 64 rounding
down), the absolute value and the two comparisons that return SELFTEST. -/
def lis2dh12_verify_selftest_difference_loop (k : Consts) (new old : axis3bit16_t) :
    List Nat → Nat
  | [] => RUUVI_DRIVER_SUCCESS
  | ii :: rest =>
    let diff0 : Int := int16_t_of (new.i16bit ii - old.i16bit ii)
    let diff1 : Int := int16_t_of (diff0 / 64)
    let diff : Int := if 0 > diff1 then int16_t_of (0 - diff1) else diff1
    if (k.RUUVI_INTERFACE_LIS2DH12_SELFTEST_DIFF_MIN : Int) > diff then
      k.RUUVI_DRIVER_ERROR_SELFTEST
    else if (k.RUUVI_INTERFACE_LIS2DH12_SELFTEST_DIFF_MAX : Int) < diff then
      k.RUUVI_DRIVER_ERROR_SELFTEST
    else lis2dh12_verify_selftest_difference_loop k new old rest

/-- Source function `lis2dh12_verify_selftest_difference`. -/
def lis2dh12_verify_selftest_difference (k : Consts) (w : World) (new old : axis3bit16_t) :
    Nat :=
  if k.LIS2DH12_2g ≠ w.dev.scale ∨ k.LIS2DH12_NM_10bit ≠ w.dev.resolution then
    k.RUUVI_DRIVER_ERROR_INVALID_STATE
  else lis2dh12_verify_selftest_difference_loop k new old [0, 1, 2]

/-- Source function `ruuvi_interface_lis2dh12_fifo_use`. -/
def ruuvi_interface_lis2dh12_fifo_use (k : Consts) (w : World) (enable : Bool) : Nat × World :=
  let mode := if enable = true then k.LIS2DH12_DYNAMIC_STREAM_MODE else k.LIS2DH12_BYPASS_MODE
  let r1 := lis2dh12_fifo_set w (if enable = true then 1 else 0)
  lis2dh12_fifo_mode_set r1.2 mode

/-- Source function `ruuvi_interface_lis2dh12_fifo_interrupt_use`. -/
def ruuvi_interface_lis2dh12_fifo_interrupt_use (k : Consts) (w : World) (enable : Bool) :
    Nat × World :=
  let err_code := RUUVI_DRIVER_SUCCESS
  if true = enable then
    let r1 := lis2dh12_fifo_watermark_set w 31
    let r2 := lis2dh12_pin_int1_config_set r1.2 { i1_wtm := k.PROPERTY_ENABLE }
    ((err_code ||| r1.1) ||| r2.1, r2.2)
  else
    let r2 := lis2dh12_pin_int1_config_set w { i1_wtm := 0 }
    (err_code ||| r2.1, r2.2)

/-- The conversion `(uint32_t) x` of a `float` that is not negative: the integer part.
The C conversion is undefined when the integer part does not fit 32 bits; the
theorems that use it assume it fits. -/
def float_to_uint32 (x : ℚ) : Nat := ⌊x⌋.toNat

/-- The `switch` on `scale` of `ruuvi_interface_lis2dh12_activity_interrupt_use`
(source lines 987 to 1008): the acceleration of one threshold step, in g. -/
def activity_interrupt_use_divisor (scale : Nat) : ℚ :=
  if scale = 2 then 0.016
  else if scale = 4 then 0.032
  else if scale = 8 then 0.062
  else if scale = 16 then 0.186
  else 0.016

/-- Source function `ruuvi_interface_lis2dh12_activity_interrupt_use`. -/
def ruuvi_interface_lis2dh12_activity_interrupt_use (k : Consts) (w : World) (enable : Bool)
    (limit_g : Option ℚ) : Nat × World × Option ℚ :=
  match limit_g with
  | none => (k.RUUVI_DRIVER_ERROR_NULL, w, none)
  | some l =>
    if 0 > l then (k.RUUVI_DRIVER_ERROR_INVALID_PARAM, w, some l)
    else
      let err_code := RUUVI_DRIVER_SUCCESS
      let high_pass := k.LIS2DH12_ON_INT1_GEN
      let ctrl6 : lis2dh12_ctrl_reg6_t := { i2_ia1 := k.PROPERTY_ENABLE }
      let cfg0 : lis2dh12_int1_cfg_t := ⟨0, 0, 0, 0, 0, 0, 0, 0⟩
      let cfg : lis2dh12_int1_cfg_t :=
        if enable = true then
          { cfg0 with xhie := k.PROPERTY_ENABLE, yhie := k.PROPERTY_ENABLE,
                      zhie := k.PROPERTY_ENABLE }
        else cfg0
      let g := ruuvi_interface_lis2dh12_scale_get k w (some 0)
      let scale := g.2.2.getD 0
      let divisor : ℚ := activity_interrupt_use_divisor scale
      let threshold := (float_to_uint32 (l / divisor) + 1) % 4294967296
      if threshold > 0x7F then (k.RUUVI_DRIVER_ERROR_INVALID_PARAM, g.2.1, some l)
      else
        let r1 := lis2dh12_high_pass_int_conf_set g.2.1 high_pass
        let r2 := lis2dh12_int1_gen_threshold_set r1.2 threshold
        let r3 := lis2dh12_int1_gen_conf_set r2.2 cfg
        let r4 := lis2dh12_pin_int2_config_set r3.2 ctrl6
        (((((err_code ||| g.1) ||| r1.1) ||| r2.1) ||| r3.1) ||| r4.1, r4.2,
         some ((threshold : ℚ) * divisor))

/-- Assignment `dev.selftest = val`. -/
def World.set_selftest (w : World) (val : Nat) : World :=
  { w with dev := { w.dev with selftest := val } }

/-- The part of `ruuvi_interface_lis2dh12_init` after the device identifier matched
(source lines 131 to 198): configuration for the self-test, the positive and the
negative self-test, power down. The result is `err_code` and the world. -/
def ruuvi_interface_lis2dh12_init_selftest (k : Consts) (w : World) : Nat × World :=
  let err_code := RUUVI_DRIVER_SUCCESS
  -- Disable FIFO, activity
  let a1 := ruuvi_interface_lis2dh12_fifo_use k w false
  let a2 := ruuvi_interface_lis2dh12_fifo_interrupt_use k a1.2 false
  let a3 := ruuvi_interface_lis2dh12_activity_interrupt_use k a2.2 false (some 0)
  -- Turn X-, Y-, Z-measurement on
  let a4 := lis2dh12_write_reg k a3.2.1 k.LIS2DH12_CTRL_REG1 [0x07]
  let a5 := lis2dh12_block_data_update_set a4.2 k.PROPERTY_ENABLE
  let a6 := lis2dh12_high_pass_on_outputs_set a5.2 k.PROPERTY_DISABLE
  -- Set Output Data Rate for self-test
  let b1 := a6.2.set_samplerate k.LIS2DH12_ODR_400Hz
  let b2 := lis2dh12_data_rate_set b1 b1.dev.samplerate
  let b3 := b2.2.set_scale k.LIS2DH12_2g
  let b4 := lis2dh12_full_scale_set b3 b3.dev.scale
  let b5 := lis2dh12_temperature_meas_set b4.2 k.LIS2DH12_TEMP_ENABLE
  let b6 := b5.2.set_resolution k.LIS2DH12_NM_10bit
  let b7 := lis2dh12_operating_mode_set b6 b6.dev.resolution
  -- Run self-test, turn self-test off
  let c1 := b7.2.set_selftest k.LIS2DH12_ST_DISABLE
  let c2 := lis2dh12_self_test_set c1 c1.dev.selftest
  let err_code := err_code ||| c2.1
  let c3 := ruuvi_interface_delay_ms c2.2 9
  let old1 := lis2dh12_acceleration_raw_get c3
  -- self-test to positive direction
  let c4 := old1.2.2.set_selftest k.LIS2DH12_ST_POSITIVE
  let c5 := lis2dh12_self_test_set c4 c4.dev.selftest
  let c6 := ruuvi_interface_delay_ms c5.2 9
  let new1 := lis2dh12_acceleration_raw_get c6
  let err_code :=
    err_code ||| lis2dh12_verify_selftest_difference k new1.2.2 new1.2.1 old1.2.1
  let c7 := RUUVI_DRIVER_ERROR_CHECK k new1.2.2 err_code RUUVI_DRIVER_SUCCESS 175
  -- turn self-test off
  let d1 := c7.set_selftest k.LIS2DH12_ST_DISABLE
  let d2 := lis2dh12_self_test_set d1 d1.dev.selftest
  let err_code := err_code ||| d2.1
  let d3 := ruuvi_interface_delay_ms d2.2 9
  let old2 := lis2dh12_acceleration_raw_get d3
  -- self-test to negative direction
  let d4 := old2.2.2.set_selftest k.LIS2DH12_ST_NEGATIVE
  let d5 := lis2dh12_self_test_set d4 d4.dev.selftest
  let d6 := ruuvi_interface_delay_ms d5.2 9
  let new2 := lis2dh12_acceleration_raw_get d6
  let err_code :=
    err_code ||| lis2dh12_verify_selftest_difference k new2.2.2 new2.2.1 old2.2.1
  let d7 := RUUVI_DRIVER_ERROR_CHECK k new2.2.2 err_code RUUVI_DRIVER_SUCCESS 191
  -- turn self-test off
  let e1 := d7.set_selftest k.LIS2DH12_ST_DISABLE
  let e2 := lis2dh12_self_test_set e1 e1.dev.selftest
  let err_code := err_code ||| e2.1
  -- Turn accelerometer off
  let e3 := e2.2.set_samplerate k.LIS2DH12_POWER_DOWN
  let e4 := lis2dh12_data_rate_set e3 e3.dev.samplerate
  let err_code := err_code ||| e4.1
  let e5 := RUUVI_DRIVER_ERROR_CHECK k e4.2 err_code RUUVI_DRIVER_SUCCESS 198
  (err_code, e5)

/-- Source function `ruuvi_interface_lis2dh12_init`. The result is the status, the
world and the sensor structure behind the pointer. -/
def ruuvi_interface_lis2dh12_init (k : Consts) (w : World)
    (acceleration_sensor : Option ruuvi_driver_sensor_t) (bus handle : Nat) :
    Nat × World × Option ruuvi_driver_sensor_t :=
  match acceleration_sensor with
  | none => (k.RUUVI_DRIVER_ERROR_NULL, w, none)
  | some s0 =>
    if w.dev.ctx = true then (k.RUUVI_DRIVER_ERROR_INVALID_STATE, w, some s0)
    else
      let s := ruuvi_driver_sensor_initialize s0
      if bus = k.RUUVI_DRIVER_BUS_SPI then
        let w1 : World := { w with dev := { w.dev with ctx := true } }
        let w2 : World :=
          { w1 with dev := { w1.dev with handle := handle,
                                         mode := k.RUUVI_DRIVER_SENSOR_CFG_SLEEP } }
        -- Check device ID
        let id := lis2dh12_device_id_get w2
        if id.2.1 ≠ k.LIS2DH12_ID then (k.RUUVI_DRIVER_ERROR_NOT_FOUND, id.2.2, some s)
        else
          let t := ruuvi_interface_lis2dh12_init_selftest k id.2.2
          if RUUVI_DRIVER_SUCCESS = t.1 then
            (t.1,
             { t.2 with dev := { t.2.dev with tsample := k.RUUVI_DRIVER_UINT64_INVALID } },
             some { s with
               init := FnPtr.ruuvi_interface_lis2dh12_init
               uninit := FnPtr.ruuvi_interface_lis2dh12_uninit
               samplerate_set := FnPtr.ruuvi_interface_lis2dh12_samplerate_set
               samplerate_get := FnPtr.ruuvi_interface_lis2dh12_samplerate_get
               resolution_set := FnPtr.ruuvi_interface_lis2dh12_resolution_set
               resolution_get := FnPtr.ruuvi_interface_lis2dh12_resolution_get
               scale_set := FnPtr.ruuvi_interface_lis2dh12_scale_set
               scale_get := FnPtr.ruuvi_interface_lis2dh12_scale_get
               dsp_set := FnPtr.ruuvi_interface_lis2dh12_dsp_set
               dsp_get := FnPtr.ruuvi_interface_lis2dh12_dsp_get
               mode_set := FnPtr.ruuvi_interface_lis2dh12_mode_set
               mode_get := FnPtr.ruuvi_interface_lis2dh12_mode_get
               data_get := FnPtr.ruuvi_interface_lis2dh12_data_get
               configuration_set := FnPtr.ruuvi_driver_sensor_configuration_set
               configuration_get := FnPtr.ruuvi_driver_sensor_configuration_get
               fifo_enable := FnPtr.ruuvi_interface_lis2dh12_fifo_use
               fifo_interrupt_enable := FnPtr.ruuvi_interface_lis2dh12_fifo_interrupt_use
               fifo_read := FnPtr.ruuvi_interface_lis2dh12_fifo_read
               level_interrupt_set := FnPtr.ruuvi_interface_lis2dh12_activity_interrupt_use
               name := m_acc_name
               provides :=
                 { s.provides with
                   acceleration_x_g := true
                   acceleration_y_g := true
                   acceleration_z_g := true
                   temperature_c := true } })
          else (t.1, t.2, some s)
      else if bus = k.RUUVI_DRIVER_BUS_I2C then
        (k.RUUVI_DRIVER_ERROR_NOT_IMPLEMENTED, w, some s)
      else (k.RUUVI_DRIVER_ERROR_NOT_SUPPORTED, w, some s)

/-! ## Conversion of raw samples and the FIFO read -/

/-- Source function `rawToC`: the two bytes are joined to an `int16_t` and converted by
the function that belongs to the stored resolution. -/
def rawToC (k : Consts) (c : Codec) (w : World) (raw_temperature : List Nat) : Nat × ℚ :=
  let err_code := RUUVI_DRIVER_SUCCESS
  let lsb : Int :=
    int16_t_of (((raw_temperature.getD 1 0 <<< 8) ||| raw_temperature.getD 0 0 : Nat) : Int)
  if w.dev.resolution = k.LIS2DH12_LP_8bit then
    (err_code, c.lis2dh12_from_lsb_lp_to_celsius lsb)
  else if w.dev.resolution = k.LIS2DH12_NM_10bit then
    (err_code, c.lis2dh12_from_lsb_nm_to_celsius lsb)
  else if w.dev.resolution = k.LIS2DH12_HR_12bit then
    (err_code, c.lis2dh12_from_lsb_hr_to_celsius lsb)
  else (err_code ||| k.RUUVI_DRIVER_ERROR_INTERNAL, k.RUUVI_DRIVER_FLOAT_INVALID)

/-- The inner `switch` of `rawToMg` on the stored resolution, for the three conversion
functions of one scale: the status bits to accumulate and `acceleration[ii]`. -/
def rawToMg_resolution (k : Consts) (w : World) (lp nm hr : Int → ℚ) (lsb : Int) : Nat × ℚ :=
  if w.dev.resolution = k.LIS2DH12_LP_8bit then (RUUVI_DRIVER_SUCCESS, lp lsb)
  else if w.dev.resolution = k.LIS2DH12_NM_10bit then (RUUVI_DRIVER_SUCCESS, nm lsb)
  else if w.dev.resolution = k.LIS2DH12_HR_12bit then (RUUVI_DRIVER_SUCCESS, hr lsb)
  else (k.RUUVI_DRIVER_ERROR_INTERNAL, k.RUUVI_DRIVER_FLOAT_INVALID)

/-- The body of the `for` loop of `rawToMg` for one axis: the outer `switch` on the
stored scale. -/
def rawToMg_axis (k : Consts) (c : Codec) (w : World) (lsb : Int) : Nat × ℚ :=
  if w.dev.scale = k.LIS2DH12_2g then
    rawToMg_resolution k w c.lis2dh12_from_fs2_lp_to_mg c.lis2dh12_from_fs2_nm_to_mg
      c.lis2dh12_from_fs2_hr_to_mg lsb
  else if w.dev.scale = k.LIS2DH12_4g then
    rawToMg_resolution k w c.lis2dh12_from_fs4_lp_to_mg c.lis2dh12_from_fs4_nm_to_mg
      c.lis2dh12_from_fs4_hr_to_mg lsb
  else if w.dev.scale = k.LIS2DH12_8g then
    rawToMg_resolution k w c.lis2dh12_from_fs8_lp_to_mg c.lis2dh12_from_fs8_nm_to_mg
      c.lis2dh12_from_fs8_hr_to_mg lsb
  else if w.dev.scale = k.LIS2DH12_16g then
    rawToMg_resolution k w c.lis2dh12_from_fs16_lp_to_mg c.lis2dh12_from_fs16_nm_to_mg
      c.lis2dh12_from_fs16_hr_to_mg lsb
  else (k.RUUVI_DRIVER_ERROR_INTERNAL, k.RUUVI_DRIVER_FLOAT_INVALID)

/-- Source function `rawToMg`: the loop over the three axes; the result is `err_code`
and `acceleration[0..2]`. -/
def rawToMg (k : Consts) (c : Codec) (w : World) (raw_acceleration : axis3bit16_t) :
    Nat × List ℚ :=
  let err_code := RUUVI_DRIVER_SUCCESS
  let a0 := rawToMg_axis k c w (raw_acceleration.i16bit 0)
  let a1 := rawToMg_axis k c w (raw_acceleration.i16bit 1)
  let a2 := rawToMg_axis k c w (raw_acceleration.i16bit 2)
  (((err_code ||| a0.1) ||| a1.1) ||| a2.1, [a0.2, a1.2, a2.2])

/-- The type `ruuvi_driver_sensor_data_t`: time stamp, requested fields, valid fields
and the values behind the pointer `data`. -/
structure ruuvi_driver_sensor_data_t where
  timestamp_ms : Nat
  fields : ruuvi_driver_sensor_data_fields_t
  valid : ruuvi_driver_sensor_data_fields_t
  data : List ℚ
  deriving DecidableEq, Repr

/-- The type of `ruuvi_driver_sensor_data_populate(target, provided, requested)`, a
function of this repository that is not among the sources; the functions that call
it take it as a parameter. The result is the new content of `*target`. -/
abbrev Populate :=
  ruuvi_driver_sensor_data_t → ruuvi_driver_sensor_data_t →
    ruuvi_driver_sensor_data_fields_t → ruuvi_driver_sensor_data_t

/-- The `for` loop of `ruuvi_interface_lis2dh12_fifo_read`: `n` more elements are
read, starting at index `ii`. The local `d_acceleration` has no time stamp assigned,
so its time stamp is the indeterminate value `junk`. An index outside the buffer
writes nothing. -/
def ruuvi_interface_lis2dh12_fifo_read_loop (k : Consts) (c : Codec) (populate : Populate) :
    Nat → Nat → World → Nat → List ruuvi_driver_sensor_data_t →
      World × Nat × List ruuvi_driver_sensor_data_t
  | 0, _, w, err_code, p_data => (w, err_code, p_data)
  | n + 1, ii, w, err_code, p_data =>
    let r := lis2dh12_acceleration_raw_get w
    let m := rawToMg k c r.2.2 r.2.1
    let acc_fields : ruuvi_driver_sensor_data_fields_t :=
      { acceleration_x_g := true, acceleration_y_g := true, acceleration_z_g := true,
        temperature_c := false }
    let d_acceleration : ruuvi_driver_sensor_data_t :=
      { timestamp_ms := w.junk w.tick, fields := acc_fields, valid := acc_fields,
        data := m.2.map (fun a => a / 1000) }
    let p1 :=
      match p_data.get? ii with
      | some t => p_data.set ii (populate t d_acceleration t.fields)
      | none => p_data
    ruuvi_interface_lis2dh12_fifo_read_loop k c populate n (ii + 1) r.2.2
      ((err_code ||| r.1) ||| m.1) p1

/-- Source function `ruuvi_interface_lis2dh12_fifo_read`. The result is the status,
the world, `*num_elements` and the buffer `p_data`. -/
def ruuvi_interface_lis2dh12_fifo_read (k : Consts) (c : Codec) (populate : Populate)
    (w : World) (num_elements : Option Nat)
    (p_data : Option (List ruuvi_driver_sensor_data_t)) :
    Nat × World × Option Nat × Option (List ruuvi_driver_sensor_data_t) :=
  match num_elements, p_data with
  | none, _ => (k.RUUVI_DRIVER_ERROR_NULL, w, num_elements, p_data)
  | _, none => (k.RUUVI_DRIVER_ERROR_NULL, w, num_elements, p_data)
  | some n, some p =>
    let r := lis2dh12_fifo_data_level_get w
    let err_code := RUUVI_DRIVER_SUCCESS ||| r.1
    let elements0 := r.2.1 % 256
    if elements0 = 0 then (RUUVI_DRIVER_SUCCESS, r.2.2, some 0, some p)
    else
      -- 31 FIFO + latest
      let elements1 := (elements0 + 1) % 256
      -- Do not read more than buffer size
      let elements := if elements1 > n then n % 256 else elements1
      -- get current time
      let p0 :=
        match p with
        | [] => []
        | d :: ds => { d with timestamp_ms := ruuvi_driver_sensor_timestamp_get r.2.2 } :: ds
      let l := ruuvi_interface_lis2dh12_fifo_read_loop k c populate elements 0 r.2.2 err_code p0
      (l.2.1, l.1, some elements, some l.2.2)

/-! ## The not-initialized stubs of `ruuvi_driver_sensor.c`, and uninit -/

/-- Source function `ruuvi_driver_fifo_enable_ni`. -/
def ruuvi_driver_fifo_enable_ni (k : Consts) (_enable : Bool) : Nat :=
  k.RUUVI_DRIVER_ERROR_NOT_INITIALIZED

/-- Source function `ruuvi_driver_fifo_interrupt_enable_ni`. -/
def ruuvi_driver_fifo_interrupt_enable_ni (k : Consts) (_enable : Bool) : Nat :=
  k.RUUVI_DRIVER_ERROR_NOT_INITIALIZED

/-- Source function `ruuvi_driver_fifo_read_ni`. -/
def ruuvi_driver_fifo_read_ni (k : Consts) (_num_elements : Option Nat)
    (_data : Option (List ruuvi_driver_sensor_data_t)) : Nat :=
  k.RUUVI_DRIVER_ERROR_NOT_INITIALIZED

/-- Source function `ruuvi_driver_data_get_ni`. -/
def ruuvi_driver_data_get_ni (k : Consts) (_data : Option ruuvi_driver_sensor_data_t) : Nat :=
  k.RUUVI_DRIVER_ERROR_NOT_INITIALIZED

/-- Source function `ruuvi_driver_init_ni`. -/
def ruuvi_driver_init_ni (k : Consts) (_p_sensor : Option ruuvi_driver_sensor_t)
    (_bus _handle : Nat) : Nat :=
  k.RUUVI_DRIVER_ERROR_NOT_INITIALIZED

/-- Source function `ruuvi_driver_setup_ni`. -/
def ruuvi_driver_setup_ni (k : Consts) (_value : Option Nat) : Nat :=
  k.RUUVI_DRIVER_ERROR_NOT_INITIALIZED

/-- Source function `ruuvi_driver_level_interrupt_use_ni`. -/
def ruuvi_driver_level_interrupt_use_ni (k : Consts) (_enable : Bool)
    (_limit_g : Option ℚ) : Nat :=
  k.RUUVI_DRIVER_ERROR_NOT_INITIALIZED

/-- Source function `ruuvi_driver_dsp_ni`. -/
def ruuvi_driver_dsp_ni (k : Consts) (_dsp _parameter : Option Nat) : Nat :=
  k.RUUVI_DRIVER_ERROR_NOT_INITIALIZED

/-- Source function `ruuvi_driver_sensor_configuration_ni`. -/
def ruuvi_driver_sensor_configuration_ni (k : Consts) (_sensor : Option ruuvi_driver_sensor_t)
    (_config : Option ruuvi_driver_sensor_configuration_t) : Nat :=
  k.RUUVI_DRIVER_ERROR_NOT_INITIALIZED

/-- The content of `dev` after `memset(&dev, 0, sizeof(dev))`. -/
def Dev.zero : Dev :=
  { resolution := 0, scale := 0, samplerate := 0, selftest := 0, mode := 0, handle := 0,
    tsample := 0, ctx := false }

/-- Source function `ruuvi_interface_lis2dh12_uninit`. The result is the status, the
world and the sensor structure behind the pointer. -/
def ruuvi_interface_lis2dh12_uninit (k : Consts) (w : World)
    (sensor : Option ruuvi_driver_sensor_t) (_bus _handle : Nat) :
    Nat × World × Option ruuvi_driver_sensor_t :=
  match sensor with
  | none => (k.RUUVI_DRIVER_ERROR_NULL, w, none)
  | some s =>
    let s1 := ruuvi_driver_sensor_uninitialize s
    let w1 := w.set_samplerate k.LIS2DH12_POWER_DOWN
    -- LIS2DH12 function returns SPI write result which is ruuvi_driver_status_t
    let r := lis2dh12_data_rate_set w1 w1.dev.samplerate
    (r.1, { r.2 with dev := Dev.zero }, some s1)

/-! ## Calls through the sensor interface, `ruuvi_driver_sensor_configuration_set` and `_get` -/

/-- A call `fp(value)` through a pointer of the type `ruuvi_driver_sensor_setup_fp`,
for each function of that type in the sources. The result is the status, the world
and `*value`; it is `none` for NULL and for a function of another type, where the
call is undefined in C. -/
def call_setup_fp (k : Consts) (w : World) (fp : FnPtr) (value : Option Nat) :
    Option (Nat × World × Option Nat) :=
  match fp with
  | FnPtr.ruuvi_driver_setup_ni => some (ruuvi_driver_setup_ni k value, w, value)
  | FnPtr.ruuvi_interface_lis2dh12_samplerate_set =>
    some (ruuvi_interface_lis2dh12_samplerate_set k w value)
  | FnPtr.ruuvi_interface_lis2dh12_samplerate_get =>
    some (ruuvi_interface_lis2dh12_samplerate_get k w value)
  | FnPtr.ruuvi_interface_lis2dh12_resolution_set =>
    some (ruuvi_interface_lis2dh12_resolution_set k w value)
  | FnPtr.ruuvi_interface_lis2dh12_resolution_get =>
    some (ruuvi_interface_lis2dh12_resolution_get k w value)
  | FnPtr.ruuvi_interface_lis2dh12_scale_set =>
    some (ruuvi_interface_lis2dh12_scale_set k w value)
  | FnPtr.ruuvi_interface_lis2dh12_scale_get =>
    some (ruuvi_interface_lis2dh12_scale_get k w value)
  | FnPtr.ruuvi_interface_lis2dh12_mode_set =>
    some (ruuvi_interface_lis2dh12_mode_set k w value)
  | FnPtr.ruuvi_interface_lis2dh12_mode_get =>
    some ((ruuvi_interface_lis2dh12_mode_get k w value).1, w,
          (ruuvi_interface_lis2dh12_mode_get k w value).2)
  | _ => none

/-- A call `fp(dsp, parameter)` through a pointer of the type
`ruuvi_driver_sensor_dsp_fp`, for each function of that type in the sources; `none`
where the call is undefined in C (NULL, a function of another type, and `dsp_get`
with a NULL argument, which it writes through unchecked). -/
def call_dsp_fp (k : Consts) (w : World) (fp : FnPtr) (dsp parameter : Option Nat) :
    Option (Nat × World × Option Nat × Option Nat) :=
  match fp with
  | FnPtr.ruuvi_driver_dsp_ni => some (ruuvi_driver_dsp_ni k dsp parameter, w, dsp, parameter)
  | FnPtr.ruuvi_interface_lis2dh12_dsp_set =>
    some (ruuvi_interface_lis2dh12_dsp_set k w dsp parameter)
  | FnPtr.ruuvi_interface_lis2dh12_dsp_get =>
    match dsp, parameter with
    | some _, some _ =>
      some ((ruuvi_interface_lis2dh12_dsp_get k w).1, (ruuvi_interface_lis2dh12_dsp_get k w).2.1,
            some (ruuvi_interface_lis2dh12_dsp_get k w).2.2.1,
            some (ruuvi_interface_lis2dh12_dsp_get k w).2.2.2)
    | _, _ => none
  | _ => none

/-- Source function `ruuvi_driver_sensor_configuration_set`. The result is the status,
the world and the configuration behind the pointer `config`, whose fields the
setters overwrite; `none` when a call through a pointer of the sensor is undefined.
The local `sleep` that receives the output of the first `mode_set` is dropped. -/
def ruuvi_driver_sensor_configuration_set (k : Consts) (w : World)
    (sensor : Option ruuvi_driver_sensor_t)
    (config : Option ruuvi_driver_sensor_configuration_t) :
    Option (Nat × World × Option ruuvi_driver_sensor_configuration_t) :=
  match sensor, config with
  | none, _ => some (k.RUUVI_DRIVER_ERROR_NULL, w, config)
  | _, none => some (k.RUUVI_DRIVER_ERROR_NULL, w, config)
  | some s, some c =>
    if FnPtr.NULL = s.samplerate_set then some (k.RUUVI_DRIVER_ERROR_INVALID_STATE, w, some c)
    else
      let err_code := RUUVI_DRIVER_SUCCESS
      let sleep := k.RUUVI_DRIVER_SENSOR_CFG_SLEEP
      (call_setup_fp k w s.mode_set (some sleep)).bind fun r1 =>
      (call_setup_fp k r1.2.1 s.samplerate_set (some c.samplerate)).bind fun r2 =>
      (call_setup_fp k r2.2.1 s.resolution_set (some c.resolution)).bind fun r3 =>
      (call_setup_fp k r3.2.1 s.scale_set (some c.scale)).bind fun r4 =>
      (call_dsp_fp k r4.2.1 s.dsp_set (some c.dsp_function) (some c.dsp_parameter)).bind
        fun r5 =>
      (call_setup_fp k r5.2.1 s.mode_set (some c.mode)).bind fun r6 =>
      some ((((((err_code ||| r1.1) ||| r2.1) ||| r3.1) ||| r4.1) ||| r5.1) ||| r6.1,
            r6.2.1,
            some { samplerate := r2.2.2.getD c.samplerate
                   resolution := r3.2.2.getD c.resolution
                   scale := r4.2.2.getD c.scale
                   dsp_function := r5.2.2.1.getD c.dsp_function
                   dsp_parameter := r5.2.2.2.getD c.dsp_parameter
                   mode := r6.2.2.getD c.mode })

/-- Source function `ruuvi_driver_sensor_configuration_get`, see
`ruuvi_driver_sensor_configuration_set`. -/
def ruuvi_driver_sensor_configuration_get (k : Consts) (w : World)
    (sensor : Option ruuvi_driver_sensor_t)
    (config : Option ruuvi_driver_sensor_configuration_t) :
    Option (Nat × World × Option ruuvi_driver_sensor_configuration_t) :=
  match sensor, config with
  | none, _ => some (k.RUUVI_DRIVER_ERROR_NULL, w, config)
  | _, none => some (k.RUUVI_DRIVER_ERROR_NULL, w, config)
  | some s, some c =>
    if FnPtr.NULL = s.samplerate_set then some (k.RUUVI_DRIVER_ERROR_INVALID_STATE, w, some c)
    else
      let err_code := RUUVI_DRIVER_SUCCESS
      (call_setup_fp k w s.samplerate_get (some c.samplerate)).bind fun r1 =>
      (call_setup_fp k r1.2.1 s.resolution_get (some c.resolution)).bind fun r2 =>
      (call_setup_fp k r2.2.1 s.scale_get (some c.scale)).bind fun r3 =>
      (call_dsp_fp k r3.2.1 s.dsp_get (some c.dsp_function) (some c.dsp_parameter)).bind
        fun r4 =>
      (call_setup_fp k r4.2.1 s.mode_get (some c.mode)).bind fun r5 =>
      some (((((err_code ||| r1.1) ||| r2.1) ||| r3.1) ||| r4.1) ||| r5.1,
            r5.2.1,
            some { samplerate := r1.2.2.getD c.samplerate
                   resolution := r2.2.2.getD c.resolution
                   scale := r3.2.2.getD c.scale
                   dsp_function := r4.2.2.1.getD c.dsp_function
                   dsp_parameter := r4.2.2.2.getD c.dsp_parameter
                   mode := r5.2.2.getD c.mode })

/-- The constants as the upstream headers `ruuvi_driver_error.h`,
`ruuvi_driver_sensor.h`, `ruuvi_interface_lis2dh12.h` and `lis2dh12_reg.h` define
them. Upstream `RUUVI_DRIVER_FLOAT_INVALID` is not a number; here it is a rational
that no conversion of a raw sample yields. -/
def ruuviConsts : Consts where
  RUUVI_DRIVER_ERROR_INTERNAL := 1
  RUUVI_DRIVER_ERROR_NOT_SUPPORTED := 8
  RUUVI_DRIVER_ERROR_INVALID_PARAM := 16
  RUUVI_DRIVER_ERROR_INVALID_STATE := 32
  RUUVI_DRIVER_ERROR_NULL := 2048
  RUUVI_DRIVER_ERROR_NOT_FOUND := 4
  RUUVI_DRIVER_ERROR_NOT_IMPLEMENTED := 65536
  RUUVI_DRIVER_ERROR_SELFTEST := 131072
  RUUVI_DRIVER_ERROR_NOT_INITIALIZED := 524288
  RUUVI_DRIVER_FLOAT_INVALID := -1000000
  RUUVI_DRIVER_UINT64_INVALID := 2 ^ 64 - 1
  RUUVI_INTERFACE_LOG_ERROR := 1
  RUUVI_INTERFACE_LOG_WARNING := 2
  RUUVI_DRIVER_BUS_SPI := 1
  RUUVI_DRIVER_BUS_I2C := 2
  RUUVI_INTERFACE_LIS2DH12_SELFTEST_DIFF_MIN := 17
  RUUVI_INTERFACE_LIS2DH12_SELFTEST_DIFF_MAX := 360
  FILE := "src/interfaces/acceleration/ruuvi_interface_lis2dh12.c"
  RUUVI_DRIVER_SENSOR_CFG_DEFAULT := 0
  RUUVI_DRIVER_SENSOR_CFG_CUSTOM_1 := 0xC9
  RUUVI_DRIVER_SENSOR_CFG_CUSTOM_2 := 0xCA
  RUUVI_DRIVER_SENSOR_CFG_CUSTOM_3 := 0xCB
  RUUVI_DRIVER_SENSOR_ERR_INVALID := 0xE0
  RUUVI_DRIVER_SENSOR_ERR_NOT_SUPPORTED := 0xE2
  RUUVI_DRIVER_SENSOR_CFG_MIN := 0xF0
  RUUVI_DRIVER_SENSOR_CFG_MAX := 0xF1
  RUUVI_DRIVER_SENSOR_CFG_SLEEP := 0xFA
  RUUVI_DRIVER_SENSOR_CFG_SINGLE := 0xFB
  RUUVI_DRIVER_SENSOR_CFG_CONTINUOUS := 0xFC
  RUUVI_DRIVER_SENSOR_CFG_NO_CHANGE := 0xFF
  RUUVI_DRIVER_SENSOR_DSP_LAST := 0
  RUUVI_DRIVER_SENSOR_DSP_HIGH_PASS := 4
  LIS2DH12_POWER_DOWN := 0
  LIS2DH12_ODR_1Hz := 1
  LIS2DH12_ODR_10Hz := 2
  LIS2DH12_ODR_25Hz := 3
  LIS2DH12_ODR_50Hz := 4
  LIS2DH12_ODR_100Hz := 5
  LIS2DH12_ODR_200Hz := 6
  LIS2DH12_ODR_400Hz := 7
  LIS2DH12_ODR_1kHz620_LP := 8
  LIS2DH12_ODR_5kHz376_LP_1kHz344_NM_HP := 9
  LIS2DH12_HR_12bit := 0
  LIS2DH12_NM_10bit := 1
  LIS2DH12_LP_8bit := 2
  LIS2DH12_2g := 0
  LIS2DH12_4g := 1
  LIS2DH12_8g := 2
  LIS2DH12_16g := 3
  LIS2DH12_AGGRESSIVE := 0
  LIS2DH12_STRONG := 1
  LIS2DH12_MEDIUM := 2
  LIS2DH12_LIGHT := 3
  LIS2DH12_NORMAL := 2
  PROPERTY_DISABLE := 0
  PROPERTY_ENABLE := 1
  LIS2DH12_ID := 0x33
  LIS2DH12_CTRL_REG1 := 0x20
  LIS2DH12_ST_DISABLE := 0
  LIS2DH12_ST_POSITIVE := 1
  LIS2DH12_ST_NEGATIVE := 2
  LIS2DH12_TEMP_ENABLE := 3
  LIS2DH12_BYPASS_MODE := 0
  LIS2DH12_DYNAMIC_STREAM_MODE := 2
  LIS2DH12_ON_INT1_GEN := 1

/-- A world for the concrete evaluations: the driver in SLEEP mode with the settings
`init` leaves (2 g, 10 bit, powered down) on a chip holding the same settings, with a
bus that always succeeds and a registered clock at 1000 ms. -/
def sleepWorld : World where
  dev := { resolution := 1, scale := 0, samplerate := 0, selftest := 0, mode := 0xFA,
           handle := 0, tsample := 0, ctx := true }
  hw := { odr := 0, op_md := 1, fs := 0, hpcf := 0, hpm := 0, fds := 0 }
  bus := fun _ => 0
  junk := fun _ => 0
  tick := 0
  now := 1000
  millis := true
  trace := []

/-- The world of `sleepWorld` after the driver was configured to 10 Hz and switched
to CONTINUOUS: the chip samples at 10 Hz. -/
def continuousWorld : World :=
  { sleepWorld with
    dev := { sleepWorld.dev with mode := 0xFC, samplerate := 2 },
    hw := { sleepWorld.hw with odr := 2 },
    tick := 3,
    trace := [Event.data_rate_set 2, Event.data_rate_set 2] }

/-- The world reached from `sleepWorld` through the driver by `samplerate_set(10)`,
`mode_set(CONTINUOUS)` and `mode_set(SLEEP)`: the driver sleeps with 10 Hz configured
and the chip is powered down. -/
def pausedWorld : World :=
  let w1 := (ruuvi_interface_lis2dh12_samplerate_set ruuviConsts sleepWorld (some 10)).2.1
  let w2 := (ruuvi_interface_lis2dh12_mode_set ruuviConsts w1
    (some ruuviConsts.RUUVI_DRIVER_SENSOR_CFG_CONTINUOUS)).2.1
  (ruuvi_interface_lis2dh12_mode_set ruuviConsts w2
    (some ruuviConsts.RUUVI_DRIVER_SENSOR_CFG_SLEEP)).2.1

/-! ## Definitions that state the claims, and concrete values -/

/-- Spec side, self-test: the absolute difference between the new and the baseline
sample of axis `ii` in 10 bit units, that is the difference of the left-justified
16 bit values divided by 64. -/
def spec_selftest_delta (new old : axis3bit16_t) (ii : Nat) : Nat :=
  (new.i16bit ii - old.i16bit ii).natAbs / 64

/-- Spec side, self-test: the delta of axis `ii` lies within the band
`[SELFTEST_DIFF_MIN, SELFTEST_DIFF_MAX]`. -/
def spec_selftest_in_band (k : Consts) (new old : axis3bit16_t) (ii : Nat) : Prop :=
  k.RUUVI_INTERFACE_LIS2DH12_SELFTEST_DIFF_MIN ≤ spec_selftest_delta new old ii ∧
  spec_selftest_delta new old ii ≤ k.RUUVI_INTERFACE_LIS2DH12_SELFTEST_DIFF_MAX

/-- The two samples are left-justified 10 bit values on axis `ii` (multiples of 64)
and their difference fits `int16_t`. -/
def left_justified_in_range (new old : axis3bit16_t) (ii : Nat) : Prop :=
  (64 : Int) ∣ new.i16bit ii ∧ (64 : Int) ∣ old.i16bit ii ∧
  -32768 ≤ new.i16bit ii - old.i16bit ii ∧ new.i16bit ii - old.i16bit ii ≤ 32767

/-- The status `s` contains the error `e`: every bit of `e` is set in `s`. -/
def status_contains (s e : Nat) : Prop := s &&& e = e

/-- The value of the last `self_test_set` that a trace records. -/
def last_self_test_write (trace : List Event) : Option Nat :=
  (trace.filterMap (fun e => match e with
    | Event.self_test_set v => some v
    | _ => none)).getLast?

/-- The value of the last `data_rate_set` that a trace records. -/
def last_data_rate_write (trace : List Event) : Option Nat :=
  (trace.filterMap (fun e => match e with
    | Event.data_rate_set v => some v
    | _ => none)).getLast?

/-- Spec side: the conversion function that belongs to each supported pair of a scale
code and a resolution code, by the names of the functions of the ST driver. -/
def spec_acceleration_conversion (k : Consts) (c : Codec) : List (Nat × Nat × (Int → ℚ)) :=
  [(k.LIS2DH12_2g, k.LIS2DH12_LP_8bit, c.lis2dh12_from_fs2_lp_to_mg),
   (k.LIS2DH12_2g, k.LIS2DH12_NM_10bit, c.lis2dh12_from_fs2_nm_to_mg),
   (k.LIS2DH12_2g, k.LIS2DH12_HR_12bit, c.lis2dh12_from_fs2_hr_to_mg),
   (k.LIS2DH12_4g, k.LIS2DH12_LP_8bit, c.lis2dh12_from_fs4_lp_to_mg),
   (k.LIS2DH12_4g, k.LIS2DH12_NM_10bit, c.lis2dh12_from_fs4_nm_to_mg),
   (k.LIS2DH12_4g, k.LIS2DH12_HR_12bit, c.lis2dh12_from_fs4_hr_to_mg),
   (k.LIS2DH12_8g, k.LIS2DH12_LP_8bit, c.lis2dh12_from_fs8_lp_to_mg),
   (k.LIS2DH12_8g, k.LIS2DH12_NM_10bit, c.lis2dh12_from_fs8_nm_to_mg),
   (k.LIS2DH12_8g, k.LIS2DH12_HR_12bit, c.lis2dh12_from_fs8_hr_to_mg),
   (k.LIS2DH12_16g, k.LIS2DH12_LP_8bit, c.lis2dh12_from_fs16_lp_to_mg),
   (k.LIS2DH12_16g, k.LIS2DH12_NM_10bit, c.lis2dh12_from_fs16_nm_to_mg),
   (k.LIS2DH12_16g, k.LIS2DH12_HR_12bit, c.lis2dh12_from_fs16_hr_to_mg)]

/-- Spec side: the temperature conversion function that belongs to each supported
resolution code. -/
def spec_temperature_conversion (k : Consts) (c : Codec) : List (Nat × (Int → ℚ)) :=
  [(k.LIS2DH12_LP_8bit, c.lis2dh12_from_lsb_lp_to_celsius),
   (k.LIS2DH12_NM_10bit, c.lis2dh12_from_lsb_nm_to_celsius),
   (k.LIS2DH12_HR_12bit, c.lis2dh12_from_lsb_hr_to_celsius)]

/-- A sequence of calls of `ruuvi_driver_error_check`, each given by its arguments
error, non-fatal mask, file and line. -/
def error_checks (k : Consts) (w : World) (calls : List (Nat × Nat × String × Nat)) : World :=
  calls.foldl (fun x c => ruuvi_driver_error_check k x c.1 c.2.1 c.2.2.1 c.2.2.2) w

/-- Spec side: `name` is `file` with the directory part removed, that is the part up
to the last slash, or, when there is no slash, up to the last backslash
(`Char.ofNat 92`); a path without either is its own name. -/
def spec_file_name (file name : List Char) : Prop :=
  (∃ dir, file = dir ++ '/' :: name ∧ '/' ∉ name) ∨
  ('/' ∉ file ∧ ∃ dir, file = dir ++ Char.ofNat 92 :: name ∧ Char.ofNat 92 ∉ name) ∨
  ('/' ∉ file ∧ Char.ofNat 92 ∉ file ∧ name = file)

/-- Spec side: the raw temperature as the `int16_t` that its two bytes form. -/
def spec_temperature_lsb (raw_temperature : List Nat) : Int :=
  int16_t_of (((raw_temperature.getD 1 0 <<< 8) ||| raw_temperature.getD 0 0 : Nat) : Int)

/-- The local `d_acceleration` that the loop of the FIFO read builds from the `n`-th
bus operation: the raw sample converted to g, the three acceleration fields valid,
and no time stamp assigned (the indeterminate value `junk n`). -/
def fifo_sample (k : Consts) (c : Codec) (w : World) (n : Nat) : ruuvi_driver_sensor_data_t :=
  { timestamp_ms := w.junk n
    fields := { acceleration_x_g := true, acceleration_y_g := true, acceleration_z_g := true,
                temperature_c := false }
    valid := { acceleration_x_g := true, acceleration_y_g := true, acceleration_z_g := true,
               temperature_c := false }
    data := (rawToMg k c w (w.accel n)).2.map (fun a => a / 1000) }

/-- Modelled from the spec: the ST driver `lis2dh12_reg.c` is not among the sources.
The conversion functions as the upstream ST driver defines them: linear in the raw
value, with the offset 25 degrees for the temperature. -/
def stCodec : Codec where
  lis2dh12_from_fs2_hr_to_mg := fun lsb => (lsb : ℚ) / 16 * 1
  lis2dh12_from_fs4_hr_to_mg := fun lsb => (lsb : ℚ) / 16 * 2
  lis2dh12_from_fs8_hr_to_mg := fun lsb => (lsb : ℚ) / 16 * 4
  lis2dh12_from_fs16_hr_to_mg := fun lsb => (lsb : ℚ) / 16 * 12
  lis2dh12_from_fs2_nm_to_mg := fun lsb => (lsb : ℚ) / 64 * 4
  lis2dh12_from_fs4_nm_to_mg := fun lsb => (lsb : ℚ) / 64 * 8
  lis2dh12_from_fs8_nm_to_mg := fun lsb => (lsb : ℚ) / 64 * 16
  lis2dh12_from_fs16_nm_to_mg := fun lsb => (lsb : ℚ) / 64 * 48
  lis2dh12_from_fs2_lp_to_mg := fun lsb => (lsb : ℚ) / 256 * 16
  lis2dh12_from_fs4_lp_to_mg := fun lsb => (lsb : ℚ) / 256 * 32
  lis2dh12_from_fs8_lp_to_mg := fun lsb => (lsb : ℚ) / 256 * 64
  lis2dh12_from_fs16_lp_to_mg := fun lsb => (lsb : ℚ) / 256 * 192
  lis2dh12_from_lsb_hr_to_celsius := fun lsb => (lsb : ℚ) / 64 / 4 + 25
  lis2dh12_from_lsb_nm_to_celsius := fun lsb => (lsb : ℚ) / 64 / 4 + 25
  lis2dh12_from_lsb_lp_to_celsius := fun lsb => (lsb : ℚ) / 256 * 1 + 25

/-- A sensor structure as a caller hands it to init: no pointer set. -/
def blankSensor : ruuvi_driver_sensor_t where
  init := FnPtr.NULL
  uninit := FnPtr.NULL
  samplerate_set := FnPtr.NULL
  samplerate_get := FnPtr.NULL
  resolution_set := FnPtr.NULL
  resolution_get := FnPtr.NULL
  scale_set := FnPtr.NULL
  scale_get := FnPtr.NULL
  dsp_set := FnPtr.NULL
  dsp_get := FnPtr.NULL
  mode_set := FnPtr.NULL
  mode_get := FnPtr.NULL
  data_get := FnPtr.NULL
  configuration_set := FnPtr.NULL
  configuration_get := FnPtr.NULL
  fifo_enable := FnPtr.NULL
  fifo_interrupt_enable := FnPtr.NULL
  fifo_read := FnPtr.NULL
  level_interrupt_set := FnPtr.NULL
  name := ""
  provides := { acceleration_x_g := false, acceleration_y_g := false,
                acceleration_z_g := false, temperature_c := false }

/-- The world before init: the zero-initialized `dev`, a LIS2DH12 on a bus that
always succeeds, and the raw samples `accel` for the reads of the self-test. -/
def preInitWorld (accel : Nat → axis3bit16_t) : World where
  dev := { resolution := 0, scale := 0, samplerate := 0, selftest := 0, mode := 0,
           handle := 0, tsample := 0, ctx := false }
  hw := { odr := 0, op_md := 0, fs := 0, hpcf := 0, hpm := 0, fds := 0, who_am_i := 0x33 }
  bus := fun _ => 0
  junk := fun _ => 0
  tick := 0
  now := 1000
  millis := true
  trace := []
  accel := accel

/-- Raw samples for the self-test of init on `preInitWorld`, by the number of the bus
operation that reads them. Operation 17 reads the baseline and 19 the sample of the
positive self-test: on the x axis the difference is -1087, less than 17 units of 64.
Operation 21 reads the baseline and 23 the sample of the negative self-test: on the
x axis the difference is 49088, or 767 units of 64. Every other delta is 100 units. -/
def selftestSamples (n : Nat) : axis3bit16_t :=
  if n = 17 then ⟨1087, 0, 0⟩
  else if n = 19 then ⟨0, 6400, 6400⟩
  else if n = 21 then ⟨-16384, 0, 0⟩
  else if n = 23 then ⟨32704, 6400, 6400⟩
  else ⟨0, 0, 0⟩

/-- An instance of the parameter `populate` for the concrete evaluations: where a
requested field is valid in `provided` it takes the provided values and marks the
field valid; it leaves the time stamp of the target alone. -/
def populate_requested : Populate := fun target provided requested =>
  if (provided.valid.acceleration_x_g && requested.acceleration_x_g) ||
     (provided.valid.acceleration_y_g && requested.acceleration_y_g) ||
     (provided.valid.acceleration_z_g && requested.acceleration_z_g) ||
     (provided.valid.temperature_c && requested.temperature_c) then
    { target with
      data := provided.data
      valid :=
        { acceleration_x_g :=
            target.valid.acceleration_x_g ||
              (provided.valid.acceleration_x_g && requested.acceleration_x_g)
          acceleration_y_g :=
            target.valid.acceleration_y_g ||
              (provided.valid.acceleration_y_g && requested.acceleration_y_g)
          acceleration_z_g :=
            target.valid.acceleration_z_g ||
              (provided.valid.acceleration_z_g && requested.acceleration_z_g)
          temperature_c :=
            target.valid.temperature_c ||
              (provided.valid.temperature_c && requested.temperature_c) } }
  else target

/-- A buffer entry of a caller that requests the three accelerations and holds the
time stamp `ts` from an earlier use. -/
def staleEntry (ts : Nat) : ruuvi_driver_sensor_data_t where
  timestamp_ms := ts
  fields := { acceleration_x_g := true, acceleration_y_g := true, acceleration_z_g := true,
              temperature_c := false }
  valid := { acceleration_x_g := false, acceleration_y_g := false, acceleration_z_g := false,
             temperature_c := false }
  data := [0, 0, 0]

/-- The world of `sleepWorld` with ten samples queued in the FIFO. -/
def fifoWorld : World :=
  { sleepWorld with hw := { sleepWorld.hw with fss := 10 } }

/-- The world of `sleepWorld` on a bus that fails every operation with the status
1024 (`RUUVI_DRIVER_ERROR_TIMEOUT` upstream) and delivers 0 from a failed read. -/
def timeoutWorld : World :=
  { sleepWorld with bus := fun _ => 1024 }

/-- The world of `sleepWorld` with the high-pass filter on the outputs enabled and
the cutoff code `LIS2DH12_MEDIUM`. -/
def highPassWorld : World :=
  { sleepWorld with hw := { sleepWorld.hw with hpcf := 2, fds := 1 } }

/-- The world after the calls `samplerate_set(r)`, `mode_set(CONTINUOUS)` and
`mode_set(SLEEP)` of the driver, made in this order from the world `w`. -/
def paused_after (k : Consts) (w : World) (r : Nat) : World :=
  let w1 := (ruuvi_interface_lis2dh12_samplerate_set k w (some r)).2.1
  let w2 := (ruuvi_interface_lis2dh12_mode_set k w1
    (some k.RUUVI_DRIVER_SENSOR_CFG_CONTINUOUS)).2.1
  (ruuvi_interface_lis2dh12_mode_set k w2 (some k.RUUVI_DRIVER_SENSOR_CFG_SLEEP)).2.1

/-- The sensor structure after a successful init of the LIS2DH12 driver on
`blankSensor`: every pointer is the function that init assigns. -/
def lis2dh12Sensor : ruuvi_driver_sensor_t where
  init := FnPtr.ruuvi_interface_lis2dh12_init
  uninit := FnPtr.ruuvi_interface_lis2dh12_uninit
  samplerate_set := FnPtr.ruuvi_interface_lis2dh12_samplerate_set
  samplerate_get := FnPtr.ruuvi_interface_lis2dh12_samplerate_get
  resolution_set := FnPtr.ruuvi_interface_lis2dh12_resolution_set
  resolution_get := FnPtr.ruuvi_interface_lis2dh12_resolution_get
  scale_set := FnPtr.ruuvi_interface_lis2dh12_scale_set
  scale_get := FnPtr.ruuvi_interface_lis2dh12_scale_get
  dsp_set := FnPtr.ruuvi_interface_lis2dh12_dsp_set
  dsp_get := FnPtr.ruuvi_interface_lis2dh12_dsp_get
  mode_set := FnPtr.ruuvi_interface_lis2dh12_mode_set
  mode_get := FnPtr.ruuvi_interface_lis2dh12_mode_get
  data_get := FnPtr.ruuvi_interface_lis2dh12_data_get
  configuration_set := FnPtr.ruuvi_driver_sensor_configuration_set
  configuration_get := FnPtr.ruuvi_driver_sensor_configuration_get
  fifo_enable := FnPtr.ruuvi_interface_lis2dh12_fifo_use
  fifo_interrupt_enable := FnPtr.ruuvi_interface_lis2dh12_fifo_interrupt_use
  fifo_read := FnPtr.ruuvi_interface_lis2dh12_fifo_read
  level_interrupt_set := FnPtr.ruuvi_interface_lis2dh12_activity_interrupt_use
  name := "LIS2DH12"
  provides := { acceleration_x_g := true, acceleration_y_g := true,
                acceleration_z_g := true, temperature_c := true }

/-- The world of `preInitWorld` with a chip that answers the identifier read with
0x32, which is not `LIS2DH12_ID`. -/
def wrongChipWorld : World :=
  { preInitWorld (fun _ => ⟨0, 0, 0⟩) with
    hw := { (preInitWorld (fun _ => ⟨0, 0, 0⟩)).hw with who_am_i := 0x32 } }

/-- The world of `timeoutWorld` with one sample queued in the FIFO: the level read
fails and delivers 0. -/
def fifoTimeoutWorld : World :=
  { timeoutWorld with hw := { timeoutWorld.hw with fss := 1 } }

/-! ## Auxiliary facts -/

theorem lor_eq_zero {a b : Nat} (h : a ||| b = 0) : a = 0 ∧ b = 0 := by
  have hbit : ∀ i, (a.testBit i || b.testBit i) = false := by
    intro i
    rw [← Nat.testBit_or, h, Nat.zero_testBit]
  constructor
  · apply Nat.eq_of_testBit_eq
    intro i
    have := hbit i
    simp only [Bool.or_eq_false_iff] at this
    rw [this.1, Nat.zero_testBit]
  · apply Nat.eq_of_testBit_eq
    intro i
    have := hbit i
    simp only [Bool.or_eq_false_iff] at this
    rw [this.2, Nat.zero_testBit]

theorem VERIFY_SENSOR_SLEEPS_sleep (k : Consts) (w : World)
    (hm : w.dev.mode = k.RUUVI_DRIVER_SENSOR_CFG_SLEEP) : VERIFY_SENSOR_SLEEPS k w = none := by
  simp [VERIFY_SENSOR_SLEEPS, ruuvi_interface_lis2dh12_mode_get, hm]

theorem VERIFY_SENSOR_SLEEPS_continuous (k : Consts) (hk : k.WF) (w : World)
    (hm : w.dev.mode = k.RUUVI_DRIVER_SENSOR_CFG_CONTINUOUS) :
    VERIFY_SENSOR_SLEEPS k w = some k.RUUVI_DRIVER_ERROR_INVALID_STATE := by
  have h := hk.modes
  simp only [List.nodup_cons, List.mem_cons, List.mem_singleton, not_or, List.not_mem_nil,
    not_false_eq_true, List.nodup_nil, and_true] at h
  have h1 : ¬ k.RUUVI_DRIVER_SENSOR_CFG_CONTINUOUS = k.RUUVI_DRIVER_SENSOR_CFG_SLEEP :=
    fun e => h.1.2 e.symm
  simp [VERIFY_SENSOR_SLEEPS, ruuvi_interface_lis2dh12_mode_get, hm, h1, h.1.2]

/-- With a succeeding bus the rate getter reports, for each rate code the chip can
hold, the value of the `switch`, and stores the code in `dev.samplerate`. -/
theorem samplerate_get_code (k : Consts) (hk : k.WF) (x : World) (p : Nat)
    (hb : x.bus x.tick = 0) (cv : Nat × Nat)
    (hcv : cv ∈ [(k.LIS2DH12_ODR_1Hz, 1), (k.LIS2DH12_ODR_10Hz, 10), (k.LIS2DH12_ODR_25Hz, 25),
      (k.LIS2DH12_ODR_50Hz, 50), (k.LIS2DH12_ODR_100Hz, 100), (k.LIS2DH12_ODR_200Hz, 200),
      (k.LIS2DH12_ODR_400Hz, k.RUUVI_DRIVER_SENSOR_CFG_CUSTOM_1),
      (k.LIS2DH12_ODR_5kHz376_LP_1kHz344_NM_HP, k.RUUVI_DRIVER_SENSOR_CFG_MAX),
      (k.LIS2DH12_ODR_1kHz620_LP, k.RUUVI_DRIVER_SENSOR_CFG_CUSTOM_2)])
    (hc : x.hw.odr = cv.1) :
    ruuvi_interface_lis2dh12_samplerate_get k x (some p) =
      (RUUVI_DRIVER_SUCCESS,
       { x with dev := { x.dev with samplerate := cv.1 }, tick := x.tick + 1 }, some cv.2) := by
  have h := hk.odr_labels
  have h2 := List.nodup_reverse.mpr h
  simp only [List.nodup_cons, List.mem_cons, List.mem_singleton, not_or, List.not_mem_nil,
    not_false_eq_true, List.nodup_nil, and_true, List.reverse_cons, List.reverse_nil,
    List.nil_append, List.cons_append] at h h2
  simp only [List.mem_cons, List.mem_singleton, List.not_mem_nil, or_false] at hcv
  rcases hcv with rfl | rfl | rfl | rfl | rfl | rfl | rfl | rfl | rfl <;>
    simp [ruuvi_interface_lis2dh12_samplerate_get, lis2dh12_data_rate_get, hb, hc, h, h2,
      RUUVI_DRIVER_SUCCESS]

/-- In SLEEP mode with a succeeding bus a literal request `1 ≤ r ≤ 200` selects the
smallest supported rate that is at least `r`, writes its code to the chip, reads it
back and reports its value. -/
theorem samplerate_set_literal (k : Consts) (hk : k.WF) (w : World)
    (hm : w.dev.mode = k.RUUVI_DRIVER_SENSOR_CFG_SLEEP) (hb : BusOk w)
    (r : Nat) (h1 : 1 ≤ r) (h2 : r ≤ 200) :
    ∃ cv ∈ [(k.LIS2DH12_ODR_1Hz, 1), (k.LIS2DH12_ODR_10Hz, 10), (k.LIS2DH12_ODR_25Hz, 25),
        (k.LIS2DH12_ODR_50Hz, 50), (k.LIS2DH12_ODR_100Hz, 100), (k.LIS2DH12_ODR_200Hz, 200)],
      r ≤ cv.2 ∧ (∀ u ∈ [1, 10, 25, 50, 100, 200], r ≤ u → cv.2 ≤ u) ∧
      ruuvi_interface_lis2dh12_samplerate_set k w (some r) =
        (RUUVI_DRIVER_SUCCESS,
         { w with dev := { w.dev with samplerate := cv.1 }, hw := { w.hw with odr := cv.1 },
                  tick := w.tick + 2, trace := w.trace ++ [Event.data_rate_set cv.1] },
         some cv.2) := by
  have h := hk.odr_labels
  have hr := List.nodup_reverse.mpr h
  simp only [List.nodup_cons, List.mem_cons, List.mem_singleton, not_or, List.not_mem_nil,
    not_false_eq_true, List.nodup_nil, and_true, List.reverse_cons, List.reverse_nil,
    List.nil_append, List.cons_append] at h hr
  have hd := hk.default_range
  have hn := hk.no_change_range
  have hmin := hk.min_range
  have hmax := hk.max_range
  have e1 : k.RUUVI_DRIVER_SENSOR_CFG_NO_CHANGE ≠ r := by omega
  have e2 : k.RUUVI_DRIVER_SENSOR_CFG_MIN ≠ r := by omega
  have e3 : k.RUUVI_DRIVER_SENSOR_CFG_MAX ≠ r := by omega
  have e4 : k.RUUVI_DRIVER_SENSOR_CFG_DEFAULT ≠ r := by omega
  have hb0 := hb w.tick
  have hb1 := hb (w.tick + 1)
  have hcases : r = 1 ∨ (1 < r ∧ r ≤ 10) ∨ (10 < r ∧ r ≤ 25) ∨ (25 < r ∧ r ≤ 50) ∨
      (50 < r ∧ r ≤ 100) ∨ (100 < r ∧ r ≤ 200) := by omega
  rcases hcases with c | c | c | c | c | c
  · refine ⟨(k.LIS2DH12_ODR_1Hz, 1), by simp, by simp; omega, ?_, ?_⟩
    · intro u hu; simp at hu; omega
    · subst c
      simp [ruuvi_interface_lis2dh12_samplerate_set, samplerate_set_select,
        VERIFY_SENSOR_SLEEPS_sleep k w hm, e1, e2,
        e3, e4, ruuvi_interface_lis2dh12_samplerate_get, lis2dh12_data_rate_set,
        lis2dh12_data_rate_get, hb0, hb1, RUUVI_DRIVER_SUCCESS, World.set_samplerate, h, hr]
  · refine ⟨(k.LIS2DH12_ODR_10Hz, 10), by simp, by simp; omega, ?_, ?_⟩
    · intro u hu; simp at hu; omega
    · have c1 : ¬ 1 = r := by omega
      simp [ruuvi_interface_lis2dh12_samplerate_set, samplerate_set_select,
        VERIFY_SENSOR_SLEEPS_sleep k w hm, e1, e2,
        e3, e4, c1, c.2, ruuvi_interface_lis2dh12_samplerate_get, lis2dh12_data_rate_set,
        lis2dh12_data_rate_get, hb0, hb1, RUUVI_DRIVER_SUCCESS, World.set_samplerate, h, hr]
  · refine ⟨(k.LIS2DH12_ODR_25Hz, 25), by simp, by simp; omega, ?_, ?_⟩
    · intro u hu; simp at hu; omega
    · have c1 : ¬ 1 = r := by omega
      have c2 : ¬ r ≤ 10 := by omega
      simp [ruuvi_interface_lis2dh12_samplerate_set, samplerate_set_select,
        VERIFY_SENSOR_SLEEPS_sleep k w hm, e1, e2,
        e3, e4, c1, c2, c.2, ruuvi_interface_lis2dh12_samplerate_get, lis2dh12_data_rate_set,
        lis2dh12_data_rate_get, hb0, hb1, RUUVI_DRIVER_SUCCESS, World.set_samplerate, h, hr]
  · refine ⟨(k.LIS2DH12_ODR_50Hz, 50), by simp, by simp; omega, ?_, ?_⟩
    · intro u hu; simp at hu; omega
    · have c1 : ¬ 1 = r := by omega
      have c2 : ¬ r ≤ 10 := by omega
      have c3 : ¬ r ≤ 25 := by omega
      simp [ruuvi_interface_lis2dh12_samplerate_set, samplerate_set_select,
        VERIFY_SENSOR_SLEEPS_sleep k w hm, e1, e2,
        e3, e4, c1, c2, c3, c.2, ruuvi_interface_lis2dh12_samplerate_get,
        lis2dh12_data_rate_set, lis2dh12_data_rate_get, hb0, hb1, RUUVI_DRIVER_SUCCESS,
        World.set_samplerate, h, hr]
  · refine ⟨(k.LIS2DH12_ODR_100Hz, 100), by simp, by simp; omega, ?_, ?_⟩
    · intro u hu; simp at hu; omega
    · have c1 : ¬ 1 = r := by omega
      have c2 : ¬ r ≤ 10 := by omega
      have c3 : ¬ r ≤ 25 := by omega
      have c4 : ¬ r ≤ 50 := by omega
      simp [ruuvi_interface_lis2dh12_samplerate_set, samplerate_set_select,
        VERIFY_SENSOR_SLEEPS_sleep k w hm, e1, e2,
        e3, e4, c1, c2, c3, c4, c.2, ruuvi_interface_lis2dh12_samplerate_get,
        lis2dh12_data_rate_set, lis2dh12_data_rate_get, hb0, hb1, RUUVI_DRIVER_SUCCESS,
        World.set_samplerate, h, hr]
  · refine ⟨(k.LIS2DH12_ODR_200Hz, 200), by simp, by simp; omega, ?_, ?_⟩
    · intro u hu; simp at hu; omega
    · have c1 : ¬ 1 = r := by omega
      have c2 : ¬ r ≤ 10 := by omega
      have c3 : ¬ r ≤ 25 := by omega
      have c4 : ¬ r ≤ 50 := by omega
      have c5 : ¬ r ≤ 100 := by omega
      simp [ruuvi_interface_lis2dh12_samplerate_set, samplerate_set_select,
        VERIFY_SENSOR_SLEEPS_sleep k w hm, e1, e2,
        e3, e4, c1, c2, c3, c4, c5, c.2, ruuvi_interface_lis2dh12_samplerate_get,
        lis2dh12_data_rate_set, lis2dh12_data_rate_get, hb0, hb1, RUUVI_DRIVER_SUCCESS,
        World.set_samplerate, h, hr]

/-- In SLEEP mode with a succeeding bus a literal request `1 ≤ r ≤ 12` selects the
smallest supported resolution that is at least `r`. -/
theorem resolution_set_literal (k : Consts) (hk : k.WF) (w : World)
    (hm : w.dev.mode = k.RUUVI_DRIVER_SENSOR_CFG_SLEEP) (hb : BusOk w)
    (r : Nat) (h1 : 1 ≤ r) (h2 : r ≤ 12) :
    ∃ cv ∈ [(k.LIS2DH12_LP_8bit, 8), (k.LIS2DH12_NM_10bit, 10), (k.LIS2DH12_HR_12bit, 12)],
      r ≤ cv.2 ∧ (∀ u ∈ [8, 10, 12], r ≤ u → cv.2 ≤ u) ∧
      ruuvi_interface_lis2dh12_resolution_set k w (some r) =
        (RUUVI_DRIVER_SUCCESS,
         { w with dev := { w.dev with resolution := cv.1 }, hw := { w.hw with op_md := cv.1 },
                  tick := w.tick + 2, trace := w.trace ++ [Event.operating_mode_set cv.1] },
         some cv.2) := by
  have h := hk.op_md_labels
  have hr := List.nodup_reverse.mpr h
  simp only [List.nodup_cons, List.mem_cons, List.mem_singleton, not_or, List.not_mem_nil,
    not_false_eq_true, List.nodup_nil, and_true, List.reverse_cons, List.reverse_nil,
    List.nil_append, List.cons_append] at h hr
  have hd := hk.default_range
  have hn := hk.no_change_range
  have hmin := hk.min_range
  have hmax := hk.max_range
  have e1 : k.RUUVI_DRIVER_SENSOR_CFG_NO_CHANGE ≠ r := by omega
  have e2 : k.RUUVI_DRIVER_SENSOR_CFG_MIN ≠ r := by omega
  have e3 : k.RUUVI_DRIVER_SENSOR_CFG_MAX ≠ r := by omega
  have e4 : k.RUUVI_DRIVER_SENSOR_CFG_DEFAULT ≠ r := by omega
  have hb0 := hb w.tick
  have hb1 := hb (w.tick + 1)
  have hcases : r ≤ 8 ∨ (8 < r ∧ r ≤ 10) ∨ (10 < r ∧ r ≤ 12) := by omega
  rcases hcases with c | c | c
  · refine ⟨(k.LIS2DH12_LP_8bit, 8), by simp, by simp; omega, ?_, ?_⟩
    · intro u hu; simp at hu; omega
    · simp [ruuvi_interface_lis2dh12_resolution_set, resolution_set_select,
        VERIFY_SENSOR_SLEEPS_sleep k w hm, e1, e2,
        e3, e4, c, ruuvi_interface_lis2dh12_resolution_get, lis2dh12_operating_mode_set,
        lis2dh12_operating_mode_get, hb0, hb1, RUUVI_DRIVER_SUCCESS, World.set_resolution, h, hr]
  · refine ⟨(k.LIS2DH12_NM_10bit, 10), by simp, by simp; omega, ?_, ?_⟩
    · intro u hu; simp at hu; omega
    · have c1 : ¬ r ≤ 8 := by omega
      simp [ruuvi_interface_lis2dh12_resolution_set, resolution_set_select,
        VERIFY_SENSOR_SLEEPS_sleep k w hm, e1, e2,
        e3, e4, c1, c.2, ruuvi_interface_lis2dh12_resolution_get, lis2dh12_operating_mode_set,
        lis2dh12_operating_mode_get, hb0, hb1, RUUVI_DRIVER_SUCCESS, World.set_resolution, h, hr]
  · refine ⟨(k.LIS2DH12_HR_12bit, 12), by simp, by simp; omega, ?_, ?_⟩
    · intro u hu; simp at hu; omega
    · have c1 : ¬ r ≤ 8 := by omega
      have c2 : ¬ r ≤ 10 := by omega
      simp [ruuvi_interface_lis2dh12_resolution_set, resolution_set_select,
        VERIFY_SENSOR_SLEEPS_sleep k w hm, e1, e2,
        e3, e4, c1, c2, c.2, ruuvi_interface_lis2dh12_resolution_get,
        lis2dh12_operating_mode_set, lis2dh12_operating_mode_get, hb0, hb1,
        RUUVI_DRIVER_SUCCESS, World.set_resolution, h, hr]

/-- In SLEEP mode with a succeeding bus a literal request `1 ≤ s ≤ 16` selects the
smallest supported scale that is at least `s`. -/
theorem scale_set_literal (k : Consts) (hk : k.WF) (w : World)
    (hm : w.dev.mode = k.RUUVI_DRIVER_SENSOR_CFG_SLEEP) (hb : BusOk w)
    (s : Nat) (h1 : 1 ≤ s) (h2 : s ≤ 16) :
    ∃ cv ∈ [(k.LIS2DH12_2g, 2), (k.LIS2DH12_4g, 4), (k.LIS2DH12_8g, 8), (k.LIS2DH12_16g, 16)],
      s ≤ cv.2 ∧ (∀ u ∈ [2, 4, 8, 16], s ≤ u → cv.2 ≤ u) ∧
      ruuvi_interface_lis2dh12_scale_set k w (some s) =
        (RUUVI_DRIVER_SUCCESS,
         { w with dev := { w.dev with scale := cv.1 }, hw := { w.hw with fs := cv.1 },
                  tick := w.tick + 2, trace := w.trace ++ [Event.full_scale_set cv.1] },
         some cv.2) := by
  have h := hk.fs_labels
  have hr := List.nodup_reverse.mpr h
  simp only [List.nodup_cons, List.mem_cons, List.mem_singleton, not_or, List.not_mem_nil,
    not_false_eq_true, List.nodup_nil, and_true, List.reverse_cons, List.reverse_nil,
    List.nil_append, List.cons_append] at h hr
  have hd := hk.default_range
  have hn := hk.no_change_range
  have hmin := hk.min_range
  have hmax := hk.max_range
  have e1 : k.RUUVI_DRIVER_SENSOR_CFG_NO_CHANGE ≠ s := by omega
  have e2 : k.RUUVI_DRIVER_SENSOR_CFG_MIN ≠ s := by omega
  have e3 : k.RUUVI_DRIVER_SENSOR_CFG_MAX ≠ s := by omega
  have e4 : k.RUUVI_DRIVER_SENSOR_CFG_DEFAULT ≠ s := by omega
  have hb0 := hb w.tick
  have hb1 := hb (w.tick + 1)
  have hcases : s ≤ 2 ∨ (2 < s ∧ s ≤ 4) ∨ (4 < s ∧ s ≤ 8) ∨ (8 < s ∧ s ≤ 16) := by omega
  rcases hcases with c | c | c | c
  · refine ⟨(k.LIS2DH12_2g, 2), by simp, by simp; omega, ?_, ?_⟩
    · intro u hu; simp at hu; omega
    · simp [ruuvi_interface_lis2dh12_scale_set, scale_set_select,
        VERIFY_SENSOR_SLEEPS_sleep k w hm, e1, e2,
        e3, e4, c, ruuvi_interface_lis2dh12_scale_get, lis2dh12_full_scale_set,
        lis2dh12_full_scale_get, hb0, hb1, RUUVI_DRIVER_SUCCESS, World.set_scale, h, hr]
  · refine ⟨(k.LIS2DH12_4g, 4), by simp, by simp; omega, ?_, ?_⟩
    · intro u hu; simp at hu; omega
    · have c1 : ¬ s ≤ 2 := by omega
      simp [ruuvi_interface_lis2dh12_scale_set, scale_set_select,
        VERIFY_SENSOR_SLEEPS_sleep k w hm, e1, e2,
        e3, e4, c1, c.2, ruuvi_interface_lis2dh12_scale_get, lis2dh12_full_scale_set,
        lis2dh12_full_scale_get, hb0, hb1, RUUVI_DRIVER_SUCCESS, World.set_scale, h, hr]
  · refine ⟨(k.LIS2DH12_8g, 8), by simp, by simp; omega, ?_, ?_⟩
    · intro u hu; simp at hu; omega
    · have c1 : ¬ s ≤ 2 := by omega
      have c2 : ¬ s ≤ 4 := by omega
      simp [ruuvi_interface_lis2dh12_scale_set, scale_set_select,
        VERIFY_SENSOR_SLEEPS_sleep k w hm, e1, e2,
        e3, e4, c1, c2, c.2, ruuvi_interface_lis2dh12_scale_get, lis2dh12_full_scale_set,
        lis2dh12_full_scale_get, hb0, hb1, RUUVI_DRIVER_SUCCESS, World.set_scale, h, hr]
  · refine ⟨(k.LIS2DH12_16g, 16), by simp, by simp; omega, ?_, ?_⟩
    · intro u hu; simp at hu; omega
    · have c1 : ¬ s ≤ 2 := by omega
      have c2 : ¬ s ≤ 4 := by omega
      have c3 : ¬ s ≤ 8 := by omega
      simp [ruuvi_interface_lis2dh12_scale_set, scale_set_select,
        VERIFY_SENSOR_SLEEPS_sleep k w hm, e1, e2,
        e3, e4, c1, c2, c3, c.2, ruuvi_interface_lis2dh12_scale_get, lis2dh12_full_scale_set,
        lis2dh12_full_scale_get, hb0, hb1, RUUVI_DRIVER_SUCCESS, World.set_scale, h, hr]

theorem ruuviConsts_WF : ruuviConsts.WF := by
  constructor <;> decide

theorem sleepWorld_BusOk : BusOk sleepWorld := fun _ => rfl

/-- Whatever the `switch` of the rate getter selects, the world it returns is the one
after the read, with the code read stored in `dev.samplerate`. -/
theorem samplerate_get_world (k : Consts) (x : World) (p : Nat) :
    (ruuvi_interface_lis2dh12_samplerate_get k x (some p)).2.1 =
      { (lis2dh12_data_rate_get x).2.2 with
        dev := { x.dev with samplerate := (lis2dh12_data_rate_get x).2.1 } } := by
  simp only [ruuvi_interface_lis2dh12_samplerate_get]
  repeat (first | rfl | split)

/-- A rate getter that returns SUCCESS had a successful read. -/
theorem samplerate_get_success (k : Consts) (x : World) (p : Nat)
    (h : (ruuvi_interface_lis2dh12_samplerate_get k x (some p)).1 = 0) :
    x.bus x.tick = 0 := by
  simp only [ruuvi_interface_lis2dh12_samplerate_get, RUUVI_DRIVER_SUCCESS, Nat.zero_or] at h
  repeat (first | exact h | exact (lor_eq_zero h).1 | split at h)

/-- The common tail of `samplerate_set` (write `dev.samplerate`, read it back): when
both calls succeed the chip holds the stored code and the device state is unchanged. -/
theorem samplerate_apply_success (k : Consts) (x : World) (p e : Nat)
    (h : (e ||| (lis2dh12_data_rate_set x x.dev.samplerate).1) |||
      (ruuvi_interface_lis2dh12_samplerate_get k
        (lis2dh12_data_rate_set x x.dev.samplerate).2 (some p)).1 = 0) :
    (ruuvi_interface_lis2dh12_samplerate_get k
        (lis2dh12_data_rate_set x x.dev.samplerate).2 (some p)).2.1 =
      { x with hw := { x.hw with odr := x.dev.samplerate }, tick := x.tick + 2,
               trace := x.trace ++ [Event.data_rate_set x.dev.samplerate] } := by
  obtain ⟨h1, h2⟩ := lor_eq_zero h
  have hw0 : x.bus x.tick = 0 := (lor_eq_zero h1).2
  have hw1 := samplerate_get_success k _ p h2
  rw [samplerate_get_world]
  simp only [lis2dh12_data_rate_set, lis2dh12_data_rate_get] at hw1 ⊢
  simp [hw0, hw1]

/-- Case principle for the chain of `samplerate_set`: it either assigns some code to
`dev.samplerate` and keeps the parameter, or changes nothing but the parameter and
the status. -/
theorem samplerate_set_select_ind (k : Consts) (w : World) (s : Nat)
    (P : World × Nat × Nat → Prop)
    (h1 : ∀ c, P (w.set_samplerate c, s, RUUVI_DRIVER_SUCCESS))
    (h2 : P (w, k.RUUVI_DRIVER_SENSOR_ERR_NOT_SUPPORTED,
       RUUVI_DRIVER_SUCCESS ||| k.RUUVI_DRIVER_ERROR_NOT_SUPPORTED)) :
    P (samplerate_set_select k w s) := by
  unfold samplerate_set_select
  dsimp only
  by_cases c0 : k.RUUVI_DRIVER_SENSOR_CFG_NO_CHANGE = s
  · rw [if_pos c0]; exact h1 w.dev.samplerate
  rw [if_neg c0]
  by_cases c1 : k.RUUVI_DRIVER_SENSOR_CFG_MIN = s
  · rw [if_pos c1]; exact h1 _
  rw [if_neg c1]
  by_cases c2 : k.RUUVI_DRIVER_SENSOR_CFG_MAX = s
  · rw [if_pos c2]; exact h1 _
  rw [if_neg c2]
  by_cases c3 : k.RUUVI_DRIVER_SENSOR_CFG_DEFAULT = s
  · rw [if_pos c3]; exact h1 _
  rw [if_neg c3]
  by_cases c4 : 1 = s
  · rw [if_pos c4]; exact h1 _
  rw [if_neg c4]
  by_cases c5 : 10 ≥ s
  · rw [if_pos c5]; exact h1 _
  rw [if_neg c5]
  by_cases c6 : 25 ≥ s
  · rw [if_pos c6]; exact h1 _
  rw [if_neg c6]
  by_cases c7 : 50 ≥ s
  · rw [if_pos c7]; exact h1 _
  rw [if_neg c7]
  by_cases c8 : 100 ≥ s
  · rw [if_pos c8]; exact h1 _
  rw [if_neg c8]
  by_cases c9 : 200 ≥ s
  · rw [if_pos c9]; exact h1 _
  rw [if_neg c9]
  by_cases c10 : k.RUUVI_DRIVER_SENSOR_CFG_CUSTOM_1 = s
  · rw [if_pos c10]; exact h1 _
  rw [if_neg c10]
  by_cases c11 : k.RUUVI_DRIVER_SENSOR_CFG_CUSTOM_2 = s
  · rw [if_pos c11]; exact h1 _
  rw [if_neg c11]
  by_cases c12 : k.RUUVI_DRIVER_SENSOR_CFG_CUSTOM_3 = s
  · rw [if_pos c12]; exact h1 _
  rw [if_neg c12]
  exact h2

theorem samplerate_set_select_cases (k : Consts) (w : World) (s : Nat) :
    (∃ c, samplerate_set_select k w s = (w.set_samplerate c, s, RUUVI_DRIVER_SUCCESS)) ∨
    samplerate_set_select k w s =
      (w, k.RUUVI_DRIVER_SENSOR_ERR_NOT_SUPPORTED,
       RUUVI_DRIVER_SUCCESS ||| k.RUUVI_DRIVER_ERROR_NOT_SUPPORTED) :=
  samplerate_set_select_ind k w s
    (fun t => (∃ c, t = (w.set_samplerate c, s, RUUVI_DRIVER_SUCCESS)) ∨
      t = (w, k.RUUVI_DRIVER_SENSOR_ERR_NOT_SUPPORTED,
        RUUVI_DRIVER_SUCCESS ||| k.RUUVI_DRIVER_ERROR_NOT_SUPPORTED))
    (fun c => Or.inl ⟨c, rfl⟩) (Or.inr rfl)

/-- A `samplerate_set` that returns SUCCESS in SLEEP mode has written the code it
stored in `dev.samplerate` to the chip, and changed nothing else of the device state
and the registers. -/
theorem samplerate_set_success (k : Consts) (hk : k.WF) (w : World)
    (hm : w.dev.mode = k.RUUVI_DRIVER_SENSOR_CFG_SLEEP) (r : Nat)
    (hok : (ruuvi_interface_lis2dh12_samplerate_set k w (some r)).1 = RUUVI_DRIVER_SUCCESS) :
    ∃ c, (ruuvi_interface_lis2dh12_samplerate_set k w (some r)).2.1 =
      { w with dev := { w.dev with samplerate := c }, hw := { w.hw with odr := c },
               tick := w.tick + 2, trace := w.trace ++ [Event.data_rate_set c] } := by
  have hne := hk.not_supported_ne
  rcases samplerate_set_select_cases k w r with ⟨c, hc⟩ | hc
  · refine ⟨c, ?_⟩
    simp only [ruuvi_interface_lis2dh12_samplerate_set, VERIFY_SENSOR_SLEEPS_sleep k w hm, hc,
      if_true] at hok ⊢
    exact samplerate_apply_success k _ _ _ hok
  · exfalso
    simp only [ruuvi_interface_lis2dh12_samplerate_set, VERIFY_SENSOR_SLEEPS_sleep k w hm, hc,
      RUUVI_DRIVER_SUCCESS, Nat.zero_or] at hok
    split_ifs at hok with h0
    · exact hne h0.symm
    · exact hne hok

/-- Effect of `mode_set(CONTINUOUS)` in any world: the stored mode becomes CONTINUOUS and the
stored rate code is written to the chip. -/
theorem mode_set_continuous (k : Consts) (hk : k.WF) (x : World) :
    ruuvi_interface_lis2dh12_mode_set k x (some k.RUUVI_DRIVER_SENSOR_CFG_CONTINUOUS) =
      (x.bus x.tick,
       { x with dev := { x.dev with mode := k.RUUVI_DRIVER_SENSOR_CFG_CONTINUOUS },
                hw := if x.bus x.tick = 0 then { x.hw with odr := x.dev.samplerate } else x.hw,
                tick := x.tick + 1,
                trace := x.trace ++ [Event.data_rate_set x.dev.samplerate] },
       some k.RUUVI_DRIVER_SENSOR_CFG_CONTINUOUS) := by
  have h := hk.modes
  simp only [List.nodup_cons, List.mem_cons, List.mem_singleton, not_or, List.not_mem_nil,
    not_false_eq_true, List.nodup_nil, and_true] at h
  simp [ruuvi_interface_lis2dh12_mode_set, h, lis2dh12_data_rate_set, RUUVI_DRIVER_SUCCESS]

/-- Effect of `mode_set(SLEEP)` in any world: the stored mode becomes SLEEP and POWER_DOWN is
written to the chip; the stored rate code stays. -/
theorem mode_set_sleep (k : Consts) (hk : k.WF) (x : World) :
    ruuvi_interface_lis2dh12_mode_set k x (some k.RUUVI_DRIVER_SENSOR_CFG_SLEEP) =
      (x.bus x.tick,
       { x with dev := { x.dev with mode := k.RUUVI_DRIVER_SENSOR_CFG_SLEEP },
                hw := if x.bus x.tick = 0 then { x.hw with odr := k.LIS2DH12_POWER_DOWN }
                      else x.hw,
                tick := x.tick + 1,
                trace := x.trace ++ [Event.data_rate_set k.LIS2DH12_POWER_DOWN] },
       some k.RUUVI_DRIVER_SENSOR_CFG_SLEEP) := by
  have h := hk.modes
  simp only [List.nodup_cons, List.mem_cons, List.mem_singleton, not_or, List.not_mem_nil,
    not_false_eq_true, List.nodup_nil, and_true] at h
  have h1 : ¬ k.RUUVI_DRIVER_SENSOR_CFG_SINGLE = k.RUUVI_DRIVER_SENSOR_CFG_SLEEP :=
    fun e => h.1.1 e.symm
  simp [ruuvi_interface_lis2dh12_mode_set, h1, lis2dh12_data_rate_set, RUUVI_DRIVER_SUCCESS]


/-! ### Frame facts: what a call of a collaborator leaves alone -/

theorem lis2dh12_data_rate_set_frame (w : World) (v : Nat) :
    (lis2dh12_data_rate_set w v).1 = w.bus w.tick ∧
    (lis2dh12_data_rate_set w v).2.trace = w.trace ++ [Event.data_rate_set v] ∧
    (lis2dh12_data_rate_set w v).2.tick = w.tick + 1 ∧
    (lis2dh12_data_rate_set w v).2.dev = w.dev ∧
    (lis2dh12_data_rate_set w v).2.bus = w.bus ∧
    (lis2dh12_data_rate_set w v).2.junk = w.junk ∧
    (lis2dh12_data_rate_set w v).2.now = w.now ∧
    (lis2dh12_data_rate_set w v).2.millis = w.millis ∧
    (lis2dh12_data_rate_set w v).2.accel = w.accel :=
  ⟨rfl, rfl, rfl, rfl, rfl, rfl, rfl, rfl, rfl⟩

theorem lis2dh12_operating_mode_set_frame (w : World) (v : Nat) :
    (lis2dh12_operating_mode_set w v).1 = w.bus w.tick ∧
    (lis2dh12_operating_mode_set w v).2.trace = w.trace ++ [Event.operating_mode_set v] ∧
    (lis2dh12_operating_mode_set w v).2.tick = w.tick + 1 ∧
    (lis2dh12_operating_mode_set w v).2.dev = w.dev ∧
    (lis2dh12_operating_mode_set w v).2.bus = w.bus ∧
    (lis2dh12_operating_mode_set w v).2.junk = w.junk ∧
    (lis2dh12_operating_mode_set w v).2.now = w.now ∧
    (lis2dh12_operating_mode_set w v).2.millis = w.millis ∧
    (lis2dh12_operating_mode_set w v).2.accel = w.accel :=
  ⟨rfl, rfl, rfl, rfl, rfl, rfl, rfl, rfl, rfl⟩

theorem lis2dh12_full_scale_set_frame (w : World) (v : Nat) :
    (lis2dh12_full_scale_set w v).1 = w.bus w.tick ∧
    (lis2dh12_full_scale_set w v).2.trace = w.trace ++ [Event.full_scale_set v] ∧
    (lis2dh12_full_scale_set w v).2.tick = w.tick + 1 ∧
    (lis2dh12_full_scale_set w v).2.dev = w.dev ∧
    (lis2dh12_full_scale_set w v).2.bus = w.bus ∧
    (lis2dh12_full_scale_set w v).2.junk = w.junk ∧
    (lis2dh12_full_scale_set w v).2.now = w.now ∧
    (lis2dh12_full_scale_set w v).2.millis = w.millis ∧
    (lis2dh12_full_scale_set w v).2.accel = w.accel :=
  ⟨rfl, rfl, rfl, rfl, rfl, rfl, rfl, rfl, rfl⟩

theorem lis2dh12_high_pass_on_outputs_set_frame (w : World) (v : Nat) :
    (lis2dh12_high_pass_on_outputs_set w v).1 = w.bus w.tick ∧
    (lis2dh12_high_pass_on_outputs_set w v).2.trace = w.trace ++ [Event.high_pass_on_outputs_set v] ∧
    (lis2dh12_high_pass_on_outputs_set w v).2.tick = w.tick + 1 ∧
    (lis2dh12_high_pass_on_outputs_set w v).2.dev = w.dev ∧
    (lis2dh12_high_pass_on_outputs_set w v).2.bus = w.bus ∧
    (lis2dh12_high_pass_on_outputs_set w v).2.junk = w.junk ∧
    (lis2dh12_high_pass_on_outputs_set w v).2.now = w.now ∧
    (lis2dh12_high_pass_on_outputs_set w v).2.millis = w.millis ∧
    (lis2dh12_high_pass_on_outputs_set w v).2.accel = w.accel :=
  ⟨rfl, rfl, rfl, rfl, rfl, rfl, rfl, rfl, rfl⟩

theorem lis2dh12_fifo_set_frame (w : World) (v : Nat) :
    (lis2dh12_fifo_set w v).1 = w.bus w.tick ∧
    (lis2dh12_fifo_set w v).2.trace = w.trace ++ [Event.fifo_set v] ∧
    (lis2dh12_fifo_set w v).2.tick = w.tick + 1 ∧
    (lis2dh12_fifo_set w v).2.dev = w.dev ∧
    (lis2dh12_fifo_set w v).2.bus = w.bus ∧
    (lis2dh12_fifo_set w v).2.junk = w.junk ∧
    (lis2dh12_fifo_set w v).2.now = w.now ∧
    (lis2dh12_fifo_set w v).2.millis = w.millis ∧
    (lis2dh12_fifo_set w v).2.accel = w.accel :=
  ⟨rfl, rfl, rfl, rfl, rfl, rfl, rfl, rfl, rfl⟩

theorem lis2dh12_fifo_mode_set_frame (w : World) (v : Nat) :
    (lis2dh12_fifo_mode_set w v).1 = w.bus w.tick ∧
    (lis2dh12_fifo_mode_set w v).2.trace = w.trace ++ [Event.fifo_mode_set v] ∧
    (lis2dh12_fifo_mode_set w v).2.tick = w.tick + 1 ∧
    (lis2dh12_fifo_mode_set w v).2.dev = w.dev ∧
    (lis2dh12_fifo_mode_set w v).2.bus = w.bus ∧
    (lis2dh12_fifo_mode_set w v).2.junk = w.junk ∧
    (lis2dh12_fifo_mode_set w v).2.now = w.now ∧
    (lis2dh12_fifo_mode_set w v).2.millis = w.millis ∧
    (lis2dh12_fifo_mode_set w v).2.accel = w.accel :=
  ⟨rfl, rfl, rfl, rfl, rfl, rfl, rfl, rfl, rfl⟩

theorem lis2dh12_fifo_watermark_set_frame (w : World) (v : Nat) :
    (lis2dh12_fifo_watermark_set w v).1 = w.bus w.tick ∧
    (lis2dh12_fifo_watermark_set w v).2.trace = w.trace ++ [Event.fifo_watermark_set v] ∧
    (lis2dh12_fifo_watermark_set w v).2.tick = w.tick + 1 ∧
    (lis2dh12_fifo_watermark_set w v).2.dev = w.dev ∧
    (lis2dh12_fifo_watermark_set w v).2.bus = w.bus ∧
    (lis2dh12_fifo_watermark_set w v).2.junk = w.junk ∧
    (lis2dh12_fifo_watermark_set w v).2.now = w.now ∧
    (lis2dh12_fifo_watermark_set w v).2.millis = w.millis ∧
    (lis2dh12_fifo_watermark_set w v).2.accel = w.accel :=
  ⟨rfl, rfl, rfl, rfl, rfl, rfl, rfl, rfl, rfl⟩

theorem lis2dh12_pin_int1_config_set_frame (w : World) (v : lis2dh12_ctrl_reg3_t) :
    (lis2dh12_pin_int1_config_set w v).1 = w.bus w.tick ∧
    (lis2dh12_pin_int1_config_set w v).2.trace = w.trace ++ [Event.pin_int1_config_set v] ∧
    (lis2dh12_pin_int1_config_set w v).2.tick = w.tick + 1 ∧
    (lis2dh12_pin_int1_config_set w v).2.dev = w.dev ∧
    (lis2dh12_pin_int1_config_set w v).2.bus = w.bus ∧
    (lis2dh12_pin_int1_config_set w v).2.junk = w.junk ∧
    (lis2dh12_pin_int1_config_set w v).2.now = w.now ∧
    (lis2dh12_pin_int1_config_set w v).2.millis = w.millis ∧
    (lis2dh12_pin_int1_config_set w v).2.accel = w.accel :=
  ⟨rfl, rfl, rfl, rfl, rfl, rfl, rfl, rfl, rfl⟩

theorem lis2dh12_pin_int2_config_set_frame (w : World) (v : lis2dh12_ctrl_reg6_t) :
    (lis2dh12_pin_int2_config_set w v).1 = w.bus w.tick ∧
    (lis2dh12_pin_int2_config_set w v).2.trace = w.trace ++ [Event.pin_int2_config_set v] ∧
    (lis2dh12_pin_int2_config_set w v).2.tick = w.tick + 1 ∧
    (lis2dh12_pin_int2_config_set w v).2.dev = w.dev ∧
    (lis2dh12_pin_int2_config_set w v).2.bus = w.bus ∧
    (lis2dh12_pin_int2_config_set w v).2.junk = w.junk ∧
    (lis2dh12_pin_int2_config_set w v).2.now = w.now ∧
    (lis2dh12_pin_int2_config_set w v).2.millis = w.millis ∧
    (lis2dh12_pin_int2_config_set w v).2.accel = w.accel :=
  ⟨rfl, rfl, rfl, rfl, rfl, rfl, rfl, rfl, rfl⟩

theorem lis2dh12_block_data_update_set_frame (w : World) (v : Nat) :
    (lis2dh12_block_data_update_set w v).1 = w.bus w.tick ∧
    (lis2dh12_block_data_update_set w v).2.trace = w.trace ++ [Event.block_data_update_set v] ∧
    (lis2dh12_block_data_update_set w v).2.tick = w.tick + 1 ∧
    (lis2dh12_block_data_update_set w v).2.dev = w.dev ∧
    (lis2dh12_block_data_update_set w v).2.bus = w.bus ∧
    (lis2dh12_block_data_update_set w v).2.junk = w.junk ∧
    (lis2dh12_block_data_update_set w v).2.now = w.now ∧
    (lis2dh12_block_data_update_set w v).2.millis = w.millis ∧
    (lis2dh12_block_data_update_set w v).2.accel = w.accel :=
  ⟨rfl, rfl, rfl, rfl, rfl, rfl, rfl, rfl, rfl⟩

theorem lis2dh12_temperature_meas_set_frame (w : World) (v : Nat) :
    (lis2dh12_temperature_meas_set w v).1 = w.bus w.tick ∧
    (lis2dh12_temperature_meas_set w v).2.trace = w.trace ++ [Event.temperature_meas_set v] ∧
    (lis2dh12_temperature_meas_set w v).2.tick = w.tick + 1 ∧
    (lis2dh12_temperature_meas_set w v).2.dev = w.dev ∧
    (lis2dh12_temperature_meas_set w v).2.bus = w.bus ∧
    (lis2dh12_temperature_meas_set w v).2.junk = w.junk ∧
    (lis2dh12_temperature_meas_set w v).2.now = w.now ∧
    (lis2dh12_temperature_meas_set w v).2.millis = w.millis ∧
    (lis2dh12_temperature_meas_set w v).2.accel = w.accel :=
  ⟨rfl, rfl, rfl, rfl, rfl, rfl, rfl, rfl, rfl⟩

theorem lis2dh12_self_test_set_frame (w : World) (v : Nat) :
    (lis2dh12_self_test_set w v).1 = w.bus w.tick ∧
    (lis2dh12_self_test_set w v).2.trace = w.trace ++ [Event.self_test_set v] ∧
    (lis2dh12_self_test_set w v).2.tick = w.tick + 1 ∧
    (lis2dh12_self_test_set w v).2.dev = w.dev ∧
    (lis2dh12_self_test_set w v).2.bus = w.bus ∧
    (lis2dh12_self_test_set w v).2.junk = w.junk ∧
    (lis2dh12_self_test_set w v).2.now = w.now ∧
    (lis2dh12_self_test_set w v).2.millis = w.millis ∧
    (lis2dh12_self_test_set w v).2.accel = w.accel :=
  ⟨rfl, rfl, rfl, rfl, rfl, rfl, rfl, rfl, rfl⟩

theorem lis2dh12_high_pass_int_conf_set_frame (w : World) (v : Nat) :
    (lis2dh12_high_pass_int_conf_set w v).1 = w.bus w.tick ∧
    (lis2dh12_high_pass_int_conf_set w v).2.trace = w.trace ++ [Event.high_pass_int_conf_set v] ∧
    (lis2dh12_high_pass_int_conf_set w v).2.tick = w.tick + 1 ∧
    (lis2dh12_high_pass_int_conf_set w v).2.dev = w.dev ∧
    (lis2dh12_high_pass_int_conf_set w v).2.bus = w.bus ∧
    (lis2dh12_high_pass_int_conf_set w v).2.junk = w.junk ∧
    (lis2dh12_high_pass_int_conf_set w v).2.now = w.now ∧
    (lis2dh12_high_pass_int_conf_set w v).2.millis = w.millis ∧
    (lis2dh12_high_pass_int_conf_set w v).2.accel = w.accel :=
  ⟨rfl, rfl, rfl, rfl, rfl, rfl, rfl, rfl, rfl⟩

theorem lis2dh12_int1_gen_threshold_set_frame (w : World) (v : Nat) :
    (lis2dh12_int1_gen_threshold_set w v).1 = w.bus w.tick ∧
    (lis2dh12_int1_gen_threshold_set w v).2.trace = w.trace ++ [Event.int1_gen_threshold_set v] ∧
    (lis2dh12_int1_gen_threshold_set w v).2.tick = w.tick + 1 ∧
    (lis2dh12_int1_gen_threshold_set w v).2.dev = w.dev ∧
    (lis2dh12_int1_gen_threshold_set w v).2.bus = w.bus ∧
    (lis2dh12_int1_gen_threshold_set w v).2.junk = w.junk ∧
    (lis2dh12_int1_gen_threshold_set w v).2.now = w.now ∧
    (lis2dh12_int1_gen_threshold_set w v).2.millis = w.millis ∧
    (lis2dh12_int1_gen_threshold_set w v).2.accel = w.accel :=
  ⟨rfl, rfl, rfl, rfl, rfl, rfl, rfl, rfl, rfl⟩

theorem lis2dh12_int1_gen_conf_set_frame (w : World) (v : lis2dh12_int1_cfg_t) :
    (lis2dh12_int1_gen_conf_set w v).1 = w.bus w.tick ∧
    (lis2dh12_int1_gen_conf_set w v).2.trace = w.trace ++ [Event.int1_gen_conf_set v] ∧
    (lis2dh12_int1_gen_conf_set w v).2.tick = w.tick + 1 ∧
    (lis2dh12_int1_gen_conf_set w v).2.dev = w.dev ∧
    (lis2dh12_int1_gen_conf_set w v).2.bus = w.bus ∧
    (lis2dh12_int1_gen_conf_set w v).2.junk = w.junk ∧
    (lis2dh12_int1_gen_conf_set w v).2.now = w.now ∧
    (lis2dh12_int1_gen_conf_set w v).2.millis = w.millis ∧
    (lis2dh12_int1_gen_conf_set w v).2.accel = w.accel :=
  ⟨rfl, rfl, rfl, rfl, rfl, rfl, rfl, rfl, rfl⟩

theorem lis2dh12_write_reg_frame (k : Consts) (w : World) (reg : Nat) (data : List Nat) :
    (lis2dh12_write_reg k w reg data).1 = w.bus w.tick ∧
    (lis2dh12_write_reg k w reg data).2.trace = w.trace ++ [Event.write_reg reg data] ∧
    (lis2dh12_write_reg k w reg data).2.tick = w.tick + 1 ∧
    (lis2dh12_write_reg k w reg data).2.dev = w.dev ∧
    (lis2dh12_write_reg k w reg data).2.bus = w.bus ∧
    (lis2dh12_write_reg k w reg data).2.junk = w.junk ∧
    (lis2dh12_write_reg k w reg data).2.now = w.now ∧
    (lis2dh12_write_reg k w reg data).2.millis = w.millis ∧
    (lis2dh12_write_reg k w reg data).2.accel = w.accel :=
  ⟨rfl, rfl, rfl, rfl, rfl, rfl, rfl, rfl, rfl⟩

theorem lis2dh12_acceleration_raw_get_frame (w : World) :
    (lis2dh12_acceleration_raw_get w).1 = w.bus w.tick ∧
    (lis2dh12_acceleration_raw_get w).2.1 = w.accel w.tick ∧
    (lis2dh12_acceleration_raw_get w).2.2.trace = w.trace ∧
    (lis2dh12_acceleration_raw_get w).2.2.tick = w.tick + 1 ∧
    (lis2dh12_acceleration_raw_get w).2.2.hw = w.hw ∧
    (lis2dh12_acceleration_raw_get w).2.2.dev = w.dev ∧
    (lis2dh12_acceleration_raw_get w).2.2.bus = w.bus ∧
    (lis2dh12_acceleration_raw_get w).2.2.junk = w.junk ∧
    (lis2dh12_acceleration_raw_get w).2.2.now = w.now ∧
    (lis2dh12_acceleration_raw_get w).2.2.millis = w.millis ∧
    (lis2dh12_acceleration_raw_get w).2.2.accel = w.accel :=
  ⟨rfl, rfl, rfl, rfl, rfl, rfl, rfl, rfl, rfl, rfl, rfl⟩

theorem lis2dh12_fifo_data_level_get_frame (w : World) :
    (lis2dh12_fifo_data_level_get w).1 = w.bus w.tick ∧
    (lis2dh12_fifo_data_level_get w).2.2.trace = w.trace ∧
    (lis2dh12_fifo_data_level_get w).2.2.tick = w.tick + 1 ∧
    (lis2dh12_fifo_data_level_get w).2.2.hw = w.hw ∧
    (lis2dh12_fifo_data_level_get w).2.2.dev = w.dev ∧
    (lis2dh12_fifo_data_level_get w).2.2.bus = w.bus ∧
    (lis2dh12_fifo_data_level_get w).2.2.junk = w.junk ∧
    (lis2dh12_fifo_data_level_get w).2.2.now = w.now ∧
    (lis2dh12_fifo_data_level_get w).2.2.millis = w.millis ∧
    (lis2dh12_fifo_data_level_get w).2.2.accel = w.accel :=
  ⟨rfl, rfl, rfl, rfl, rfl, rfl, rfl, rfl, rfl, rfl⟩

theorem lis2dh12_full_scale_get_frame (w : World) :
    (lis2dh12_full_scale_get w).1 = w.bus w.tick ∧
    (lis2dh12_full_scale_get w).2.2.trace = w.trace ∧
    (lis2dh12_full_scale_get w).2.2.tick = w.tick + 1 ∧
    (lis2dh12_full_scale_get w).2.2.hw = w.hw ∧
    (lis2dh12_full_scale_get w).2.2.dev = w.dev ∧
    (lis2dh12_full_scale_get w).2.2.bus = w.bus ∧
    (lis2dh12_full_scale_get w).2.2.junk = w.junk ∧
    (lis2dh12_full_scale_get w).2.2.now = w.now ∧
    (lis2dh12_full_scale_get w).2.2.millis = w.millis ∧
    (lis2dh12_full_scale_get w).2.2.accel = w.accel :=
  ⟨rfl, rfl, rfl, rfl, rfl, rfl, rfl, rfl, rfl, rfl⟩

theorem lis2dh12_device_id_get_frame (w : World) :
    (lis2dh12_device_id_get w).1 = w.bus w.tick ∧
    (lis2dh12_device_id_get w).2.2.trace = w.trace ∧
    (lis2dh12_device_id_get w).2.2.tick = w.tick + 1 ∧
    (lis2dh12_device_id_get w).2.2.hw = w.hw ∧
    (lis2dh12_device_id_get w).2.2.dev = w.dev ∧
    (lis2dh12_device_id_get w).2.2.bus = w.bus ∧
    (lis2dh12_device_id_get w).2.2.junk = w.junk ∧
    (lis2dh12_device_id_get w).2.2.now = w.now ∧
    (lis2dh12_device_id_get w).2.2.millis = w.millis ∧
    (lis2dh12_device_id_get w).2.2.accel = w.accel :=
  ⟨rfl, rfl, rfl, rfl, rfl, rfl, rfl, rfl, rfl, rfl⟩

theorem ruuvi_interface_delay_ms_frame (w : World) (ms : Nat) :
    (ruuvi_interface_delay_ms w ms).trace = w.trace ++ [Event.delay_ms ms] ∧
    (ruuvi_interface_delay_ms w ms).now = w.now + ms ∧
    (ruuvi_interface_delay_ms w ms).tick = w.tick ∧
    (ruuvi_interface_delay_ms w ms).hw = w.hw ∧
    (ruuvi_interface_delay_ms w ms).dev = w.dev ∧
    (ruuvi_interface_delay_ms w ms).bus = w.bus ∧
    (ruuvi_interface_delay_ms w ms).junk = w.junk ∧
    (ruuvi_interface_delay_ms w ms).millis = w.millis ∧
    (ruuvi_interface_delay_ms w ms).accel = w.accel :=
  ⟨rfl, rfl, rfl, rfl, rfl, rfl, rfl, rfl, rfl⟩

theorem World.set_samplerate_frame (w : World) (v : Nat) :
    (w.set_samplerate v).dev = { w.dev with samplerate := v } ∧
    (w.set_samplerate v).trace = w.trace ∧
    (w.set_samplerate v).tick = w.tick ∧
    (w.set_samplerate v).hw = w.hw ∧
    (w.set_samplerate v).bus = w.bus ∧
    (w.set_samplerate v).junk = w.junk ∧
    (w.set_samplerate v).now = w.now ∧
    (w.set_samplerate v).millis = w.millis ∧
    (w.set_samplerate v).accel = w.accel :=
  ⟨rfl, rfl, rfl, rfl, rfl, rfl, rfl, rfl, rfl⟩

theorem World.set_scale_frame (w : World) (v : Nat) :
    (w.set_scale v).dev = { w.dev with scale := v } ∧
    (w.set_scale v).trace = w.trace ∧
    (w.set_scale v).tick = w.tick ∧
    (w.set_scale v).hw = w.hw ∧
    (w.set_scale v).bus = w.bus ∧
    (w.set_scale v).junk = w.junk ∧
    (w.set_scale v).now = w.now ∧
    (w.set_scale v).millis = w.millis ∧
    (w.set_scale v).accel = w.accel :=
  ⟨rfl, rfl, rfl, rfl, rfl, rfl, rfl, rfl, rfl⟩

theorem World.set_resolution_frame (w : World) (v : Nat) :
    (w.set_resolution v).dev = { w.dev with resolution := v } ∧
    (w.set_resolution v).trace = w.trace ∧
    (w.set_resolution v).tick = w.tick ∧
    (w.set_resolution v).hw = w.hw ∧
    (w.set_resolution v).bus = w.bus ∧
    (w.set_resolution v).junk = w.junk ∧
    (w.set_resolution v).now = w.now ∧
    (w.set_resolution v).millis = w.millis ∧
    (w.set_resolution v).accel = w.accel :=
  ⟨rfl, rfl, rfl, rfl, rfl, rfl, rfl, rfl, rfl⟩

theorem World.set_selftest_frame (w : World) (v : Nat) :
    (w.set_selftest v).dev = { w.dev with selftest := v } ∧
    (w.set_selftest v).trace = w.trace ∧
    (w.set_selftest v).tick = w.tick ∧
    (w.set_selftest v).hw = w.hw ∧
    (w.set_selftest v).bus = w.bus ∧
    (w.set_selftest v).junk = w.junk ∧
    (w.set_selftest v).now = w.now ∧
    (w.set_selftest v).millis = w.millis ∧
    (w.set_selftest v).accel = w.accel :=
  ⟨rfl, rfl, rfl, rfl, rfl, rfl, rfl, rfl, rfl⟩


theorem scale_get_world (k : Consts) (x : World) (p : Nat) :
    (ruuvi_interface_lis2dh12_scale_get k x (some p)).2.1 =
      { (lis2dh12_full_scale_get x).2.2 with
        dev := { x.dev with scale := (lis2dh12_full_scale_get x).2.1 } } := by
  simp only [ruuvi_interface_lis2dh12_scale_get]
  repeat (first | rfl | split)

/-- The error check touches the statics of the error module and the log only. -/
theorem ruuvi_driver_error_check_frame (k : Consts) (w : World) (e m : Nat) (f : String)
    (l : Nat) :
    (ruuvi_driver_error_check k w e m f l).dev = w.dev ∧
    (ruuvi_driver_error_check k w e m f l).hw = w.hw ∧
    (ruuvi_driver_error_check k w e m f l).bus = w.bus ∧
    (ruuvi_driver_error_check k w e m f l).junk = w.junk ∧
    (ruuvi_driver_error_check k w e m f l).tick = w.tick ∧
    (ruuvi_driver_error_check k w e m f l).now = w.now ∧
    (ruuvi_driver_error_check k w e m f l).millis = w.millis ∧
    (ruuvi_driver_error_check k w e m f l).trace = w.trace ∧
    (ruuvi_driver_error_check k w e m f l).accel = w.accel ∧
    (ruuvi_driver_error_check k w e m f l).m_cb = w.m_cb := by
  unfold ruuvi_driver_error_check
  split
  · simp
  · dsimp only
    split <;> split <;> simp

/-- What an accepted call of the activity interrupt setter does: the scale is read
into `dev.scale`, four registers are written, the limit that was set is reported. -/
theorem activity_interrupt_use_accept (k : Consts) (w : World) (enable : Bool) (l : ℚ)
    (hl : 0 ≤ l)
    (ht : (float_to_uint32 (l / activity_interrupt_use_divisor
        ((ruuvi_interface_lis2dh12_scale_get k w (some 0)).2.2.getD 0)) + 1) % 4294967296
          ≤ 0x7F) :
    (ruuvi_interface_lis2dh12_activity_interrupt_use k w enable (some l)).2.2 =
      some ((((float_to_uint32 (l / activity_interrupt_use_divisor
        ((ruuvi_interface_lis2dh12_scale_get k w (some 0)).2.2.getD 0)) + 1) % 4294967296 : Nat) : ℚ)
        * activity_interrupt_use_divisor
          ((ruuvi_interface_lis2dh12_scale_get k w (some 0)).2.2.getD 0)) ∧
    (ruuvi_interface_lis2dh12_activity_interrupt_use k w enable (some l)).2.1.trace =
      w.trace ++ [Event.high_pass_int_conf_set k.LIS2DH12_ON_INT1_GEN,
        Event.int1_gen_threshold_set
          ((float_to_uint32 (l / activity_interrupt_use_divisor
            ((ruuvi_interface_lis2dh12_scale_get k w (some 0)).2.2.getD 0)) + 1) % 4294967296),
        Event.int1_gen_conf_set
          (if enable = true then
            ⟨0, k.PROPERTY_ENABLE, 0, k.PROPERTY_ENABLE, 0, k.PROPERTY_ENABLE, 0, 0⟩
           else ⟨0, 0, 0, 0, 0, 0, 0, 0⟩),
        Event.pin_int2_config_set ⟨k.PROPERTY_ENABLE⟩] ∧
    (ruuvi_interface_lis2dh12_activity_interrupt_use k w enable (some l)).2.1.tick
      = w.tick + 5 ∧
    (ruuvi_interface_lis2dh12_activity_interrupt_use k w enable (some l)).2.1.dev
      = { w.dev with scale := (lis2dh12_full_scale_get w).2.1 } ∧
    (ruuvi_interface_lis2dh12_activity_interrupt_use k w enable (some l)).2.1.bus = w.bus ∧
    (ruuvi_interface_lis2dh12_activity_interrupt_use k w enable (some l)).2.1.junk = w.junk ∧
    (ruuvi_interface_lis2dh12_activity_interrupt_use k w enable (some l)).2.1.now = w.now ∧
    (ruuvi_interface_lis2dh12_activity_interrupt_use k w enable (some l)).2.1.millis
      = w.millis ∧
    (ruuvi_interface_lis2dh12_activity_interrupt_use k w enable (some l)).2.1.accel
      = w.accel := by
  have hl2 : ¬ 0 > l := not_lt.mpr hl
  have ht2 : ¬ (float_to_uint32 (l / activity_interrupt_use_divisor
        ((ruuvi_interface_lis2dh12_scale_get k w (some 0)).2.2.getD 0)) + 1) % 4294967296
          > 0x7F := not_lt.mpr ht
  simp only [ruuvi_interface_lis2dh12_activity_interrupt_use, hl2, ht2, if_false,
    scale_get_world, lis2dh12_high_pass_int_conf_set_frame, lis2dh12_int1_gen_threshold_set_frame,
    lis2dh12_int1_gen_conf_set_frame, lis2dh12_pin_int2_config_set_frame,
    lis2dh12_full_scale_get_frame, List.append_assoc, List.singleton_append, List.cons_append,
    List.nil_append]
  cases enable <;> simp



/-- The call `activity_interrupt_use(false, &ths)` of init, with `ths = 0`: whatever
the scale is, the threshold is 1 and the call is accepted. -/
theorem activity_interrupt_use_zero (k : Consts) (w : World) :
    (ruuvi_interface_lis2dh12_activity_interrupt_use k w false (some 0)).2.1.trace =
      w.trace ++ [Event.high_pass_int_conf_set k.LIS2DH12_ON_INT1_GEN,
        Event.int1_gen_threshold_set 1,
        Event.int1_gen_conf_set ⟨0, 0, 0, 0, 0, 0, 0, 0⟩,
        Event.pin_int2_config_set ⟨k.PROPERTY_ENABLE⟩] ∧
    (ruuvi_interface_lis2dh12_activity_interrupt_use k w false (some 0)).2.1.tick
      = w.tick + 5 ∧
    (ruuvi_interface_lis2dh12_activity_interrupt_use k w false (some 0)).2.1.dev
      = { w.dev with scale := (lis2dh12_full_scale_get w).2.1 } ∧
    (ruuvi_interface_lis2dh12_activity_interrupt_use k w false (some 0)).2.1.bus = w.bus ∧
    (ruuvi_interface_lis2dh12_activity_interrupt_use k w false (some 0)).2.1.junk = w.junk ∧
    (ruuvi_interface_lis2dh12_activity_interrupt_use k w false (some 0)).2.1.now = w.now ∧
    (ruuvi_interface_lis2dh12_activity_interrupt_use k w false (some 0)).2.1.millis
      = w.millis ∧
    (ruuvi_interface_lis2dh12_activity_interrupt_use k w false (some 0)).2.1.accel
      = w.accel := by
  have h := activity_interrupt_use_accept k w false 0 (le_refl 0) (by simp [float_to_uint32])
  simp only [float_to_uint32, zero_div, Int.floor_zero, Int.toNat_zero, Nat.zero_add,
    Nat.one_mod, Bool.false_eq_true, if_false] at h
  exact h.2

/-- The self-test part of init, whatever the bus answers and the chip delivers: the
writes and delays it issues, the device state it leaves, and its status as the OR
of the results of the four accumulated writes and the two verdicts. -/
theorem init_selftest_frame (k : Consts) (w : World) :
    (ruuvi_interface_lis2dh12_init_selftest k w).2.trace =
      w.trace ++ [Event.fifo_set 0, Event.fifo_mode_set k.LIS2DH12_BYPASS_MODE,
        Event.pin_int1_config_set ⟨0⟩,
        Event.high_pass_int_conf_set k.LIS2DH12_ON_INT1_GEN,
        Event.int1_gen_threshold_set 1,
        Event.int1_gen_conf_set ⟨0, 0, 0, 0, 0, 0, 0, 0⟩,
        Event.pin_int2_config_set ⟨k.PROPERTY_ENABLE⟩,
        Event.write_reg k.LIS2DH12_CTRL_REG1 [7],
        Event.block_data_update_set k.PROPERTY_ENABLE,
        Event.high_pass_on_outputs_set k.PROPERTY_DISABLE,
        Event.data_rate_set k.LIS2DH12_ODR_400Hz,
        Event.full_scale_set k.LIS2DH12_2g,
        Event.temperature_meas_set k.LIS2DH12_TEMP_ENABLE,
        Event.operating_mode_set k.LIS2DH12_NM_10bit,
        Event.self_test_set k.LIS2DH12_ST_DISABLE, Event.delay_ms 9,
        Event.self_test_set k.LIS2DH12_ST_POSITIVE, Event.delay_ms 9,
        Event.self_test_set k.LIS2DH12_ST_DISABLE, Event.delay_ms 9,
        Event.self_test_set k.LIS2DH12_ST_NEGATIVE, Event.delay_ms 9,
        Event.self_test_set k.LIS2DH12_ST_DISABLE,
        Event.data_rate_set k.LIS2DH12_POWER_DOWN] ∧
    (ruuvi_interface_lis2dh12_init_selftest k w).2.dev =
      { w.dev with resolution := k.LIS2DH12_NM_10bit, scale := k.LIS2DH12_2g,
                   samplerate := k.LIS2DH12_POWER_DOWN, selftest := k.LIS2DH12_ST_DISABLE } ∧
    (ruuvi_interface_lis2dh12_init_selftest k w).2.tick = w.tick + 25 ∧
    (ruuvi_interface_lis2dh12_init_selftest k w).1 =
      ((((w.bus (w.tick + 15) |||
          lis2dh12_verify_selftest_difference_loop k (w.accel (w.tick + 18))
            (w.accel (w.tick + 16)) [0, 1, 2]) |||
        w.bus (w.tick + 19)) |||
          lis2dh12_verify_selftest_difference_loop k (w.accel (w.tick + 22))
            (w.accel (w.tick + 20)) [0, 1, 2]) |||
        w.bus (w.tick + 23)) ||| w.bus (w.tick + 24) := by
  simp only [ruuvi_interface_lis2dh12_init_selftest, RUUVI_DRIVER_ERROR_CHECK,
    ruuvi_driver_error_check_frame, ruuvi_interface_lis2dh12_fifo_use,
    ruuvi_interface_lis2dh12_fifo_interrupt_use, activity_interrupt_use_zero,
    lis2dh12_high_pass_on_outputs_set_frame, lis2dh12_fifo_set_frame,
    lis2dh12_fifo_mode_set_frame, lis2dh12_pin_int1_config_set_frame,
    lis2dh12_write_reg_frame, lis2dh12_block_data_update_set_frame,
    lis2dh12_data_rate_set_frame, lis2dh12_full_scale_set_frame,
    lis2dh12_temperature_meas_set_frame, lis2dh12_operating_mode_set_frame,
    lis2dh12_self_test_set_frame, ruuvi_interface_delay_ms_frame,
    lis2dh12_acceleration_raw_get_frame, lis2dh12_full_scale_get_frame,
    World.set_samplerate_frame, World.set_scale_frame, World.set_resolution_frame,
    World.set_selftest_frame, lis2dh12_verify_selftest_difference,
    List.append_assoc, List.singleton_append, List.cons_append, List.nil_append,
    Bool.false_eq_true, Bool.true_eq_false, if_false, RUUVI_DRIVER_SUCCESS, Nat.zero_or,
    Nat.add_assoc, ne_eq, not_true_eq_false, or_self, Nat.reduceAdd, and_self]



/-! ### The self-test verdict -/

/-- One axis of the self-test verdict: for a difference `d` of left-justified samples
that fits `int16_t`, the value the code compares with the band is `|d| / 64`. -/
theorem selftest_axis_exact (d : Int) (h64 : (64 : Int) ∣ d) (hlo : -32768 ≤ d) (hhi : d ≤ 32767) :
    (if 0 > int16_t_of (int16_t_of d / 64) then int16_t_of (0 - int16_t_of (int16_t_of d / 64))
      else int16_t_of (int16_t_of d / 64)) = ((d.natAbs / 64 : Nat) : Int) := by
  obtain ⟨q, rfl⟩ := h64
  have e1 : int16_t_of (64 * q) = 64 * q := by unfold int16_t_of; omega
  rw [e1]
  have e2 : (64 * q) / 64 = q := by omega
  rw [e2]
  have e3 : int16_t_of q = q := by unfold int16_t_of; omega
  rw [e3]
  split_ifs with hq
  · have e4 : int16_t_of (0 - q) = 0 - q := by unfold int16_t_of; omega
    rw [e4]; omega
  · omega


/-- The loop of the verdict returns SUCCESS or SELFTEST. -/
theorem verify_selftest_difference_loop_range (k : Consts) (new old : axis3bit16_t)
    (axes : List Nat) :
    lis2dh12_verify_selftest_difference_loop k new old axes = RUUVI_DRIVER_SUCCESS ∨
    lis2dh12_verify_selftest_difference_loop k new old axes = k.RUUVI_DRIVER_ERROR_SELFTEST := by
  induction axes with
  | nil => exact Or.inl rfl
  | cons ii rest ih =>
    unfold lis2dh12_verify_selftest_difference_loop
    dsimp only
    generalize (if 0 > int16_t_of (int16_t_of (new.i16bit ii - old.i16bit ii) / 64) then
      int16_t_of (0 - int16_t_of (int16_t_of (new.i16bit ii - old.i16bit ii) / 64))
      else int16_t_of (int16_t_of (new.i16bit ii - old.i16bit ii) / 64)) = diff
    by_cases h1 : (k.RUUVI_INTERFACE_LIS2DH12_SELFTEST_DIFF_MIN : Int) > diff
    · rw [if_pos h1]
      exact Or.inr rfl
    · rw [if_neg h1]
      by_cases h2 : (k.RUUVI_INTERFACE_LIS2DH12_SELFTEST_DIFF_MAX : Int) < diff
      · rw [if_pos h2]
        exact Or.inr rfl
      · rw [if_neg h2]
        exact ih

/-- The loop of the verdict on left-justified samples whose differences fit
`int16_t`: SUCCESS exactly when every axis listed is within the band. -/
theorem verify_selftest_difference_loop_exact (k : Consts) (hk : k.WF)
    (new old : axis3bit16_t) (axes : List Nat)
    (h : ∀ ii ∈ axes, left_justified_in_range new old ii) :
    lis2dh12_verify_selftest_difference_loop k new old axes = RUUVI_DRIVER_SUCCESS ↔
      ∀ ii ∈ axes, spec_selftest_in_band k new old ii := by
  induction axes with
  | nil => simp [lis2dh12_verify_selftest_difference_loop]
  | cons ii rest ih =>
    have hii := h ii (List.mem_cons_self ii rest)
    have hrest : ∀ jj ∈ rest, left_justified_in_range new old jj :=
      fun jj hj => h jj (List.mem_cons_of_mem ii hj)
    obtain ⟨hn, ho, hlo, hhi⟩ := hii
    have hax := selftest_axis_exact (new.i16bit ii - old.i16bit ii) (Int.dvd_sub hn ho) hlo hhi
    unfold lis2dh12_verify_selftest_difference_loop
    dsimp only
    rw [hax, List.forall_mem_cons]
    unfold spec_selftest_in_band spec_selftest_delta
    by_cases h1 : (k.RUUVI_INTERFACE_LIS2DH12_SELFTEST_DIFF_MIN : Int) >
        (((new.i16bit ii - old.i16bit ii).natAbs / 64 : Nat) : Int)
    · rw [if_pos h1]
      constructor
      · intro e
        exact absurd e hk.selftest_ne
      · intro e
        have := e.1.1
        omega
    · rw [if_neg h1]
      by_cases h2 : (k.RUUVI_INTERFACE_LIS2DH12_SELFTEST_DIFF_MAX : Int) <
          (((new.i16bit ii - old.i16bit ii).natAbs / 64 : Nat) : Int)
      · rw [if_pos h2]
        constructor
        · intro e
          exact absurd e hk.selftest_ne
        · intro e
          have := e.1.2
          omega
      · rw [if_neg h2]
        have ih2 := ih hrest
        unfold spec_selftest_in_band spec_selftest_delta at ih2
        rw [ih2]
        constructor
        · intro e
          exact ⟨⟨by omega, by omega⟩, e⟩
        · intro e
          exact e.2

/-- A status that contains an error still contains it after more bits are added. -/
theorem status_contains_or_left {a : Nat} (b : Nat) {e : Nat} (h : status_contains a e) :
    status_contains (a ||| b) e := by
  unfold status_contains at *
  apply Nat.eq_of_testBit_eq
  intro i
  have hi := congrArg (fun n => n.testBit i) h
  simp only [Nat.testBit_and, Nat.testBit_or] at hi ⊢
  revert hi
  cases a.testBit i <;> cases b.testBit i <;> cases e.testBit i <;> simp

/-- The error that is added to a status is contained in it. -/
theorem status_contains_or_right (a e : Nat) : status_contains (a ||| e) e := by
  unfold status_contains
  apply Nat.eq_of_testBit_eq
  intro i
  simp only [Nat.testBit_and, Nat.testBit_or]
  cases a.testBit i <;> cases e.testBit i <;> simp

/-- The axes below 3 are the axes 0, 1 and 2. -/
theorem forall_lt_three (p : Nat → Prop) : (∀ ii < 3, p ii) ↔ ∀ ii ∈ [0, 1, 2], p ii := by
  constructor
  · intro h ii hii
    simp only [List.mem_cons, List.mem_singleton, List.not_mem_nil, or_false] at hii
    exact h ii (by omega)
  · intro h ii hii
    apply h
    simp only [List.mem_cons, List.mem_singleton, List.not_mem_nil, or_false]
    omega

/-! ### Init on the SPI bus -/

/-- Init on the SPI bus when the identifier read differs from `LIS2DH12_ID`. -/
theorem init_spi_not_found (k : Consts) (w : World) (s : ruuvi_driver_sensor_t)
    (handle : Nat) (hctx : w.dev.ctx = false)
    (hid : (lis2dh12_device_id_get w).2.1 ≠ k.LIS2DH12_ID) :
    ruuvi_interface_lis2dh12_init k w (some s) k.RUUVI_DRIVER_BUS_SPI handle =
      (k.RUUVI_DRIVER_ERROR_NOT_FOUND,
       { w with dev := { w.dev with ctx := true, handle := handle,
                                    mode := k.RUUVI_DRIVER_SENSOR_CFG_SLEEP },
                tick := w.tick + 1 },
       some ( ruuvi_driver_sensor_initialize s)) := by
  have hid2 : (lis2dh12_device_id_get
      { w with dev := { w.dev with ctx := true, handle := handle,
                                   mode := k.RUUVI_DRIVER_SENSOR_CFG_SLEEP } }).2.1
        ≠ k.LIS2DH12_ID := hid
  unfold ruuvi_interface_lis2dh12_init
  simp only [hctx, Bool.false_eq_true, if_false, if_true]
  rw [if_pos hid2]
  rfl

/-- Init on the SPI bus when the identifier read is `LIS2DH12_ID`: the status is the
OR of the four accumulated writes and the two verdicts on the samples that the bus
operations 17, 19, 21 and 23 after the call read; the writes and delays are the
same whatever the outcome. -/
theorem init_spi_found (k : Consts) (w : World) (s : ruuvi_driver_sensor_t)
    (handle : Nat) (hctx : w.dev.ctx = false)
    (hid : (lis2dh12_device_id_get w).2.1 = k.LIS2DH12_ID) :
    (ruuvi_interface_lis2dh12_init k w (some s) k.RUUVI_DRIVER_BUS_SPI handle).1 =
      ((((w.bus (w.tick + 16) |||
          lis2dh12_verify_selftest_difference_loop k (w.accel (w.tick + 19))
            (w.accel (w.tick + 17)) [0, 1, 2]) |||
          w.bus (w.tick + 20)) |||
          lis2dh12_verify_selftest_difference_loop k (w.accel (w.tick + 23))
            (w.accel (w.tick + 21)) [0, 1, 2]) |||
          w.bus (w.tick + 24)) ||| w.bus (w.tick + 25) ∧
    (ruuvi_interface_lis2dh12_init k w (some s) k.RUUVI_DRIVER_BUS_SPI handle).2.1.trace =
      w.trace ++ [Event.fifo_set 0, Event.fifo_mode_set k.LIS2DH12_BYPASS_MODE,
        Event.pin_int1_config_set ⟨0⟩,
        Event.high_pass_int_conf_set k.LIS2DH12_ON_INT1_GEN,
        Event.int1_gen_threshold_set 1,
        Event.int1_gen_conf_set ⟨0, 0, 0, 0, 0, 0, 0, 0⟩,
        Event.pin_int2_config_set ⟨k.PROPERTY_ENABLE⟩,
        Event.write_reg k.LIS2DH12_CTRL_REG1 [7],
        Event.block_data_update_set k.PROPERTY_ENABLE,
        Event.high_pass_on_outputs_set k.PROPERTY_DISABLE,
        Event.data_rate_set k.LIS2DH12_ODR_400Hz,
        Event.full_scale_set k.LIS2DH12_2g,
        Event.temperature_meas_set k.LIS2DH12_TEMP_ENABLE,
        Event.operating_mode_set k.LIS2DH12_NM_10bit,
        Event.self_test_set k.LIS2DH12_ST_DISABLE, Event.delay_ms 9,
        Event.self_test_set k.LIS2DH12_ST_POSITIVE, Event.delay_ms 9,
        Event.self_test_set k.LIS2DH12_ST_DISABLE, Event.delay_ms 9,
        Event.self_test_set k.LIS2DH12_ST_NEGATIVE, Event.delay_ms 9,
        Event.self_test_set k.LIS2DH12_ST_DISABLE,
        Event.data_rate_set k.LIS2DH12_POWER_DOWN] ∧
    (ruuvi_interface_lis2dh12_init k w (some s) k.RUUVI_DRIVER_BUS_SPI handle).2.1.dev.samplerate
      = k.LIS2DH12_POWER_DOWN ∧
    (ruuvi_interface_lis2dh12_init k w (some s) k.RUUVI_DRIVER_BUS_SPI handle).2.1.dev.selftest
      = k.LIS2DH12_ST_DISABLE := by
  have hid2 : ¬ (lis2dh12_device_id_get
      { w with dev := { w.dev with ctx := true, handle := handle,
                                   mode := k.RUUVI_DRIVER_SENSOR_CFG_SLEEP } }).2.1
        ≠ k.LIS2DH12_ID := not_not.mpr hid
  have hf := init_selftest_frame k (lis2dh12_device_id_get
      { w with dev := { w.dev with ctx := true, handle := handle,
                                   mode := k.RUUVI_DRIVER_SENSOR_CFG_SLEEP } }).2.2
  have e1 : (lis2dh12_device_id_get
      { w with dev := { w.dev with ctx := true, handle := handle,
                                   mode := k.RUUVI_DRIVER_SENSOR_CFG_SLEEP } }).2.2.tick
        = w.tick + 1 := rfl
  have e2 : (lis2dh12_device_id_get
      { w with dev := { w.dev with ctx := true, handle := handle,
                                   mode := k.RUUVI_DRIVER_SENSOR_CFG_SLEEP } }).2.2.bus
        = w.bus := rfl
  have e3 : (lis2dh12_device_id_get
      { w with dev := { w.dev with ctx := true, handle := handle,
                                   mode := k.RUUVI_DRIVER_SENSOR_CFG_SLEEP } }).2.2.accel
        = w.accel := rfl
  have e4 : (lis2dh12_device_id_get
      { w with dev := { w.dev with ctx := true, handle := handle,
                                   mode := k.RUUVI_DRIVER_SENSOR_CFG_SLEEP } }).2.2.trace
        = w.trace := rfl
  rw [e1, e2, e3, e4] at hf
  obtain ⟨ht, hd, _, hs⟩ := hf
  simp only [Nat.add_assoc, Nat.reduceAdd] at hs
  unfold ruuvi_interface_lis2dh12_init
  simp only [hctx, Bool.false_eq_true, if_false, if_true]
  rw [if_neg hid2]
  split
  · refine ⟨hs, ht, ?_, ?_⟩
    · rw [hd]
    · rw [hd]
  · refine ⟨hs, ht, ?_, ?_⟩
    · rw [hd]
    · rw [hd]

/-- The last self-test write and the last data-rate write of a trace that ends with
the writes and delays of init. -/
theorem init_trace_last_writes (k : Consts) (t : List Event) :
    last_self_test_write (t ++ [Event.fifo_set 0, Event.fifo_mode_set k.LIS2DH12_BYPASS_MODE,
        Event.pin_int1_config_set ⟨0⟩,
        Event.high_pass_int_conf_set k.LIS2DH12_ON_INT1_GEN,
        Event.int1_gen_threshold_set 1,
        Event.int1_gen_conf_set ⟨0, 0, 0, 0, 0, 0, 0, 0⟩,
        Event.pin_int2_config_set ⟨k.PROPERTY_ENABLE⟩,
        Event.write_reg k.LIS2DH12_CTRL_REG1 [7],
        Event.block_data_update_set k.PROPERTY_ENABLE,
        Event.high_pass_on_outputs_set k.PROPERTY_DISABLE,
        Event.data_rate_set k.LIS2DH12_ODR_400Hz,
        Event.full_scale_set k.LIS2DH12_2g,
        Event.temperature_meas_set k.LIS2DH12_TEMP_ENABLE,
        Event.operating_mode_set k.LIS2DH12_NM_10bit,
        Event.self_test_set k.LIS2DH12_ST_DISABLE, Event.delay_ms 9,
        Event.self_test_set k.LIS2DH12_ST_POSITIVE, Event.delay_ms 9,
        Event.self_test_set k.LIS2DH12_ST_DISABLE, Event.delay_ms 9,
        Event.self_test_set k.LIS2DH12_ST_NEGATIVE, Event.delay_ms 9,
        Event.self_test_set k.LIS2DH12_ST_DISABLE,
        Event.data_rate_set k.LIS2DH12_POWER_DOWN]) = some k.LIS2DH12_ST_DISABLE ∧
    last_data_rate_write (t ++ [Event.fifo_set 0, Event.fifo_mode_set k.LIS2DH12_BYPASS_MODE,
        Event.pin_int1_config_set ⟨0⟩,
        Event.high_pass_int_conf_set k.LIS2DH12_ON_INT1_GEN,
        Event.int1_gen_threshold_set 1,
        Event.int1_gen_conf_set ⟨0, 0, 0, 0, 0, 0, 0, 0⟩,
        Event.pin_int2_config_set ⟨k.PROPERTY_ENABLE⟩,
        Event.write_reg k.LIS2DH12_CTRL_REG1 [7],
        Event.block_data_update_set k.PROPERTY_ENABLE,
        Event.high_pass_on_outputs_set k.PROPERTY_DISABLE,
        Event.data_rate_set k.LIS2DH12_ODR_400Hz,
        Event.full_scale_set k.LIS2DH12_2g,
        Event.temperature_meas_set k.LIS2DH12_TEMP_ENABLE,
        Event.operating_mode_set k.LIS2DH12_NM_10bit,
        Event.self_test_set k.LIS2DH12_ST_DISABLE, Event.delay_ms 9,
        Event.self_test_set k.LIS2DH12_ST_POSITIVE, Event.delay_ms 9,
        Event.self_test_set k.LIS2DH12_ST_DISABLE, Event.delay_ms 9,
        Event.self_test_set k.LIS2DH12_ST_NEGATIVE, Event.delay_ms 9,
        Event.self_test_set k.LIS2DH12_ST_DISABLE,
        Event.data_rate_set k.LIS2DH12_POWER_DOWN]) = some k.LIS2DH12_POWER_DOWN := by
  constructor
  · simp [last_self_test_write, List.filterMap_append, List.filterMap_cons, List.getLast?_append]
  · simp [last_data_rate_write, List.filterMap_append, List.filterMap_cons, List.getLast?_append]

/-! ### The activity interrupt -/

/-- The threshold step that the activity interrupt setter uses when the scale read
succeeds and the chip holds one of the four scale codes. -/
theorem activity_interrupt_use_divisor_value (k : Consts) (hk : k.WF) (w : World)
    (hb : w.bus w.tick = 0) (code : Nat) (lsb : ℚ) (hfs : w.hw.fs = code)
    (hp : (code, lsb) ∈ [(k.LIS2DH12_2g, (0.016 : ℚ)), (k.LIS2DH12_4g, 0.032),
      (k.LIS2DH12_8g, 0.062), (k.LIS2DH12_16g, 0.186)]) :
    activity_interrupt_use_divisor
      ((ruuvi_interface_lis2dh12_scale_get k w (some 0)).2.2.getD 0) = lsb ∧ 0 < lsb := by
  have h := hk.fs_labels
  simp only [List.nodup_cons, List.mem_cons, List.mem_singleton, not_or, List.not_mem_nil,
    not_false_eq_true, List.nodup_nil, and_true] at h
  obtain ⟨⟨h12, h13, h14⟩, ⟨h23, h24⟩, h34⟩ := h
  simp only [List.mem_cons, List.mem_singleton, Prod.mk.injEq, List.not_mem_nil, or_false] at hp
  rcases hp with ⟨rfl, rfl⟩ | ⟨rfl, rfl⟩ | ⟨rfl, rfl⟩ | ⟨rfl, rfl⟩
  · constructor
    · simp [ruuvi_interface_lis2dh12_scale_get, lis2dh12_full_scale_get, hb, hfs,
        activity_interrupt_use_divisor]
    · norm_num
  · constructor
    · simp [ruuvi_interface_lis2dh12_scale_get, lis2dh12_full_scale_get, hb, hfs,
        activity_interrupt_use_divisor, Ne.symm h12]
    · norm_num
  · constructor
    · simp [ruuvi_interface_lis2dh12_scale_get, lis2dh12_full_scale_get, hb, hfs,
        activity_interrupt_use_divisor, Ne.symm h13, Ne.symm h23]
    · norm_num
  · constructor
    · simp [ruuvi_interface_lis2dh12_scale_get, lis2dh12_full_scale_get, hb, hfs,
        activity_interrupt_use_divisor, Ne.symm h14, Ne.symm h24, Ne.symm h34]
    · norm_num

/-- A call of the activity interrupt setter whose threshold is above 0x7F: the scale
has been read, nothing is written and the limit is left as it was. -/
theorem activity_interrupt_use_reject (k : Consts) (w : World) (enable : Bool) (l : ℚ)
    (hl : 0 ≤ l)
    (ht : (float_to_uint32 (l / activity_interrupt_use_divisor
        ((ruuvi_interface_lis2dh12_scale_get k w (some 0)).2.2.getD 0)) + 1) % 4294967296
          > 0x7F) :
    ruuvi_interface_lis2dh12_activity_interrupt_use k w enable (some l) =
      (k.RUUVI_DRIVER_ERROR_INVALID_PARAM,
       { w with dev := { w.dev with scale := (lis2dh12_full_scale_get w).2.1 },
                tick := w.tick + 1 },
       some l) := by
  have hl2 : ¬ 0 > l := not_lt.mpr hl
  simp only [ruuvi_interface_lis2dh12_activity_interrupt_use, hl2, ht, if_false, if_true,
    scale_get_world]
  rfl

/-- The integer part of 0.02 / 0.016 is 1. -/
theorem floor_example_2g : ⌊(0.02 : ℚ) / 0.016⌋ = 1 := by
  rw [Int.floor_eq_iff]
  norm_num

/-- The integer part of 3 / 0.016 is 187. -/
theorem floor_example_3g : ⌊(3 : ℚ) / 0.016⌋ = 187 := by
  rw [Int.floor_eq_iff]
  norm_num


/-! ### The FIFO read -/

/-- One iteration of the loop of the FIFO read when the index is outside the
buffer. -/
theorem fifo_read_loop_step_none (k : Consts) (c : Codec) (populate : Populate) (n ii : Nat)
    (w : World) (err : Nat) (p : List ruuvi_driver_sensor_data_t) (h : p.get? ii = none) :
    ruuvi_interface_lis2dh12_fifo_read_loop k c populate (n + 1) ii w err p =
      ruuvi_interface_lis2dh12_fifo_read_loop k c populate n (ii + 1)
        { w with tick := w.tick + 1 }
        ((err ||| w.bus w.tick) ||| (rawToMg k c w (w.accel w.tick)).1) p := by
  conv_lhs => unfold ruuvi_interface_lis2dh12_fifo_read_loop
  simp only [h]
  rfl

/-- One iteration of the loop of the FIFO read when the index is inside the buffer. -/
theorem fifo_read_loop_step_some (k : Consts) (c : Codec) (populate : Populate) (n ii : Nat)
    (w : World) (err : Nat) (p : List ruuvi_driver_sensor_data_t)
    (t : ruuvi_driver_sensor_data_t) (h : p.get? ii = some t) :
    ruuvi_interface_lis2dh12_fifo_read_loop k c populate (n + 1) ii w err p =
      ruuvi_interface_lis2dh12_fifo_read_loop k c populate n (ii + 1)
        { w with tick := w.tick + 1 }
        ((err ||| w.bus w.tick) ||| (rawToMg k c w (w.accel w.tick)).1)
        (p.set ii (populate t (fifo_sample k c w w.tick) t.fields)) := by
  conv_lhs => unfold ruuvi_interface_lis2dh12_fifo_read_loop
  simp only [h]
  rfl

/-- The loop of the FIFO read: `n` bus operations, the length of the buffer is kept,
the entries from `ii` to `ii + n - 1` are populated from the samples of these bus
operations and the other entries are left alone. -/
theorem fifo_read_loop_spec (k : Consts) (c : Codec) (populate : Populate) :
    ∀ (n ii : Nat) (w : World) (err : Nat) (p : List ruuvi_driver_sensor_data_t),
      (ruuvi_interface_lis2dh12_fifo_read_loop k c populate n ii w err p).1
        = { w with tick := w.tick + n } ∧
      (ruuvi_interface_lis2dh12_fifo_read_loop k c populate n ii w err p).2.2.length
        = p.length ∧
      ∀ j, (ruuvi_interface_lis2dh12_fifo_read_loop k c populate n ii w err p).2.2.get? j =
        if ii ≤ j ∧ j < ii + n then
          (p.get? j).map (fun t => populate t (fifo_sample k c w (w.tick + (j - ii))) t.fields)
        else p.get? j := by
  intro n
  induction n with
  | zero =>
    intro ii w err p
    refine ⟨rfl, rfl, ?_⟩
    intro j
    have hno : ¬ (ii ≤ j ∧ j < ii + 0) := by omega
    rw [if_neg hno]
    rfl
  | succ n ih =>
    intro ii w err p
    have hworld : ({ w with tick := w.tick + 1 + n } : World)
        = { w with tick := w.tick + (n + 1) } := by
      rw [Nat.add_assoc, Nat.add_comm 1 n]
    have hsample : ∀ m, fifo_sample k c { w with tick := w.tick + 1 } m = fifo_sample k c w m :=
      fun _ => rfl
    cases hget : p.get? ii with
    | none =>
      rw [fifo_read_loop_step_none k c populate n ii w err p hget]
      obtain ⟨h1, h2, h3⟩ := ih (ii + 1) { w with tick := w.tick + 1 }
        ((err ||| w.bus w.tick) ||| (rawToMg k c w (w.accel w.tick)).1) p
      refine ⟨h1.trans hworld, h2, ?_⟩
      intro j
      rw [h3 j]
      simp only [hsample]
      by_cases hj : j = ii
      · subst hj
        have hno : ¬ (j + 1 ≤ j ∧ j < j + 1 + n) := by omega
        have hyes : j ≤ j ∧ j < j + (n + 1) := by omega
        rw [if_neg hno, if_pos hyes, hget]
        rfl
      · by_cases hin : ii + 1 ≤ j ∧ j < ii + 1 + n
        · have hyes : ii ≤ j ∧ j < ii + (n + 1) := by omega
          have ht : w.tick + 1 + (j - (ii + 1)) = w.tick + (j - ii) := by omega
          rw [if_pos hin, if_pos hyes, ht]
        · have hno : ¬ (ii ≤ j ∧ j < ii + (n + 1)) := by omega
          rw [if_neg hin, if_neg hno]
    | some t =>
      rw [fifo_read_loop_step_some k c populate n ii w err p t hget]
      obtain ⟨h1, h2, h3⟩ := ih (ii + 1) { w with tick := w.tick + 1 }
        ((err ||| w.bus w.tick) ||| (rawToMg k c w (w.accel w.tick)).1)
        (p.set ii (populate t (fifo_sample k c w w.tick) t.fields))
      have hlt : ii < p.length := by
        by_contra hge
        have := List.get?_eq_none.mpr (Nat.le_of_not_lt hge)
        rw [this] at hget
        cases hget
      refine ⟨h1.trans hworld, ?_, ?_⟩
      · rw [h2, List.length_set]
      · intro j
        rw [h3 j]
        simp only [hsample]
        by_cases hj : j = ii
        · subst hj
          have hno : ¬ (j + 1 ≤ j ∧ j < j + 1 + n) := by omega
          have hyes : j ≤ j ∧ j < j + (n + 1) := by omega
          rw [if_neg hno, if_pos hyes, hget, Nat.sub_self]
          simp [List.getElem?_set, hlt]
        · have hj2 : ii ≠ j := fun e => hj e.symm
          have hset : (p.set ii (populate t (fifo_sample k c w w.tick) t.fields)).get? j
              = p.get? j := by
            simp [List.getElem?_set, hj2]
          rw [hset]
          by_cases hin : ii + 1 ≤ j ∧ j < ii + 1 + n
          · have hyes : ii ≤ j ∧ j < ii + (n + 1) := by omega
            have ht : w.tick + 1 + (j - (ii + 1)) = w.tick + (j - ii) := by omega
            rw [if_pos hin, if_pos hyes, ht]
          · have hno : ¬ (ii ≤ j ∧ j < ii + (n + 1)) := by omega
            rw [if_neg hin, if_neg hno]

/-- The FIFO read when the level register reports `N` queued samples, `1 ≤ N ≤ 31`,
and the caller's capacity is `C ≥ 1`: the number of elements, the bus operations
and the entries of the buffer. The target of entry 0 carries the time stamp of the
call; the targets of the other entries are the entries as the caller passed them. -/
theorem fifo_read_spec (k : Consts) (c : Codec) (populate : Populate) (w : World)
    (N C : Nat) (p : List ruuvi_driver_sensor_data_t)
    (hN : (lis2dh12_fifo_data_level_get w).2.1 = N) (h1 : 1 ≤ N) (h31 : N ≤ 31)
    (hC : 1 ≤ C) :
    (ruuvi_interface_lis2dh12_fifo_read k c populate w (some C) (some p)).2.2.1
      = some (min (N + 1) C) ∧
    (ruuvi_interface_lis2dh12_fifo_read k c populate w (some C) (some p)).2.1
      = { w with tick := w.tick + 1 + min (N + 1) C } ∧
    ∃ buf, (ruuvi_interface_lis2dh12_fifo_read k c populate w (some C) (some p)).2.2.2
        = some buf ∧
      buf.length = p.length ∧
      ∀ j, buf.get? j =
        if j < min (N + 1) C then
          (p.get? j).map (fun t => populate
            (if j = 0 then { t with timestamp_ms := ruuvi_driver_sensor_timestamp_get w } else t)
            (fifo_sample k c w (w.tick + 1 + j)) t.fields)
        else p.get? j := by
  have hne : ¬ N % 256 = 0 := by omega
  have hel : (if (N % 256 + 1) % 256 > C then C % 256 else (N % 256 + 1) % 256)
      = min (N + 1) C := by
    have e1 : (N % 256 + 1) % 256 = N + 1 := by omega
    rw [e1]
    split
    · omega
    · omega
  unfold ruuvi_interface_lis2dh12_fifo_read
  simp only [hN, hne, if_false, hel]
  obtain ⟨g1, g2, g3⟩ := fifo_read_loop_spec k c populate (min (N + 1) C) 0
    (lis2dh12_fifo_data_level_get w).2.2
    (RUUVI_DRIVER_SUCCESS ||| (lis2dh12_fifo_data_level_get w).1)
    (match p with
      | [] => []
      | d :: ds =>
        { d with timestamp_ms :=
            ruuvi_driver_sensor_timestamp_get (lis2dh12_fifo_data_level_get w).2.2 } :: ds)
  refine ⟨trivial, ?_, _, rfl, ?_, ?_⟩
  · rw [g1]
    rfl
  · rw [g2]
    cases p <;> rfl
  · intro j
    rw [g3 j]
    have hm : 1 ≤ min (N + 1) C := by omega
    by_cases hj : j < min (N + 1) C
    · have hyes : 0 ≤ j ∧ j < 0 + min (N + 1) C := by omega
      rw [if_pos hyes, if_pos hj]
      have ht : (lis2dh12_fifo_data_level_get w).2.2.tick + (j - 0) = w.tick + 1 + j := rfl
      rw [ht]
      cases p with
      | nil => rfl
      | cons d ds =>
        cases j with
        | zero => rfl
        | succ j => rfl
    · have hno : ¬ (0 ≤ j ∧ j < 0 + min (N + 1) C) := by omega
      rw [if_neg hno, if_neg hj]
      cases p with
      | nil => rfl
      | cons d ds =>
        cases j with
        | zero => omega
        | succ j => rfl

/-! ### The error module -/

/-- The error check adds the error to the mask `m_errors`. -/
theorem error_check_m_errors (k : Consts) (w : World) (e m : Nat) (f : String) (l : Nat) :
    (ruuvi_driver_error_check k w e m f l).m_errors = w.m_errors ||| e := by
  unfold ruuvi_driver_error_check
  split
  · rename_i h
    rw [← h]
    simp [RUUVI_DRIVER_SUCCESS]
  · dsimp only
    split <;> split <;> simp

/-- The mask after a sequence of error checks. -/
theorem error_checks_m_errors (k : Consts) (calls : List (Nat × Nat × String × Nat)) :
    ∀ w : World, (error_checks k w calls).m_errors =
      (calls.map (fun c => c.1)).foldl (fun a e => a ||| e) w.m_errors := by
  induction calls with
  | nil => intro w; rfl
  | cons c rest ih =>
    intro w
    have h := ih (ruuvi_driver_error_check k w c.1 c.2.1 c.2.2.1 c.2.2.2)
    rw [error_check_m_errors] at h
    exact h

/-- When `strrchr` finds the character, its result starts at the last occurrence. -/
theorem strrchr_some (c : Char) : ∀ (xs r : List Char), strrchr xs c = some r →
    ∃ dir rest, xs = dir ++ c :: rest ∧ c ∉ rest ∧ r = c :: rest := by
  intro xs
  induction xs with
  | nil => intro r h; cases h
  | cons x xs ih =>
    intro r h
    unfold strrchr at h
    cases hs : strrchr xs c with
    | some r1 =>
      rw [hs] at h
      dsimp only at h
      cases h
      obtain ⟨dir, rest, h1, h2, h3⟩ := ih _ hs
      exact ⟨x :: dir, rest, by rw [h1]; rfl, h2, h3⟩
    | none =>
      rw [hs] at h
      dsimp only at h
      by_cases hx : x = c
      · rw [if_pos hx] at h
        cases h
        have hn : c ∉ xs := by
          clear ih
          induction xs with
          | nil => simp
          | cons y ys ihy =>
            unfold strrchr at hs
            cases hy : strrchr ys c with
            | some r2 => rw [hy] at hs; cases hs
            | none =>
              rw [hy] at hs
              dsimp only at hs
              by_cases hyc : y = c
              · rw [if_pos hyc] at hs; cases hs
              · have := ihy hy
                simp only [List.mem_cons, not_or]
                exact ⟨fun e => hyc e.symm, this⟩
        exact ⟨[], xs, by rw [hx]; rfl, hn, by rw [hx]⟩
      · rw [if_neg hx] at h
        cases h

/-- When `strrchr` returns NULL the character does not occur. -/
theorem strrchr_none (c : Char) : ∀ xs : List Char, strrchr xs c = none → c ∉ xs := by
  intro xs
  induction xs with
  | nil => intro _; simp
  | cons y ys ih =>
    intro hs
    unfold strrchr at hs
    cases hy : strrchr ys c with
    | some r2 => rw [hy] at hs; cases hs
    | none =>
      rw [hy] at hs
      dsimp only at hs
      by_cases hyc : y = c
      · rw [if_pos hyc] at hs; cases hs
      · simp only [List.mem_cons, not_or]
        exact ⟨fun e => hyc e.symm, ih hy⟩

/-- The file name that the error check passes on is the path without its directory
part. -/
theorem error_check_file_name (file : List Char) :
    spec_file_name file
      (match strrchr file '/' with
        | some r => r.tail
        | none =>
          match strrchr file (Char.ofNat 92) with
          | some r => r.tail
          | none => file) := by
  cases h1 : strrchr file '/' with
  | some r =>
    obtain ⟨dir, rest, e1, e2, e3⟩ := strrchr_some '/' file r h1
    left
    refine ⟨dir, ?_, ?_⟩
    · rw [e3]; exact e1
    · rw [e3]; exact e2
  | none =>
    have n1 := strrchr_none '/' file h1
    cases h2 : strrchr file (Char.ofNat 92) with
    | some r =>
      obtain ⟨dir, rest, e1, e2, e3⟩ := strrchr_some (Char.ofNat 92) file r h2
      right; left
      refine ⟨n1, dir, ?_, ?_⟩
      · rw [e3]; exact e1
      · rw [e3]; exact e2
    | none =>
      have n2 := strrchr_none (Char.ofNat 92) file h2
      right; right
      exact ⟨n1, n2, rfl⟩

/-- The classification of the error check: the expression `~non_fatal_mask & error`
on 32 bits is not zero exactly when a bit of the error is not in the mask. -/
theorem error_check_fatal_iff (e m : Nat) :
    ((4294967295 - m % 4294967296) &&& e) ≠ 0 ↔
      ∃ i, i < 32 ∧ e.testBit i = true ∧ m.testBit i = false := by
  have hlt : m % 4294967296 < 2 ^ 32 := Nat.mod_lt _ (by norm_num)
  have hrew : 4294967295 - m % 4294967296 = 2 ^ 32 - (m % 4294967296 + 1) := by omega
  have hbit : ∀ i, ((4294967295 - m % 4294967296) &&& e).testBit i =
      (decide (i < 32) && !m.testBit i && e.testBit i) := by
    intro i
    have h232 : (4294967296 : Nat) = 2 ^ 32 := by norm_num
    rw [Nat.testBit_and, hrew, Nat.testBit_two_pow_sub_succ hlt, h232, Nat.testBit_mod_two_pow]
    cases decide (i < 32) <;> simp
  constructor
  · intro hne
    obtain ⟨i, hi⟩ := Nat.ne_zero_implies_bit_true hne
    rw [hbit i] at hi
    simp only [Bool.and_eq_true, decide_eq_true_eq, Bool.not_eq_true'] at hi
    exact ⟨i, hi.1.1, hi.2, hi.1.2⟩
  · rintro ⟨i, h1, h2, h3⟩ h0
    have := hbit i
    rw [h0, Nat.zero_testBit, h2, h3] at this
    simp [h1] at this

/-- The log after an error check with an error that is not SUCCESS: the line of the
error or of the warning, then the call of the callback when one is registered. -/
theorem error_check_log (k : Consts) (w : World) (e m : Nat) (f : String) (l : Nat)
    (he : e ≠ RUUVI_DRIVER_SUCCESS) :
    ∃ name, spec_file_name f.toList name ∧
      (ruuvi_driver_error_check k w e m f l).log =
        (w.log ++
          (if ((4294967295 - m % 4294967296) &&& e) ≠ 0 then
            [ErrEvent.log_flush,
             ErrEvent.log k.RUUVI_INTERFACE_LOG_ERROR (String.mk name) l e,
             ErrEvent.log_flush]
           else [ErrEvent.log k.RUUVI_INTERFACE_LOG_WARNING (String.mk name) l e])) ++
          (if w.m_cb = true then
            [ErrEvent.cb e (decide (((4294967295 - m % 4294967296) &&& e) ≠ 0)) (String.mk name) l]
           else []) := by
  refine ⟨_, error_check_file_name f.toList, ?_⟩
  have he2 : ¬ RUUVI_DRIVER_SUCCESS = e := fun h => he h.symm
  unfold ruuvi_driver_error_check
  rw [if_neg he2]
  dsimp only
  by_cases hf : ((4294967295 - m % 4294967296) &&& e) ≠ 0
  · by_cases hc : w.m_cb = true
    · simp [hf, hc, he2]
    · simp [hf, hc, he2]
  · by_cases hc : w.m_cb = true
    · simp [hf, hc, he2]
    · simp [hf, hc, he2]

/-! ### Uninit -/

/-- Init on the SPI bus of a driver whose bus context is not set is not rejected: it
sets the bus context, whatever the identifier read and the self-test give. -/
theorem init_spi_sets_ctx (k : Consts) (w : World) (s : ruuvi_driver_sensor_t)
    (handle : Nat) (hctx : w.dev.ctx = false) :
    (ruuvi_interface_lis2dh12_init k w (some s) k.RUUVI_DRIVER_BUS_SPI handle).2.1.dev.ctx
      = true := by
  by_cases hid : (lis2dh12_device_id_get w).2.1 = k.LIS2DH12_ID
  · have hid2 : ¬ (lis2dh12_device_id_get
        { w with dev := { w.dev with ctx := true, handle := handle,
                                     mode := k.RUUVI_DRIVER_SENSOR_CFG_SLEEP } }).2.1
          ≠ k.LIS2DH12_ID := not_not.mpr hid
    have hf := (init_selftest_frame k (lis2dh12_device_id_get
        { w with dev := { w.dev with ctx := true, handle := handle,
                                     mode := k.RUUVI_DRIVER_SENSOR_CFG_SLEEP } }).2.2).2.1
    unfold ruuvi_interface_lis2dh12_init
    simp only [hctx, Bool.false_eq_true, if_false, if_true]
    rw [if_neg hid2]
    split
    · show (ruuvi_interface_lis2dh12_init_selftest k _).2.dev.ctx = true
      rw [hf]
      rfl
    · show (ruuvi_interface_lis2dh12_init_selftest k _).2.dev.ctx = true
      rw [hf]
      rfl
  · rw [init_spi_not_found k w s handle hctx hid]

/-! ### The conversion of raw samples -/

/-- The conversion of a raw sample when the stored scale and resolution form a
supported pair: each axis is the output of the function that belongs to the pair. -/
theorem rawToMg_supported (k : Consts) (hk : k.WF) (c : Codec) (w : World)
    (raw : axis3bit16_t) (f : Int → ℚ)
    (hmem : (w.dev.scale, w.dev.resolution, f) ∈ spec_acceleration_conversion k c) :
    rawToMg k c w raw =
      (RUUVI_DRIVER_SUCCESS, [f (raw.i16bit 0), f (raw.i16bit 1), f (raw.i16bit 2)]) := by
  have ho := hk.op_md_labels
  simp only [List.nodup_cons, List.mem_cons, List.mem_singleton, not_or, List.not_mem_nil,
    not_false_eq_true, List.nodup_nil, and_true] at ho
  obtain ⟨⟨o12, o13⟩, o23⟩ := ho
  have hf := hk.fs_labels
  simp only [List.nodup_cons, List.mem_cons, List.mem_singleton, not_or, List.not_mem_nil,
    not_false_eq_true, List.nodup_nil, and_true] at hf
  obtain ⟨⟨f12, f13, f14⟩, ⟨f23, f24⟩, f34⟩ := hf
  simp only [spec_acceleration_conversion, List.mem_cons, List.mem_singleton, Prod.mk.injEq,
    List.not_mem_nil, or_false] at hmem
  rcases hmem with ⟨hs, hr, rfl⟩ | ⟨hs, hr, rfl⟩ | ⟨hs, hr, rfl⟩ | ⟨hs, hr, rfl⟩ |
    ⟨hs, hr, rfl⟩ | ⟨hs, hr, rfl⟩ | ⟨hs, hr, rfl⟩ | ⟨hs, hr, rfl⟩ | ⟨hs, hr, rfl⟩ |
    ⟨hs, hr, rfl⟩ | ⟨hs, hr, rfl⟩ | ⟨hs, hr, rfl⟩ <;>
  simp [rawToMg, rawToMg_axis, rawToMg_resolution, hs, hr, RUUVI_DRIVER_SUCCESS,
    Ne.symm o12, Ne.symm o13, Ne.symm o23, Ne.symm f12, Ne.symm f13, Ne.symm f14,
    Ne.symm f23, Ne.symm f24, Ne.symm f34]

/-- The conversion of a raw temperature when the stored resolution is supported. -/
theorem rawToC_supported (k : Consts) (hk : k.WF) (c : Codec) (w : World)
    (raw_temperature : List Nat) (f : Int → ℚ)
    (hmem : (w.dev.resolution, f) ∈ spec_temperature_conversion k c) :
    rawToC k c w raw_temperature =
      (RUUVI_DRIVER_SUCCESS, f (spec_temperature_lsb raw_temperature)) := by
  have ho := hk.op_md_labels
  simp only [List.nodup_cons, List.mem_cons, List.mem_singleton, not_or, List.not_mem_nil,
    not_false_eq_true, List.nodup_nil, and_true] at ho
  obtain ⟨⟨o12, o13⟩, o23⟩ := ho
  simp only [spec_temperature_conversion, List.mem_cons, List.mem_singleton, Prod.mk.injEq,
    List.not_mem_nil, or_false] at hmem
  rcases hmem with ⟨hr, rfl⟩ | ⟨hr, rfl⟩ | ⟨hr, rfl⟩ <;>
  simp [rawToC, spec_temperature_lsb, hr, RUUVI_DRIVER_SUCCESS, Ne.symm o12, Ne.symm o13,
    Ne.symm o23]

/-- Every pair of a scale code and a resolution code has its conversion function. -/
theorem acceleration_conversion_complete (k : Consts) (c : Codec) (s r : Nat)
    (hs : s ∈ [k.LIS2DH12_2g, k.LIS2DH12_4g, k.LIS2DH12_8g, k.LIS2DH12_16g])
    (hr : r ∈ [k.LIS2DH12_LP_8bit, k.LIS2DH12_NM_10bit, k.LIS2DH12_HR_12bit]) :
    ∃ f, (s, r, f) ∈ spec_acceleration_conversion k c := by
  simp only [List.mem_cons, List.mem_singleton, List.not_mem_nil, or_false] at hs hr
  rcases hs with rfl | rfl | rfl | rfl <;> rcases hr with rfl | rfl | rfl
  · exact ⟨c.lis2dh12_from_fs2_lp_to_mg, by simp [spec_acceleration_conversion]⟩
  · exact ⟨c.lis2dh12_from_fs2_nm_to_mg, by simp [spec_acceleration_conversion]⟩
  · exact ⟨c.lis2dh12_from_fs2_hr_to_mg, by simp [spec_acceleration_conversion]⟩
  · exact ⟨c.lis2dh12_from_fs4_lp_to_mg, by simp [spec_acceleration_conversion]⟩
  · exact ⟨c.lis2dh12_from_fs4_nm_to_mg, by simp [spec_acceleration_conversion]⟩
  · exact ⟨c.lis2dh12_from_fs4_hr_to_mg, by simp [spec_acceleration_conversion]⟩
  · exact ⟨c.lis2dh12_from_fs8_lp_to_mg, by simp [spec_acceleration_conversion]⟩
  · exact ⟨c.lis2dh12_from_fs8_nm_to_mg, by simp [spec_acceleration_conversion]⟩
  · exact ⟨c.lis2dh12_from_fs8_hr_to_mg, by simp [spec_acceleration_conversion]⟩
  · exact ⟨c.lis2dh12_from_fs16_lp_to_mg, by simp [spec_acceleration_conversion]⟩
  · exact ⟨c.lis2dh12_from_fs16_nm_to_mg, by simp [spec_acceleration_conversion]⟩
  · exact ⟨c.lis2dh12_from_fs16_hr_to_mg, by simp [spec_acceleration_conversion]⟩

/-- Every resolution code has its temperature conversion function. -/
theorem temperature_conversion_complete (k : Consts) (c : Codec) (r : Nat)
    (hr : r ∈ [k.LIS2DH12_LP_8bit, k.LIS2DH12_NM_10bit, k.LIS2DH12_HR_12bit]) :
    ∃ f, (r, f) ∈ spec_temperature_conversion k c := by
  simp only [List.mem_cons, List.mem_singleton, List.not_mem_nil, or_false] at hr
  rcases hr with rfl | rfl | rfl
  · exact ⟨c.lis2dh12_from_lsb_lp_to_celsius, by simp [spec_temperature_conversion]⟩
  · exact ⟨c.lis2dh12_from_lsb_nm_to_celsius, by simp [spec_temperature_conversion]⟩
  · exact ⟨c.lis2dh12_from_lsb_hr_to_celsius, by simp [spec_temperature_conversion]⟩

/-- The twelve acceleration conversions of the ST driver map 0 to 0 and do not
decrease. -/
theorem stCodec_acceleration_monotone (k : Consts) (s r : Nat) (f : Int → ℚ)
    (hmem : (s, r, f) ∈ spec_acceleration_conversion k stCodec) :
    f 0 = 0 ∧ ∀ a b : Int, a ≤ b → f a ≤ f b := by
  simp only [spec_acceleration_conversion, stCodec, List.mem_cons, List.mem_singleton,
    Prod.mk.injEq, List.not_mem_nil, or_false] at hmem
  rcases hmem with ⟨_, _, rfl⟩ | ⟨_, _, rfl⟩ | ⟨_, _, rfl⟩ | ⟨_, _, rfl⟩ |
    ⟨_, _, rfl⟩ | ⟨_, _, rfl⟩ | ⟨_, _, rfl⟩ | ⟨_, _, rfl⟩ | ⟨_, _, rfl⟩ |
    ⟨_, _, rfl⟩ | ⟨_, _, rfl⟩ | ⟨_, _, rfl⟩ <;>
  · refine ⟨by norm_num, ?_⟩
    intro a b hab
    have hq : (a : ℚ) ≤ (b : ℚ) := by exact_mod_cast hab
    dsimp only
    linarith

/-- The three temperature conversions of the ST driver map 0 to 25 and do not
decrease. -/
theorem stCodec_temperature_monotone (k : Consts) (r : Nat) (f : Int → ℚ)
    (hmem : (r, f) ∈ spec_temperature_conversion k stCodec) :
    f 0 = 25 ∧ ∀ a b : Int, a ≤ b → f a ≤ f b := by
  simp only [spec_temperature_conversion, stCodec, List.mem_cons, List.mem_singleton,
    Prod.mk.injEq, List.not_mem_nil, or_false] at hmem
  rcases hmem with ⟨_, rfl⟩ | ⟨_, rfl⟩ | ⟨_, rfl⟩ <;>
  · refine ⟨by norm_num, ?_⟩
    intro a b hab
    have hq : (a : ℚ) ≤ (b : ℚ) := by exact_mod_cast hab
    dsimp only
    linarith

/-! ### The high-pass filter -/

/-- The world after `dsp_get`: two bus operations, nothing else. -/
theorem dsp_get_world (k : Consts) (w : World) :
    (ruuvi_interface_lis2dh12_dsp_get k w).2.1 = { w with tick := w.tick + 2 } := by
  simp only [ruuvi_interface_lis2dh12_dsp_get]
  repeat (first | rfl | split)

/-- The function that `dsp_get` reports when the read of the high-pass flag
succeeds. -/
theorem dsp_get_dsp (k : Consts) (w : World) (hb : w.bus (w.tick + 1) = 0) :
    (ruuvi_interface_lis2dh12_dsp_get k w).2.2.1 =
      if w.hw.fds ≠ 0 then k.RUUVI_DRIVER_SENSOR_DSP_HIGH_PASS
      else k.RUUVI_DRIVER_SENSOR_DSP_LAST := by
  have e : (lis2dh12_high_pass_on_outputs_get (lis2dh12_high_pass_bandwidth_get w).2.2).2.1
      = w.hw.fds := by
    simp [lis2dh12_high_pass_on_outputs_get, lis2dh12_high_pass_bandwidth_get, hb]
  simp only [ruuvi_interface_lis2dh12_dsp_get, e]
  repeat (first | rfl | split)

/-- With two successful reads `dsp_get` reports, for each cutoff code, the value of
the `switch`. -/
theorem dsp_get_code (k : Consts) (hk : k.WF) (w : World)
    (hb0 : w.bus w.tick = 0) (hb1 : w.bus (w.tick + 1) = 0) (cq : Nat × Nat)
    (hcq : cq ∈ [(k.LIS2DH12_LIGHT, 0), (k.LIS2DH12_MEDIUM, 1), (k.LIS2DH12_STRONG, 2),
      (k.LIS2DH12_AGGRESSIVE, 3)])
    (hc : w.hw.hpcf = cq.1) :
    ruuvi_interface_lis2dh12_dsp_get k w =
      (RUUVI_DRIVER_SUCCESS, { w with tick := w.tick + 2 },
       (if w.hw.fds ≠ 0 then k.RUUVI_DRIVER_SENSOR_DSP_HIGH_PASS
        else k.RUUVI_DRIVER_SENSOR_DSP_LAST), cq.2) := by
  have h := hk.hpcf_labels
  simp only [List.nodup_cons, List.mem_cons, List.mem_singleton, not_or, List.not_mem_nil,
    not_false_eq_true, List.nodup_nil, and_true] at h
  obtain ⟨⟨h12, h13, h14⟩, ⟨h23, h24⟩, h34⟩ := h
  simp only [List.mem_cons, List.mem_singleton, List.not_mem_nil, or_false] at hcq
  rcases hcq with rfl | rfl | rfl | rfl <;>
    simp [ruuvi_interface_lis2dh12_dsp_get, lis2dh12_high_pass_bandwidth_get,
      lis2dh12_high_pass_on_outputs_get, hb0, hb1, hc, RUUVI_DRIVER_SUCCESS,
      Ne.symm h12, Ne.symm h13, Ne.symm h14, Ne.symm h23, Ne.symm h24, Ne.symm h34]

/-- The three writes of the HIGH_PASS branch of `dsp_set` on a bus that succeeds. -/
theorem dsp_set_writes (k : Consts) (x : World) (code : Nat) (hb : BusOk x) :
    (lis2dh12_high_pass_on_outputs_set
      (lis2dh12_high_pass_mode_set (lis2dh12_high_pass_bandwidth_set x code).2
        k.LIS2DH12_NORMAL).2 k.PROPERTY_ENABLE) =
      (0, { x with hw := { x.hw with hpcf := code, hpm := k.LIS2DH12_NORMAL,
                                     fds := k.PROPERTY_ENABLE },
                   tick := x.tick + 3,
                   trace := x.trace ++ [Event.high_pass_bandwidth_set code,
                     Event.high_pass_mode_set k.LIS2DH12_NORMAL,
                     Event.high_pass_on_outputs_set k.PROPERTY_ENABLE] }) ∧
    (lis2dh12_high_pass_mode_set (lis2dh12_high_pass_bandwidth_set x code).2
        k.LIS2DH12_NORMAL).1 = 0 ∧
    (lis2dh12_high_pass_bandwidth_set x code).1 = 0 := by
  have h0 := hb x.tick
  have h1 := hb (x.tick + 1)
  have h2 := hb (x.tick + 2)
  simp [lis2dh12_high_pass_on_outputs_set, lis2dh12_high_pass_mode_set,
    lis2dh12_high_pass_bandwidth_set, h0, h1, h2]

/-- The HIGH_PASS branch of `dsp_set`: once the function is resolved to HIGH_PASS and
the parameter to `p1`, which the `switch` maps to the cutoff `code` and the reported
value `q`, the three registers are written. -/
theorem dsp_set_high_pass (k : Consts) (hk : k.WF) (w : World)
    (hm : w.dev.mode = k.RUUVI_DRIVER_SENSOR_CFG_SLEEP) (hb : BusOk w) (d p p1 : Nat)
    (hd : (if k.RUUVI_DRIVER_SENSOR_CFG_NO_CHANGE = d then
            (ruuvi_interface_lis2dh12_dsp_get k w).2.2.1 else d)
          = k.RUUVI_DRIVER_SENSOR_DSP_HIGH_PASS)
    (hp : (if k.RUUVI_DRIVER_SENSOR_CFG_NO_CHANGE = p then
            (ruuvi_interface_lis2dh12_dsp_get k w).2.2.2 else p) = p1)
    (pcq : Nat × Nat × Nat)
    (hpcq : pcq ∈ [(0, k.LIS2DH12_LIGHT, 0), (1, k.LIS2DH12_MEDIUM, 1),
      (2, k.LIS2DH12_STRONG, 2), (3, k.LIS2DH12_AGGRESSIVE, 3),
      (k.RUUVI_DRIVER_SENSOR_CFG_MIN, k.LIS2DH12_LIGHT, 0),
      (k.RUUVI_DRIVER_SENSOR_CFG_DEFAULT, k.LIS2DH12_LIGHT, 0),
      (k.RUUVI_DRIVER_SENSOR_CFG_MAX, k.LIS2DH12_AGGRESSIVE, 3)])
    (hp1 : p1 = pcq.1) :
    ruuvi_interface_lis2dh12_dsp_set k w (some d) (some p) =
      ((ruuvi_interface_lis2dh12_dsp_get k w).1,
       { w with hw := { w.hw with hpcf := pcq.2.1, hpm := k.LIS2DH12_NORMAL,
                                  fds := k.PROPERTY_ENABLE },
                tick := w.tick + 5,
                trace := w.trace ++ [Event.high_pass_bandwidth_set pcq.2.1,
                  Event.high_pass_mode_set k.LIS2DH12_NORMAL,
                  Event.high_pass_on_outputs_set k.PROPERTY_ENABLE] },
       some k.RUUVI_DRIVER_SENSOR_DSP_HIGH_PASS, some pcq.2.2) := by
  have hmin := hk.min_range
  have hmax := hk.max_range
  have hdef := hk.default_range
  have hb2 : BusOk { w with tick := w.tick + 2 } := hb
  obtain ⟨w1, w2, w3⟩ := dsp_set_writes k { w with tick := w.tick + 2 } pcq.2.1 hb2
  unfold ruuvi_interface_lis2dh12_dsp_set
  simp only [VERIFY_SENSOR_SLEEPS_sleep k w hm, hd, hp, if_true, dsp_get_world]
  simp only [List.mem_cons, List.mem_singleton, List.not_mem_nil, or_false] at hpcq
  rcases hpcq with rfl | rfl | rfl | rfl | rfl | rfl | rfl
  all_goals
    subst hp1
    dsimp only at w1 w2 w3 ⊢
  · simp [w1, w2, w3, RUUVI_DRIVER_SUCCESS]
  · have e1 : ¬ k.RUUVI_DRIVER_SENSOR_CFG_DEFAULT = 1 := by omega
    have e2 : ¬ (1 : Nat) = k.RUUVI_DRIVER_SENSOR_CFG_MIN := by omega
    simp [w1, w2, w3, RUUVI_DRIVER_SUCCESS, e1, e2]
  · have e1 : ¬ k.RUUVI_DRIVER_SENSOR_CFG_DEFAULT = 2 := by omega
    have e2 : ¬ (2 : Nat) = k.RUUVI_DRIVER_SENSOR_CFG_MIN := by omega
    simp [w1, w2, w3, RUUVI_DRIVER_SUCCESS, e1, e2]
  · have e1 : ¬ k.RUUVI_DRIVER_SENSOR_CFG_DEFAULT = 3 := by omega
    have e2 : ¬ (3 : Nat) = k.RUUVI_DRIVER_SENSOR_CFG_MIN := by omega
    simp [w1, w2, w3, RUUVI_DRIVER_SUCCESS, e1, e2]
  · have e1 : ¬ k.RUUVI_DRIVER_SENSOR_CFG_DEFAULT = k.RUUVI_DRIVER_SENSOR_CFG_MIN := by omega
    simp [w1, w2, w3, RUUVI_DRIVER_SUCCESS, e1]
  · simp [w1, w2, w3, RUUVI_DRIVER_SUCCESS]
  · have e1 : ¬ k.RUUVI_DRIVER_SENSOR_CFG_DEFAULT = k.RUUVI_DRIVER_SENSOR_CFG_MAX := by omega
    have e2 : ¬ k.RUUVI_DRIVER_SENSOR_CFG_MAX = k.RUUVI_DRIVER_SENSOR_CFG_MIN := by
      have h := hk.sentinels
      simp only [List.nodup_cons, List.mem_cons, List.mem_singleton, not_or,
        List.not_mem_nil, not_false_eq_true, List.nodup_nil, and_true] at h
      exact fun e => h.2.1.1 e.symm
    have e3 : ¬ k.RUUVI_DRIVER_SENSOR_CFG_MAX = 0 := by omega
    have e4 : ¬ k.RUUVI_DRIVER_SENSOR_CFG_MAX = 1 := by omega
    have e5 : ¬ k.RUUVI_DRIVER_SENSOR_CFG_MAX = 2 := by omega
    simp [w1, w2, w3, RUUVI_DRIVER_SUCCESS, e1, e2, e3, e4, e5]

/-- The branch of `dsp_set` for the functions LAST and DEFAULT: the high-pass filter
on the outputs is switched off and LAST is reported. -/
theorem dsp_set_last (k : Consts) (w : World)
    (hm : w.dev.mode = k.RUUVI_DRIVER_SENSOR_CFG_SLEEP) (hb : BusOk w) (d p d1 : Nat)
    (hd : (if k.RUUVI_DRIVER_SENSOR_CFG_NO_CHANGE = d then
            (ruuvi_interface_lis2dh12_dsp_get k w).2.2.1 else d) = d1)
    (hd1 : ¬ k.RUUVI_DRIVER_SENSOR_DSP_HIGH_PASS = d1)
    (hd2 : k.RUUVI_DRIVER_SENSOR_DSP_LAST = d1 ∨ k.RUUVI_DRIVER_SENSOR_CFG_DEFAULT = d1) :
    ruuvi_interface_lis2dh12_dsp_set k w (some d) (some p) =
      ((ruuvi_interface_lis2dh12_dsp_get k w).1,
       { w with hw := { w.hw with fds := k.PROPERTY_DISABLE },
                tick := w.tick + 3,
                trace := w.trace ++ [Event.high_pass_on_outputs_set k.PROPERTY_DISABLE] },
       some k.RUUVI_DRIVER_SENSOR_DSP_LAST,
       some (if k.RUUVI_DRIVER_SENSOR_CFG_NO_CHANGE = p then
              (ruuvi_interface_lis2dh12_dsp_get k w).2.2.2 else p)) := by
  have h2 := hb (w.tick + 2)
  unfold ruuvi_interface_lis2dh12_dsp_set
  simp only [VERIFY_SENSOR_SLEEPS_sleep k w hm, hd, if_true, dsp_get_world, if_neg hd1,
    if_pos hd2]
  simp [lis2dh12_high_pass_on_outputs_set, h2, RUUVI_DRIVER_SUCCESS]

/-- The `default` case of the `switch` of `dsp_set`: a parameter that resolves to none
of the seven values of the `switch` returns NOT_SUPPORTED after the two reads of
`dsp_get`, without a write. -/
theorem dsp_set_parameter_not_supported (k : Consts) (w : World)
    (hm : w.dev.mode = k.RUUVI_DRIVER_SENSOR_CFG_SLEEP) (d p p1 : Nat)
    (hd : (if k.RUUVI_DRIVER_SENSOR_CFG_NO_CHANGE = d then
            (ruuvi_interface_lis2dh12_dsp_get k w).2.2.1 else d)
          = k.RUUVI_DRIVER_SENSOR_DSP_HIGH_PASS)
    (hp : (if k.RUUVI_DRIVER_SENSOR_CFG_NO_CHANGE = p then
            (ruuvi_interface_lis2dh12_dsp_get k w).2.2.2 else p) = p1)
    (hp1 : p1 ∉ [0, 1, 2, 3, k.RUUVI_DRIVER_SENSOR_CFG_MIN, k.RUUVI_DRIVER_SENSOR_CFG_MAX,
      k.RUUVI_DRIVER_SENSOR_CFG_DEFAULT]) :
    ruuvi_interface_lis2dh12_dsp_set k w (some d) (some p) =
      (k.RUUVI_DRIVER_ERROR_NOT_SUPPORTED, { w with tick := w.tick + 2 },
       some k.RUUVI_DRIVER_SENSOR_DSP_HIGH_PASS,
       some (k.RUUVI_DRIVER_ERROR_NOT_SUPPORTED % 256)) := by
  simp only [List.mem_cons, List.mem_singleton, List.not_mem_nil, or_false, not_or] at hp1
  obtain ⟨n0, n1, n2, n3, nmin, nmax, ndef⟩ := hp1
  have ndef2 : ¬ k.RUUVI_DRIVER_SENSOR_CFG_DEFAULT = p1 := fun e => ndef e.symm
  unfold ruuvi_interface_lis2dh12_dsp_set
  simp only [VERIFY_SENSOR_SLEEPS_sleep k w hm, hd, hp, if_true, dsp_get_world, if_neg ndef2]
  simp [n0, n1, n2, n3, nmin, nmax]

/-- The last line of `dsp_set`: a function that resolves to none of HIGH_PASS, LAST
and DEFAULT returns NOT_SUPPORTED after the two reads of `dsp_get`, without a
write. -/
theorem dsp_set_function_not_supported (k : Consts) (w : World)
    (hm : w.dev.mode = k.RUUVI_DRIVER_SENSOR_CFG_SLEEP) (d p d1 : Nat)
    (hd : (if k.RUUVI_DRIVER_SENSOR_CFG_NO_CHANGE = d then
            (ruuvi_interface_lis2dh12_dsp_get k w).2.2.1 else d) = d1)
    (hd1 : d1 ∉ [k.RUUVI_DRIVER_SENSOR_DSP_HIGH_PASS, k.RUUVI_DRIVER_SENSOR_DSP_LAST,
      k.RUUVI_DRIVER_SENSOR_CFG_DEFAULT]) :
    ruuvi_interface_lis2dh12_dsp_set k w (some d) (some p) =
      (k.RUUVI_DRIVER_ERROR_NOT_SUPPORTED, { w with tick := w.tick + 2 }, some d1,
       some (if k.RUUVI_DRIVER_SENSOR_CFG_NO_CHANGE = p then
              (ruuvi_interface_lis2dh12_dsp_get k w).2.2.2 else p)) := by
  simp only [List.mem_cons, List.mem_singleton, List.not_mem_nil, or_false, not_or] at hd1
  obtain ⟨n1, n2, n3⟩ := hd1
  have m1 : ¬ k.RUUVI_DRIVER_SENSOR_DSP_HIGH_PASS = d1 := fun e => n1 e.symm
  have m2 : ¬ (k.RUUVI_DRIVER_SENSOR_DSP_LAST = d1 ∨ k.RUUVI_DRIVER_SENSOR_CFG_DEFAULT = d1) :=
    fun e => e.elim (fun e => n2 e.symm) (fun e => n3 e.symm)
  unfold ruuvi_interface_lis2dh12_dsp_set
  simp only [VERIFY_SENSOR_SLEEPS_sleep k w hm, hd, if_true, dsp_get_world, if_neg m1,
    if_neg m2]

/-! ### The status of the setters -/

/-- A status contains itself. -/
theorem status_contains_self (e : Nat) : status_contains e e := Nat.and_self e

/-- A status contains what the status added last contains. -/
theorem status_contains_or_of_right (a : Nat) {b e : Nat} (h : status_contains b e) :
    status_contains (a ||| b) e := by
  rw [Nat.or_comm]
  exact status_contains_or_left a h

/-- The world after the resolution getter. -/
theorem resolution_get_world (k : Consts) (x : World) (p : Nat) :
    (ruuvi_interface_lis2dh12_resolution_get k x (some p)).2.1 =
      { (lis2dh12_operating_mode_get x).2.2 with
        dev := { x.dev with resolution := (lis2dh12_operating_mode_get x).2.1 } } := by
  simp only [ruuvi_interface_lis2dh12_resolution_get]
  repeat (first | rfl | split)

/-- The status of the rate getter contains the result of its read. -/
theorem samplerate_get_status (k : Consts) (x : World) (p : Nat) :
    status_contains (ruuvi_interface_lis2dh12_samplerate_get k x (some p)).1 (x.bus x.tick) := by
  simp only [ruuvi_interface_lis2dh12_samplerate_get]
  repeat (first
    | exact status_contains_or_right _ _
    | exact status_contains_or_left _ (status_contains_or_right _ _)
    | split)

/-- The status of the resolution getter contains the result of its read. -/
theorem resolution_get_status (k : Consts) (x : World) (p : Nat) :
    status_contains (ruuvi_interface_lis2dh12_resolution_get k x (some p)).1
      (x.bus x.tick) := by
  simp only [ruuvi_interface_lis2dh12_resolution_get]
  repeat (first
    | exact status_contains_or_right _ _
    | exact status_contains_or_left _ (status_contains_or_right _ _)
    | split)

/-- The status of the scale getter contains the result of its read. -/
theorem scale_get_status (k : Consts) (x : World) (p : Nat) :
    status_contains (ruuvi_interface_lis2dh12_scale_get k x (some p)).1 (x.bus x.tick) := by
  simp only [ruuvi_interface_lis2dh12_scale_get]
  repeat (first
    | exact status_contains_or_right _ _
    | exact status_contains_or_left _ (status_contains_or_right _ _)
    | split)

/-- The chain of `samplerate_set` performs no bus operation. -/
theorem samplerate_set_select_frame (k : Consts) (w : World) (s : Nat) :
    (samplerate_set_select k w s).1.tick = w.tick ∧
    (samplerate_set_select k w s).1.bus = w.bus := by
  rcases samplerate_set_select_cases k w s with ⟨c, hc⟩ | hc
  · rw [hc]; exact ⟨rfl, rfl⟩
  · rw [hc]; exact ⟨rfl, rfl⟩

/-- The chain of `resolution_set` performs no bus operation. -/
theorem resolution_set_select_frame (k : Consts) (w : World) (s : Nat) :
    (resolution_set_select k w s).1.tick = w.tick ∧
    (resolution_set_select k w s).1.bus = w.bus := by
  simp only [resolution_set_select]
  repeat (first | exact ⟨rfl, rfl⟩ | split)

/-- The chain of `scale_set` performs no bus operation. -/
theorem scale_set_select_frame (k : Consts) (w : World) (s : Nat) :
    (scale_set_select k w s).1.tick = w.tick ∧
    (scale_set_select k w s).1.bus = w.bus := by
  simp only [scale_set_select]
  repeat (first | exact ⟨rfl, rfl⟩ | split)

/-- The status of `samplerate_set` contains the result of every bus operation of the
call. -/
theorem samplerate_set_status (k : Consts) (w : World) (s : Option Nat) :
    ∀ n, w.tick ≤ n → n < (ruuvi_interface_lis2dh12_samplerate_set k w s).2.1.tick →
      status_contains (ruuvi_interface_lis2dh12_samplerate_set k w s).1 (w.bus n) := by
  cases s with
  | none => intro n h1 h2; exact absurd h2 (by show ¬ n < w.tick; omega)
  | some s =>
    have ht := fun s => (samplerate_set_select_frame k w s).1
    have hbus := fun s => (samplerate_set_select_frame k w s).2
    unfold ruuvi_interface_lis2dh12_samplerate_set
    cases VERIFY_SENSOR_SLEEPS k w with
    | some e => intro n h1 h2; exact absurd h2 (by show ¬ n < w.tick; omega)
    | none =>
      dsimp only
      by_cases hok : RUUVI_DRIVER_SUCCESS = (samplerate_set_select k w s).2.2
      · rw [if_pos hok, samplerate_get_world]
        intro n h1 h2
        have h3 : n < (samplerate_set_select k w s).1.tick + 1 + 1 := h2
        rw [(ht s)] at h3
        have hs1 := samplerate_get_status k
          (lis2dh12_data_rate_set (samplerate_set_select k w s).1
            (samplerate_set_select k w s).1.dev.samplerate).2 (samplerate_set_select k w s).2.1
        have e1 : (lis2dh12_data_rate_set (samplerate_set_select k w s).1
            (samplerate_set_select k w s).1.dev.samplerate).2.bus
            (lis2dh12_data_rate_set (samplerate_set_select k w s).1
            (samplerate_set_select k w s).1.dev.samplerate).2.tick = w.bus (w.tick + 1) := by
          show (samplerate_set_select k w s).1.bus ((samplerate_set_select k w s).1.tick + 1) = _
          rw [ht s, hbus s]
        have e0 : (lis2dh12_data_rate_set (samplerate_set_select k w s).1
            (samplerate_set_select k w s).1.dev.samplerate).1 = w.bus w.tick := by
          show (samplerate_set_select k w s).1.bus (samplerate_set_select k w s).1.tick = _
          rw [ht s, hbus s]
        rw [e1] at hs1
        rw [e0]
        rcases Nat.lt_or_ge n (w.tick + 1) with hlt | hge
        · have : n = w.tick := by omega
          rw [this]
          exact status_contains_or_left _ (status_contains_or_right _ _)
        · have : n = w.tick + 1 := by omega
          rw [this]
          exact status_contains_or_of_right _ hs1
      · rw [if_neg hok]
        intro n h1 h2
        have h3 : n < (samplerate_set_select k w s).1.tick := h2
        rw [ht s] at h3
        omega

/-- The status of `resolution_set` contains the result of every bus operation of the
call. -/
theorem resolution_set_status (k : Consts) (w : World) (s : Option Nat) :
    ∀ n, w.tick ≤ n → n < (ruuvi_interface_lis2dh12_resolution_set k w s).2.1.tick →
      status_contains (ruuvi_interface_lis2dh12_resolution_set k w s).1 (w.bus n) := by
  cases s with
  | none => intro n h1 h2; exact absurd h2 (by show ¬ n < w.tick; omega)
  | some s =>
    have ht := fun s => (resolution_set_select_frame k w s).1
    have hbus := fun s => (resolution_set_select_frame k w s).2
    unfold ruuvi_interface_lis2dh12_resolution_set
    cases VERIFY_SENSOR_SLEEPS k w with
    | some e => intro n h1 h2; exact absurd h2 (by show ¬ n < w.tick; omega)
    | none =>
      dsimp only
      by_cases hok : RUUVI_DRIVER_SUCCESS = (resolution_set_select k w s).2.2
      · rw [if_pos hok, resolution_get_world]
        intro n h1 h2
        have h3 : n < (resolution_set_select k w s).1.tick + 1 + 1 := h2
        rw [(ht s)] at h3
        have hs1 := resolution_get_status k
          (lis2dh12_operating_mode_set (resolution_set_select k w s).1
            (resolution_set_select k w s).1.dev.resolution).2 (resolution_set_select k w s).2.1
        have e1 : (lis2dh12_operating_mode_set (resolution_set_select k w s).1
            (resolution_set_select k w s).1.dev.resolution).2.bus
            (lis2dh12_operating_mode_set (resolution_set_select k w s).1
            (resolution_set_select k w s).1.dev.resolution).2.tick = w.bus (w.tick + 1) := by
          show (resolution_set_select k w s).1.bus ((resolution_set_select k w s).1.tick + 1) = _
          rw [ht s, hbus s]
        have e0 : (lis2dh12_operating_mode_set (resolution_set_select k w s).1
            (resolution_set_select k w s).1.dev.resolution).1 = w.bus w.tick := by
          show (resolution_set_select k w s).1.bus (resolution_set_select k w s).1.tick = _
          rw [ht s, hbus s]
        rw [e1] at hs1
        rw [e0]
        rcases Nat.lt_or_ge n (w.tick + 1) with hlt | hge
        · have : n = w.tick := by omega
          rw [this]
          exact status_contains_or_left _ (status_contains_or_right _ _)
        · have : n = w.tick + 1 := by omega
          rw [this]
          exact status_contains_or_of_right _ hs1
      · rw [if_neg hok]
        intro n h1 h2
        have h3 : n < (resolution_set_select k w s).1.tick := h2
        rw [ht s] at h3
        omega

/-- The status of `scale_set` contains the result of every bus operation of the
call. -/
theorem scale_set_status (k : Consts) (w : World) (s : Option Nat) :
    ∀ n, w.tick ≤ n → n < (ruuvi_interface_lis2dh12_scale_set k w s).2.1.tick →
      status_contains (ruuvi_interface_lis2dh12_scale_set k w s).1 (w.bus n) := by
  cases s with
  | none => intro n h1 h2; exact absurd h2 (by show ¬ n < w.tick; omega)
  | some s =>
    have ht := fun s => (scale_set_select_frame k w s).1
    have hbus := fun s => (scale_set_select_frame k w s).2
    unfold ruuvi_interface_lis2dh12_scale_set
    cases VERIFY_SENSOR_SLEEPS k w with
    | some e => intro n h1 h2; exact absurd h2 (by show ¬ n < w.tick; omega)
    | none =>
      dsimp only
      by_cases hok : RUUVI_DRIVER_SUCCESS = (scale_set_select k w s).2.2
      · rw [if_pos hok, scale_get_world]
        intro n h1 h2
        have h3 : n < (scale_set_select k w s).1.tick + 1 + 1 := h2
        rw [(ht s)] at h3
        have hs1 := scale_get_status k
          (lis2dh12_full_scale_set (scale_set_select k w s).1
            (scale_set_select k w s).1.dev.scale).2 (scale_set_select k w s).2.1
        have e1 : (lis2dh12_full_scale_set (scale_set_select k w s).1
            (scale_set_select k w s).1.dev.scale).2.bus
            (lis2dh12_full_scale_set (scale_set_select k w s).1
            (scale_set_select k w s).1.dev.scale).2.tick = w.bus (w.tick + 1) := by
          show (scale_set_select k w s).1.bus ((scale_set_select k w s).1.tick + 1) = _
          rw [ht s, hbus s]
        have e0 : (lis2dh12_full_scale_set (scale_set_select k w s).1
            (scale_set_select k w s).1.dev.scale).1 = w.bus w.tick := by
          show (scale_set_select k w s).1.bus (scale_set_select k w s).1.tick = _
          rw [ht s, hbus s]
        rw [e1] at hs1
        rw [e0]
        rcases Nat.lt_or_ge n (w.tick + 1) with hlt | hge
        · have : n = w.tick := by omega
          rw [this]
          exact status_contains_or_left _ (status_contains_or_right _ _)
        · have : n = w.tick + 1 := by omega
          rw [this]
          exact status_contains_or_of_right _ hs1
      · rw [if_neg hok]
        intro n h1 h2
        have h3 : n < (scale_set_select k w s).1.tick := h2
        rw [ht s] at h3
        omega

/-- The status of `mode_set` contains the result of every bus operation of the
call. -/
theorem mode_set_status (k : Consts) (w : World) (m : Option Nat) :
    ∀ n, w.tick ≤ n → n < (ruuvi_interface_lis2dh12_mode_set k w m).2.1.tick →
      status_contains (ruuvi_interface_lis2dh12_mode_set k w m).1 (w.bus n) := by
  cases m with
  | none => intro n h1 h2; exact absurd h2 (by show ¬ n < w.tick; omega)
  | some m =>
    unfold ruuvi_interface_lis2dh12_mode_set
    dsimp only
    by_cases c1 : k.RUUVI_DRIVER_SENSOR_CFG_SINGLE = m
    · rw [if_pos c1]
      by_cases c2 : some k.RUUVI_DRIVER_SENSOR_CFG_CONTINUOUS =
          (ruuvi_interface_lis2dh12_mode_get k w (some 0)).2
      · rw [if_pos c2]
        intro n h1 h2
        exact absurd h2 (by show ¬ n < w.tick; omega)
      · rw [if_neg c2]
        intro n h1 h2
        have h3 : n < w.tick + 1 + 1 := h2
        rcases Nat.lt_or_ge n (w.tick + 1) with hlt | hge
        · have : n = w.tick := by omega
          rw [this]
          exact status_contains_or_left _ (status_contains_or_right _ _)
        · have : n = w.tick + 1 := by omega
          rw [this]
          exact status_contains_or_right _ _
    · rw [if_neg c1]
      by_cases c3 : k.RUUVI_DRIVER_SENSOR_CFG_SLEEP = m
      · rw [if_pos c3]
        intro n h1 h2
        have h3 : n < w.tick + 1 := h2
        have : n = w.tick := by omega
        rw [this]
        exact status_contains_or_right _ _
      · rw [if_neg c3]
        by_cases c4 : k.RUUVI_DRIVER_SENSOR_CFG_CONTINUOUS = m
        · rw [if_pos c4]
          intro n h1 h2
          have h3 : n < w.tick + 1 := h2
          have : n = w.tick := by omega
          rw [this]
          exact status_contains_or_right _ _
        · rw [if_neg c4]
          intro n h1 h2
          exact absurd h2 (by show ¬ n < w.tick; omega)

/-- The status of `dsp_get` when the cutoff code read is one of the four codes: the
OR of the results of the two reads. -/
theorem dsp_get_status (k : Consts) (w : World)
    (hcode : (lis2dh12_high_pass_bandwidth_get w).2.1 ∈
      [k.LIS2DH12_LIGHT, k.LIS2DH12_MEDIUM, k.LIS2DH12_STRONG, k.LIS2DH12_AGGRESSIVE]) :
    (ruuvi_interface_lis2dh12_dsp_get k w).1 =
      (RUUVI_DRIVER_SUCCESS ||| w.bus w.tick) ||| w.bus (w.tick + 1) := by
  simp only [List.mem_cons, List.mem_singleton, List.not_mem_nil, or_false] at hcode
  unfold ruuvi_interface_lis2dh12_dsp_get
  dsimp only
  by_cases c1 : (lis2dh12_high_pass_bandwidth_get w).2.1 = k.LIS2DH12_LIGHT
  · rw [if_pos c1]; rfl
  · rw [if_neg c1]
    by_cases c2 : (lis2dh12_high_pass_bandwidth_get w).2.1 = k.LIS2DH12_MEDIUM
    · rw [if_pos c2]; rfl
    · rw [if_neg c2]
      by_cases c3 : (lis2dh12_high_pass_bandwidth_get w).2.1 = k.LIS2DH12_STRONG
      · rw [if_pos c3]; rfl
      · rw [if_neg c3]
        by_cases c4 : (lis2dh12_high_pass_bandwidth_get w).2.1 = k.LIS2DH12_AGGRESSIVE
        · rw [if_pos c4]; rfl
        · exfalso
          rcases hcode with h | h | h | h
          · exact c1 h
          · exact c2 h
          · exact c3 h
          · exact c4 h

/-- The status of `dsp_set` on the paths that write a register, when the cutoff code
read is one of the four codes: it contains the result of every bus operation of the
call. -/
theorem dsp_set_status (k : Consts) (w : World) (d p : Option Nat)
    (hcode : (lis2dh12_high_pass_bandwidth_get w).2.1 ∈
      [k.LIS2DH12_LIGHT, k.LIS2DH12_MEDIUM, k.LIS2DH12_STRONG, k.LIS2DH12_AGGRESSIVE])
    (hwr : (ruuvi_interface_lis2dh12_dsp_set k w d p).2.1.trace ≠ w.trace) :
    ∀ n, w.tick ≤ n → n < (ruuvi_interface_lis2dh12_dsp_set k w d p).2.1.tick →
      status_contains (ruuvi_interface_lis2dh12_dsp_set k w d p).1 (w.bus n) := by
  have hg := dsp_get_status k w hcode
  revert hwr
  unfold ruuvi_interface_lis2dh12_dsp_set
  split
  · intro hwr; exact absurd rfl hwr
  · intro hwr; exact absurd rfl hwr
  · rename_i d0 p0
    split
    · intro hwr; exact absurd rfl hwr
    · dsimp only
      rw [dsp_get_world, hg]
      generalize (if k.RUUVI_DRIVER_SENSOR_CFG_NO_CHANGE = d0 then
            (ruuvi_interface_lis2dh12_dsp_get k w).2.2.1 else d0) = d1
      by_cases c1 : k.RUUVI_DRIVER_SENSOR_DSP_HIGH_PASS = d1
      · rw [if_pos c1]
        split
        · intro hwr; exact absurd rfl hwr
        · intro _ n h1 h2
          have h3 : n < w.tick + 2 + 1 + 1 + 1 := h2
          have hn : n = w.tick ∨ n = w.tick + 1 ∨ n = w.tick + 2 ∨ n = w.tick + 3 ∨
              n = w.tick + 4 := by omega
          rcases hn with e | e | e | e | e
          · rw [e]
            exact status_contains_or_left _ (status_contains_or_left _ (status_contains_or_left _
              (status_contains_or_of_right _
                (status_contains_or_left _ (status_contains_or_right _ _)))))
          · rw [e]
            exact status_contains_or_left _ (status_contains_or_left _ (status_contains_or_left _
              (status_contains_or_of_right _ (status_contains_or_right _ _))))
          · rw [e]
            exact status_contains_or_left _ (status_contains_or_left _
              (status_contains_or_right _ _))
          · rw [e]
            exact status_contains_or_left _ (status_contains_or_right _ _)
          · rw [e]
            exact status_contains_or_right _ _
      · rw [if_neg c1]
        by_cases c2 : k.RUUVI_DRIVER_SENSOR_DSP_LAST = d1 ∨
            k.RUUVI_DRIVER_SENSOR_CFG_DEFAULT = d1
        · rw [if_pos c2]
          intro _ n h1 h2
          have h3 : n < w.tick + 2 + 1 := h2
          have hn : n = w.tick ∨ n = w.tick + 1 ∨ n = w.tick + 2 := by omega
          rcases hn with e | e | e
          · rw [e]
            exact status_contains_or_left _ (status_contains_or_of_right _
              (status_contains_or_left _ (status_contains_or_right _ _)))
          · rw [e]
            exact status_contains_or_left _ (status_contains_or_of_right _
              (status_contains_or_right _ _))
          · rw [e]
            exact status_contains_or_right _ _
        · rw [if_neg c2]
          intro hwr; exact absurd rfl hwr

/-! ### The symmetry of the self-test verdict -/

/-- One axis of the self-test verdict: for a difference that is a multiple of 64 the
value compared with the band is the same for the difference and for its negation,
also when the `int16_t` subtraction wraps. -/
theorem selftest_axis_symmetric (d : Int) (h64 : (64 : Int) ∣ d) :
    (if 0 > int16_t_of (int16_t_of d / 64) then int16_t_of (0 - int16_t_of (int16_t_of d / 64))
      else int16_t_of (int16_t_of d / 64)) =
    (if 0 > int16_t_of (int16_t_of (-d) / 64) then
      int16_t_of (0 - int16_t_of (int16_t_of (-d) / 64))
      else int16_t_of (int16_t_of (-d) / 64)) := by
  obtain ⟨q, rfl⟩ := h64
  unfold int16_t_of
  split_ifs <;> omega

/-- The loop of the verdict gives the same result for the two orders of the samples
when the differences on the axes listed are multiples of 64. -/
theorem verify_selftest_difference_loop_symmetric (k : Consts) (a b : axis3bit16_t)
    (axes : List Nat) (h : ∀ ii ∈ axes, (64 : Int) ∣ a.i16bit ii - b.i16bit ii) :
    lis2dh12_verify_selftest_difference_loop k a b axes =
      lis2dh12_verify_selftest_difference_loop k b a axes := by
  induction axes with
  | nil => rfl
  | cons ii rest ih =>
    have hii := h ii (List.mem_cons_self ii rest)
    have hrest : ∀ jj ∈ rest, (64 : Int) ∣ a.i16bit jj - b.i16bit jj :=
      fun jj hj => h jj (List.mem_cons_of_mem ii hj)
    have e : b.i16bit ii - a.i16bit ii = -(a.i16bit ii - b.i16bit ii) := by omega
    unfold lis2dh12_verify_selftest_difference_loop
    dsimp only
    rw [e, ← selftest_axis_symmetric (a.i16bit ii - b.i16bit ii) hii, ih hrest]

/-! ### The getters and the stored settings -/

/-- With a successful read of the rate code POWER_DOWN the rate getter stores
POWER_DOWN in `dev.samplerate`, reports the not-supported marker and adds INTERNAL
to the status. -/
theorem samplerate_get_power_down (k : Consts) (hk : k.WF) (x : World) (p : Nat)
    (hb : x.bus x.tick = 0) (hc : x.hw.odr = k.LIS2DH12_POWER_DOWN) :
    ruuvi_interface_lis2dh12_samplerate_get k x (some p) =
      (RUUVI_DRIVER_SUCCESS ||| k.RUUVI_DRIVER_ERROR_INTERNAL,
       { x with dev := { x.dev with samplerate := k.LIS2DH12_POWER_DOWN }, tick := x.tick + 1 },
       some k.RUUVI_DRIVER_SENSOR_ERR_NOT_SUPPORTED) := by
  have h := hk.power_down
  simp only [List.mem_cons, List.mem_singleton, List.not_mem_nil, or_false, not_or] at h
  obtain ⟨h1, h2, h3, h4, h5, h6, h7, h8, h9⟩ := h
  simp [ruuvi_interface_lis2dh12_samplerate_get, lis2dh12_data_rate_get, hb, hc, h1, h2, h3,
    h4, h5, h6, h7, h8, h9, RUUVI_DRIVER_SUCCESS]

/-- The world after `samplerate_set(r)`, `mode_set(CONTINUOUS)` and `mode_set(SLEEP)`
for a literal rate on a bus that succeeds: the rate code selected is stored and the
chip is powered down. -/
theorem paused_after_literal (k : Consts) (hk : k.WF) (w : World)
    (hm : w.dev.mode = k.RUUVI_DRIVER_SENSOR_CFG_SLEEP) (hb : BusOk w)
    (r : Nat) (h1 : 1 ≤ r) (h2 : r ≤ 200) :
    ∃ c ∈ [k.LIS2DH12_ODR_1Hz, k.LIS2DH12_ODR_10Hz, k.LIS2DH12_ODR_25Hz,
        k.LIS2DH12_ODR_50Hz, k.LIS2DH12_ODR_100Hz, k.LIS2DH12_ODR_200Hz],
      (ruuvi_interface_lis2dh12_samplerate_set k w (some r)).1 = RUUVI_DRIVER_SUCCESS ∧
      paused_after k w r =
        { w with dev := { w.dev with samplerate := c },
                 hw := { w.hw with odr := k.LIS2DH12_POWER_DOWN },
                 tick := w.tick + 4,
                 trace := w.trace ++ [Event.data_rate_set c, Event.data_rate_set c,
                   Event.data_rate_set k.LIS2DH12_POWER_DOWN] } := by
  obtain ⟨cv, hcv, _, _, hset⟩ := samplerate_set_literal k hk w hm hb r h1 h2
  have hbz : ∀ n, w.bus n = 0 := hb
  refine ⟨cv.1, ?_, ?_, ?_⟩
  · simp only [List.mem_cons, List.mem_singleton, List.not_mem_nil, or_false] at hcv ⊢
    rcases hcv with rfl | rfl | rfl | rfl | rfl | rfl <;> simp
  · rw [hset]
  · unfold paused_after
    dsimp only
    rw [hset]
    dsimp only
    rw [mode_set_continuous k hk]
    dsimp only
    rw [mode_set_sleep k hk]
    simp [hbz, hm]

/-! ### Init after init -/

/-- Init of a driver whose bus context is set is rejected with INVALID_STATE: the
world and the sensor structure are returned as they were. -/
theorem init_rejected (k : Consts) (x : World) (s : ruuvi_driver_sensor_t) (bus handle : Nat)
    (hctx : x.dev.ctx = true) :
    ruuvi_interface_lis2dh12_init k x (some s) bus handle =
      (k.RUUVI_DRIVER_ERROR_INVALID_STATE, x, some s) := by
  unfold ruuvi_interface_lis2dh12_init
  simp only [hctx, if_true]

/-- Init on the I2C bus of a driver whose bus context is not set returns
NOT_IMPLEMENTED after the reset of the sensor structure; the world is unchanged. -/
theorem init_i2c (k : Consts) (hk : k.WF) (x : World) (s : ruuvi_driver_sensor_t)
    (handle : Nat) (hctx : x.dev.ctx = false) :
    ruuvi_interface_lis2dh12_init k x (some s) k.RUUVI_DRIVER_BUS_I2C handle =
      (k.RUUVI_DRIVER_ERROR_NOT_IMPLEMENTED, x, some ( ruuvi_driver_sensor_initialize s)) := by
  have hne : ¬ k.RUUVI_DRIVER_BUS_I2C = k.RUUVI_DRIVER_BUS_SPI := fun e => hk.bus_labels e.symm
  unfold ruuvi_interface_lis2dh12_init
  simp only [hctx, Bool.false_eq_true, if_false, if_true, hne]

/-- Init on the SPI bus of a driver whose bus context is not set accesses the bus:
at least the identifier read is made. -/
theorem init_spi_tick (k : Consts) (w : World) (s : ruuvi_driver_sensor_t)
    (handle : Nat) (hctx : w.dev.ctx = false) :
    w.tick < (ruuvi_interface_lis2dh12_init k w (some s) k.RUUVI_DRIVER_BUS_SPI handle).2.1.tick := by
  by_cases hid : (lis2dh12_device_id_get w).2.1 = k.LIS2DH12_ID
  · have hid2 : ¬ (lis2dh12_device_id_get
        { w with dev := { w.dev with ctx := true, handle := handle,
                                     mode := k.RUUVI_DRIVER_SENSOR_CFG_SLEEP } }).2.1
          ≠ k.LIS2DH12_ID := not_not.mpr hid
    have hf := (init_selftest_frame k (lis2dh12_device_id_get
        { w with dev := { w.dev with ctx := true, handle := handle,
                                     mode := k.RUUVI_DRIVER_SENSOR_CFG_SLEEP } }).2.2).2.2.1
    have e1 : (lis2dh12_device_id_get
        { w with dev := { w.dev with ctx := true, handle := handle,
                                     mode := k.RUUVI_DRIVER_SENSOR_CFG_SLEEP } }).2.2.tick
          = w.tick + 1 := rfl
    rw [e1] at hf
    unfold ruuvi_interface_lis2dh12_init
    simp only [hctx, Bool.false_eq_true, if_false, if_true]
    rw [if_neg hid2]
    split
    · show w.tick < (ruuvi_interface_lis2dh12_init_selftest k _).2.tick
      rw [hf]
      omega
    · show w.tick < (ruuvi_interface_lis2dh12_init_selftest k _).2.tick
      rw [hf]
      omega
  · rw [init_spi_not_found k w s handle hctx hid]
    show w.tick < w.tick + 1
    omega

/-! ### The generic configuration setter -/

/-- C1: in SLEEP mode with a succeeding bus, `samplerate_set` with a literal request
`1 ≤ r ≤ 200` returns SUCCESS and writes back the smallest of 1, 10, 25, 50, 100, 200
that is at least `r`, which is also what the getter then reads from the chip; the
requests 5 and 10 leave the same code, that of 10 Hz, in the data-rate register and
write back the same value. -/
theorem C1_samplerate_set_rounds_up (k : Consts) (hk : k.WF) (w : World)
    (hm : w.dev.mode = k.RUUVI_DRIVER_SENSOR_CFG_SLEEP) (hb : BusOk w)
    (r : Nat) (h1 : 1 ≤ r) (h2 : r ≤ 200) :
    (∃ v ∈ [1, 10, 25, 50, 100, 200], r ≤ v ∧
      (∀ u ∈ [1, 10, 25, 50, 100, 200], r ≤ u → v ≤ u) ∧
      (ruuvi_interface_lis2dh12_samplerate_set k w (some r)).1 = RUUVI_DRIVER_SUCCESS ∧
      (ruuvi_interface_lis2dh12_samplerate_set k w (some r)).2.2 = some v ∧
      (ruuvi_interface_lis2dh12_samplerate_get k
        (ruuvi_interface_lis2dh12_samplerate_set k w (some r)).2.1 (some 0)).2.2 = some v) ∧
    (ruuvi_interface_lis2dh12_samplerate_set k w (some 5)).2.1.hw.odr = k.LIS2DH12_ODR_10Hz ∧
    (ruuvi_interface_lis2dh12_samplerate_set k w (some 10)).2.1.hw.odr = k.LIS2DH12_ODR_10Hz ∧
    (ruuvi_interface_lis2dh12_samplerate_set k w (some 5)).2.2 =
      (ruuvi_interface_lis2dh12_samplerate_set k w (some 10)).2.2 := by
  have five : ruuvi_interface_lis2dh12_samplerate_set k w (some 5) =
      (RUUVI_DRIVER_SUCCESS,
       { w with dev := { w.dev with samplerate := k.LIS2DH12_ODR_10Hz },
                hw := { w.hw with odr := k.LIS2DH12_ODR_10Hz }, tick := w.tick + 2,
                trace := w.trace ++ [Event.data_rate_set k.LIS2DH12_ODR_10Hz] }, some 10) := by
    obtain ⟨cv, hmem, hle, hmin, heq⟩ :=
      samplerate_set_literal k hk w hm hb 5 (by omega) (by omega)
    have h10 := hmin 10 (by simp) (by omega)
    simp only [List.mem_cons, List.mem_singleton, List.not_mem_nil, or_false] at hmem
    rcases hmem with rfl | rfl | rfl | rfl | rfl | rfl <;> first | exact heq | omega
  have ten : ruuvi_interface_lis2dh12_samplerate_set k w (some 10) =
      (RUUVI_DRIVER_SUCCESS,
       { w with dev := { w.dev with samplerate := k.LIS2DH12_ODR_10Hz },
                hw := { w.hw with odr := k.LIS2DH12_ODR_10Hz }, tick := w.tick + 2,
                trace := w.trace ++ [Event.data_rate_set k.LIS2DH12_ODR_10Hz] }, some 10) := by
    obtain ⟨cv, hmem, hle, hmin, heq⟩ :=
      samplerate_set_literal k hk w hm hb 10 (by omega) (by omega)
    have h10 := hmin 10 (by simp) (by omega)
    simp only [List.mem_cons, List.mem_singleton, List.not_mem_nil, or_false] at hmem
    rcases hmem with rfl | rfl | rfl | rfl | rfl | rfl <;> first | exact heq | omega
  refine ⟨?_, by rw [five], by rw [ten], by rw [five, ten]⟩
  obtain ⟨cv, hmem, hle, hmin, heq⟩ := samplerate_set_literal k hk w hm hb r h1 h2
  refine ⟨cv.2, ?_, hle, hmin, by rw [heq], by rw [heq], ?_⟩
  · simp only [List.mem_cons, List.mem_singleton, List.not_mem_nil, or_false] at hmem ⊢
    rcases hmem with rfl | rfl | rfl | rfl | rfl | rfl <;> simp
  · rw [heq]
    have hmem9 : cv ∈ [(k.LIS2DH12_ODR_1Hz, 1), (k.LIS2DH12_ODR_10Hz, 10),
        (k.LIS2DH12_ODR_25Hz, 25), (k.LIS2DH12_ODR_50Hz, 50), (k.LIS2DH12_ODR_100Hz, 100),
        (k.LIS2DH12_ODR_200Hz, 200),
        (k.LIS2DH12_ODR_400Hz, k.RUUVI_DRIVER_SENSOR_CFG_CUSTOM_1),
        (k.LIS2DH12_ODR_5kHz376_LP_1kHz344_NM_HP, k.RUUVI_DRIVER_SENSOR_CFG_MAX),
        (k.LIS2DH12_ODR_1kHz620_LP, k.RUUVI_DRIVER_SENSOR_CFG_CUSTOM_2)] := by
      simp only [List.mem_cons, List.mem_singleton, List.not_mem_nil, or_false] at hmem ⊢
      tauto
    dsimp only
    rw [samplerate_get_code k hk _ 0 ?_ cv hmem9 ?_]
    · exact hb _
    · rfl

/-- Witness of C1 at the upstream constants, the world left by init and the request 5. -/
theorem C1_samplerate_set_rounds_up_witness :
    ruuviConsts.WF ∧ sleepWorld.dev.mode = ruuviConsts.RUUVI_DRIVER_SENSOR_CFG_SLEEP ∧
    BusOk sleepWorld ∧ 1 ≤ 5 ∧ 5 ≤ 200 ∧
    ((∃ v ∈ [1, 10, 25, 50, 100, 200], 5 ≤ v ∧
      (∀ u ∈ [1, 10, 25, 50, 100, 200], 5 ≤ u → v ≤ u) ∧
      (ruuvi_interface_lis2dh12_samplerate_set ruuviConsts sleepWorld (some 5)).1
        = RUUVI_DRIVER_SUCCESS ∧
      (ruuvi_interface_lis2dh12_samplerate_set ruuviConsts sleepWorld (some 5)).2.2 = some v ∧
      (ruuvi_interface_lis2dh12_samplerate_get ruuviConsts
        (ruuvi_interface_lis2dh12_samplerate_set ruuviConsts sleepWorld (some 5)).2.1
        (some 0)).2.2 = some v) ∧
    (ruuvi_interface_lis2dh12_samplerate_set ruuviConsts sleepWorld (some 5)).2.1.hw.odr
      = ruuviConsts.LIS2DH12_ODR_10Hz ∧
    (ruuvi_interface_lis2dh12_samplerate_set ruuviConsts sleepWorld (some 10)).2.1.hw.odr
      = ruuviConsts.LIS2DH12_ODR_10Hz ∧
    (ruuvi_interface_lis2dh12_samplerate_set ruuviConsts sleepWorld (some 5)).2.2 =
      (ruuvi_interface_lis2dh12_samplerate_set ruuviConsts sleepWorld (some 10)).2.2) :=
  ⟨ruuviConsts_WF, rfl, sleepWorld_BusOk, by decide, by decide,
   C1_samplerate_set_rounds_up ruuviConsts ruuviConsts_WF sleepWorld rfl sleepWorld_BusOk 5
     (by decide) (by decide)⟩

/-- C2: while the driver mode is CONTINUOUS each of `samplerate_set`, `resolution_set`,
`scale_set` and `dsp_set` returns INVALID_STATE and leaves the whole world (device
state record, chip registers, trace of register writes) and the caller's parameters as
they were. -/
theorem C2_setters_rejected_in_continuous (k : Consts) (hk : k.WF) (w : World)
    (hm : w.dev.mode = k.RUUVI_DRIVER_SENSOR_CFG_CONTINUOUS) (s d p : Nat) :
    ruuvi_interface_lis2dh12_samplerate_set k w (some s)
      = (k.RUUVI_DRIVER_ERROR_INVALID_STATE, w, some s) ∧
    ruuvi_interface_lis2dh12_resolution_set k w (some s)
      = (k.RUUVI_DRIVER_ERROR_INVALID_STATE, w, some s) ∧
    ruuvi_interface_lis2dh12_scale_set k w (some s)
      = (k.RUUVI_DRIVER_ERROR_INVALID_STATE, w, some s) ∧
    ruuvi_interface_lis2dh12_dsp_set k w (some d) (some p)
      = (k.RUUVI_DRIVER_ERROR_INVALID_STATE, w, some d, some p) := by
  have hv := VERIFY_SENSOR_SLEEPS_continuous k hk w hm
  refine ⟨?_, ?_, ?_, ?_⟩
  · simp [ruuvi_interface_lis2dh12_samplerate_set, hv]
  · simp [ruuvi_interface_lis2dh12_resolution_set, hv]
  · simp [ruuvi_interface_lis2dh12_scale_set, hv]
  · simp [ruuvi_interface_lis2dh12_dsp_set, hv]

/-- Witness of C2 at the upstream constants in a world whose mode is CONTINUOUS, with
the requests 10, HIGH_PASS and 1. -/
theorem C2_setters_rejected_in_continuous_witness :
    ruuviConsts.WF ∧
    continuousWorld.dev.mode = ruuviConsts.RUUVI_DRIVER_SENSOR_CFG_CONTINUOUS ∧
    (ruuvi_interface_lis2dh12_samplerate_set ruuviConsts continuousWorld (some 10)
      = (ruuviConsts.RUUVI_DRIVER_ERROR_INVALID_STATE, continuousWorld, some 10) ∧
    ruuvi_interface_lis2dh12_resolution_set ruuviConsts continuousWorld (some 10)
      = (ruuviConsts.RUUVI_DRIVER_ERROR_INVALID_STATE, continuousWorld, some 10) ∧
    ruuvi_interface_lis2dh12_scale_set ruuviConsts continuousWorld (some 10)
      = (ruuviConsts.RUUVI_DRIVER_ERROR_INVALID_STATE, continuousWorld, some 10) ∧
    ruuvi_interface_lis2dh12_dsp_set ruuviConsts continuousWorld (some 4) (some 1)
      = (ruuviConsts.RUUVI_DRIVER_ERROR_INVALID_STATE, continuousWorld, some 4, some 1)) :=
  ⟨ruuviConsts_WF, rfl,
   C2_setters_rejected_in_continuous ruuviConsts ruuviConsts_WF continuousWorld rfl 10 4 1⟩

/-- C3: in SLEEP mode with a succeeding bus, `resolution_set` with a literal request
`1 ≤ r ≤ 12` returns SUCCESS and writes back the smallest of 8, 10, 12 that is at least
`r`, and `scale_set` with a literal request `1 ≤ s ≤ 16` returns SUCCESS and writes
back the smallest of 2, 4, 8, 16 that is at least `s`. -/
theorem C3_resolution_scale_set_round_up (k : Consts) (hk : k.WF) (w : World)
    (hm : w.dev.mode = k.RUUVI_DRIVER_SENSOR_CFG_SLEEP) (hb : BusOk w)
    (r s : Nat) (hr1 : 1 ≤ r) (hr2 : r ≤ 12) (hs1 : 1 ≤ s) (hs2 : s ≤ 16) :
    (∃ v ∈ [8, 10, 12], r ≤ v ∧ (∀ u ∈ [8, 10, 12], r ≤ u → v ≤ u) ∧
      (ruuvi_interface_lis2dh12_resolution_set k w (some r)).1 = RUUVI_DRIVER_SUCCESS ∧
      (ruuvi_interface_lis2dh12_resolution_set k w (some r)).2.2 = some v) ∧
    (∃ v ∈ [2, 4, 8, 16], s ≤ v ∧ (∀ u ∈ [2, 4, 8, 16], s ≤ u → v ≤ u) ∧
      (ruuvi_interface_lis2dh12_scale_set k w (some s)).1 = RUUVI_DRIVER_SUCCESS ∧
      (ruuvi_interface_lis2dh12_scale_set k w (some s)).2.2 = some v) := by
  constructor
  · obtain ⟨cv, hmem, hle, hmin, heq⟩ := resolution_set_literal k hk w hm hb r hr1 hr2
    refine ⟨cv.2, ?_, hle, hmin, by rw [heq], by rw [heq]⟩
    simp only [List.mem_cons, List.mem_singleton, List.not_mem_nil, or_false] at hmem ⊢
    rcases hmem with rfl | rfl | rfl <;> simp
  · obtain ⟨cv, hmem, hle, hmin, heq⟩ := scale_set_literal k hk w hm hb s hs1 hs2
    refine ⟨cv.2, ?_, hle, hmin, by rw [heq], by rw [heq]⟩
    simp only [List.mem_cons, List.mem_singleton, List.not_mem_nil, or_false] at hmem ⊢
    rcases hmem with rfl | rfl | rfl | rfl <;> simp

/-- Witness of C3 at the upstream constants: resolution request 9, scale request 3. -/
theorem C3_resolution_scale_set_round_up_witness :
    ruuviConsts.WF ∧ sleepWorld.dev.mode = ruuviConsts.RUUVI_DRIVER_SENSOR_CFG_SLEEP ∧
    BusOk sleepWorld ∧ 1 ≤ 9 ∧ 9 ≤ 12 ∧ 1 ≤ 3 ∧ 3 ≤ 16 ∧
    ((∃ v ∈ [8, 10, 12], 9 ≤ v ∧ (∀ u ∈ [8, 10, 12], 9 ≤ u → v ≤ u) ∧
      (ruuvi_interface_lis2dh12_resolution_set ruuviConsts sleepWorld (some 9)).1
        = RUUVI_DRIVER_SUCCESS ∧
      (ruuvi_interface_lis2dh12_resolution_set ruuviConsts sleepWorld (some 9)).2.2 = some v) ∧
    (∃ v ∈ [2, 4, 8, 16], 3 ≤ v ∧ (∀ u ∈ [2, 4, 8, 16], 3 ≤ u → v ≤ u) ∧
      (ruuvi_interface_lis2dh12_scale_set ruuviConsts sleepWorld (some 3)).1
        = RUUVI_DRIVER_SUCCESS ∧
      (ruuvi_interface_lis2dh12_scale_set ruuviConsts sleepWorld (some 3)).2.2 = some v)) :=
  ⟨ruuviConsts_WF, rfl, sleepWorld_BusOk, by decide, by decide, by decide, by decide,
   C3_resolution_scale_set_round_up ruuviConsts ruuviConsts_WF sleepWorld rfl sleepWorld_BusOk
     9 3 (by decide) (by decide) (by decide) (by decide)⟩

/-- C4: in SLEEP mode a value `v` that is none of the sentinels NO_CHANGE, MIN, MAX,
DEFAULT makes `samplerate_set` (when `v > 200` and `v` is no custom code),
`resolution_set` (when `v > 12`) and `scale_set` (when `v > 16`) return NOT_SUPPORTED
with the marker RUUVI_DRIVER_SENSOR_ERR_NOT_SUPPORTED in the caller's parameter and
the world as it was: no register write, no change of the stored setting. -/
theorem C4_out_of_range_not_supported (k : Consts) (hk : k.WF) (w : World)
    (hm : w.dev.mode = k.RUUVI_DRIVER_SENSOR_CFG_SLEEP) (v : Nat)
    (hv : v ∉ [k.RUUVI_DRIVER_SENSOR_CFG_NO_CHANGE, k.RUUVI_DRIVER_SENSOR_CFG_MIN,
      k.RUUVI_DRIVER_SENSOR_CFG_MAX, k.RUUVI_DRIVER_SENSOR_CFG_DEFAULT]) :
    (200 < v →
      v ∉ [k.RUUVI_DRIVER_SENSOR_CFG_CUSTOM_1, k.RUUVI_DRIVER_SENSOR_CFG_CUSTOM_2,
        k.RUUVI_DRIVER_SENSOR_CFG_CUSTOM_3] →
      ruuvi_interface_lis2dh12_samplerate_set k w (some v) =
        (k.RUUVI_DRIVER_ERROR_NOT_SUPPORTED, w,
         some k.RUUVI_DRIVER_SENSOR_ERR_NOT_SUPPORTED)) ∧
    (12 < v →
      ruuvi_interface_lis2dh12_resolution_set k w (some v) =
        (k.RUUVI_DRIVER_ERROR_NOT_SUPPORTED, w,
         some k.RUUVI_DRIVER_SENSOR_ERR_NOT_SUPPORTED)) ∧
    (16 < v →
      ruuvi_interface_lis2dh12_scale_set k w (some v) =
        (k.RUUVI_DRIVER_ERROR_NOT_SUPPORTED, w,
         some k.RUUVI_DRIVER_SENSOR_ERR_NOT_SUPPORTED)) := by
  have hne := hk.not_supported_ne
  have hne2 : ¬ (0 : Nat) = k.RUUVI_DRIVER_ERROR_NOT_SUPPORTED := fun e => hne e.symm
  simp only [List.mem_cons, List.mem_singleton, List.not_mem_nil, or_false, not_or] at hv
  obtain ⟨v1, v2, v3, v4⟩ := hv
  have e1 : ¬ k.RUUVI_DRIVER_SENSOR_CFG_NO_CHANGE = v := fun e => v1 e.symm
  have e2 : ¬ k.RUUVI_DRIVER_SENSOR_CFG_MIN = v := fun e => v2 e.symm
  have e3 : ¬ k.RUUVI_DRIVER_SENSOR_CFG_MAX = v := fun e => v3 e.symm
  have e4 : ¬ k.RUUVI_DRIVER_SENSOR_CFG_DEFAULT = v := fun e => v4 e.symm
  refine ⟨?_, ?_, ?_⟩
  · intro h200 hc
    simp only [List.mem_cons, List.mem_singleton, List.not_mem_nil, or_false, not_or] at hc
    obtain ⟨c1, c2, c3⟩ := hc
    have f1 : ¬ k.RUUVI_DRIVER_SENSOR_CFG_CUSTOM_1 = v := fun e => c1 e.symm
    have f2 : ¬ k.RUUVI_DRIVER_SENSOR_CFG_CUSTOM_2 = v := fun e => c2 e.symm
    have f3 : ¬ k.RUUVI_DRIVER_SENSOR_CFG_CUSTOM_3 = v := fun e => c3 e.symm
    have g0 : ¬ 1 = v := by omega
    have g1 : ¬ v ≤ 10 := by omega
    have g2 : ¬ v ≤ 25 := by omega
    have g3 : ¬ v ≤ 50 := by omega
    have g4 : ¬ v ≤ 100 := by omega
    have g5 : ¬ v ≤ 200 := by omega
    simp [ruuvi_interface_lis2dh12_samplerate_set, samplerate_set_select,
      VERIFY_SENSOR_SLEEPS_sleep k w hm, e1, e2,
      e3, e4, f1, f2, f3, g0, g1, g2, g3, g4, g5, hne2, RUUVI_DRIVER_SUCCESS]
  · intro h12
    have g1 : ¬ v ≤ 8 := by omega
    have g2 : ¬ v ≤ 10 := by omega
    have g3 : ¬ v ≤ 12 := by omega
    simp [ruuvi_interface_lis2dh12_resolution_set, resolution_set_select,
      VERIFY_SENSOR_SLEEPS_sleep k w hm, e1, e2,
      e3, e4, g1, g2, g3, hne2, RUUVI_DRIVER_SUCCESS]
  · intro h16
    have g1 : ¬ v ≤ 2 := by omega
    have g2 : ¬ v ≤ 4 := by omega
    have g3 : ¬ v ≤ 8 := by omega
    have g4 : ¬ v ≤ 16 := by omega
    simp [ruuvi_interface_lis2dh12_scale_set, scale_set_select,
      VERIFY_SENSOR_SLEEPS_sleep k w hm, e1, e2,
      e3, e4, g1, g2, g3, g4, hne2, RUUVI_DRIVER_SUCCESS]

/-- Witness of C4 at the upstream constants and the value 208 (0xD0), which is above
every range and is no sentinel and no custom code. -/
theorem C4_out_of_range_not_supported_witness :
    ruuviConsts.WF ∧ sleepWorld.dev.mode = ruuviConsts.RUUVI_DRIVER_SENSOR_CFG_SLEEP ∧
    208 ∉ [ruuviConsts.RUUVI_DRIVER_SENSOR_CFG_NO_CHANGE,
      ruuviConsts.RUUVI_DRIVER_SENSOR_CFG_MIN, ruuviConsts.RUUVI_DRIVER_SENSOR_CFG_MAX,
      ruuviConsts.RUUVI_DRIVER_SENSOR_CFG_DEFAULT] ∧
    ruuvi_interface_lis2dh12_samplerate_set ruuviConsts sleepWorld (some 208) =
      (ruuviConsts.RUUVI_DRIVER_ERROR_NOT_SUPPORTED, sleepWorld,
       some ruuviConsts.RUUVI_DRIVER_SENSOR_ERR_NOT_SUPPORTED) ∧
    ruuvi_interface_lis2dh12_resolution_set ruuviConsts sleepWorld (some 208) =
      (ruuviConsts.RUUVI_DRIVER_ERROR_NOT_SUPPORTED, sleepWorld,
       some ruuviConsts.RUUVI_DRIVER_SENSOR_ERR_NOT_SUPPORTED) ∧
    ruuvi_interface_lis2dh12_scale_set ruuviConsts sleepWorld (some 208) =
      (ruuviConsts.RUUVI_DRIVER_ERROR_NOT_SUPPORTED, sleepWorld,
       some ruuviConsts.RUUVI_DRIVER_SENSOR_ERR_NOT_SUPPORTED) :=
  ⟨ruuviConsts_WF, rfl, by decide,
   (C4_out_of_range_not_supported ruuviConsts ruuviConsts_WF sleepWorld rfl 208
      (by decide)).1 (by decide) (by decide),
   (C4_out_of_range_not_supported ruuviConsts ruuviConsts_WF sleepWorld rfl 208
      (by decide)).2.1 (by decide),
   (C4_out_of_range_not_supported ruuviConsts ruuviConsts_WF sleepWorld rfl 208
      (by decide)).2.2 (by decide)⟩

/-- C5: a `mode_set` request of SINGLE while the driver mode is CONTINUOUS returns
INVALID_STATE, writes CONTINUOUS into the caller's mode parameter and leaves the whole
world as it was: no register write, device state (sample rate and timestamp
included) unchanged. -/
theorem C5_single_rejected_in_continuous (k : Consts) (hk : k.WF) (w : World)
    (hm : w.dev.mode = k.RUUVI_DRIVER_SENSOR_CFG_CONTINUOUS) :
    ruuvi_interface_lis2dh12_mode_set k w (some k.RUUVI_DRIVER_SENSOR_CFG_SINGLE) =
      (k.RUUVI_DRIVER_ERROR_INVALID_STATE, w, some k.RUUVI_DRIVER_SENSOR_CFG_CONTINUOUS) := by
  have h := hk.modes
  simp only [List.nodup_cons, List.mem_cons, List.mem_singleton, not_or, List.not_mem_nil,
    not_false_eq_true, List.nodup_nil, and_true] at h
  have h1 : ¬ k.RUUVI_DRIVER_SENSOR_CFG_CONTINUOUS = k.RUUVI_DRIVER_SENSOR_CFG_SLEEP :=
    fun e => h.1.2 e.symm
  simp [ruuvi_interface_lis2dh12_mode_set, ruuvi_interface_lis2dh12_mode_get, hm, h1]

/-- Witness of C5 at the upstream constants in a world whose mode is CONTINUOUS. -/
theorem C5_single_rejected_in_continuous_witness :
    ruuviConsts.WF ∧
    continuousWorld.dev.mode = ruuviConsts.RUUVI_DRIVER_SENSOR_CFG_CONTINUOUS ∧
    ruuvi_interface_lis2dh12_mode_set ruuviConsts continuousWorld
        (some ruuviConsts.RUUVI_DRIVER_SENSOR_CFG_SINGLE) =
      (ruuviConsts.RUUVI_DRIVER_ERROR_INVALID_STATE, continuousWorld,
       some ruuviConsts.RUUVI_DRIVER_SENSOR_CFG_CONTINUOUS) :=
  ⟨ruuviConsts_WF, rfl,
   C5_single_rejected_in_continuous ruuviConsts ruuviConsts_WF continuousWorld rfl⟩

/-- C6: a `mode_set` request of SINGLE while the driver mode is SLEEP issues, in this
order, the write of the 400 Hz rate code, a wait of (7000 / 400) + 1 = 18 ms and the
write of POWER_DOWN; it stores the timestamp read after the wait in `dev.tsample`,
reports SLEEP in the caller's parameter and leaves the driver mode SLEEP; the status
is the OR of the results the bus gave to the two writes. -/
theorem C6_single_from_sleep (k : Consts) (hk : k.WF) (w : World)
    (hm : w.dev.mode = k.RUUVI_DRIVER_SENSOR_CFG_SLEEP) :
    (ruuvi_interface_lis2dh12_mode_set k w (some k.RUUVI_DRIVER_SENSOR_CFG_SINGLE)).1
      = w.bus w.tick ||| w.bus (w.tick + 1) ∧
    (ruuvi_interface_lis2dh12_mode_set k w (some k.RUUVI_DRIVER_SENSOR_CFG_SINGLE)).2.1.trace
      = w.trace ++ [Event.data_rate_set k.LIS2DH12_ODR_400Hz, Event.delay_ms 18,
          Event.data_rate_set k.LIS2DH12_POWER_DOWN] ∧
    (ruuvi_interface_lis2dh12_mode_set k w
        (some k.RUUVI_DRIVER_SENSOR_CFG_SINGLE)).2.1.dev.tsample
      = ruuvi_driver_sensor_timestamp_get (ruuvi_interface_delay_ms w 18) ∧
    (ruuvi_interface_lis2dh12_mode_set k w (some k.RUUVI_DRIVER_SENSOR_CFG_SINGLE)).2.1.dev.mode
      = k.RUUVI_DRIVER_SENSOR_CFG_SLEEP ∧
    (ruuvi_interface_lis2dh12_mode_set k w (some k.RUUVI_DRIVER_SENSOR_CFG_SINGLE)).2.2
      = some k.RUUVI_DRIVER_SENSOR_CFG_SLEEP := by
  have h := hk.modes
  simp only [List.nodup_cons, List.mem_cons, List.mem_singleton, not_or, List.not_mem_nil,
    not_false_eq_true, List.nodup_nil, and_true] at h
  have h1 : ¬ k.RUUVI_DRIVER_SENSOR_CFG_CONTINUOUS = k.RUUVI_DRIVER_SENSOR_CFG_SLEEP :=
    fun e => h.1.2 e.symm
  simp [ruuvi_interface_lis2dh12_mode_set, ruuvi_interface_lis2dh12_mode_get, hm, h1,
    lis2dh12_data_rate_set, ruuvi_interface_delay_ms, ruuvi_driver_sensor_timestamp_get,
    World.set_samplerate, RUUVI_DRIVER_SUCCESS]

/-- Witness of C6 at the upstream constants and the world left by init. -/
theorem C6_single_from_sleep_witness :
    ruuviConsts.WF ∧ sleepWorld.dev.mode = ruuviConsts.RUUVI_DRIVER_SENSOR_CFG_SLEEP ∧
    (ruuvi_interface_lis2dh12_mode_set ruuviConsts sleepWorld (some 0xFB)).2.1.trace
      = [Event.data_rate_set 7, Event.delay_ms 18, Event.data_rate_set 0] ∧
    (ruuvi_interface_lis2dh12_mode_set ruuviConsts sleepWorld (some 0xFB)).2.1.dev.tsample
      = 1018 ∧
    (ruuvi_interface_lis2dh12_mode_set ruuviConsts sleepWorld (some 0xFB)).2.2 = some 0xFA :=
  ⟨ruuviConsts_WF, rfl,
   (C6_single_from_sleep ruuviConsts ruuviConsts_WF sleepWorld rfl).2.1,
   (C6_single_from_sleep ruuviConsts ruuviConsts_WF sleepWorld rfl).2.2.1,
   (C6_single_from_sleep ruuviConsts ruuviConsts_WF sleepWorld rfl).2.2.2.2⟩

/-- C7: from every state reached by a `samplerate_set(r)` that returned SUCCESS in
SLEEP mode (it stored a rate code `c` in `dev.samplerate` and wrote it to the chip),
`mode_set(CONTINUOUS)` writes `c`, a following `mode_set(SLEEP)` writes POWER_DOWN and
changes nothing of the device state but the mode and nothing of the registers but the
data rate, and a further `mode_set(CONTINUOUS)` writes `c` again. -/
theorem C7_sleep_continuous_keeps_rate (k : Consts) (hk : k.WF) (w : World)
    (hm : w.dev.mode = k.RUUVI_DRIVER_SENSOR_CFG_SLEEP) (r : Nat)
    (hok : (ruuvi_interface_lis2dh12_samplerate_set k w (some r)).1 = RUUVI_DRIVER_SUCCESS) :
    let w1 := (ruuvi_interface_lis2dh12_samplerate_set k w (some r)).2.1
    let c := w1.dev.samplerate
    let r2 := ruuvi_interface_lis2dh12_mode_set k w1 (some k.RUUVI_DRIVER_SENSOR_CFG_CONTINUOUS)
    let r3 := ruuvi_interface_lis2dh12_mode_set k r2.2.1 (some k.RUUVI_DRIVER_SENSOR_CFG_SLEEP)
    let r4 :=
      ruuvi_interface_lis2dh12_mode_set k r3.2.1 (some k.RUUVI_DRIVER_SENSOR_CFG_CONTINUOUS)
    (w1.trace = w.trace ++ [Event.data_rate_set c] ∧ w1.hw.odr = c) ∧
    (r2.2.1.trace = w1.trace ++ [Event.data_rate_set c] ∧
      r2.2.1.dev = { w1.dev with mode := k.RUUVI_DRIVER_SENSOR_CFG_CONTINUOUS }) ∧
    (r3.2.1.trace = r2.2.1.trace ++ [Event.data_rate_set k.LIS2DH12_POWER_DOWN] ∧
      r3.2.1.dev = { r2.2.1.dev with mode := k.RUUVI_DRIVER_SENSOR_CFG_SLEEP } ∧
      r3.2.1.dev.samplerate = c ∧ r3.2.1.dev.resolution = w1.dev.resolution ∧
      r3.2.1.dev.scale = w1.dev.scale ∧
      r3.2.1.hw = { r2.2.1.hw with odr := r3.2.1.hw.odr } ∧
      (r3.1 = RUUVI_DRIVER_SUCCESS → r3.2.1.hw.odr = k.LIS2DH12_POWER_DOWN)) ∧
    (r4.2.1.trace = r3.2.1.trace ++ [Event.data_rate_set c] ∧
      r4.2.1.dev.mode = k.RUUVI_DRIVER_SENSOR_CFG_CONTINUOUS ∧
      (r4.1 = RUUVI_DRIVER_SUCCESS → r4.2.1.hw.odr = c)) := by
  obtain ⟨c0, hc0⟩ := samplerate_set_success k hk w hm r hok
  intro w1 c r2 r3 r4
  have e1 : w1 = _ := hc0
  have ec : c = c0 := by simp only [c, e1]
  have e2 : r2 = _ := mode_set_continuous k hk w1
  have e3 : r3 = _ := mode_set_sleep k hk r2.2.1
  have e4 : r4 = _ := mode_set_continuous k hk r3.2.1
  refine ⟨⟨?_, ?_⟩, ⟨?_, ?_⟩, ⟨?_, ?_, ?_, ?_, ?_, ?_, ?_⟩, ⟨?_, ?_, ?_⟩⟩
  · rw [ec, e1]
  · rw [ec, e1]
  · rw [e2]
  · rw [e2]
  · rw [e3]
  · rw [e3]
  · rw [e3, e2]
  · rw [e3, e2]
  · rw [e3, e2]
  · rw [e3]
    by_cases hb : r2.2.1.bus r2.2.1.tick = 0 <;> simp [hb]
  · intro h
    rw [e3] at h ⊢
    have hb : r2.2.1.bus r2.2.1.tick = 0 := h
    simp [hb]
  · rw [e4, e3, e2]
  · rw [e4]
  · intro h
    rw [e4] at h ⊢
    have hb : r3.2.1.bus r3.2.1.tick = 0 := h
    simp only [hb, if_true]
    rw [e3, e2]

/-- Witness of C7 at the upstream constants: samplerate_set(5) in the world left by
init, on a bus that always succeeds. -/
theorem C7_sleep_continuous_keeps_rate_witness :
    ruuviConsts.WF ∧ sleepWorld.dev.mode = ruuviConsts.RUUVI_DRIVER_SENSOR_CFG_SLEEP ∧
    (ruuvi_interface_lis2dh12_samplerate_set ruuviConsts sleepWorld (some 5)).1
      = RUUVI_DRIVER_SUCCESS ∧
    (ruuvi_interface_lis2dh12_mode_set ruuviConsts
      (ruuvi_interface_lis2dh12_mode_set ruuviConsts
        (ruuvi_interface_lis2dh12_mode_set ruuviConsts
          (ruuvi_interface_lis2dh12_samplerate_set ruuviConsts sleepWorld (some 5)).2.1
          (some 0xFC)).2.1
        (some 0xFA)).2.1
      (some 0xFC)).2.1.trace
      = (ruuvi_interface_lis2dh12_mode_set ruuviConsts
        (ruuvi_interface_lis2dh12_mode_set ruuviConsts
          (ruuvi_interface_lis2dh12_samplerate_set ruuviConsts sleepWorld (some 5)).2.1
          (some 0xFC)).2.1
        (some 0xFA)).2.1.trace ++
        [Event.data_rate_set
          (ruuvi_interface_lis2dh12_samplerate_set ruuviConsts sleepWorld
            (some 5)).2.1.dev.samplerate] :=
  ⟨ruuviConsts_WF, rfl, by decide,
   (C7_sleep_continuous_keeps_rate ruuviConsts ruuviConsts_WF sleepWorld rfl 5
      (by decide)).2.2.2.1⟩

/-- C8, evaluated at the failing input: in `pausedWorld` (driver mode SLEEP, 10 Hz
stored, chip powered down) `samplerate_set(NO_CHANGE)` returns SUCCESS and reports 10,
but it writes the stored 10 Hz code to the data-rate register, whose content changes
from POWER_DOWN to the 10 Hz code: the call is not a no-op on the chip. -/
theorem C8_no_change_rewrites_data_rate :
    pausedWorld.dev.mode = ruuviConsts.RUUVI_DRIVER_SENSOR_CFG_SLEEP ∧
    pausedWorld.dev.samplerate = ruuviConsts.LIS2DH12_ODR_10Hz ∧
    pausedWorld.hw.odr = ruuviConsts.LIS2DH12_POWER_DOWN ∧
    (ruuvi_interface_lis2dh12_samplerate_set ruuviConsts pausedWorld
      (some ruuviConsts.RUUVI_DRIVER_SENSOR_CFG_NO_CHANGE)).1 = RUUVI_DRIVER_SUCCESS ∧
    (ruuvi_interface_lis2dh12_samplerate_set ruuviConsts pausedWorld
      (some ruuviConsts.RUUVI_DRIVER_SENSOR_CFG_NO_CHANGE)).2.2 = some 10 ∧
    (ruuvi_interface_lis2dh12_samplerate_set ruuviConsts pausedWorld
      (some ruuviConsts.RUUVI_DRIVER_SENSOR_CFG_NO_CHANGE)).2.1.trace
      = pausedWorld.trace ++ [Event.data_rate_set ruuviConsts.LIS2DH12_ODR_10Hz] ∧
    (ruuvi_interface_lis2dh12_samplerate_set ruuviConsts pausedWorld
      (some ruuviConsts.RUUVI_DRIVER_SENSOR_CFG_NO_CHANGE)).2.1.hw.odr
      = ruuviConsts.LIS2DH12_ODR_10Hz ∧
    (ruuvi_interface_lis2dh12_samplerate_set ruuviConsts pausedWorld
      (some ruuviConsts.RUUVI_DRIVER_SENSOR_CFG_NO_CHANGE)).2.1.hw ≠ pausedWorld.hw := by
  decide

/-- C9: in SLEEP mode with a succeeding bus and whatever the device state holds, the
sentinels resolve to fixed codes, written to the chip and stored: MIN to 1 Hz, 8 bit
and 2 g; MAX to the 5.376 kHz rate code, 12 bit and 16 g; DEFAULT to 1 Hz, 10 bit and
2 g. -/
theorem C9_sentinels_resolve_to_fixed_codes (k : Consts) (hk : k.WF) (w : World)
    (hm : w.dev.mode = k.RUUVI_DRIVER_SENSOR_CFG_SLEEP) (hb : BusOk w) :
    (∀ sc ∈ [(k.RUUVI_DRIVER_SENSOR_CFG_MIN, k.LIS2DH12_ODR_1Hz),
        (k.RUUVI_DRIVER_SENSOR_CFG_MAX, k.LIS2DH12_ODR_5kHz376_LP_1kHz344_NM_HP),
        (k.RUUVI_DRIVER_SENSOR_CFG_DEFAULT, k.LIS2DH12_ODR_1Hz)],
      (ruuvi_interface_lis2dh12_samplerate_set k w (some sc.1)).1 = RUUVI_DRIVER_SUCCESS ∧
      (ruuvi_interface_lis2dh12_samplerate_set k w (some sc.1)).2.1 =
        { w with dev := { w.dev with samplerate := sc.2 }, hw := { w.hw with odr := sc.2 },
                 tick := w.tick + 2, trace := w.trace ++ [Event.data_rate_set sc.2] }) ∧
    (∀ sc ∈ [(k.RUUVI_DRIVER_SENSOR_CFG_MIN, k.LIS2DH12_LP_8bit),
        (k.RUUVI_DRIVER_SENSOR_CFG_MAX, k.LIS2DH12_HR_12bit),
        (k.RUUVI_DRIVER_SENSOR_CFG_DEFAULT, k.LIS2DH12_NM_10bit)],
      (ruuvi_interface_lis2dh12_resolution_set k w (some sc.1)).1 = RUUVI_DRIVER_SUCCESS ∧
      (ruuvi_interface_lis2dh12_resolution_set k w (some sc.1)).2.1 =
        { w with dev := { w.dev with resolution := sc.2 }, hw := { w.hw with op_md := sc.2 },
                 tick := w.tick + 2, trace := w.trace ++ [Event.operating_mode_set sc.2] }) ∧
    (∀ sc ∈ [(k.RUUVI_DRIVER_SENSOR_CFG_MIN, k.LIS2DH12_2g),
        (k.RUUVI_DRIVER_SENSOR_CFG_MAX, k.LIS2DH12_16g),
        (k.RUUVI_DRIVER_SENSOR_CFG_DEFAULT, k.LIS2DH12_2g)],
      (ruuvi_interface_lis2dh12_scale_set k w (some sc.1)).1 = RUUVI_DRIVER_SUCCESS ∧
      (ruuvi_interface_lis2dh12_scale_set k w (some sc.1)).2.1 =
        { w with dev := { w.dev with scale := sc.2 }, hw := { w.hw with fs := sc.2 },
                 tick := w.tick + 2, trace := w.trace ++ [Event.full_scale_set sc.2] }) := by
  have ho := hk.odr_labels
  have hor := List.nodup_reverse.mpr ho
  have hp := hk.op_md_labels
  have hpr := List.nodup_reverse.mpr hp
  have hf := hk.fs_labels
  have hfr := List.nodup_reverse.mpr hf
  have hs := hk.sentinels
  simp only [List.nodup_cons, List.mem_cons, List.mem_singleton, not_or, List.not_mem_nil,
    not_false_eq_true, List.nodup_nil, and_true, List.reverse_cons, List.reverse_nil,
    List.nil_append, List.cons_append] at ho hor hp hpr hf hfr hs
  have hb0 := hb w.tick
  have hb1 := hb (w.tick + 1)
  refine ⟨?_, ?_, ?_⟩
  · intro sc hsc
    simp only [List.mem_cons, List.mem_singleton, List.not_mem_nil, or_false] at hsc
    rcases hsc with rfl | rfl | rfl <;>
      simp [ruuvi_interface_lis2dh12_samplerate_set, samplerate_set_select,
        VERIFY_SENSOR_SLEEPS_sleep k w hm, hs, ruuvi_interface_lis2dh12_samplerate_get,
        lis2dh12_data_rate_set, lis2dh12_data_rate_get, hb0, hb1, RUUVI_DRIVER_SUCCESS,
        World.set_samplerate, ho, hor]
  · intro sc hsc
    simp only [List.mem_cons, List.mem_singleton, List.not_mem_nil, or_false] at hsc
    rcases hsc with rfl | rfl | rfl <;>
      simp [ruuvi_interface_lis2dh12_resolution_set, resolution_set_select,
        VERIFY_SENSOR_SLEEPS_sleep k w hm, hs, ruuvi_interface_lis2dh12_resolution_get,
        lis2dh12_operating_mode_set, lis2dh12_operating_mode_get, hb0, hb1,
        RUUVI_DRIVER_SUCCESS, World.set_resolution, hp, hpr]
  · intro sc hsc
    simp only [List.mem_cons, List.mem_singleton, List.not_mem_nil, or_false] at hsc
    rcases hsc with rfl | rfl | rfl <;>
      simp [ruuvi_interface_lis2dh12_scale_set, scale_set_select,
        VERIFY_SENSOR_SLEEPS_sleep k w hm, hs, ruuvi_interface_lis2dh12_scale_get,
        lis2dh12_full_scale_set, lis2dh12_full_scale_get, hb0, hb1, RUUVI_DRIVER_SUCCESS,
        World.set_scale, hf, hfr]

/-- Witness of C9 at the upstream constants and the world left by init: the MAX
sentinel of each setter. -/
theorem C9_sentinels_resolve_to_fixed_codes_witness :
    ruuviConsts.WF ∧ sleepWorld.dev.mode = ruuviConsts.RUUVI_DRIVER_SENSOR_CFG_SLEEP ∧
    BusOk sleepWorld ∧
    (ruuvi_interface_lis2dh12_samplerate_set ruuviConsts sleepWorld (some 0xF1)).2.1.hw.odr
      = 9 ∧
    (ruuvi_interface_lis2dh12_resolution_set ruuviConsts sleepWorld (some 0xF1)).2.1.hw.op_md
      = 0 ∧
    (ruuvi_interface_lis2dh12_scale_set ruuviConsts sleepWorld (some 0xF1)).2.1.hw.fs = 3 :=
  ⟨ruuviConsts_WF, rfl, sleepWorld_BusOk,
   by rw [((C9_sentinels_resolve_to_fixed_codes ruuviConsts ruuviConsts_WF sleepWorld rfl
        sleepWorld_BusOk).1 (0xF1, 9) (by decide)).2],
   by rw [((C9_sentinels_resolve_to_fixed_codes ruuviConsts ruuviConsts_WF sleepWorld rfl
        sleepWorld_BusOk).2.1 (0xF1, 0) (by decide)).2],
   by rw [((C9_sentinels_resolve_to_fixed_codes ruuviConsts ruuviConsts_WF sleepWorld rfl
        sleepWorld_BusOk).2.2 (0xF1, 3) (by decide)).2]⟩

/-- C10, evaluated at the failing input: with the MAX sentinel `samplerate_set` puts
the 5.376 kHz code into the data-rate register and reports the MAX sentinel itself;
neither the register holds the 200 Hz code nor does the caller read 200. -/
theorem C10_max_samplerate_is_not_200Hz :
    (ruuvi_interface_lis2dh12_samplerate_set ruuviConsts sleepWorld
      (some ruuviConsts.RUUVI_DRIVER_SENSOR_CFG_MAX)).1 = RUUVI_DRIVER_SUCCESS ∧
    (ruuvi_interface_lis2dh12_samplerate_set ruuviConsts sleepWorld
      (some ruuviConsts.RUUVI_DRIVER_SENSOR_CFG_MAX)).2.1.hw.odr
      = ruuviConsts.LIS2DH12_ODR_5kHz376_LP_1kHz344_NM_HP ∧
    (ruuvi_interface_lis2dh12_samplerate_set ruuviConsts sleepWorld
      (some ruuviConsts.RUUVI_DRIVER_SENSOR_CFG_MAX)).2.1.hw.odr
      ≠ ruuviConsts.LIS2DH12_ODR_200Hz ∧
    (ruuvi_interface_lis2dh12_samplerate_set ruuviConsts sleepWorld
      (some ruuviConsts.RUUVI_DRIVER_SENSOR_CFG_MAX)).2.2
      = some ruuviConsts.RUUVI_DRIVER_SENSOR_CFG_MAX ∧
    (ruuvi_interface_lis2dh12_samplerate_set ruuviConsts sleepWorld
      (some ruuviConsts.RUUVI_DRIVER_SENSOR_CFG_MAX)).2.2 ≠ some 200 ∧
    (ruuvi_interface_lis2dh12_samplerate_set ruuviConsts sleepWorld (some 200)).2.1.hw.odr
      = ruuviConsts.LIS2DH12_ODR_200Hz := by
  decide

/-- C11, as amended: at scale 2 g and 10 bit resolution, for every pair of samples that
are left-justified (each component a multiple of 64) and whose difference fits
`int16_t` on each axis, `lis2dh12_verify_selftest_difference` returns SUCCESS exactly
when on each of the three axes the absolute difference in 10 bit units lies within
`[SELFTEST_DIFF_MIN, SELFTEST_DIFF_MAX]`, and returns SELFTEST when an axis is outside
the band. -/
theorem C11_verify_selftest_difference_in_range (k : Consts) (hk : k.WF) (w : World)
    (new old : axis3bit16_t)
    (hs : w.dev.scale = k.LIS2DH12_2g) (hr : w.dev.resolution = k.LIS2DH12_NM_10bit)
    (hin : ∀ ii < 3, left_justified_in_range new old ii) :
    (lis2dh12_verify_selftest_difference k w new old = RUUVI_DRIVER_SUCCESS ↔
      ∀ ii < 3, spec_selftest_in_band k new old ii) ∧
    ((∃ ii < 3, ¬ spec_selftest_in_band k new old ii) →
      lis2dh12_verify_selftest_difference k w new old = k.RUUVI_DRIVER_ERROR_SELFTEST) := by
  have hstate : ¬ (k.LIS2DH12_2g ≠ w.dev.scale ∨ k.LIS2DH12_NM_10bit ≠ w.dev.resolution) := by
    rw [hs, hr]
    simp
  have hv : lis2dh12_verify_selftest_difference k w new old =
      lis2dh12_verify_selftest_difference_loop k new old [0, 1, 2] := by
    unfold lis2dh12_verify_selftest_difference
    rw [if_neg hstate]
  have hex := verify_selftest_difference_loop_exact k hk new old [0, 1, 2]
    ((forall_lt_three _).mp hin)
  rw [hv, forall_lt_three]
  refine ⟨hex, ?_⟩
  rintro ⟨ii, hlt, hout⟩
  rcases verify_selftest_difference_loop_range k new old [0, 1, 2] with h0 | h1
  · exact absurd ((forall_lt_three _).mpr (hex.mp h0) ii hlt) hout
  · exact h1

/-- Witness of C11 at the upstream constants: every axis moves by 100 units, which is
within the band from 17 to 360, and the verdict is SUCCESS. -/
theorem C11_verify_selftest_difference_in_range_witness :
    ruuviConsts.WF ∧ sleepWorld.dev.scale = ruuviConsts.LIS2DH12_2g ∧
    sleepWorld.dev.resolution = ruuviConsts.LIS2DH12_NM_10bit ∧
    (∀ ii < 3, left_justified_in_range ⟨6400, 6400, 6400⟩ ⟨0, 0, 0⟩ ii) ∧
    (lis2dh12_verify_selftest_difference ruuviConsts sleepWorld ⟨6400, 6400, 6400⟩ ⟨0, 0, 0⟩
        = RUUVI_DRIVER_SUCCESS ↔
      ∀ ii < 3, spec_selftest_in_band ruuviConsts ⟨6400, 6400, 6400⟩ ⟨0, 0, 0⟩ ii) ∧
    lis2dh12_verify_selftest_difference ruuviConsts sleepWorld ⟨6400, 6400, 6400⟩ ⟨0, 0, 0⟩
      = RUUVI_DRIVER_SUCCESS :=
  ⟨ruuviConsts_WF, rfl, rfl,
   by
     intro ii hii
     unfold left_justified_in_range
     interval_cases ii <;> decide,
   (C11_verify_selftest_difference_in_range ruuviConsts ruuviConsts_WF sleepWorld
      ⟨6400, 6400, 6400⟩ ⟨0, 0, 0⟩ rfl rfl
      (by
        intro ii hii
        unfold left_justified_in_range
        interval_cases ii <;> decide)).1,
   by decide⟩

/-- C11, counterexample to the claim as stated for every pair of `int16_t` samples, at
the upstream constants (band 17 to 360) with scale 2 g and 10 bit resolution. First
pair: the x axis moves from 1087 to 0, less than 17 units of 64, and the verdict is
SUCCESS, because the shift rounds -1087 / 64 down to -17. Second pair: the x axis
moves from -16384 to 32704, which is 767 units, and the verdict is SUCCESS, because
the difference 49088 does not fit `int16_t` and is taken as -16448. -/
theorem C11_verify_selftest_difference_not_for_every_pair :
    sleepWorld.dev.scale = ruuviConsts.LIS2DH12_2g ∧
    sleepWorld.dev.resolution = ruuviConsts.LIS2DH12_NM_10bit ∧
    lis2dh12_verify_selftest_difference ruuviConsts sleepWorld ⟨0, 6400, 6400⟩ ⟨1087, 0, 0⟩
      = RUUVI_DRIVER_SUCCESS ∧
    spec_selftest_delta ⟨0, 6400, 6400⟩ ⟨1087, 0, 0⟩ 0 = 16 ∧
    ¬ spec_selftest_in_band ruuviConsts ⟨0, 6400, 6400⟩ ⟨1087, 0, 0⟩ 0 ∧
    lis2dh12_verify_selftest_difference ruuviConsts sleepWorld ⟨32704, 6400, 6400⟩
      ⟨-16384, 0, 0⟩ = RUUVI_DRIVER_SUCCESS ∧
    spec_selftest_delta ⟨32704, 6400, 6400⟩ ⟨-16384, 0, 0⟩ 0 = 767 ∧
    ¬ spec_selftest_in_band ruuviConsts ⟨32704, 6400, 6400⟩ ⟨-16384, 0, 0⟩ 0 := by
  refine ⟨rfl, rfl, by decide, by decide, ?_, by decide, by decide, ?_⟩
  · unfold spec_selftest_in_band
    decide
  · unfold spec_selftest_in_band
    decide

/-- C12, as amended: for every init call on the SPI bus whose identifier read matches:
if the samples that the self-test reads are left-justified and their differences fit
`int16_t`, and the delta of the positive or of the negative self-test is out of band
on some axis, the returned status contains SELFTEST; and whatever the samples and
the answers of the bus are, the writes and delays of the whole sequence are issued,
so that the last self-test write is DISABLE, the last data-rate write is POWER_DOWN
and the stored sample rate is POWER_DOWN when init returns. -/
theorem C12_init_selftest_failure_and_cleanup (k : Consts) (hk : k.WF) (w : World)
    (s : ruuvi_driver_sensor_t) (handle : Nat) (hctx : w.dev.ctx = false)
    (hid : (lis2dh12_device_id_get w).2.1 = k.LIS2DH12_ID) :
    ((∀ ii < 3, left_justified_in_range (w.accel (w.tick + 19)) (w.accel (w.tick + 17)) ii) →
     (∀ ii < 3, left_justified_in_range (w.accel (w.tick + 23)) (w.accel (w.tick + 21)) ii) →
     ((∃ ii < 3, ¬ spec_selftest_in_band k (w.accel (w.tick + 19)) (w.accel (w.tick + 17)) ii) ∨
      (∃ ii < 3, ¬ spec_selftest_in_band k (w.accel (w.tick + 23)) (w.accel (w.tick + 21)) ii)) →
     status_contains
       (ruuvi_interface_lis2dh12_init k w (some s) k.RUUVI_DRIVER_BUS_SPI handle).1
       k.RUUVI_DRIVER_ERROR_SELFTEST) ∧
    last_self_test_write
      (ruuvi_interface_lis2dh12_init k w (some s) k.RUUVI_DRIVER_BUS_SPI handle).2.1.trace
        = some k.LIS2DH12_ST_DISABLE ∧
    last_data_rate_write
      (ruuvi_interface_lis2dh12_init k w (some s) k.RUUVI_DRIVER_BUS_SPI handle).2.1.trace
        = some k.LIS2DH12_POWER_DOWN ∧
    (ruuvi_interface_lis2dh12_init k w (some s) k.RUUVI_DRIVER_BUS_SPI handle).2.1.dev.samplerate
      = k.LIS2DH12_POWER_DOWN := by
  obtain ⟨hst, htr, hsr, _⟩ := init_spi_found k w s handle hctx hid
  refine ⟨?_, ?_, ?_, hsr⟩
  · intro hin1 hin2 hout
    rw [hst]
    have hex1 := verify_selftest_difference_loop_exact k hk _ _ [0, 1, 2]
      ((forall_lt_three _).mp hin1)
    have hex2 := verify_selftest_difference_loop_exact k hk _ _ [0, 1, 2]
      ((forall_lt_three _).mp hin2)
    rcases hout with ⟨ii, hlt, hout⟩ | ⟨ii, hlt, hout⟩
    · have hv : lis2dh12_verify_selftest_difference_loop k (w.accel (w.tick + 19))
          (w.accel (w.tick + 17)) [0, 1, 2] = k.RUUVI_DRIVER_ERROR_SELFTEST := by
        rcases verify_selftest_difference_loop_range k (w.accel (w.tick + 19))
          (w.accel (w.tick + 17)) [0, 1, 2] with h0 | h1
        · exact absurd ((forall_lt_three _).mpr (hex1.mp h0) ii hlt) hout
        · exact h1
      rw [hv]
      exact status_contains_or_left _ (status_contains_or_left _ (status_contains_or_left _
        (status_contains_or_left _ (status_contains_or_right _ _))))
    · have hv : lis2dh12_verify_selftest_difference_loop k (w.accel (w.tick + 23))
          (w.accel (w.tick + 21)) [0, 1, 2] = k.RUUVI_DRIVER_ERROR_SELFTEST := by
        rcases verify_selftest_difference_loop_range k (w.accel (w.tick + 23))
          (w.accel (w.tick + 21)) [0, 1, 2] with h0 | h1
        · exact absurd ((forall_lt_three _).mpr (hex2.mp h0) ii hlt) hout
        · exact h1
      rw [hv]
      exact status_contains_or_left _ (status_contains_or_left _
        (status_contains_or_right _ _))
  · rw [htr]
    exact (init_trace_last_writes k w.trace).1
  · rw [htr]
    exact (init_trace_last_writes k w.trace).2

/-- Witness of C12 at the upstream constants: a chip whose samples do not move under
self-test (every delta is 0, below the band). Init returns SELFTEST and the cleanup
has run. -/
theorem C12_init_selftest_failure_and_cleanup_witness :
    ruuviConsts.WF ∧ (preInitWorld (fun _ => ⟨0, 0, 0⟩)).dev.ctx = false ∧
    (lis2dh12_device_id_get (preInitWorld (fun _ => ⟨0, 0, 0⟩))).2.1 = ruuviConsts.LIS2DH12_ID ∧
    status_contains
      (ruuvi_interface_lis2dh12_init ruuviConsts (preInitWorld (fun _ => ⟨0, 0, 0⟩))
        (some blankSensor) ruuviConsts.RUUVI_DRIVER_BUS_SPI 0).1
      ruuviConsts.RUUVI_DRIVER_ERROR_SELFTEST ∧
    last_self_test_write
      (ruuvi_interface_lis2dh12_init ruuviConsts (preInitWorld (fun _ => ⟨0, 0, 0⟩))
        (some blankSensor) ruuviConsts.RUUVI_DRIVER_BUS_SPI 0).2.1.trace
        = some ruuviConsts.LIS2DH12_ST_DISABLE ∧
    last_data_rate_write
      (ruuvi_interface_lis2dh12_init ruuviConsts (preInitWorld (fun _ => ⟨0, 0, 0⟩))
        (some blankSensor) ruuviConsts.RUUVI_DRIVER_BUS_SPI 0).2.1.trace
        = some ruuviConsts.LIS2DH12_POWER_DOWN ∧
    (ruuvi_interface_lis2dh12_init ruuviConsts (preInitWorld (fun _ => ⟨0, 0, 0⟩))
        (some blankSensor) ruuviConsts.RUUVI_DRIVER_BUS_SPI 0).2.1.dev.samplerate
      = ruuviConsts.LIS2DH12_POWER_DOWN :=
  ⟨ruuviConsts_WF, rfl, rfl,
   (C12_init_selftest_failure_and_cleanup ruuviConsts ruuviConsts_WF
      (preInitWorld (fun _ => ⟨0, 0, 0⟩)) blankSensor 0 rfl rfl).1
      (by
        intro ii hii
        unfold left_justified_in_range
        interval_cases ii <;> decide)
      (by
        intro ii hii
        unfold left_justified_in_range
        interval_cases ii <;> decide)
      (Or.inl ⟨0, by decide, by unfold spec_selftest_in_band; decide⟩),
   (C12_init_selftest_failure_and_cleanup ruuviConsts ruuviConsts_WF
      (preInitWorld (fun _ => ⟨0, 0, 0⟩)) blankSensor 0 rfl rfl).2⟩

/-- C12, counterexample to the claim as stated for whatever samples the self-test
reads: init on the SPI bus of a LIS2DH12 whose bus always succeeds, with the samples
`selftestSamples`. The delta of the positive self-test on the x axis is below the
band (the samples differ by 1087, less than 17 units of 64) and the delta of the
negative self-test on the x axis is above the band (767 units), yet init returns
SUCCESS, which does not contain SELFTEST. -/
theorem C12_init_success_with_delta_out_of_band :
    (preInitWorld selftestSamples).dev.ctx = false ∧
    (lis2dh12_device_id_get (preInitWorld selftestSamples)).2.1 = ruuviConsts.LIS2DH12_ID ∧
    ¬ spec_selftest_in_band ruuviConsts (selftestSamples 19) (selftestSamples 17) 0 ∧
    ¬ spec_selftest_in_band ruuviConsts (selftestSamples 23) (selftestSamples 21) 0 ∧
    (ruuvi_interface_lis2dh12_init ruuviConsts (preInitWorld selftestSamples)
      (some blankSensor) ruuviConsts.RUUVI_DRIVER_BUS_SPI 0).1 = RUUVI_DRIVER_SUCCESS ∧
    ¬ status_contains
      (ruuvi_interface_lis2dh12_init ruuviConsts (preInitWorld selftestSamples)
        (some blankSensor) ruuviConsts.RUUVI_DRIVER_BUS_SPI 0).1
      ruuviConsts.RUUVI_DRIVER_ERROR_SELFTEST := by
  have hst := (init_spi_found ruuviConsts (preInitWorld selftestSamples) blankSensor 0
    rfl rfl).1
  have h0 : (ruuvi_interface_lis2dh12_init ruuviConsts (preInitWorld selftestSamples)
      (some blankSensor) ruuviConsts.RUUVI_DRIVER_BUS_SPI 0).1 = RUUVI_DRIVER_SUCCESS := by
    rw [hst]
    decide
  refine ⟨rfl, rfl, ?_, ?_, h0, ?_⟩
  · unfold spec_selftest_in_band
    decide
  · unfold spec_selftest_in_band
    decide
  · rw [h0]
    unfold status_contains
    decide

/-- C13: when the identifier read during init on the SPI bus does not return
`LIS2DH12_ID`, init returns NOT_FOUND; the world it leaves differs from the world
before only in the driver's `dev` (bus functions, handle and mode) and in the one
bus operation of the read, so the trace of register writes and the registers are
unchanged and no step of the self-test has run; every function pointer of the
sensor structure is a not-initialized stub and its name is the not-initialized
name. -/
theorem C13_init_id_mismatch_not_found (k : Consts) (w : World) (s : ruuvi_driver_sensor_t)
    (handle : Nat) (hctx : w.dev.ctx = false)
    (hid : (lis2dh12_device_id_get w).2.1 ≠ k.LIS2DH12_ID) :
    ruuvi_interface_lis2dh12_init k w (some s) k.RUUVI_DRIVER_BUS_SPI handle =
      (k.RUUVI_DRIVER_ERROR_NOT_FOUND,
       { w with dev := { w.dev with ctx := true, handle := handle,
                                    mode := k.RUUVI_DRIVER_SENSOR_CFG_SLEEP },
                tick := w.tick + 1 },
       some ( ruuvi_driver_sensor_initialize s)) ∧
    (ruuvi_interface_lis2dh12_init k w (some s) k.RUUVI_DRIVER_BUS_SPI handle).2.1.trace
      = w.trace ∧
    (ruuvi_interface_lis2dh12_init k w (some s) k.RUUVI_DRIVER_BUS_SPI handle).2.1.hw = w.hw ∧
    ruuvi_driver_sensor_initialize s =
      { init := FnPtr.ruuvi_driver_init_ni
        uninit := FnPtr.ruuvi_driver_init_ni
        samplerate_set := FnPtr.ruuvi_driver_setup_ni
        samplerate_get := FnPtr.ruuvi_driver_setup_ni
        resolution_set := FnPtr.ruuvi_driver_setup_ni
        resolution_get := FnPtr.ruuvi_driver_setup_ni
        scale_set := FnPtr.ruuvi_driver_setup_ni
        scale_get := FnPtr.ruuvi_driver_setup_ni
        dsp_set := FnPtr.ruuvi_driver_dsp_ni
        dsp_get := FnPtr.ruuvi_driver_dsp_ni
        mode_set := FnPtr.ruuvi_driver_setup_ni
        mode_get := FnPtr.ruuvi_driver_setup_ni
        data_get := FnPtr.ruuvi_driver_data_get_ni
        configuration_set := FnPtr.ruuvi_driver_sensor_configuration_ni
        configuration_get := FnPtr.ruuvi_driver_sensor_configuration_ni
        fifo_enable := FnPtr.ruuvi_driver_fifo_enable_ni
        fifo_interrupt_enable := FnPtr.ruuvi_driver_fifo_interrupt_enable_ni
        fifo_read := FnPtr.ruuvi_driver_fifo_read_ni
        level_interrupt_set := FnPtr.ruuvi_driver_level_interrupt_use_ni
        name := m_init_name
        provides := s.provides } := by
  have h := init_spi_not_found k w s handle hctx hid
  refine ⟨h, ?_, ?_, rfl⟩
  · rw [h]
  · rw [h]

/-- Witness of C13 at the upstream constants: the chip answers the identifier read
with 0x32. -/
theorem C13_init_id_mismatch_not_found_witness :
    ({ preInitWorld (fun _ => ⟨0, 0, 0⟩) with
        hw := { (preInitWorld (fun _ => ⟨0, 0, 0⟩)).hw with who_am_i := 0x32 } } : World).dev.ctx
      = false ∧
    (lis2dh12_device_id_get
      { preInitWorld (fun _ => ⟨0, 0, 0⟩) with
        hw := { (preInitWorld (fun _ => ⟨0, 0, 0⟩)).hw with who_am_i := 0x32 } }).2.1
      ≠ ruuviConsts.LIS2DH12_ID ∧
    (ruuvi_interface_lis2dh12_init ruuviConsts
      { preInitWorld (fun _ => ⟨0, 0, 0⟩) with
        hw := { (preInitWorld (fun _ => ⟨0, 0, 0⟩)).hw with who_am_i := 0x32 } }
      (some blankSensor) ruuviConsts.RUUVI_DRIVER_BUS_SPI 0).1
      = ruuviConsts.RUUVI_DRIVER_ERROR_NOT_FOUND ∧
    (ruuvi_interface_lis2dh12_init ruuviConsts
      { preInitWorld (fun _ => ⟨0, 0, 0⟩) with
        hw := { (preInitWorld (fun _ => ⟨0, 0, 0⟩)).hw with who_am_i := 0x32 } }
      (some blankSensor) ruuviConsts.RUUVI_DRIVER_BUS_SPI 0).2.1.trace = [] :=
  ⟨rfl, by decide,
   congrArg (fun r => r.1) (C13_init_id_mismatch_not_found ruuviConsts
      { preInitWorld (fun _ => ⟨0, 0, 0⟩) with
        hw := { (preInitWorld (fun _ => ⟨0, 0, 0⟩)).hw with who_am_i := 0x32 } }
      blankSensor 0 rfl (by decide)).1,
   (C13_init_id_mismatch_not_found ruuviConsts
      { preInitWorld (fun _ => ⟨0, 0, 0⟩) with
        hw := { (preInitWorld (fun _ => ⟨0, 0, 0⟩)).hw with who_am_i := 0x32 } }
      blankSensor 0 rfl (by decide)).2.1⟩

/-- C16: the doc comment of `ruuvi_interface_lis2dh12_activity_interrupt_use` promises
INVALID_STATE when the limit is higher than the maximum of the scale. At the
upstream constants with the scale 2 g, the limit 3 g is rejected (its threshold 188
exceeds 0x7F) with INVALID_PARAM, which is not INVALID_STATE and does not contain
it. -/
theorem C16_limit_above_scale_returns_invalid_param :
    sleepWorld.hw.fs = ruuviConsts.LIS2DH12_2g ∧
    (ruuvi_interface_lis2dh12_scale_get ruuviConsts sleepWorld (some 0)).2.2 = some 2 ∧
    (ruuvi_interface_lis2dh12_activity_interrupt_use ruuviConsts sleepWorld true
        (some 3)).1 = ruuviConsts.RUUVI_DRIVER_ERROR_INVALID_PARAM ∧
    (ruuvi_interface_lis2dh12_activity_interrupt_use ruuviConsts sleepWorld true
        (some 3)).1 ≠ ruuviConsts.RUUVI_DRIVER_ERROR_INVALID_STATE ∧
    ¬ status_contains
      (ruuvi_interface_lis2dh12_activity_interrupt_use ruuviConsts sleepWorld true (some 3)).1
      ruuviConsts.RUUVI_DRIVER_ERROR_INVALID_STATE := by
  have hd : activity_interrupt_use_divisor
      ((ruuvi_interface_lis2dh12_scale_get ruuviConsts sleepWorld (some 0)).2.2.getD 0)
        = 0.016 :=
    (activity_interrupt_use_divisor_value ruuviConsts ruuviConsts_WF sleepWorld rfl
      ruuviConsts.LIS2DH12_2g 0.016 rfl (List.mem_cons_self _ _)).1
  have hr := activity_interrupt_use_reject ruuviConsts sleepWorld true 3 (by norm_num)
    (by
      rw [hd]
      unfold float_to_uint32
      rw [floor_example_3g]
      decide)
  rw [hr]
  refine ⟨rfl, by decide, rfl, by decide, ?_⟩
  unfold status_contains
  decide

/-- C17: for every call of the activity interrupt setter that reaches the register
writes (the limit is not negative and the threshold is at most 0x7F), the register
writes are, in this order: the high-pass filter on the interrupt 1 generator, the
threshold, the interrupt 1 configuration and the routing to pin 2. The
configuration written has `xlie`, `ylie` and `zlie` cleared and has `xhie`, `yhie`
and `zhie` set to `PROPERTY_ENABLE` when `enable` is true and cleared when it is
false; the high-pass write is the same for both values of `enable`. -/
theorem C17_activity_interrupt_configuration (k : Consts) (w : World) (enable : Bool) (l : ℚ)
    (hl : 0 ≤ l)
    (ht : (float_to_uint32 (l / activity_interrupt_use_divisor
        ((ruuvi_interface_lis2dh12_scale_get k w (some 0)).2.2.getD 0)) + 1) % 4294967296
          ≤ 0x7F) :
    (ruuvi_interface_lis2dh12_activity_interrupt_use k w enable (some l)).2.1.trace =
      w.trace ++ [Event.high_pass_int_conf_set k.LIS2DH12_ON_INT1_GEN,
        Event.int1_gen_threshold_set
          ((float_to_uint32 (l / activity_interrupt_use_divisor
            ((ruuvi_interface_lis2dh12_scale_get k w (some 0)).2.2.getD 0)) + 1) % 4294967296),
        Event.int1_gen_conf_set
          { xlie := 0
            xhie := if enable = true then k.PROPERTY_ENABLE else 0
            ylie := 0
            yhie := if enable = true then k.PROPERTY_ENABLE else 0
            zlie := 0
            zhie := if enable = true then k.PROPERTY_ENABLE else 0
            _6d := 0
            aoi := 0 },
        Event.pin_int2_config_set ⟨k.PROPERTY_ENABLE⟩] := by
  have hacc := activity_interrupt_use_accept k w enable l hl ht
  rw [hacc.2.1]
  cases enable <;> rfl

/-- Witness of C17 at the upstream constants: the limit 0.02 g at 2 g with `enable`
true writes the threshold 2 and the configuration with the three high events
set. -/
theorem C17_activity_interrupt_configuration_witness :
    (0 : ℚ) ≤ 0.02 ∧
    (ruuvi_interface_lis2dh12_activity_interrupt_use ruuviConsts sleepWorld true
      (some 0.02)).2.1.trace =
      [Event.high_pass_int_conf_set 1, Event.int1_gen_threshold_set 2,
       Event.int1_gen_conf_set ⟨0, 1, 0, 1, 0, 1, 0, 0⟩, Event.pin_int2_config_set ⟨1⟩] := by
  have hd := (activity_interrupt_use_divisor_value ruuviConsts ruuviConsts_WF sleepWorld rfl
    ruuviConsts.LIS2DH12_2g 0.016 rfl (List.mem_cons_self _ _)).1
  have hthr : (float_to_uint32 ((0.02 : ℚ) / activity_interrupt_use_divisor
      ((ruuvi_interface_lis2dh12_scale_get ruuviConsts sleepWorld (some 0)).2.2.getD 0)) + 1)
        % 4294967296 = 2 := by
    rw [hd]
    unfold float_to_uint32
    rw [floor_example_2g]
    rfl
  have h := C17_activity_interrupt_configuration ruuviConsts sleepWorld true 0.02
    (by norm_num) (by rw [hthr]; decide)
  rw [hthr] at h
  exact ⟨by norm_num, h⟩

/-- C18: when the level register reports a depth `N` with `1 ≤ N ≤ 31` and the caller
passes the capacity `C ≥ 1` with a buffer of at least `C` entries, `fifo_read` sets
`*num_elements` to `min (N + 1) C`, reads that many samples from the chip, populates
the entries below `min (N + 1) C` of the buffer, each from the sample of its own bus
operation, and leaves every other entry as it was. -/
theorem C18_fifo_read_count (k : Consts) (c : Codec) (populate : Populate) (w : World)
    (N C : Nat) (p : List ruuvi_driver_sensor_data_t)
    (hN : (lis2dh12_fifo_data_level_get w).2.1 = N) (h1 : 1 ≤ N) (h31 : N ≤ 31)
    (hC : 1 ≤ C) (hlen : C ≤ p.length) :
    (ruuvi_interface_lis2dh12_fifo_read k c populate w (some C) (some p)).2.2.1
      = some (min (N + 1) C) ∧
    (ruuvi_interface_lis2dh12_fifo_read k c populate w (some C) (some p)).2.1.tick
      = w.tick + 1 + min (N + 1) C ∧
    ∃ buf, (ruuvi_interface_lis2dh12_fifo_read k c populate w (some C) (some p)).2.2.2
        = some buf ∧
      buf.length = p.length ∧
      (∀ j, j < min (N + 1) C → ∃ t, p.get? j = some t ∧
        buf.get? j = some (populate
          (if j = 0 then { t with timestamp_ms := ruuvi_driver_sensor_timestamp_get w } else t)
          (fifo_sample k c w (w.tick + 1 + j)) t.fields)) ∧
      (∀ j, min (N + 1) C ≤ j → buf.get? j = p.get? j) := by
  obtain ⟨g1, g2, buf, g3, g4, g5⟩ := fifo_read_spec k c populate w N C p hN h1 h31 hC
  refine ⟨g1, ?_, buf, g3, g4, ?_, ?_⟩
  · rw [g2]
  · intro j hj
    have hlt : j < p.length := by omega
    refine ⟨p.get ⟨j, hlt⟩, List.get?_eq_get hlt, ?_⟩
    rw [g5 j, if_pos hj, List.get?_eq_get hlt]
    rfl
  · intro j hj
    have hno : ¬ j < min (N + 1) C := by omega
    rw [g5 j, if_neg hno]

/-- Witness of C18 at the upstream constants: the capacity 5 and the depth 10 give
`*num_elements = 5`, five bus operations after the read of the level, and entry 4
populated from the fifth of them. -/
theorem C18_fifo_read_count_witness :
    (lis2dh12_fifo_data_level_get fifoWorld).2.1 = 10 ∧
    (ruuvi_interface_lis2dh12_fifo_read ruuviConsts stCodec populate_requested fifoWorld
      (some 5) (some (List.replicate 5 (staleEntry 7)))).2.2.1 = some 5 ∧
    (ruuvi_interface_lis2dh12_fifo_read ruuviConsts stCodec populate_requested fifoWorld
      (some 5) (some (List.replicate 5 (staleEntry 7)))).2.1.tick = 6 ∧
    ∃ buf, (ruuvi_interface_lis2dh12_fifo_read ruuviConsts stCodec populate_requested
        fifoWorld (some 5) (some (List.replicate 5 (staleEntry 7)))).2.2.2 = some buf ∧
      buf.length = 5 ∧
      ∃ t, (List.replicate 5 (staleEntry 7)).get? 4 = some t ∧
        buf.get? 4 = some (populate_requested
          (if 4 = 0 then
            { t with timestamp_ms := ruuvi_driver_sensor_timestamp_get fifoWorld } else t)
          (fifo_sample ruuviConsts stCodec fifoWorld (fifoWorld.tick + 1 + 4)) t.fields) := by
  obtain ⟨g1, g2, buf, g3, g4, g5, _⟩ :=
    C18_fifo_read_count ruuviConsts stCodec populate_requested fifoWorld 10 5
      (List.replicate 5 (staleEntry 7)) rfl (by decide) (by decide) (by decide) (by decide)
  exact ⟨rfl, g1, g2, buf, g3, g4, g5 4 (by decide)⟩

/-- C19: `fifo_read` of two samples at the upstream constants, on a chip with ten
samples queued, into a buffer whose two entries hold the time stamp 7. Whatever
`populate` is and whatever the clock reads: the target of entry 0 carries the time
stamp of the call, while entry 1 is the result of `populate` on the entry as the
caller passed it and on a sample that has no time stamp assigned, so it does not
depend on the clock. With a `populate` that leaves the time stamp of its target
alone and the clock at 1000 ms, the time stamps of the two entries returned are
1000 and 7. -/
theorem C19_fifo_read_stamps_first_entry_only :
    (∀ (populate : Populate) (now : Nat),
      (ruuvi_interface_lis2dh12_fifo_read ruuviConsts stCodec populate
        { fifoWorld with now := now } (some 2) (some [staleEntry 7, staleEntry 7])).2.2 =
        (some 2,
         some [populate { staleEntry 7 with timestamp_ms := now % 2 ^ 64 }
                 (fifo_sample ruuviConsts stCodec fifoWorld 1) (staleEntry 7).fields,
               populate (staleEntry 7)
                 (fifo_sample ruuviConsts stCodec fifoWorld 2) (staleEntry 7).fields])) ∧
    ruuvi_driver_sensor_timestamp_get fifoWorld = 1000 ∧
    ((ruuvi_interface_lis2dh12_fifo_read ruuviConsts stCodec populate_requested fifoWorld
      (some 2) (some [staleEntry 7, staleEntry 7])).2.2.2.getD []).map
        (fun e => e.timestamp_ms) = [1000, 7] := by
  refine ⟨fun populate now => rfl, by decide, by decide⟩

/-- C20: `rawToMg` and `rawToC` by the stored scale and resolution. When the scale is
none of the four scale codes or the resolution is none of the three resolution
codes, `rawToMg` returns INTERNAL and sets the three accelerations to
`RUUVI_DRIVER_FLOAT_INVALID`; when the resolution is none of the three codes,
`rawToC` returns INTERNAL and sets the temperature to `RUUVI_DRIVER_FLOAT_INVALID`.
For every supported pair `rawToMg` returns SUCCESS and each axis is the output of
the conversion function that belongs to the pair; for every supported resolution
`rawToC` returns SUCCESS and the output of the function that belongs to it. -/
theorem C20_raw_conversion_by_scale_and_resolution (k : Consts) (hk : k.WF) (c : Codec)
    (w : World) (raw : axis3bit16_t) (raw_temperature : List Nat) :
    ((w.dev.scale ∉ [k.LIS2DH12_2g, k.LIS2DH12_4g, k.LIS2DH12_8g, k.LIS2DH12_16g] ∨
      w.dev.resolution ∉ [k.LIS2DH12_LP_8bit, k.LIS2DH12_NM_10bit, k.LIS2DH12_HR_12bit]) →
      rawToMg k c w raw =
        (k.RUUVI_DRIVER_ERROR_INTERNAL,
         [k.RUUVI_DRIVER_FLOAT_INVALID, k.RUUVI_DRIVER_FLOAT_INVALID,
          k.RUUVI_DRIVER_FLOAT_INVALID]) ∧
      status_contains (rawToMg k c w raw).1 k.RUUVI_DRIVER_ERROR_INTERNAL) ∧
    (w.dev.resolution ∉ [k.LIS2DH12_LP_8bit, k.LIS2DH12_NM_10bit, k.LIS2DH12_HR_12bit] →
      rawToC k c w raw_temperature =
        (k.RUUVI_DRIVER_ERROR_INTERNAL, k.RUUVI_DRIVER_FLOAT_INVALID) ∧
      status_contains (rawToC k c w raw_temperature).1 k.RUUVI_DRIVER_ERROR_INTERNAL) ∧
    (∀ f, (w.dev.scale, w.dev.resolution, f) ∈ spec_acceleration_conversion k c →
      rawToMg k c w raw =
        (RUUVI_DRIVER_SUCCESS, [f (raw.i16bit 0), f (raw.i16bit 1), f (raw.i16bit 2)])) ∧
    (∀ f, (w.dev.resolution, f) ∈ spec_temperature_conversion k c →
      rawToC k c w raw_temperature =
        (RUUVI_DRIVER_SUCCESS,
         f (int16_t_of
           (((raw_temperature.getD 1 0 <<< 8) ||| raw_temperature.getD 0 0 : Nat) : Int)))) := by
  have ho := hk.op_md_labels
  simp only [List.nodup_cons, List.mem_cons, List.mem_singleton, not_or, List.not_mem_nil,
    not_false_eq_true, List.nodup_nil, and_true] at ho
  obtain ⟨⟨o12, o13⟩, o23⟩ := ho
  have hf := hk.fs_labels
  simp only [List.nodup_cons, List.mem_cons, List.mem_singleton, not_or, List.not_mem_nil,
    not_false_eq_true, List.nodup_nil, and_true] at hf
  obtain ⟨⟨f12, f13, f14⟩, ⟨f23, f24⟩, f34⟩ := hf
  refine ⟨?_, ?_, ?_, ?_⟩
  · intro h
    have key : rawToMg k c w raw =
        (k.RUUVI_DRIVER_ERROR_INTERNAL,
         [k.RUUVI_DRIVER_FLOAT_INVALID, k.RUUVI_DRIVER_FLOAT_INVALID,
          k.RUUVI_DRIVER_FLOAT_INVALID]) := by
      rcases h with h | h
      · simp only [List.mem_cons, List.mem_singleton, List.not_mem_nil, or_false, not_or] at h
        obtain ⟨s1, s2, s3, s4⟩ := h
        simp [rawToMg, rawToMg_axis, s1, s2, s3, s4, RUUVI_DRIVER_SUCCESS]
      · simp only [List.mem_cons, List.mem_singleton, List.not_mem_nil, or_false, not_or] at h
        obtain ⟨r1, r2, r3⟩ := h
        simp only [rawToMg, rawToMg_axis, rawToMg_resolution, r1, r2, r3, if_false,
          RUUVI_DRIVER_SUCCESS, Nat.zero_or, Nat.or_self, ite_self]
    rw [key]
    exact ⟨rfl, Nat.and_self _⟩
  · intro h
    simp only [List.mem_cons, List.mem_singleton, List.not_mem_nil, or_false, not_or] at h
    obtain ⟨r1, r2, r3⟩ := h
    have key : rawToC k c w raw_temperature =
        (k.RUUVI_DRIVER_ERROR_INTERNAL, k.RUUVI_DRIVER_FLOAT_INVALID) := by
      simp only [rawToC, r1, r2, r3, if_false, RUUVI_DRIVER_SUCCESS, Nat.zero_or]
    rw [key]
    exact ⟨rfl, Nat.and_self _⟩
  · intro f hmem
    simp only [spec_acceleration_conversion, List.mem_cons, List.mem_singleton, Prod.mk.injEq,
      List.not_mem_nil, or_false] at hmem
    rcases hmem with ⟨hs, hr, rfl⟩ | ⟨hs, hr, rfl⟩ | ⟨hs, hr, rfl⟩ | ⟨hs, hr, rfl⟩ |
      ⟨hs, hr, rfl⟩ | ⟨hs, hr, rfl⟩ | ⟨hs, hr, rfl⟩ | ⟨hs, hr, rfl⟩ | ⟨hs, hr, rfl⟩ |
      ⟨hs, hr, rfl⟩ | ⟨hs, hr, rfl⟩ | ⟨hs, hr, rfl⟩ <;>
    simp [rawToMg, rawToMg_axis, rawToMg_resolution, hs, hr, RUUVI_DRIVER_SUCCESS,
      Ne.symm o12, Ne.symm o13, Ne.symm o23, Ne.symm f12, Ne.symm f13, Ne.symm f14,
      Ne.symm f23, Ne.symm f24, Ne.symm f34]
  · intro f hmem
    simp only [spec_temperature_conversion, List.mem_cons, List.mem_singleton, Prod.mk.injEq,
      List.not_mem_nil, or_false] at hmem
    rcases hmem with ⟨hr, rfl⟩ | ⟨hr, rfl⟩ | ⟨hr, rfl⟩ <;>
    simp [rawToC, hr, RUUVI_DRIVER_SUCCESS, Ne.symm o12, Ne.symm o13, Ne.symm o23]

/-- Witness of C20 at the upstream constants and the conversion functions of the ST
driver: at 2 g and 10 bit the sample (64, 128, -64) is 4, 8 and -4 mg; with the
resolution code 7, which is none of the three, the result is INTERNAL and the
invalid value. -/
theorem C20_raw_conversion_by_scale_and_resolution_witness :
    ruuviConsts.WF ∧
    rawToMg ruuviConsts stCodec sleepWorld ⟨64, 128, -64⟩ = (RUUVI_DRIVER_SUCCESS, [4, 8, -4]) ∧
    rawToMg ruuviConsts stCodec
      { sleepWorld with dev := { sleepWorld.dev with resolution := 7 } } ⟨64, 128, -64⟩ =
        (ruuviConsts.RUUVI_DRIVER_ERROR_INTERNAL,
         [ruuviConsts.RUUVI_DRIVER_FLOAT_INVALID, ruuviConsts.RUUVI_DRIVER_FLOAT_INVALID,
          ruuviConsts.RUUVI_DRIVER_FLOAT_INVALID]) ∧
    rawToC ruuviConsts stCodec
      { sleepWorld with dev := { sleepWorld.dev with resolution := 7 } } [0, 5] =
        (ruuviConsts.RUUVI_DRIVER_ERROR_INTERNAL, ruuviConsts.RUUVI_DRIVER_FLOAT_INVALID) := by
  have h1 := (C20_raw_conversion_by_scale_and_resolution ruuviConsts ruuviConsts_WF stCodec
    sleepWorld ⟨64, 128, -64⟩ [0, 5]).2.2.1 stCodec.lis2dh12_from_fs2_nm_to_mg
    (by simp [spec_acceleration_conversion, sleepWorld, ruuviConsts])
  have h2 := (C20_raw_conversion_by_scale_and_resolution ruuviConsts ruuviConsts_WF stCodec
    { sleepWorld with dev := { sleepWorld.dev with resolution := 7 } } ⟨64, 128, -64⟩ [0, 5])
  refine ⟨ruuviConsts_WF, ?_, (h2.1 (Or.inr (by decide))).1, (h2.2.1 (by decide)).1⟩
  rw [h1]
  simp [stCodec, axis3bit16_t.i16bit]
  norm_num

/-- C21: the conversion functions of the ST driver are not among the sources and are
the parameter `c`. When each of them maps the raw value 0 to 0 mg (the temperature
ones to `offset` degrees) and does not decrease, then for each of the four scale
codes and the three resolution codes: `rawToMg` maps the raw sample 0 to 0 mg on
every axis and, on each axis, does not decrease when the raw value of that axis
increases; `rawToC` maps the raw temperature 0 to `offset` and does not decrease when
the `int16_t` formed by the two raw bytes increases. -/
theorem C21_codec_zero_and_monotone (k : Consts) (hk : k.WF) (c : Codec) (offset : ℚ)
    (w : World)
    (hacc : ∀ srf ∈ spec_acceleration_conversion k c,
      srf.2.2 0 = 0 ∧ ∀ a b : Int, a ≤ b → srf.2.2 a ≤ srf.2.2 b)
    (htemp : ∀ rf ∈ spec_temperature_conversion k c,
      rf.2 0 = offset ∧ ∀ a b : Int, a ≤ b → rf.2 a ≤ rf.2 b)
    (hs : w.dev.scale ∈ [k.LIS2DH12_2g, k.LIS2DH12_4g, k.LIS2DH12_8g, k.LIS2DH12_16g])
    (hr : w.dev.resolution ∈
      [k.LIS2DH12_LP_8bit, k.LIS2DH12_NM_10bit, k.LIS2DH12_HR_12bit]) :
    rawToMg k c w ⟨0, 0, 0⟩ = (RUUVI_DRIVER_SUCCESS, [0, 0, 0]) ∧
    (∀ (a b : axis3bit16_t) (ii : Nat), ii < 3 → a.i16bit ii ≤ b.i16bit ii →
      (rawToMg k c w a).2.getD ii 0 ≤ (rawToMg k c w b).2.getD ii 0) ∧
    rawToC k c w [0, 0] = (RUUVI_DRIVER_SUCCESS, offset) ∧
    (∀ t1 t2 : List Nat, spec_temperature_lsb t1 ≤ spec_temperature_lsb t2 →
      (rawToC k c w t1).2 ≤ (rawToC k c w t2).2) := by
  obtain ⟨f, hf⟩ := acceleration_conversion_complete k c _ _ hs hr
  obtain ⟨g, hg⟩ := temperature_conversion_complete k c _ hr
  obtain ⟨f0, fm⟩ := hacc _ hf
  obtain ⟨g0, gm⟩ := htemp _ hg
  dsimp only at f0 fm g0 gm
  refine ⟨?_, ?_, ?_, ?_⟩
  · rw [rawToMg_supported k hk c w _ f hf]
    simp [axis3bit16_t.i16bit, f0]
  · intro a b ii hii hab
    rw [rawToMg_supported k hk c w a f hf, rawToMg_supported k hk c w b f hf]
    interval_cases ii
    · exact fm _ _ hab
    · exact fm _ _ hab
    · exact fm _ _ hab
  · rw [rawToC_supported k hk c w _ g hg]
    have : spec_temperature_lsb [0, 0] = 0 := by decide
    rw [this, g0]
  · intro t1 t2 h
    rw [rawToC_supported k hk c w t1 g hg, rawToC_supported k hk c w t2 g hg]
    exact gm _ _ h

/-- Witness of C21 at the upstream constants with the conversion functions of the
upstream ST driver, whose offset is 25 degrees, at 2 g and 10 bit: the samples 0, and
the raw values 64 and 128 on the x axis. -/
theorem C21_codec_zero_and_monotone_witness :
    ruuviConsts.WF ∧
    (∀ srf ∈ spec_acceleration_conversion ruuviConsts stCodec,
      srf.2.2 0 = 0 ∧ ∀ a b : Int, a ≤ b → srf.2.2 a ≤ srf.2.2 b) ∧
    (∀ rf ∈ spec_temperature_conversion ruuviConsts stCodec,
      rf.2 0 = 25 ∧ ∀ a b : Int, a ≤ b → rf.2 a ≤ rf.2 b) ∧
    sleepWorld.dev.scale ∈ [ruuviConsts.LIS2DH12_2g, ruuviConsts.LIS2DH12_4g,
      ruuviConsts.LIS2DH12_8g, ruuviConsts.LIS2DH12_16g] ∧
    sleepWorld.dev.resolution ∈ [ruuviConsts.LIS2DH12_LP_8bit, ruuviConsts.LIS2DH12_NM_10bit,
      ruuviConsts.LIS2DH12_HR_12bit] ∧
    rawToMg ruuviConsts stCodec sleepWorld ⟨0, 0, 0⟩ = (RUUVI_DRIVER_SUCCESS, [0, 0, 0]) ∧
    (rawToMg ruuviConsts stCodec sleepWorld ⟨64, 0, 0⟩).2.getD 0 0 ≤
      (rawToMg ruuviConsts stCodec sleepWorld ⟨128, 0, 0⟩).2.getD 0 0 ∧
    rawToC ruuviConsts stCodec sleepWorld [0, 0] = (RUUVI_DRIVER_SUCCESS, 25) :=
  ⟨ruuviConsts_WF,
   fun srf h => stCodec_acceleration_monotone ruuviConsts srf.1 srf.2.1 srf.2.2 h,
   fun rf h => stCodec_temperature_monotone ruuviConsts rf.1 rf.2 h,
   by decide, by decide,
   (C21_codec_zero_and_monotone ruuviConsts ruuviConsts_WF stCodec 25 sleepWorld
     (fun srf h => stCodec_acceleration_monotone ruuviConsts srf.1 srf.2.1 srf.2.2 h)
     (fun rf h => stCodec_temperature_monotone ruuviConsts rf.1 rf.2 h)
     (by decide) (by decide)).1,
   (C21_codec_zero_and_monotone ruuviConsts ruuviConsts_WF stCodec 25 sleepWorld
     (fun srf h => stCodec_acceleration_monotone ruuviConsts srf.1 srf.2.1 srf.2.2 h)
     (fun rf h => stCodec_temperature_monotone ruuviConsts rf.1 rf.2 h)
     (by decide) (by decide)).2.1 ⟨64, 0, 0⟩ ⟨128, 0, 0⟩ 0 (by decide) (by decide),
   (C21_codec_zero_and_monotone ruuviConsts ruuviConsts_WF stCodec 25 sleepWorld
     (fun srf h => stCodec_acceleration_monotone ruuviConsts srf.1 srf.2.1 srf.2.2 h)
     (fun rf h => stCodec_temperature_monotone ruuviConsts rf.1 rf.2 h)
     (by decide) (by decide)).2.2.1⟩

/-- C22: in SLEEP mode on a bus that succeeds, with one of the four cutoff codes in
the register. `dsp_set(HIGH_PASS, NO_CHANGE)` returns SUCCESS, writes back the cutoff
code that the register holds, sets the normal high-pass mode and enables the
high-pass filter on the outputs, so the cutoff is unchanged, and reports HIGH_PASS
with the value that belongs to the code. When the high-pass filter is enabled,
`dsp_set(NO_CHANGE, p)` with `p` from 0 to 3 returns SUCCESS, writes the cutoff code
of `p`, leaves the filter enabled and reports HIGH_PASS with `p`. -/
theorem C22_dsp_set_resolves_no_change (k : Consts) (hk : k.WF) (w : World)
    (hm : w.dev.mode = k.RUUVI_DRIVER_SENSOR_CFG_SLEEP) (hb : BusOk w) (cq : Nat × Nat)
    (hcq : cq ∈ [(k.LIS2DH12_LIGHT, 0), (k.LIS2DH12_MEDIUM, 1), (k.LIS2DH12_STRONG, 2),
      (k.LIS2DH12_AGGRESSIVE, 3)])
    (hc : w.hw.hpcf = cq.1) :
    ruuvi_interface_lis2dh12_dsp_set k w (some k.RUUVI_DRIVER_SENSOR_DSP_HIGH_PASS)
        (some k.RUUVI_DRIVER_SENSOR_CFG_NO_CHANGE) =
      (RUUVI_DRIVER_SUCCESS,
       { w with hw := { w.hw with hpm := k.LIS2DH12_NORMAL, fds := k.PROPERTY_ENABLE },
                tick := w.tick + 5,
                trace := w.trace ++ [Event.high_pass_bandwidth_set w.hw.hpcf,
                  Event.high_pass_mode_set k.LIS2DH12_NORMAL,
                  Event.high_pass_on_outputs_set k.PROPERTY_ENABLE] },
       some k.RUUVI_DRIVER_SENSOR_DSP_HIGH_PASS, some cq.2) ∧
    (w.hw.fds ≠ 0 →
      ∀ pc ∈ [(0, k.LIS2DH12_LIGHT), (1, k.LIS2DH12_MEDIUM), (2, k.LIS2DH12_STRONG),
          (3, k.LIS2DH12_AGGRESSIVE)],
        ruuvi_interface_lis2dh12_dsp_set k w (some k.RUUVI_DRIVER_SENSOR_CFG_NO_CHANGE)
            (some pc.1) =
          (RUUVI_DRIVER_SUCCESS,
           { w with hw := { w.hw with hpcf := pc.2, hpm := k.LIS2DH12_NORMAL,
                                      fds := k.PROPERTY_ENABLE },
                    tick := w.tick + 5,
                    trace := w.trace ++ [Event.high_pass_bandwidth_set pc.2,
                      Event.high_pass_mode_set k.LIS2DH12_NORMAL,
                      Event.high_pass_on_outputs_set k.PROPERTY_ENABLE] },
           some k.RUUVI_DRIVER_SENSOR_DSP_HIGH_PASS, some pc.1)) := by
  have hg := dsp_get_code k hk w (hb _) (hb _) cq hcq hc
  have hfn := hk.dsp_functions
  simp only [List.nodup_cons, List.mem_cons, List.mem_singleton, not_or, List.not_mem_nil,
    not_false_eq_true, List.nodup_nil, and_true] at hfn
  have hnc := hk.no_change_range
  constructor
  · have hd : (if k.RUUVI_DRIVER_SENSOR_CFG_NO_CHANGE = k.RUUVI_DRIVER_SENSOR_DSP_HIGH_PASS then
        (ruuvi_interface_lis2dh12_dsp_get k w).2.2.1 else k.RUUVI_DRIVER_SENSOR_DSP_HIGH_PASS)
          = k.RUUVI_DRIVER_SENSOR_DSP_HIGH_PASS := if_neg (fun e => hfn.1.2 e.symm)
    have hp : (if k.RUUVI_DRIVER_SENSOR_CFG_NO_CHANGE = k.RUUVI_DRIVER_SENSOR_CFG_NO_CHANGE then
        (ruuvi_interface_lis2dh12_dsp_get k w).2.2.2 else k.RUUVI_DRIVER_SENSOR_CFG_NO_CHANGE)
          = cq.2 := by
      rw [if_pos rfl, hg]
    have hmem : (cq.2, cq.1, cq.2) ∈ [(0, k.LIS2DH12_LIGHT, 0), (1, k.LIS2DH12_MEDIUM, 1),
        (2, k.LIS2DH12_STRONG, 2), (3, k.LIS2DH12_AGGRESSIVE, 3),
        (k.RUUVI_DRIVER_SENSOR_CFG_MIN, k.LIS2DH12_LIGHT, 0),
        (k.RUUVI_DRIVER_SENSOR_CFG_DEFAULT, k.LIS2DH12_LIGHT, 0),
        (k.RUUVI_DRIVER_SENSOR_CFG_MAX, k.LIS2DH12_AGGRESSIVE, 3)] := by
      simp only [List.mem_cons, List.mem_singleton, List.not_mem_nil, or_false] at hcq
      rcases hcq with rfl | rfl | rfl | rfl <;> simp
    rw [dsp_set_high_pass k hk w hm hb _ _ cq.2 hd hp (cq.2, cq.1, cq.2) hmem rfl, hg]
    dsimp only
    rw [← hc]
  · intro hfds pc hpc
    have hd : (if k.RUUVI_DRIVER_SENSOR_CFG_NO_CHANGE = k.RUUVI_DRIVER_SENSOR_CFG_NO_CHANGE then
        (ruuvi_interface_lis2dh12_dsp_get k w).2.2.1 else k.RUUVI_DRIVER_SENSOR_CFG_NO_CHANGE)
          = k.RUUVI_DRIVER_SENSOR_DSP_HIGH_PASS := by
      rw [if_pos rfl, dsp_get_dsp k w (hb _), if_pos hfds]
    have hle : pc.1 ≤ 3 := by
      simp only [List.mem_cons, List.mem_singleton, List.not_mem_nil, or_false] at hpc
      rcases hpc with rfl | rfl | rfl | rfl <;> simp
    have hp : (if k.RUUVI_DRIVER_SENSOR_CFG_NO_CHANGE = pc.1 then
        (ruuvi_interface_lis2dh12_dsp_get k w).2.2.2 else pc.1) = pc.1 :=
      if_neg (by omega)
    have hmem : (pc.1, pc.2, pc.1) ∈ [(0, k.LIS2DH12_LIGHT, 0), (1, k.LIS2DH12_MEDIUM, 1),
        (2, k.LIS2DH12_STRONG, 2), (3, k.LIS2DH12_AGGRESSIVE, 3),
        (k.RUUVI_DRIVER_SENSOR_CFG_MIN, k.LIS2DH12_LIGHT, 0),
        (k.RUUVI_DRIVER_SENSOR_CFG_DEFAULT, k.LIS2DH12_LIGHT, 0),
        (k.RUUVI_DRIVER_SENSOR_CFG_MAX, k.LIS2DH12_AGGRESSIVE, 3)] := by
      simp only [List.mem_cons, List.mem_singleton, List.not_mem_nil, or_false] at hpc
      rcases hpc with rfl | rfl | rfl | rfl <;> simp
    rw [dsp_set_high_pass k hk w hm hb _ _ pc.1 hd hp (pc.1, pc.2, pc.1) hmem rfl, hg]

/-- Witness of C22 at the upstream constants: the high-pass filter is enabled with
the cutoff MEDIUM (value 1). `dsp_set(HIGH_PASS, NO_CHANGE)` writes MEDIUM back and
reports 1; `dsp_set(NO_CHANGE, 2)` writes STRONG and reports HIGH_PASS with 2. -/
theorem C22_dsp_set_resolves_no_change_witness :
    ruuviConsts.WF ∧ highPassWorld.dev.mode = ruuviConsts.RUUVI_DRIVER_SENSOR_CFG_SLEEP ∧
    BusOk highPassWorld ∧ highPassWorld.hw.hpcf = ruuviConsts.LIS2DH12_MEDIUM ∧
    highPassWorld.hw.fds ≠ 0 ∧
    (ruuvi_interface_lis2dh12_dsp_set ruuviConsts highPassWorld
      (some ruuviConsts.RUUVI_DRIVER_SENSOR_DSP_HIGH_PASS)
      (some ruuviConsts.RUUVI_DRIVER_SENSOR_CFG_NO_CHANGE)).2.2
        = (some ruuviConsts.RUUVI_DRIVER_SENSOR_DSP_HIGH_PASS, some 1) ∧
    (ruuvi_interface_lis2dh12_dsp_set ruuviConsts highPassWorld
      (some ruuviConsts.RUUVI_DRIVER_SENSOR_DSP_HIGH_PASS)
      (some ruuviConsts.RUUVI_DRIVER_SENSOR_CFG_NO_CHANGE)).2.1.trace
        = [Event.high_pass_bandwidth_set ruuviConsts.LIS2DH12_MEDIUM,
           Event.high_pass_mode_set ruuviConsts.LIS2DH12_NORMAL,
           Event.high_pass_on_outputs_set ruuviConsts.PROPERTY_ENABLE] ∧
    (ruuvi_interface_lis2dh12_dsp_set ruuviConsts highPassWorld
      (some ruuviConsts.RUUVI_DRIVER_SENSOR_CFG_NO_CHANGE) (some 2)).2.2
        = (some ruuviConsts.RUUVI_DRIVER_SENSOR_DSP_HIGH_PASS, some 2) ∧
    (ruuvi_interface_lis2dh12_dsp_set ruuviConsts highPassWorld
      (some ruuviConsts.RUUVI_DRIVER_SENSOR_CFG_NO_CHANGE) (some 2)).2.1.hw.hpcf
        = ruuviConsts.LIS2DH12_STRONG :=
  ⟨ruuviConsts_WF, rfl, fun _ => rfl, rfl, by decide,
   congrArg (fun r => r.2.2)
     (C22_dsp_set_resolves_no_change ruuviConsts ruuviConsts_WF highPassWorld rfl
       (fun _ => rfl) (ruuviConsts.LIS2DH12_MEDIUM, 1) (by decide) rfl).1,
   congrArg (fun r => r.2.1.trace)
     (C22_dsp_set_resolves_no_change ruuviConsts ruuviConsts_WF highPassWorld rfl
       (fun _ => rfl) (ruuviConsts.LIS2DH12_MEDIUM, 1) (by decide) rfl).1,
   congrArg (fun r => r.2.2)
     ((C22_dsp_set_resolves_no_change ruuviConsts ruuviConsts_WF highPassWorld rfl
       (fun _ => rfl) (ruuviConsts.LIS2DH12_MEDIUM, 1) (by decide) rfl).2 (by decide)
       (2, ruuviConsts.LIS2DH12_STRONG) (by decide)),
   congrArg (fun r => r.2.1.hw.hpcf)
     ((C22_dsp_set_resolves_no_change ruuviConsts ruuviConsts_WF highPassWorld rfl
       (fun _ => rfl) (ruuviConsts.LIS2DH12_MEDIUM, 1) (by decide) rfl).2 (by decide)
       (2, ruuviConsts.LIS2DH12_STRONG) (by decide))⟩

/-- C23: after a clear, for every sequence of calls of `ruuvi_driver_error_check` with
the error codes `e1 .. en`, `ruuvi_driver_errors_clear` returns `e1 | ... | en`; a
clear that follows immediately returns SUCCESS; an error check with SUCCESS leaves
the world, and with it the mask, as it was. -/
theorem C23_errors_clear_returns_or (k : Consts) (w : World)
    (calls : List (Nat × Nat × String × Nat)) :
    (ruuvi_driver_errors_clear
      (error_checks k (ruuvi_driver_errors_clear w).2 calls)).1 =
        (calls.map (fun c => c.1)).foldl (fun a e => a ||| e) RUUVI_DRIVER_SUCCESS ∧
    (ruuvi_driver_errors_clear
      (ruuvi_driver_errors_clear
        (error_checks k (ruuvi_driver_errors_clear w).2 calls)).2).1 = RUUVI_DRIVER_SUCCESS ∧
    (∀ m f l, ruuvi_driver_error_check k w RUUVI_DRIVER_SUCCESS m f l = w) := by
  refine ⟨?_, rfl, ?_⟩
  · exact error_checks_m_errors k calls (ruuvi_driver_errors_clear w).2
  · intro m f l
    unfold ruuvi_driver_error_check
    rw [if_pos rfl]

/-- C24: `ruuvi_driver_error_check` with the error SUCCESS leaves the world as it was:
no change of the mask, no log line, no callback. With any other error it is fatal
exactly when some bit of the error (among the 32 bits of the status) is not in
`non_fatal_mask`; it logs the error (fatal) or the warning (not fatal) and then,
when a callback is registered, calls it once with the error, the classification,
the file name without its directory part, and the line; when none is registered it
calls nothing. -/
theorem C24_error_check_classifies_and_calls_back (k : Consts) (w : World) (cb : Bool)
    (e m : Nat) (file : String) (line : Nat) :
    (e = RUUVI_DRIVER_SUCCESS →
      ruuvi_driver_error_check k (ruuvi_driver_error_cb_set w cb) e m file line =
        ruuvi_driver_error_cb_set w cb) ∧
    (e ≠ RUUVI_DRIVER_SUCCESS →
      ∃ (fatal : Bool) (name : List Char),
        (fatal = true ↔ ∃ i, i < 32 ∧ e.testBit i = true ∧ m.testBit i = false) ∧
        spec_file_name file.toList name ∧
        (ruuvi_driver_error_check k (ruuvi_driver_error_cb_set w cb) e m file line).log =
          (w.log ++
            (if fatal = true then
              [ErrEvent.log_flush,
               ErrEvent.log k.RUUVI_INTERFACE_LOG_ERROR (String.mk name) line e,
               ErrEvent.log_flush]
             else [ErrEvent.log k.RUUVI_INTERFACE_LOG_WARNING (String.mk name) line e])) ++
            (if cb = true then [ErrEvent.cb e fatal (String.mk name) line] else [])) := by
  constructor
  · intro he
    unfold ruuvi_driver_error_check
    rw [if_pos he.symm]
  · intro he
    obtain ⟨name, h1, h2⟩ :=
      error_check_log k (ruuvi_driver_error_cb_set w cb) e m file line he
    refine ⟨decide (((4294967295 - m % 4294967296) &&& e) ≠ 0), name, ?_, h1, ?_⟩
    · rw [decide_eq_true_iff]
      exact error_check_fatal_iff e m
    · rw [h2]
      simp only [decide_eq_true_eq]
      rfl

/-- Witness of C24 at the upstream constants: with a callback registered, the error
INTERNAL under the mask SUCCESS is classified, logged and handed to the callback
once. -/
theorem C24_error_check_classifies_and_calls_back_witness :
    ruuviConsts.RUUVI_DRIVER_ERROR_INTERNAL ≠ RUUVI_DRIVER_SUCCESS ∧
    ∃ (fatal : Bool) (name : List Char),
      (fatal = true ↔ ∃ i, i < 32 ∧
        ruuviConsts.RUUVI_DRIVER_ERROR_INTERNAL.testBit i = true ∧
        RUUVI_DRIVER_SUCCESS.testBit i = false) ∧
      spec_file_name ruuviConsts.FILE.toList name ∧
      (ruuvi_driver_error_check ruuviConsts (ruuvi_driver_error_cb_set sleepWorld true)
        ruuviConsts.RUUVI_DRIVER_ERROR_INTERNAL RUUVI_DRIVER_SUCCESS ruuviConsts.FILE 175).log =
        (sleepWorld.log ++
          (if fatal = true then
            [ErrEvent.log_flush,
             ErrEvent.log ruuviConsts.RUUVI_INTERFACE_LOG_ERROR (String.mk name) 175
               ruuviConsts.RUUVI_DRIVER_ERROR_INTERNAL,
             ErrEvent.log_flush]
           else [ErrEvent.log ruuviConsts.RUUVI_INTERFACE_LOG_WARNING (String.mk name) 175
               ruuviConsts.RUUVI_DRIVER_ERROR_INTERNAL])) ++
          (if true = true then
            [ErrEvent.cb ruuviConsts.RUUVI_DRIVER_ERROR_INTERNAL fatal (String.mk name) 175]
           else []) :=
  ⟨by decide,
   (C24_error_check_classifies_and_calls_back ruuviConsts sleepWorld true
     ruuviConsts.RUUVI_DRIVER_ERROR_INTERNAL RUUVI_DRIVER_SUCCESS ruuviConsts.FILE 175).2
     (by decide)⟩

/-- C25: the file comment of `ruuvi_driver_error.c` promises a reset on a fatal error.
Whatever the arguments are, the error check appends to the log only log lines,
flushes and the call of the callback, never a reset. At the upstream constants the
error INTERNAL with the mask SUCCESS (nothing tolerated), as the LIS2DH12 driver
passes it at line 175, is fatal: the check logs it between two flushes, adds it to
the mask and returns, with the driver and the chip as they were. -/
theorem C25_fatal_error_is_logged_without_reset :
    (∀ (k : Consts) (w : World) (e m : Nat) (f : String) (l : Nat),
      ∃ added, (ruuvi_driver_error_check k w e m f l).log = w.log ++ added ∧
        ErrEvent.power_reset ∉ added) ∧
    ((4294967295 - RUUVI_DRIVER_SUCCESS % 4294967296) &&&
      ruuviConsts.RUUVI_DRIVER_ERROR_INTERNAL) ≠ 0 ∧
    (ruuvi_driver_error_check ruuviConsts sleepWorld ruuviConsts.RUUVI_DRIVER_ERROR_INTERNAL
      RUUVI_DRIVER_SUCCESS ruuviConsts.FILE 175).log =
        [ErrEvent.log_flush,
         ErrEvent.log ruuviConsts.RUUVI_INTERFACE_LOG_ERROR "ruuvi_interface_lis2dh12.c" 175
           ruuviConsts.RUUVI_DRIVER_ERROR_INTERNAL,
         ErrEvent.log_flush] ∧
    (ruuvi_driver_error_check ruuviConsts sleepWorld ruuviConsts.RUUVI_DRIVER_ERROR_INTERNAL
      RUUVI_DRIVER_SUCCESS ruuviConsts.FILE 175).m_errors =
        ruuviConsts.RUUVI_DRIVER_ERROR_INTERNAL ∧
    (ruuvi_driver_error_check ruuviConsts sleepWorld ruuviConsts.RUUVI_DRIVER_ERROR_INTERNAL
      RUUVI_DRIVER_SUCCESS ruuviConsts.FILE 175).dev = sleepWorld.dev ∧
    (ruuvi_driver_error_check ruuviConsts sleepWorld ruuviConsts.RUUVI_DRIVER_ERROR_INTERNAL
      RUUVI_DRIVER_SUCCESS ruuviConsts.FILE 175).hw = sleepWorld.hw ∧
    (ruuvi_driver_error_check ruuviConsts sleepWorld ruuviConsts.RUUVI_DRIVER_ERROR_INTERNAL
      RUUVI_DRIVER_SUCCESS ruuviConsts.FILE 175).trace = sleepWorld.trace := by
  refine ⟨?_, by decide, by decide, by decide, by decide, by decide, by decide⟩
  intro k w e m f l
  by_cases he : e = RUUVI_DRIVER_SUCCESS
  · refine ⟨[], ?_, by simp⟩
    unfold ruuvi_driver_error_check
    rw [if_pos he.symm]
    simp
  · obtain ⟨name, _, h2⟩ := error_check_log k w e m f l he
    refine ⟨(if ((4294967295 - m % 4294967296) &&& e) ≠ 0 then
            [ErrEvent.log_flush,
             ErrEvent.log k.RUUVI_INTERFACE_LOG_ERROR (String.mk name) l e,
             ErrEvent.log_flush]
           else [ErrEvent.log k.RUUVI_INTERFACE_LOG_WARNING (String.mk name) l e]) ++
          (if w.m_cb = true then
            [ErrEvent.cb e (decide (((4294967295 - m % 4294967296) &&& e) ≠ 0)) (String.mk name) l]
           else []), ?_, ?_⟩
    · rw [h2, List.append_assoc]
    · split_ifs <;> simp

/-- C26: after `ruuvi_driver_sensor_initialize`, and likewise after
`ruuvi_driver_sensor_uninitialize`, each of the nineteen function pointers of the
sensor structure points to a not-initialized stub (so none is NULL), the name is
`"NOTINIT"` and `ruuvi_driver_sensor_is_init` returns false; each stub returns
NOT_INITIALIZED whatever its arguments are. -/
theorem C26_initialize_sets_not_initialized_stubs (k : Consts) (s : ruuvi_driver_sensor_t) :
    ruuvi_driver_sensor_initialize s =
      { init := FnPtr.ruuvi_driver_init_ni
        uninit := FnPtr.ruuvi_driver_init_ni
        samplerate_set := FnPtr.ruuvi_driver_setup_ni
        samplerate_get := FnPtr.ruuvi_driver_setup_ni
        resolution_set := FnPtr.ruuvi_driver_setup_ni
        resolution_get := FnPtr.ruuvi_driver_setup_ni
        scale_set := FnPtr.ruuvi_driver_setup_ni
        scale_get := FnPtr.ruuvi_driver_setup_ni
        dsp_set := FnPtr.ruuvi_driver_dsp_ni
        dsp_get := FnPtr.ruuvi_driver_dsp_ni
        mode_set := FnPtr.ruuvi_driver_setup_ni
        mode_get := FnPtr.ruuvi_driver_setup_ni
        data_get := FnPtr.ruuvi_driver_data_get_ni
        configuration_set := FnPtr.ruuvi_driver_sensor_configuration_ni
        configuration_get := FnPtr.ruuvi_driver_sensor_configuration_ni
        fifo_enable := FnPtr.ruuvi_driver_fifo_enable_ni
        fifo_interrupt_enable := FnPtr.ruuvi_driver_fifo_interrupt_enable_ni
        fifo_read := FnPtr.ruuvi_driver_fifo_read_ni
        level_interrupt_set := FnPtr.ruuvi_driver_level_interrupt_use_ni
        name := "NOTINIT"
        provides := s.provides } ∧
    ruuvi_driver_sensor_uninitialize s = ruuvi_driver_sensor_initialize s ∧
    ruuvi_driver_sensor_is_init ( ruuvi_driver_sensor_initialize s) = false ∧
    ruuvi_driver_sensor_is_init ( ruuvi_driver_sensor_uninitialize s) = false ∧
    (∀ p ∈ [FnPtr.ruuvi_driver_init_ni, FnPtr.ruuvi_driver_setup_ni,
        FnPtr.ruuvi_driver_dsp_ni, FnPtr.ruuvi_driver_data_get_ni,
        FnPtr.ruuvi_driver_sensor_configuration_ni, FnPtr.ruuvi_driver_fifo_enable_ni,
        FnPtr.ruuvi_driver_fifo_interrupt_enable_ni, FnPtr.ruuvi_driver_fifo_read_ni,
        FnPtr.ruuvi_driver_level_interrupt_use_ni], p ≠ FnPtr.NULL) ∧
    (∀ p_sensor bus handle,
      ruuvi_driver_init_ni k p_sensor bus handle = k.RUUVI_DRIVER_ERROR_NOT_INITIALIZED) ∧
    (∀ value, ruuvi_driver_setup_ni k value = k.RUUVI_DRIVER_ERROR_NOT_INITIALIZED) ∧
    (∀ dsp parameter,
      ruuvi_driver_dsp_ni k dsp parameter = k.RUUVI_DRIVER_ERROR_NOT_INITIALIZED) ∧
    (∀ data, ruuvi_driver_data_get_ni k data = k.RUUVI_DRIVER_ERROR_NOT_INITIALIZED) ∧
    (∀ sensor config, ruuvi_driver_sensor_configuration_ni k sensor config
      = k.RUUVI_DRIVER_ERROR_NOT_INITIALIZED) ∧
    (∀ enable, ruuvi_driver_fifo_enable_ni k enable = k.RUUVI_DRIVER_ERROR_NOT_INITIALIZED) ∧
    (∀ enable, ruuvi_driver_fifo_interrupt_enable_ni k enable
      = k.RUUVI_DRIVER_ERROR_NOT_INITIALIZED) ∧
    (∀ num_elements data, ruuvi_driver_fifo_read_ni k num_elements data
      = k.RUUVI_DRIVER_ERROR_NOT_INITIALIZED) ∧
    (∀ enable limit_g, ruuvi_driver_level_interrupt_use_ni k enable limit_g
      = k.RUUVI_DRIVER_ERROR_NOT_INITIALIZED) := by
  refine ⟨rfl, rfl, ?_, ?_, by decide, fun _ _ _ => rfl, fun _ => rfl, fun _ _ => rfl,
    fun _ => rfl, fun _ _ => rfl, fun _ => rfl, fun _ => rfl, fun _ _ => rfl, fun _ _ => rfl⟩
  · simp [ruuvi_driver_sensor_is_init, ruuvi_driver_sensor_initialize, strcmp]
  · simp [ruuvi_driver_sensor_is_init, ruuvi_driver_sensor_uninitialize,
      ruuvi_driver_sensor_initialize, strcmp]

/-- C28: the statuses of `samplerate_set`, `resolution_set`, `scale_set` and `mode_set`
contain the result of every bus operation made during the call, on every return
path, in every world (the operations of a call are those between the tick of the
world before and the tick of the world after). `dsp_set` does the same on the paths
that issue a register write, when the cutoff code read back is one of the four codes
of the chip. On its two other paths after the reads of `dsp_get`, the `default` case
of the `switch` and the last line of the function, `dsp_set` returns NOT_SUPPORTED
alone, whatever the two reads returned. At the upstream constants, on a bus that
fails every operation with 1024, `dsp_set(HIGH_PASS, 7)` in SLEEP mode makes two
reads, both fail, and the status returned is NOT_SUPPORTED, which does not contain
1024. -/
theorem C28_dsp_set_drops_bus_results :
    (∀ (k : Consts) (w : World) (v : Option Nat),
      (∀ n, w.tick ≤ n → n < (ruuvi_interface_lis2dh12_samplerate_set k w v).2.1.tick →
        status_contains (ruuvi_interface_lis2dh12_samplerate_set k w v).1 (w.bus n)) ∧
      (∀ n, w.tick ≤ n → n < (ruuvi_interface_lis2dh12_resolution_set k w v).2.1.tick →
        status_contains (ruuvi_interface_lis2dh12_resolution_set k w v).1 (w.bus n)) ∧
      (∀ n, w.tick ≤ n → n < (ruuvi_interface_lis2dh12_scale_set k w v).2.1.tick →
        status_contains (ruuvi_interface_lis2dh12_scale_set k w v).1 (w.bus n)) ∧
      (∀ n, w.tick ≤ n → n < (ruuvi_interface_lis2dh12_mode_set k w v).2.1.tick →
        status_contains (ruuvi_interface_lis2dh12_mode_set k w v).1 (w.bus n))) ∧
    (∀ (k : Consts) (w : World) (dsp parameter : Option Nat),
      (lis2dh12_high_pass_bandwidth_get w).2.1 ∈
        [k.LIS2DH12_LIGHT, k.LIS2DH12_MEDIUM, k.LIS2DH12_STRONG, k.LIS2DH12_AGGRESSIVE] →
      (ruuvi_interface_lis2dh12_dsp_set k w dsp parameter).2.1.trace ≠ w.trace →
      ∀ n, w.tick ≤ n →
        n < (ruuvi_interface_lis2dh12_dsp_set k w dsp parameter).2.1.tick →
        status_contains (ruuvi_interface_lis2dh12_dsp_set k w dsp parameter).1 (w.bus n)) ∧
    (∀ (k : Consts) (w : World) (d p : Nat),
      w.dev.mode = k.RUUVI_DRIVER_SENSOR_CFG_SLEEP →
      ((if k.RUUVI_DRIVER_SENSOR_CFG_NO_CHANGE = d then
          (ruuvi_interface_lis2dh12_dsp_get k w).2.2.1 else d)
            = k.RUUVI_DRIVER_SENSOR_DSP_HIGH_PASS →
        (if k.RUUVI_DRIVER_SENSOR_CFG_NO_CHANGE = p then
          (ruuvi_interface_lis2dh12_dsp_get k w).2.2.2 else p) ∉
            [0, 1, 2, 3, k.RUUVI_DRIVER_SENSOR_CFG_MIN, k.RUUVI_DRIVER_SENSOR_CFG_MAX,
             k.RUUVI_DRIVER_SENSOR_CFG_DEFAULT] →
        (ruuvi_interface_lis2dh12_dsp_set k w (some d) (some p)).1
          = k.RUUVI_DRIVER_ERROR_NOT_SUPPORTED ∧
        (ruuvi_interface_lis2dh12_dsp_set k w (some d) (some p)).2.1
          = { w with tick := w.tick + 2 }) ∧
      ((if k.RUUVI_DRIVER_SENSOR_CFG_NO_CHANGE = d then
          (ruuvi_interface_lis2dh12_dsp_get k w).2.2.1 else d) ∉
            [k.RUUVI_DRIVER_SENSOR_DSP_HIGH_PASS, k.RUUVI_DRIVER_SENSOR_DSP_LAST,
             k.RUUVI_DRIVER_SENSOR_CFG_DEFAULT] →
        (ruuvi_interface_lis2dh12_dsp_set k w (some d) (some p)).1
          = k.RUUVI_DRIVER_ERROR_NOT_SUPPORTED ∧
        (ruuvi_interface_lis2dh12_dsp_set k w (some d) (some p)).2.1
          = { w with tick := w.tick + 2 })) ∧
    timeoutWorld.dev.mode = ruuviConsts.RUUVI_DRIVER_SENSOR_CFG_SLEEP ∧
    (ruuvi_interface_lis2dh12_dsp_set ruuviConsts timeoutWorld
      (some ruuviConsts.RUUVI_DRIVER_SENSOR_DSP_HIGH_PASS) (some 7)).2.1.tick
        = timeoutWorld.tick + 2 ∧
    timeoutWorld.bus timeoutWorld.tick = 1024 ∧
    timeoutWorld.bus (timeoutWorld.tick + 1) = 1024 ∧
    (ruuvi_interface_lis2dh12_dsp_set ruuviConsts timeoutWorld
      (some ruuviConsts.RUUVI_DRIVER_SENSOR_DSP_HIGH_PASS) (some 7)).1
        = ruuviConsts.RUUVI_DRIVER_ERROR_NOT_SUPPORTED ∧
    ¬ status_contains
      (ruuvi_interface_lis2dh12_dsp_set ruuviConsts timeoutWorld
        (some ruuviConsts.RUUVI_DRIVER_SENSOR_DSP_HIGH_PASS) (some 7)).1 1024 := by
  refine ⟨?_, ?_, ?_, by decide, by decide, by decide, by decide, by decide,
    by unfold status_contains; decide⟩
  · intro k w v
    exact ⟨samplerate_set_status k w v, resolution_set_status k w v, scale_set_status k w v,
      mode_set_status k w v⟩
  · intro k w dsp parameter hcode hwr
    exact dsp_set_status k w dsp parameter hcode hwr
  · intro k w d p hm
    constructor
    · intro hd hp
      rw [dsp_set_parameter_not_supported k w hm d p _ hd rfl hp]
      exact ⟨rfl, rfl⟩
    · intro hd
      rw [dsp_set_function_not_supported k w hm d p _ rfl hd]
      exact ⟨rfl, rfl⟩

/-- C28 at the upstream constants on the bus that fails every operation with 1024.
The statuses of `mode_set(SLEEP)` in CONTINUOUS mode, of `samplerate_set(10)` in
SLEEP mode and of `dsp_set(HIGH_PASS, 1)`, which issues writes, contain 1024;
`dsp_set(CFG_CUSTOM_1, 1)` resolves to no supported function, makes the two reads
and returns NOT_SUPPORTED. -/
theorem C28_dsp_set_drops_bus_results_witness :
    status_contains
      (ruuvi_interface_lis2dh12_mode_set ruuviConsts
        { continuousWorld with bus := fun _ => 1024 }
        (some ruuviConsts.RUUVI_DRIVER_SENSOR_CFG_SLEEP)).1 1024 ∧
    status_contains
      (ruuvi_interface_lis2dh12_samplerate_set ruuviConsts timeoutWorld (some 10)).1 1024 ∧
    (lis2dh12_high_pass_bandwidth_get timeoutWorld).2.1 ∈
      [ruuviConsts.LIS2DH12_LIGHT, ruuviConsts.LIS2DH12_MEDIUM, ruuviConsts.LIS2DH12_STRONG,
       ruuviConsts.LIS2DH12_AGGRESSIVE] ∧
    (ruuvi_interface_lis2dh12_dsp_set ruuviConsts timeoutWorld
      (some ruuviConsts.RUUVI_DRIVER_SENSOR_DSP_HIGH_PASS) (some 1)).2.1.trace
        ≠ timeoutWorld.trace ∧
    status_contains
      (ruuvi_interface_lis2dh12_dsp_set ruuviConsts timeoutWorld
        (some ruuviConsts.RUUVI_DRIVER_SENSOR_DSP_HIGH_PASS) (some 1)).1 1024 ∧
    timeoutWorld.dev.mode = ruuviConsts.RUUVI_DRIVER_SENSOR_CFG_SLEEP ∧
    (ruuvi_interface_lis2dh12_dsp_set ruuviConsts timeoutWorld
      (some ruuviConsts.RUUVI_DRIVER_SENSOR_CFG_CUSTOM_1) (some 1)).1
        = ruuviConsts.RUUVI_DRIVER_ERROR_NOT_SUPPORTED ∧
    (ruuvi_interface_lis2dh12_dsp_set ruuviConsts timeoutWorld
      (some ruuviConsts.RUUVI_DRIVER_SENSOR_CFG_CUSTOM_1) (some 1)).2.1
        = { timeoutWorld with tick := timeoutWorld.tick + 2 } :=
  ⟨(C28_dsp_set_drops_bus_results.1 ruuviConsts { continuousWorld with bus := fun _ => 1024 }
      (some ruuviConsts.RUUVI_DRIVER_SENSOR_CFG_SLEEP)).2.2.2 3 (by decide) (by decide),
   (C28_dsp_set_drops_bus_results.1 ruuviConsts timeoutWorld (some 10)).1 0
      (by decide) (by decide),
   by decide, by decide,
   C28_dsp_set_drops_bus_results.2.1 ruuviConsts timeoutWorld
      (some ruuviConsts.RUUVI_DRIVER_SENSOR_DSP_HIGH_PASS) (some 1) (by decide) (by decide) 4
      (by decide) (by decide),
   rfl,
   ((C28_dsp_set_drops_bus_results.2.2.1 ruuviConsts timeoutWorld
      ruuviConsts.RUUVI_DRIVER_SENSOR_CFG_CUSTOM_1 1 rfl).2 (by decide)).1,
   ((C28_dsp_set_drops_bus_results.2.2.1 ruuviConsts timeoutWorld
      ruuviConsts.RUUVI_DRIVER_SENSOR_CFG_CUSTOM_1 1 rfl).2 (by decide)).2⟩

/-- C29, evaluated at the failing input: in `sleepWorld` (driver mode SLEEP, chip
powered down) `samplerate_set(10)` returns SUCCESS and the driver mode stays SLEEP, but
the call writes the 10 Hz code to the data-rate register, whose content changes from
POWER_DOWN to the 10 Hz code: the chip samples although the driver mode is SLEEP. -/
theorem C29_samplerate_set_writes_register_in_sleep :
    sleepWorld.dev.mode = ruuviConsts.RUUVI_DRIVER_SENSOR_CFG_SLEEP ∧
    sleepWorld.hw.odr = ruuviConsts.LIS2DH12_POWER_DOWN ∧
    (ruuvi_interface_lis2dh12_samplerate_set ruuviConsts sleepWorld (some 10)).1
      = RUUVI_DRIVER_SUCCESS ∧
    (ruuvi_interface_lis2dh12_samplerate_set ruuviConsts sleepWorld (some 10)).2.1.dev.mode
      = ruuviConsts.RUUVI_DRIVER_SENSOR_CFG_SLEEP ∧
    (ruuvi_interface_lis2dh12_samplerate_set ruuviConsts sleepWorld (some 10)).2.1.trace
      = [Event.data_rate_set ruuviConsts.LIS2DH12_ODR_10Hz] ∧
    (ruuvi_interface_lis2dh12_samplerate_set ruuviConsts sleepWorld (some 10)).2.1.hw.odr
      = ruuviConsts.LIS2DH12_ODR_10Hz ∧
    ruuviConsts.LIS2DH12_ODR_10Hz ≠ ruuviConsts.LIS2DH12_POWER_DOWN := by
  decide

/-- C30, as amended: in SLEEP mode on a bus that succeeds. `dsp_set(HIGH_PASS, p)`
for `p` = 0, 1, 2, 3 writes the cutoff codes LIGHT, MEDIUM, STRONG, AGGRESSIVE, then
the normal high-pass mode and the enabling of the filter on the outputs, and a
following `dsp_get` returns SUCCESS with HIGH_PASS and `p`; the parameters MIN and
DEFAULT do the same as 0 and MAX the same as 3. `dsp_set` with the function LAST or
DEFAULT and any parameter writes the disabling of the filter and reports LAST. A
parameter under HIGH_PASS that is none of these seven values and not NO_CHANGE, and
with any parameter a function that is none of HIGH_PASS, LAST, DEFAULT and not
NO_CHANGE, return NOT_SUPPORTED without a register write. -/
theorem C30_dsp_set_table (k : Consts) (hk : k.WF) (w : World)
    (hm : w.dev.mode = k.RUUVI_DRIVER_SENSOR_CFG_SLEEP) (hb : BusOk w) :
    (∀ pcq ∈ [(0, k.LIS2DH12_LIGHT, 0), (1, k.LIS2DH12_MEDIUM, 1),
        (2, k.LIS2DH12_STRONG, 2), (3, k.LIS2DH12_AGGRESSIVE, 3),
        (k.RUUVI_DRIVER_SENSOR_CFG_MIN, k.LIS2DH12_LIGHT, 0),
        (k.RUUVI_DRIVER_SENSOR_CFG_DEFAULT, k.LIS2DH12_LIGHT, 0),
        (k.RUUVI_DRIVER_SENSOR_CFG_MAX, k.LIS2DH12_AGGRESSIVE, 3)],
      (ruuvi_interface_lis2dh12_dsp_set k w (some k.RUUVI_DRIVER_SENSOR_DSP_HIGH_PASS)
        (some pcq.1)).2 =
          ({ w with hw := { w.hw with hpcf := pcq.2.1, hpm := k.LIS2DH12_NORMAL,
                                      fds := k.PROPERTY_ENABLE },
                    tick := w.tick + 5,
                    trace := w.trace ++ [Event.high_pass_bandwidth_set pcq.2.1,
                      Event.high_pass_mode_set k.LIS2DH12_NORMAL,
                      Event.high_pass_on_outputs_set k.PROPERTY_ENABLE] },
           some k.RUUVI_DRIVER_SENSOR_DSP_HIGH_PASS, some pcq.2.2) ∧
      (ruuvi_interface_lis2dh12_dsp_get k
        (ruuvi_interface_lis2dh12_dsp_set k w (some k.RUUVI_DRIVER_SENSOR_DSP_HIGH_PASS)
          (some pcq.1)).2.1).1 = RUUVI_DRIVER_SUCCESS ∧
      (ruuvi_interface_lis2dh12_dsp_get k
        (ruuvi_interface_lis2dh12_dsp_set k w (some k.RUUVI_DRIVER_SENSOR_DSP_HIGH_PASS)
          (some pcq.1)).2.1).2.2 = (k.RUUVI_DRIVER_SENSOR_DSP_HIGH_PASS, pcq.2.2)) ∧
    (∀ d ∈ [k.RUUVI_DRIVER_SENSOR_DSP_LAST, k.RUUVI_DRIVER_SENSOR_CFG_DEFAULT], ∀ p,
      (ruuvi_interface_lis2dh12_dsp_set k w (some d) (some p)).2.1 =
        { w with hw := { w.hw with fds := k.PROPERTY_DISABLE },
                 tick := w.tick + 3,
                 trace := w.trace ++ [Event.high_pass_on_outputs_set k.PROPERTY_DISABLE] } ∧
      (ruuvi_interface_lis2dh12_dsp_set k w (some d) (some p)).2.2.1
        = some k.RUUVI_DRIVER_SENSOR_DSP_LAST ∧
      (ruuvi_interface_lis2dh12_dsp_get k
        (ruuvi_interface_lis2dh12_dsp_set k w (some d) (some p)).2.1).2.2.1
          = k.RUUVI_DRIVER_SENSOR_DSP_LAST) ∧
    (∀ p, p ∉ [0, 1, 2, 3, k.RUUVI_DRIVER_SENSOR_CFG_MIN, k.RUUVI_DRIVER_SENSOR_CFG_MAX,
        k.RUUVI_DRIVER_SENSOR_CFG_DEFAULT, k.RUUVI_DRIVER_SENSOR_CFG_NO_CHANGE] →
      (ruuvi_interface_lis2dh12_dsp_set k w (some k.RUUVI_DRIVER_SENSOR_DSP_HIGH_PASS)
        (some p)).1 = k.RUUVI_DRIVER_ERROR_NOT_SUPPORTED ∧
      (ruuvi_interface_lis2dh12_dsp_set k w (some k.RUUVI_DRIVER_SENSOR_DSP_HIGH_PASS)
        (some p)).2.1.trace = w.trace ∧
      (ruuvi_interface_lis2dh12_dsp_set k w (some k.RUUVI_DRIVER_SENSOR_DSP_HIGH_PASS)
        (some p)).2.1.hw = w.hw) ∧
    (∀ d p, d ∉ [k.RUUVI_DRIVER_SENSOR_DSP_HIGH_PASS, k.RUUVI_DRIVER_SENSOR_DSP_LAST,
        k.RUUVI_DRIVER_SENSOR_CFG_DEFAULT, k.RUUVI_DRIVER_SENSOR_CFG_NO_CHANGE] →
      (ruuvi_interface_lis2dh12_dsp_set k w (some d) (some p)).1
        = k.RUUVI_DRIVER_ERROR_NOT_SUPPORTED ∧
      (ruuvi_interface_lis2dh12_dsp_set k w (some d) (some p)).2.1.trace = w.trace ∧
      (ruuvi_interface_lis2dh12_dsp_set k w (some d) (some p)).2.1.hw = w.hw) := by
  have hfn := hk.dsp_functions
  simp only [List.nodup_cons, List.mem_cons, List.mem_singleton, not_or, List.not_mem_nil,
    not_false_eq_true, List.nodup_nil, and_true] at hfn
  obtain ⟨⟨hl, hn⟩, hln⟩ := hfn
  have hsen := hk.sentinels
  simp only [List.nodup_cons, List.mem_cons, List.mem_singleton, not_or, List.not_mem_nil,
    not_false_eq_true, List.nodup_nil, and_true] at hsen
  have hnc := hk.no_change_range
  have hdef := hk.default_range
  have hhd := hk.high_pass_default
  have hd : (if k.RUUVI_DRIVER_SENSOR_CFG_NO_CHANGE = k.RUUVI_DRIVER_SENSOR_DSP_HIGH_PASS then
      (ruuvi_interface_lis2dh12_dsp_get k w).2.2.1 else k.RUUVI_DRIVER_SENSOR_DSP_HIGH_PASS)
        = k.RUUVI_DRIVER_SENSOR_DSP_HIGH_PASS := if_neg (fun e => hn e.symm)
  refine ⟨?_, ?_, ?_, ?_⟩
  · intro pcq hpcq
    have hpn : ¬ k.RUUVI_DRIVER_SENSOR_CFG_NO_CHANGE = pcq.1 := by
      simp only [List.mem_cons, List.mem_singleton, List.not_mem_nil, or_false] at hpcq
      rcases hpcq with rfl | rfl | rfl | rfl | rfl | rfl | rfl
      · dsimp only; omega
      · dsimp only; omega
      · dsimp only; omega
      · dsimp only; omega
      · exact hsen.1.1
      · exact hsen.1.2.2
      · exact hsen.1.2.1
    have hp : (if k.RUUVI_DRIVER_SENSOR_CFG_NO_CHANGE = pcq.1 then
        (ruuvi_interface_lis2dh12_dsp_get k w).2.2.2 else pcq.1) = pcq.1 := if_neg hpn
    rw [dsp_set_high_pass k hk w hm hb _ _ pcq.1 hd hp pcq hpcq rfl]
    have hcode : (pcq.2.1, pcq.2.2) ∈ [(k.LIS2DH12_LIGHT, 0), (k.LIS2DH12_MEDIUM, 1),
        (k.LIS2DH12_STRONG, 2), (k.LIS2DH12_AGGRESSIVE, 3)] := by
      simp only [List.mem_cons, List.mem_singleton, List.not_mem_nil, or_false] at hpcq
      rcases hpcq with rfl | rfl | rfl | rfl | rfl | rfl | rfl <;> simp
    have hg := dsp_get_code k hk
      { w with hw := { w.hw with hpcf := pcq.2.1, hpm := k.LIS2DH12_NORMAL,
                                 fds := k.PROPERTY_ENABLE },
               tick := w.tick + 5,
               trace := w.trace ++ [Event.high_pass_bandwidth_set pcq.2.1,
                 Event.high_pass_mode_set k.LIS2DH12_NORMAL,
                 Event.high_pass_on_outputs_set k.PROPERTY_ENABLE] }
      (hb _) (hb _) (pcq.2.1, pcq.2.2) hcode rfl
    refine ⟨rfl, ?_, ?_⟩
    · dsimp only
      rw [hg]
    · dsimp only
      rw [hg]
      dsimp only
      rw [if_pos hk.property_enable]
  · intro d hdm p
    have hdn : ¬ k.RUUVI_DRIVER_SENSOR_CFG_NO_CHANGE = d := by
      simp only [List.mem_cons, List.mem_singleton, List.not_mem_nil, or_false] at hdm
      rcases hdm with rfl | rfl
      · exact fun e => hln e.symm
      · exact hsen.1.2.2
    have hd0 : (if k.RUUVI_DRIVER_SENSOR_CFG_NO_CHANGE = d then
        (ruuvi_interface_lis2dh12_dsp_get k w).2.2.1 else d) = d := if_neg hdn
    have hd1 : ¬ k.RUUVI_DRIVER_SENSOR_DSP_HIGH_PASS = d := by
      simp only [List.mem_cons, List.mem_singleton, List.not_mem_nil, or_false] at hdm
      rcases hdm with rfl | rfl
      · exact hl
      · exact hhd
    have hd2 : k.RUUVI_DRIVER_SENSOR_DSP_LAST = d ∨ k.RUUVI_DRIVER_SENSOR_CFG_DEFAULT = d := by
      simp only [List.mem_cons, List.mem_singleton, List.not_mem_nil, or_false] at hdm
      rcases hdm with rfl | rfl
      · exact Or.inl rfl
      · exact Or.inr rfl
    rw [dsp_set_last k w hm hb d p d hd0 hd1 hd2]
    refine ⟨rfl, rfl, ?_⟩
    exact (dsp_get_dsp k
      { w with hw := { w.hw with fds := k.PROPERTY_DISABLE },
               tick := w.tick + 3,
               trace := w.trace ++ [Event.high_pass_on_outputs_set k.PROPERTY_DISABLE] }
      (hb _)).trans (if_neg (not_not.mpr hk.property_disable))
  · intro p hp
    simp only [List.mem_cons, List.mem_singleton, List.not_mem_nil, or_false, not_or] at hp
    obtain ⟨n0, n1, n2, n3, nmin, nmax, ndef, nnc⟩ := hp
    have hp0 : (if k.RUUVI_DRIVER_SENSOR_CFG_NO_CHANGE = p then
        (ruuvi_interface_lis2dh12_dsp_get k w).2.2.2 else p) = p :=
      if_neg (fun e => nnc e.symm)
    rw [dsp_set_parameter_not_supported k w hm _ _ p hd hp0
      (by simp [n0, n1, n2, n3, nmin, nmax, ndef])]
    exact ⟨rfl, rfl, rfl⟩
  · intro d p hdm
    simp only [List.mem_cons, List.mem_singleton, List.not_mem_nil, or_false, not_or] at hdm
    obtain ⟨n1, n2, n3, nnc⟩ := hdm
    have hd0 : (if k.RUUVI_DRIVER_SENSOR_CFG_NO_CHANGE = d then
        (ruuvi_interface_lis2dh12_dsp_get k w).2.2.1 else d) = d :=
      if_neg (fun e => nnc e.symm)
    rw [dsp_set_function_not_supported k w hm d p d hd0 (by simp [n1, n2, n3])]
    exact ⟨rfl, rfl, rfl⟩

/-- Witness of C30 at the upstream constants: `dsp_set(HIGH_PASS, 2)` on the sleeping
driver writes STRONG and a following `dsp_get` reports HIGH_PASS with 2;
`dsp_set(HIGH_PASS, 7)` returns NOT_SUPPORTED and writes nothing. -/
theorem C30_dsp_set_table_witness :
    ruuviConsts.WF ∧ sleepWorld.dev.mode = ruuviConsts.RUUVI_DRIVER_SENSOR_CFG_SLEEP ∧
    BusOk sleepWorld ∧
    (ruuvi_interface_lis2dh12_dsp_set ruuviConsts sleepWorld
      (some ruuviConsts.RUUVI_DRIVER_SENSOR_DSP_HIGH_PASS) (some 2)).2.1.trace =
        [Event.high_pass_bandwidth_set ruuviConsts.LIS2DH12_STRONG,
         Event.high_pass_mode_set ruuviConsts.LIS2DH12_NORMAL,
         Event.high_pass_on_outputs_set ruuviConsts.PROPERTY_ENABLE] ∧
    (ruuvi_interface_lis2dh12_dsp_get ruuviConsts
      (ruuvi_interface_lis2dh12_dsp_set ruuviConsts sleepWorld
        (some ruuviConsts.RUUVI_DRIVER_SENSOR_DSP_HIGH_PASS) (some 2)).2.1).2.2
          = (ruuviConsts.RUUVI_DRIVER_SENSOR_DSP_HIGH_PASS, 2) ∧
    (ruuvi_interface_lis2dh12_dsp_set ruuviConsts sleepWorld
      (some ruuviConsts.RUUVI_DRIVER_SENSOR_DSP_HIGH_PASS) (some 7)).1
        = ruuviConsts.RUUVI_DRIVER_ERROR_NOT_SUPPORTED ∧
    (ruuvi_interface_lis2dh12_dsp_set ruuviConsts sleepWorld
      (some ruuviConsts.RUUVI_DRIVER_SENSOR_DSP_HIGH_PASS) (some 7)).2.1.trace = [] :=
  ⟨ruuviConsts_WF, rfl, fun _ => rfl,
   congrArg (fun r => r.1.trace)
     ((C30_dsp_set_table ruuviConsts ruuviConsts_WF sleepWorld rfl (fun _ => rfl)).1
       (2, ruuviConsts.LIS2DH12_STRONG, 2) (by decide)).1,
   ((C30_dsp_set_table ruuviConsts ruuviConsts_WF sleepWorld rfl (fun _ => rfl)).1
       (2, ruuviConsts.LIS2DH12_STRONG, 2) (by decide)).2.2,
   ((C30_dsp_set_table ruuviConsts ruuviConsts_WF sleepWorld rfl (fun _ => rfl)).2.2.1
       7 (by decide)).1,
   ((C30_dsp_set_table ruuviConsts ruuviConsts_WF sleepWorld rfl (fun _ => rfl)).2.2.1
       7 (by decide)).2.1⟩

/-- C30, counterexample to the claim as stated for any other parameter and any other
function, at the upstream constants with the high-pass filter enabled and the
cutoff MEDIUM. The parameter NO_CHANGE is none of 0, 1, 2, 3, MIN, DEFAULT and MAX,
yet `dsp_set(HIGH_PASS, NO_CHANGE)` returns SUCCESS and writes three registers. The
function NO_CHANGE is none of HIGH_PASS, LAST and DEFAULT, yet
`dsp_set(NO_CHANGE, 1)` returns SUCCESS and writes three registers. -/
theorem C30_no_change_is_not_rejected :
    highPassWorld.dev.mode = ruuviConsts.RUUVI_DRIVER_SENSOR_CFG_SLEEP ∧
    ruuviConsts.RUUVI_DRIVER_SENSOR_CFG_NO_CHANGE ∉
      [0, 1, 2, 3, ruuviConsts.RUUVI_DRIVER_SENSOR_CFG_MIN,
       ruuviConsts.RUUVI_DRIVER_SENSOR_CFG_DEFAULT, ruuviConsts.RUUVI_DRIVER_SENSOR_CFG_MAX] ∧
    (ruuvi_interface_lis2dh12_dsp_set ruuviConsts highPassWorld
      (some ruuviConsts.RUUVI_DRIVER_SENSOR_DSP_HIGH_PASS)
      (some ruuviConsts.RUUVI_DRIVER_SENSOR_CFG_NO_CHANGE)).1 = RUUVI_DRIVER_SUCCESS ∧
    (ruuvi_interface_lis2dh12_dsp_set ruuviConsts highPassWorld
      (some ruuviConsts.RUUVI_DRIVER_SENSOR_DSP_HIGH_PASS)
      (some ruuviConsts.RUUVI_DRIVER_SENSOR_CFG_NO_CHANGE)).2.1.trace =
        [Event.high_pass_bandwidth_set ruuviConsts.LIS2DH12_MEDIUM,
         Event.high_pass_mode_set ruuviConsts.LIS2DH12_NORMAL,
         Event.high_pass_on_outputs_set ruuviConsts.PROPERTY_ENABLE] ∧
    ruuviConsts.RUUVI_DRIVER_SENSOR_CFG_NO_CHANGE ∉
      [ruuviConsts.RUUVI_DRIVER_SENSOR_DSP_HIGH_PASS, ruuviConsts.RUUVI_DRIVER_SENSOR_DSP_LAST,
       ruuviConsts.RUUVI_DRIVER_SENSOR_CFG_DEFAULT] ∧
    (ruuvi_interface_lis2dh12_dsp_set ruuviConsts highPassWorld
      (some ruuviConsts.RUUVI_DRIVER_SENSOR_CFG_NO_CHANGE) (some 1)).1
        = RUUVI_DRIVER_SUCCESS ∧
    (ruuvi_interface_lis2dh12_dsp_set ruuviConsts highPassWorld
      (some ruuviConsts.RUUVI_DRIVER_SENSOR_CFG_NO_CHANGE) (some 1)).2.1.trace =
        [Event.high_pass_bandwidth_set ruuviConsts.LIS2DH12_MEDIUM,
         Event.high_pass_mode_set ruuviConsts.LIS2DH12_NORMAL,
         Event.high_pass_on_outputs_set ruuviConsts.PROPERTY_ENABLE] := by
  refine ⟨rfl, by decide, by decide, by decide, by decide, by decide, by decide⟩

/-- C32: after an init on the SPI bus with a sensor pointer that is not NULL, whatever
status it returned (NOT_FOUND and a status with SELFTEST included), the bus context
is set in `dev`. While it is set, every init with a sensor pointer that is not NULL
returns INVALID_STATE and leaves the world, the bus counter included, and the sensor
structure as they were. `uninit` clears the bus context, and an init on the SPI bus
of a driver whose context is not set accesses the bus and sets the context. Init on
the I2C bus of a driver whose context is not set returns NOT_IMPLEMENTED and leaves
the world, so the context stays unset. An init with the sensor pointer NULL returns
NULL before the bus context is looked at, also without a bus operation. -/
theorem C32_failed_init_blocks_later_init (k : Consts) (hk : k.WF) (w : World)
    (s : ruuvi_driver_sensor_t) (handle : Nat) :
    (ruuvi_interface_lis2dh12_init k w (some s) k.RUUVI_DRIVER_BUS_SPI handle).2.1.dev.ctx
      = true ∧
    (∀ (x : World), x.dev.ctx = true → ∀ (s2 : ruuvi_driver_sensor_t) (bus2 handle2 : Nat),
      ruuvi_interface_lis2dh12_init k x (some s2) bus2 handle2 =
        (k.RUUVI_DRIVER_ERROR_INVALID_STATE, x, some s2)) ∧
    (∀ (x : World) (s2 : ruuvi_driver_sensor_t) (bus2 handle2 : Nat),
      (ruuvi_interface_lis2dh12_uninit k x (some s2) bus2 handle2).2.1.dev.ctx = false) ∧
    (∀ (x : World), x.dev.ctx = false → ∀ (s2 : ruuvi_driver_sensor_t) (handle2 : Nat),
      x.tick <
        (ruuvi_interface_lis2dh12_init k x (some s2) k.RUUVI_DRIVER_BUS_SPI handle2).2.1.tick ∧
      (ruuvi_interface_lis2dh12_init k x (some s2) k.RUUVI_DRIVER_BUS_SPI handle2).2.1.dev.ctx
        = true) ∧
    (w.dev.ctx = false →
      ruuvi_interface_lis2dh12_init k w (some s) k.RUUVI_DRIVER_BUS_I2C handle =
        (k.RUUVI_DRIVER_ERROR_NOT_IMPLEMENTED, w, some ( ruuvi_driver_sensor_initialize s))) ∧
    (∀ (x : World) (bus2 handle2 : Nat),
      ruuvi_interface_lis2dh12_init k x none bus2 handle2 =
        (k.RUUVI_DRIVER_ERROR_NULL, x, none)) := by
  refine ⟨?_, ?_, ?_, ?_, ?_, fun _ _ _ => rfl⟩
  · by_cases hctx : w.dev.ctx = true
    · rw [init_rejected k w s _ handle hctx]
      exact hctx
    · exact init_spi_sets_ctx k w s handle (by simpa using hctx)
  · intro x hx s2 bus2 handle2
    exact init_rejected k x s2 bus2 handle2 hx
  · intro x s2 bus2 handle2
    rfl
  · intro x hx s2 handle2
    exact ⟨init_spi_tick k x s2 handle2 hx, init_spi_sets_ctx k x s2 handle2 hx⟩
  · intro hctx
    exact init_i2c k hk w s handle hctx

/-- Witness of C32 at the upstream constants. On a chip that answers the identifier
read with 0x32 the first init returns NOT_FOUND, and on a LIS2DH12 whose samples do
not move in the self-test it returns SELFTEST; in both cases a second init returns
INVALID_STATE without a bus operation. Init on the I2C bus returns NOT_IMPLEMENTED
and leaves the bus context unset. -/
theorem C32_failed_init_blocks_later_init_witness :
    ruuviConsts.WF ∧ wrongChipWorld.dev.ctx = false ∧
    (ruuvi_interface_lis2dh12_init ruuviConsts wrongChipWorld (some blankSensor)
      ruuviConsts.RUUVI_DRIVER_BUS_SPI 0).1 = ruuviConsts.RUUVI_DRIVER_ERROR_NOT_FOUND ∧
    (ruuvi_interface_lis2dh12_init ruuviConsts (preInitWorld (fun _ => ⟨0, 0, 0⟩))
      (some blankSensor) ruuviConsts.RUUVI_DRIVER_BUS_SPI 0).1
        = ruuviConsts.RUUVI_DRIVER_ERROR_SELFTEST ∧
    ruuvi_interface_lis2dh12_init ruuviConsts
        (ruuvi_interface_lis2dh12_init ruuviConsts wrongChipWorld (some blankSensor)
          ruuviConsts.RUUVI_DRIVER_BUS_SPI 0).2.1
        (some blankSensor) ruuviConsts.RUUVI_DRIVER_BUS_SPI 0 =
      (ruuviConsts.RUUVI_DRIVER_ERROR_INVALID_STATE,
       (ruuvi_interface_lis2dh12_init ruuviConsts wrongChipWorld (some blankSensor)
          ruuviConsts.RUUVI_DRIVER_BUS_SPI 0).2.1, some blankSensor) ∧
    ruuvi_interface_lis2dh12_init ruuviConsts
        (ruuvi_interface_lis2dh12_init ruuviConsts (preInitWorld (fun _ => ⟨0, 0, 0⟩))
          (some blankSensor) ruuviConsts.RUUVI_DRIVER_BUS_SPI 0).2.1
        (some blankSensor) ruuviConsts.RUUVI_DRIVER_BUS_SPI 0 =
      (ruuviConsts.RUUVI_DRIVER_ERROR_INVALID_STATE,
       (ruuvi_interface_lis2dh12_init ruuviConsts (preInitWorld (fun _ => ⟨0, 0, 0⟩))
          (some blankSensor) ruuviConsts.RUUVI_DRIVER_BUS_SPI 0).2.1, some blankSensor) ∧
    ruuvi_interface_lis2dh12_init ruuviConsts wrongChipWorld (some blankSensor)
        ruuviConsts.RUUVI_DRIVER_BUS_I2C 0 =
      (ruuviConsts.RUUVI_DRIVER_ERROR_NOT_IMPLEMENTED, wrongChipWorld,
       some ( ruuvi_driver_sensor_initialize blankSensor)) :=
  ⟨ruuviConsts_WF, rfl,
   congrArg (fun r => r.1)
     (init_spi_not_found ruuviConsts wrongChipWorld blankSensor 0 rfl (by decide)),
   (init_spi_found ruuviConsts (preInitWorld (fun _ => ⟨0, 0, 0⟩)) blankSensor 0 rfl
     (by decide)).1.trans (by decide),
   (C32_failed_init_blocks_later_init ruuviConsts ruuviConsts_WF wrongChipWorld blankSensor
     0).2.1 _
     (C32_failed_init_blocks_later_init ruuviConsts ruuviConsts_WF wrongChipWorld blankSensor
       0).1 blankSensor ruuviConsts.RUUVI_DRIVER_BUS_SPI 0,
   (C32_failed_init_blocks_later_init ruuviConsts ruuviConsts_WF
     (preInitWorld (fun _ => ⟨0, 0, 0⟩)) blankSensor 0).2.1 _
     (C32_failed_init_blocks_later_init ruuviConsts ruuviConsts_WF
       (preInitWorld (fun _ => ⟨0, 0, 0⟩)) blankSensor 0).1 blankSensor
       ruuviConsts.RUUVI_DRIVER_BUS_SPI 0,
   (C32_failed_init_blocks_later_init ruuviConsts ruuviConsts_WF wrongChipWorld blankSensor
     0).2.2.2.2.1 rfl⟩

/-- C33: the getters `samplerate_get`, `resolution_get` and `scale_get` store the value
that the register read delivers in `dev`, in place of the stored setting, and so does
`ruuvi_driver_sensor_configuration_get` through the getters of the driver. In SLEEP
mode on a bus that succeeds, after `samplerate_set(r)` with a literal rate (which
returns SUCCESS and stores a rate code `c`, not POWER_DOWN), `mode_set(CONTINUOUS)`
and `mode_set(SLEEP)`: `samplerate_get` reads POWER_DOWN, reports the not-supported
marker with INTERNAL in its status and stores POWER_DOWN, so that the next
`mode_set(CONTINUOUS)` writes POWER_DOWN to the data-rate register, where without the
getter it writes `c`. -/
theorem C33_getters_overwrite_stored_setting (k : Consts) (hk : k.WF) (w : World)
    (hm : w.dev.mode = k.RUUVI_DRIVER_SENSOR_CFG_SLEEP) (hb : BusOk w)
    (r : Nat) (h1 : 1 ≤ r) (h2 : r ≤ 200) (p : Nat) :
    (∀ (x : World) (q : Nat),
      (ruuvi_interface_lis2dh12_samplerate_get k x (some q)).2.1.dev.samplerate
        = (lis2dh12_data_rate_get x).2.1 ∧
      (ruuvi_interface_lis2dh12_resolution_get k x (some q)).2.1.dev.resolution
        = (lis2dh12_operating_mode_get x).2.1 ∧
      (ruuvi_interface_lis2dh12_scale_get k x (some q)).2.1.dev.scale
        = (lis2dh12_full_scale_get x).2.1) ∧
    (∀ (x : World) (cfg : ruuvi_driver_sensor_configuration_t),
      (ruuvi_driver_sensor_configuration_get k x (some lis2dh12Sensor) (some cfg)).map
        (fun res => res.2.1.dev.samplerate) = some (lis2dh12_data_rate_get x).2.1) ∧
    (ruuvi_interface_lis2dh12_samplerate_set k w (some r)).1 = RUUVI_DRIVER_SUCCESS ∧
    ∃ c, c ≠ k.LIS2DH12_POWER_DOWN ∧
      (paused_after k w r).dev.samplerate = c ∧
      (paused_after k w r).dev.mode = k.RUUVI_DRIVER_SENSOR_CFG_SLEEP ∧
      (paused_after k w r).hw.odr = k.LIS2DH12_POWER_DOWN ∧
      ruuvi_interface_lis2dh12_samplerate_get k (paused_after k w r) (some p) =
        (RUUVI_DRIVER_SUCCESS ||| k.RUUVI_DRIVER_ERROR_INTERNAL,
         { paused_after k w r with
           dev := { (paused_after k w r).dev with samplerate := k.LIS2DH12_POWER_DOWN },
           tick := (paused_after k w r).tick + 1 },
         some k.RUUVI_DRIVER_SENSOR_ERR_NOT_SUPPORTED) ∧
      (ruuvi_interface_lis2dh12_mode_set k
        (ruuvi_interface_lis2dh12_samplerate_get k (paused_after k w r) (some p)).2.1
        (some k.RUUVI_DRIVER_SENSOR_CFG_CONTINUOUS)).2.1.trace =
          (paused_after k w r).trace ++ [Event.data_rate_set k.LIS2DH12_POWER_DOWN] ∧
      (ruuvi_interface_lis2dh12_mode_set k (paused_after k w r)
        (some k.RUUVI_DRIVER_SENSOR_CFG_CONTINUOUS)).2.1.trace =
          (paused_after k w r).trace ++ [Event.data_rate_set c] := by
  obtain ⟨c, hc, hok, hp⟩ := paused_after_literal k hk w hm hb r h1 h2
  have hpd := hk.power_down
  have hcne : c ≠ k.LIS2DH12_POWER_DOWN := by
    intro e
    apply hpd
    rw [← e]
    simp only [List.mem_cons, List.mem_singleton, List.not_mem_nil, or_false] at hc ⊢
    rcases hc with h | h | h | h | h | h <;> simp [h]
  have hget := samplerate_get_power_down k hk (paused_after k w r) p
    (by rw [hp]; exact hb _) (by rw [hp])
  refine ⟨?_, ?_, hok, c, hcne, by rw [hp], by rw [hp]; exact hm, by rw [hp], hget, ?_, ?_⟩
  · intro x q
    exact ⟨by rw [samplerate_get_world], by rw [resolution_get_world],
      by rw [scale_get_world]⟩
  · intro x cfg
    simp [ruuvi_driver_sensor_configuration_get, lis2dh12Sensor, call_setup_fp, call_dsp_fp,
      samplerate_get_world, resolution_get_world, scale_get_world, dsp_get_world]
  · rw [hget, mode_set_continuous k hk]
  · have hs : (paused_after k w r).dev.samplerate = c := by rw [hp]
    rw [mode_set_continuous k hk]
    dsimp only
    rw [hs]

/-- Witness of C33 at the upstream constants: from `sleepWorld` with the rate 10, the
world after the three calls is `pausedWorld`; the getter then reports 0xE2 with the
status INTERNAL, and the next `mode_set(CONTINUOUS)` writes POWER_DOWN where it
would have written the 10 Hz code. -/
theorem C33_getters_overwrite_stored_setting_witness :
    ruuviConsts.WF ∧ sleepWorld.dev.mode = ruuviConsts.RUUVI_DRIVER_SENSOR_CFG_SLEEP ∧
    BusOk sleepWorld ∧ 1 ≤ 10 ∧ 10 ≤ 200 ∧
    (ruuvi_interface_lis2dh12_samplerate_set ruuviConsts sleepWorld (some 10)).1
      = RUUVI_DRIVER_SUCCESS ∧
    paused_after ruuviConsts sleepWorld 10 = pausedWorld ∧
    (ruuvi_interface_lis2dh12_samplerate_get ruuviConsts pausedWorld (some 0)).1
      = ruuviConsts.RUUVI_DRIVER_ERROR_INTERNAL ∧
    (ruuvi_interface_lis2dh12_samplerate_get ruuviConsts pausedWorld (some 0)).2.2
      = some ruuviConsts.RUUVI_DRIVER_SENSOR_ERR_NOT_SUPPORTED ∧
    (ruuvi_interface_lis2dh12_mode_set ruuviConsts
      (ruuvi_interface_lis2dh12_samplerate_get ruuviConsts pausedWorld (some 0)).2.1
      (some ruuviConsts.RUUVI_DRIVER_SENSOR_CFG_CONTINUOUS)).2.1.trace =
        pausedWorld.trace ++ [Event.data_rate_set ruuviConsts.LIS2DH12_POWER_DOWN] ∧
    (ruuvi_interface_lis2dh12_mode_set ruuviConsts pausedWorld
      (some ruuviConsts.RUUVI_DRIVER_SENSOR_CFG_CONTINUOUS)).2.1.trace =
        pausedWorld.trace ++ [Event.data_rate_set ruuviConsts.LIS2DH12_ODR_10Hz] :=
  ⟨ruuviConsts_WF, rfl, sleepWorld_BusOk, by decide, by decide,
   (C33_getters_overwrite_stored_setting ruuviConsts ruuviConsts_WF sleepWorld rfl
     sleepWorld_BusOk 10 (by decide) (by decide) 0).2.2.1,
   rfl, by decide, by decide, by decide, by decide⟩

/-- C34 (amended): for every pair of three-axis samples whose difference is a multiple
of 64 on each axis (as for left-justified 10-bit samples), whatever the device state,
`lis2dh12_verify_selftest_difference(a, b)` and `lis2dh12_verify_selftest_difference(b, a)`
return the same status, also when the 16-bit subtraction wraps. -/
theorem C34_selftest_verdict_symmetric (k : Consts) (w : World) (a b : axis3bit16_t)
    (h : ∀ ii, ii < 3 → (64 : Int) ∣ a.i16bit ii - b.i16bit ii) :
    lis2dh12_verify_selftest_difference k w a b =
      lis2dh12_verify_selftest_difference k w b a := by
  unfold lis2dh12_verify_selftest_difference
  rw [verify_selftest_difference_loop_symmetric k a b [0, 1, 2]
    ((forall_lt_three _).mp h)]

/-- Witness of C34 at the upstream constants, 2 g and 10 bit, with samples whose
difference on the x axis, 49088, wraps in the 16-bit subtraction. -/
theorem C34_selftest_verdict_symmetric_witness :
    (∀ ii, ii < 3 → (64 : Int) ∣
      (⟨32704, 6400, -6400⟩ : axis3bit16_t).i16bit ii -
        (⟨-16384, 0, 0⟩ : axis3bit16_t).i16bit ii) ∧
    lis2dh12_verify_selftest_difference ruuviConsts sleepWorld ⟨32704, 6400, -6400⟩
        ⟨-16384, 0, 0⟩ =
      lis2dh12_verify_selftest_difference ruuviConsts sleepWorld ⟨-16384, 0, 0⟩
        ⟨32704, 6400, -6400⟩ :=
  ⟨by decide,
   C34_selftest_verdict_symmetric ruuviConsts sleepWorld ⟨32704, 6400, -6400⟩ ⟨-16384, 0, 0⟩
     (by decide)⟩

/-- C34 (counterexample): at the upstream constants, 2 g and 10 bit, the samples
`a = (1087, 1088, 1088)` and `b = (0, 0, 0)`. With `a` as the new sample the x axis
gives `1087 >> 6 = 16`, below the minimum 17, and the verdict is SELFTEST; with the
samples exchanged it gives `-1087 >> 6 = -17`, the absolute value 17 is in the band,
and the verdict is SUCCESS. -/
theorem C34_selftest_verdict_depends_on_sign :
    sleepWorld.dev.scale = ruuviConsts.LIS2DH12_2g ∧
    sleepWorld.dev.resolution = ruuviConsts.LIS2DH12_NM_10bit ∧
    lis2dh12_verify_selftest_difference ruuviConsts sleepWorld ⟨1087, 1088, 1088⟩ ⟨0, 0, 0⟩
      = ruuviConsts.RUUVI_DRIVER_ERROR_SELFTEST ∧
    lis2dh12_verify_selftest_difference ruuviConsts sleepWorld ⟨0, 0, 0⟩ ⟨1087, 1088, 1088⟩
      = RUUVI_DRIVER_SUCCESS := by
  decide

/-- C35: whenever the FIFO level delivered by the level read is 0, whatever the
result of the bus operation of that read is, `fifo_read` with pointers that are not
NULL returns SUCCESS, sets `*num_elements` to 0 and leaves the buffer as it was; the
world differs only by the one bus operation of the level read. -/
theorem C35_fifo_read_level_zero (k : Consts) (c : Codec) (populate : Populate) (w : World)
    (n : Nat) (p : List ruuvi_driver_sensor_data_t)
    (h : (lis2dh12_fifo_data_level_get w).2.1 % 256 = 0) :
    ruuvi_interface_lis2dh12_fifo_read k c populate w (some n) (some p) =
      (RUUVI_DRIVER_SUCCESS, { w with tick := w.tick + 1 }, some 0, some p) := by
  unfold ruuvi_interface_lis2dh12_fifo_read
  simp only [h, if_true]
  rfl

/-- Witness of C35 at the upstream constants: one sample is queued, the level read
fails with the status 1024 and delivers 0; `fifo_read` returns SUCCESS with 0
elements and the buffer untouched. -/
theorem C35_fifo_read_level_zero_witness :
    (lis2dh12_fifo_data_level_get fifoTimeoutWorld).2.1 % 256 = 0 ∧
    (lis2dh12_fifo_data_level_get fifoTimeoutWorld).1 = 1024 ∧
    fifoTimeoutWorld.hw.fss = 1 ∧
    ruuvi_interface_lis2dh12_fifo_read ruuviConsts stCodec populate_requested fifoTimeoutWorld
        (some 5) (some [staleEntry 7, staleEntry 7]) =
      (RUUVI_DRIVER_SUCCESS, { fifoTimeoutWorld with tick := fifoTimeoutWorld.tick + 1 },
       some 0, some [staleEntry 7, staleEntry 7]) :=
  ⟨by decide, by decide, by decide,
   C35_fifo_read_level_zero ruuviConsts stCodec populate_requested fifoTimeoutWorld 5
     [staleEntry 7, staleEntry 7] (by decide)⟩

end Lis2dh12
